import Mathlib

/-! # CAN-bus message codec (`firmware_common.hpp`): shallow embedding

Bytes, identifiers and lengths are natural numbers.  A C++ byte buffer
(`uint8_t*`) is a `List Nat` together with an offset; storing into a byte
truncates to 8 bits (`% 256`), returning through a `uintN_t` truncates to
`N` bits.  Reading past the end of the list gives `0`, writing past the end
does nothing: every theorem that depends on a buffer states its length.
Enumerations with a fixed underlying type are their underlying byte.
-/

namespace firmware_common.can_bus

/-! ## Raw memory -/

/-- The byte `buffer[i]`. -/
def byte_at (buffer : List Nat) (i : Nat) : Nat := buffer.getD i 0

/-- The assignment `buffer[i] = value` into a `uint8_t` cell. -/
def store (buffer : List Nat) (i : Nat) (value : Nat) : List Nat :=
  buffer.set i (value % 256)

/-- The call `std::memset(buffer + off, value, n)`. -/
def memset (buffer : List Nat) (off value : Nat) : Nat → List Nat
  | 0 => buffer
  | n + 1 => memset (store buffer off value) (off + 1) value n

/-- The call `std::memcpy(dst + doff, src + soff, n)`, byte by byte, for a copy that stays
inside the destination (`doff + n <= dst.length`). A `std::memcpy` that runs past the end of
its destination is undefined behaviour and has no counterpart here: the cells past the end of
the list are not written. -/
def memcpy (dst : List Nat) (doff : Nat) (src : List Nat) (soff : Nat) : Nat → List Nat
  | 0 => dst
  | n + 1 => memcpy (dst.set doff (byte_at src soff)) (doff + 1) src (soff + 1) n

/-! ## Extended identifier -/

/-- The function `CanBusExtendedId::create`. -/
def CanBusExtendedId.create (priority message_type node_type node_id : Nat) : Nat :=
  let id := 0
  let id := id ||| ((priority &&& 0x07) <<< 26)
  let id := id ||| ((message_type &&& 0xFF) <<< 18)
  let id := id ||| ((node_type &&& 0x3F) <<< 12)
  let id := id ||| (node_id &&& 0xFFF)
  id

/-! ## Big-endian integer I/O -/

def write_u16_be (buffer : List Nat) (off value : Nat) : List Nat :=
  let buffer := store buffer off ((value >>> 8) &&& 0xFF)
  store buffer (off + 1) (value &&& 0xFF)

def write_u24_be (buffer : List Nat) (off value : Nat) : List Nat :=
  let buffer := store buffer off ((value >>> 16) &&& 0xFF)
  let buffer := store buffer (off + 1) ((value >>> 8) &&& 0xFF)
  store buffer (off + 2) (value &&& 0xFF)

def write_u32_be (buffer : List Nat) (off value : Nat) : List Nat :=
  let buffer := store buffer off ((value >>> 24) &&& 0xFF)
  let buffer := store buffer (off + 1) ((value >>> 16) &&& 0xFF)
  let buffer := store buffer (off + 2) ((value >>> 8) &&& 0xFF)
  store buffer (off + 3) (value &&& 0xFF)

def write_u56_be (buffer : List Nat) (off value : Nat) : List Nat :=
  let buffer := store buffer off ((value >>> 48) &&& 0xFF)
  let buffer := store buffer (off + 1) ((value >>> 40) &&& 0xFF)
  let buffer := store buffer (off + 2) ((value >>> 32) &&& 0xFF)
  let buffer := store buffer (off + 3) ((value >>> 24) &&& 0xFF)
  let buffer := store buffer (off + 4) ((value >>> 16) &&& 0xFF)
  let buffer := store buffer (off + 5) ((value >>> 8) &&& 0xFF)
  store buffer (off + 6) (value &&& 0xFF)

def write_u64_be (buffer : List Nat) (off value : Nat) : List Nat :=
  let buffer := write_u32_be buffer off ((value >>> 32) &&& 0xFFFFFFFF)
  write_u32_be buffer (off + 4) (value &&& 0xFFFFFFFF)

def read_u16_be (buffer : List Nat) (off : Nat) : Nat :=
  ((byte_at buffer off <<< 8) ||| byte_at buffer (off + 1)) % 2 ^ 16

def read_u24_be (buffer : List Nat) (off : Nat) : Nat :=
  ((byte_at buffer off <<< 16) ||| (byte_at buffer (off + 1) <<< 8) |||
    byte_at buffer (off + 2)) % 2 ^ 32

def read_u32_be (buffer : List Nat) (off : Nat) : Nat :=
  ((byte_at buffer off <<< 24) ||| (byte_at buffer (off + 1) <<< 16) |||
    (byte_at buffer (off + 2) <<< 8) ||| byte_at buffer (off + 3)) % 2 ^ 32

def read_u56_be (buffer : List Nat) (off : Nat) : Nat :=
  ((byte_at buffer off <<< 48) ||| (byte_at buffer (off + 1) <<< 40) |||
    (byte_at buffer (off + 2) <<< 32) ||| (byte_at buffer (off + 3) <<< 24) |||
    (byte_at buffer (off + 4) <<< 16) ||| (byte_at buffer (off + 5) <<< 8) |||
    byte_at buffer (off + 6)) % 2 ^ 64

def read_u64_be (buffer : List Nat) (off : Nat) : Nat :=
  ((read_u32_be buffer off <<< 32) ||| read_u32_be buffer (off + 4)) % 2 ^ 64

/-! ## Message classes -/

/-! Enumerators of `enum class PowerOutputOverwrite` (underlying type `uint8_t`). -/
def PowerOutputOverwrite.NoOverwrite : Nat := 0
def PowerOutputOverwrite.ForceEnabled : Nat := 1
def PowerOutputOverwrite.ForceDisabled : Nat := 2

/-! Enumerators of `enum class PowerOutputStatus` (underlying type `uint8_t`). -/
def PowerOutputStatus.Disabled : Nat := 0
def PowerOutputStatus.PowerGood : Nat := 1
def PowerOutputStatus.PowerBad : Nat := 2

/-! Enumerators of `enum class DataType` (underlying type `uint8_t`). -/
def DataType.Firmware : Nat := 0
def DataType.Data : Nat := 1

/-! Enumerators of `enum class NodeHealth` (underlying type `uint8_t`). -/
def NodeHealth.Healthy : Nat := 0
def NodeHealth.Warning : Nat := 1
def NodeHealth.Error : Nat := 2
def NodeHealth.Critical : Nat := 3

/-! Enumerators of `enum class NodeMode` (underlying type `uint8_t`). -/
def NodeMode.Operational : Nat := 0
def NodeMode.Initialization : Nat := 1
def NodeMode.Maintenance : Nat := 2
def NodeMode.Offline : Nat := 3

/-! Enumerators of `enum class FlightStage` (underlying type `uint8_t`). -/
def FlightStage.LowPower : Nat := 0
def FlightStage.SelfTest : Nat := 1
def FlightStage.Armed : Nat := 2
def FlightStage.PoweredAscent : Nat := 3
def FlightStage.Coasting : Nat := 4
def FlightStage.DrogueDeployed : Nat := 5
def FlightStage.MainDeployed : Nat := 6
def FlightStage.Landed : Nat := 7

/-! ### Ack -/

structure AckMessage where
  crc : Nat
  node_id : Nat
  deriving DecidableEq, Repr

def AckMessage.MESSAGE_TYPE : Nat := 66
def AckMessage.SIZE_BYTES : Nat := 4
def AckMessage.PRIORITY : Nat := 4

def AckMessage.get_id (_msg : AckMessage) (node_type node_id : Nat) : Nat :=
  CanBusExtendedId.create AckMessage.PRIORITY AckMessage.MESSAGE_TYPE node_type node_id

def AckMessage.serialize (msg : AckMessage) (buffer : List Nat) : List Nat :=
  let buffer := memset buffer 0 0 AckMessage.SIZE_BYTES
  let buffer := write_u16_be buffer 0 msg.crc
  let n := msg.node_id &&& 0xFFF
  let buffer := store buffer 2 ((n >>> 4) &&& 0xFF)
  store buffer 3 ((n <<< 4) &&& 0xF0)

def AckMessage.deserialize (buffer : List Nat) : AckMessage :=
  let crc := read_u16_be buffer 0
  let n := ((byte_at buffer 2 <<< 4) ||| (byte_at buffer 3 >>> 4)) % 2 ^ 16
  { crc := crc, node_id := n }

/-! ### AmpOverwrite -/

structure AmpOverwriteMessage where
  out1 : Nat
  out2 : Nat
  out3 : Nat
  out4 : Nat
  deriving DecidableEq, Repr

def AmpOverwriteMessage.MESSAGE_TYPE : Nat := 67
def AmpOverwriteMessage.SIZE_BYTES : Nat := 1
def AmpOverwriteMessage.PRIORITY : Nat := 2

def AmpOverwriteMessage.get_id (_msg : AmpOverwriteMessage) (node_type node_id : Nat) : Nat :=
  CanBusExtendedId.create AmpOverwriteMessage.PRIORITY AmpOverwriteMessage.MESSAGE_TYPE
    node_type node_id

def AmpOverwriteMessage.serialize (msg : AmpOverwriteMessage) (buffer : List Nat) : List Nat :=
  let b := 0
  let b := (b ||| ((msg.out1 &&& 0x03) <<< 6)) % 256
  let b := (b ||| ((msg.out2 &&& 0x03) <<< 4)) % 256
  let b := (b ||| ((msg.out3 &&& 0x03) <<< 2)) % 256
  let b := (b ||| (msg.out4 &&& 0x03)) % 256
  store buffer 0 b

def AmpOverwriteMessage.deserialize (buffer : List Nat) : AmpOverwriteMessage :=
  let b := byte_at buffer 0
  { out1 := (b >>> 6) &&& 0x03
    out2 := (b >>> 4) &&& 0x03
    out3 := (b >>> 2) &&& 0x03
    out4 := b &&& 0x03 }

/-! ### AmpResetOutput -/

structure AmpResetOutputMessage where
  output : Nat
  deriving DecidableEq, Repr

def AmpResetOutputMessage.MESSAGE_TYPE : Nat := 68
def AmpResetOutputMessage.SIZE_BYTES : Nat := 1
def AmpResetOutputMessage.PRIORITY : Nat := 2

def AmpResetOutputMessage.get_id (_msg : AmpResetOutputMessage) (node_type node_id : Nat) :
    Nat :=
  CanBusExtendedId.create AmpResetOutputMessage.PRIORITY AmpResetOutputMessage.MESSAGE_TYPE
    node_type node_id

def AmpResetOutputMessage.serialize (msg : AmpResetOutputMessage) (buffer : List Nat) :
    List Nat :=
  store buffer 0 msg.output

def AmpResetOutputMessage.deserialize (buffer : List Nat) : AmpResetOutputMessage :=
  { output := byte_at buffer 0 }

/-! ### AmpStatus -/

structure AmpOutputStatus where
  overwrote : Bool
  status : Nat
  deriving DecidableEq, Repr

def AmpOutputStatus.from_byte (b : Nat) : AmpOutputStatus :=
  { overwrote := (b &&& 0x80) != 0
    status := (b >>> 5) &&& 0x03 }

def AmpOutputStatus.to_byte (s : AmpOutputStatus) : Nat :=
  let b := 0
  let b := if s.overwrote then b ||| 0x80 else b
  let b := (b ||| ((s.status &&& 0x03) <<< 5)) % 256
  b

structure AmpStatusMessage where
  shared_battery_mv : Nat
  out1 : AmpOutputStatus
  out2 : AmpOutputStatus
  out3 : AmpOutputStatus
  out4 : AmpOutputStatus
  deriving DecidableEq, Repr

def AmpStatusMessage.MESSAGE_TYPE : Nat := 33
def AmpStatusMessage.SIZE_BYTES : Nat := 6
def AmpStatusMessage.PRIORITY : Nat := 5

def AmpStatusMessage.get_id (_msg : AmpStatusMessage) (node_type node_id : Nat) : Nat :=
  CanBusExtendedId.create AmpStatusMessage.PRIORITY AmpStatusMessage.MESSAGE_TYPE
    node_type node_id

def AmpStatusMessage.serialize (msg : AmpStatusMessage) (buffer : List Nat) : List Nat :=
  let buffer := memset buffer 0 0 AmpStatusMessage.SIZE_BYTES
  let buffer := write_u16_be buffer 0 msg.shared_battery_mv
  let buffer := store buffer 2 msg.out1.to_byte
  let buffer := store buffer 3 msg.out2.to_byte
  let buffer := store buffer 4 msg.out3.to_byte
  store buffer 5 msg.out4.to_byte

def AmpStatusMessage.deserialize (buffer : List Nat) : AmpStatusMessage :=
  { shared_battery_mv := read_u16_be buffer 0
    out1 := AmpOutputStatus.from_byte (byte_at buffer 2)
    out2 := AmpOutputStatus.from_byte (byte_at buffer 3)
    out3 := AmpOutputStatus.from_byte (byte_at buffer 4)
    out4 := AmpOutputStatus.from_byte (byte_at buffer 5) }

/-! ### BaroMeasurement -/

structure BaroMeasurementMessage where
  pressure_raw : Nat
  temperature_raw : Nat
  timestamp_us : Nat
  deriving DecidableEq, Repr

def BaroMeasurementMessage.MESSAGE_TYPE : Nat := 128
def BaroMeasurementMessage.SIZE_BYTES : Nat := 13
def BaroMeasurementMessage.PRIORITY : Nat := 3

def BaroMeasurementMessage.get_id (_msg : BaroMeasurementMessage) (node_type node_id : Nat) :
    Nat :=
  CanBusExtendedId.create BaroMeasurementMessage.PRIORITY BaroMeasurementMessage.MESSAGE_TYPE
    node_type node_id

def BaroMeasurementMessage.serialize (msg : BaroMeasurementMessage) (buffer : List Nat) :
    List Nat :=
  let buffer := write_u32_be buffer 0 msg.pressure_raw
  let buffer := write_u16_be buffer 4 msg.temperature_raw
  write_u56_be buffer 6 msg.timestamp_us

def BaroMeasurementMessage.deserialize (buffer : List Nat) : BaroMeasurementMessage :=
  { pressure_raw := read_u32_be buffer 0
    temperature_raw := read_u16_be buffer 4
    timestamp_us := read_u56_be buffer 6 }

/-! ### BrightnessMeasurement -/

structure BrightnessMeasurementMessage where
  brightness_lux_raw : Nat
  timestamp_us : Nat
  deriving DecidableEq, Repr

def BrightnessMeasurementMessage.MESSAGE_TYPE : Nat := 130
def BrightnessMeasurementMessage.SIZE_BYTES : Nat := 11
def BrightnessMeasurementMessage.PRIORITY : Nat := 5

def BrightnessMeasurementMessage.get_id (_msg : BrightnessMeasurementMessage)
    (node_type node_id : Nat) : Nat :=
  CanBusExtendedId.create BrightnessMeasurementMessage.PRIORITY
    BrightnessMeasurementMessage.MESSAGE_TYPE node_type node_id

def BrightnessMeasurementMessage.serialize (msg : BrightnessMeasurementMessage)
    (buffer : List Nat) : List Nat :=
  let buffer := write_u32_be buffer 0 msg.brightness_lux_raw
  write_u56_be buffer 4 msg.timestamp_us

def BrightnessMeasurementMessage.deserialize (buffer : List Nat) :
    BrightnessMeasurementMessage :=
  { brightness_lux_raw := read_u32_be buffer 0
    timestamp_us := read_u56_be buffer 4 }

/-! ### DataTransfer -/

structure DataTransferMessage where
  data : List Nat
  data_len : Nat
  sequence_number : Nat
  start_of_transfer : Bool
  end_of_transfer : Bool
  data_type : Nat
  destination_node_id : Nat
  deriving DecidableEq, Repr

def DataTransferMessage.MESSAGE_TYPE : Nat := 16
def DataTransferMessage.SIZE_BYTES : Nat := 36
def DataTransferMessage.DATA_CAPACITY : Nat := 32
def DataTransferMessage.PRIORITY : Nat := 6

def DataTransferMessage.get_id (_msg : DataTransferMessage) (node_type node_id : Nat) : Nat :=
  CanBusExtendedId.create DataTransferMessage.PRIORITY DataTransferMessage.MESSAGE_TYPE
    node_type node_id

def DataTransferMessage.serialize (msg : DataTransferMessage) (buffer : List Nat) : List Nat :=
  let buffer := memcpy buffer 0 msg.data 0 DataTransferMessage.DATA_CAPACITY
  let buffer := store buffer 32 msg.data_len
  let buffer := store buffer 33 msg.sequence_number
  let b34 := 0
  let b34 := if msg.start_of_transfer then b34 ||| 0x80 else b34
  let b34 := if msg.end_of_transfer then b34 ||| 0x40 else b34
  let b34 := (b34 ||| ((msg.data_type &&& 0x03) <<< 4)) % 256
  let b34 := (b34 ||| ((msg.destination_node_id >>> 8) &&& 0x0F)) % 256
  let buffer := store buffer 34 b34
  store buffer 35 (msg.destination_node_id &&& 0xFF)

def DataTransferMessage.deserialize (buffer : List Nat) : DataTransferMessage :=
  let b34 := byte_at buffer 34
  { data := memcpy (List.replicate DataTransferMessage.DATA_CAPACITY 0) 0 buffer 0
      DataTransferMessage.DATA_CAPACITY
    data_len := byte_at buffer 32
    sequence_number := byte_at buffer 33
    start_of_transfer := (b34 &&& 0x80) != 0
    end_of_transfer := (b34 &&& 0x40) != 0
    data_type := (b34 >>> 4) &&& 0x03
    destination_node_id := (((b34 &&& 0x0F) <<< 8) ||| byte_at buffer 35) % 2 ^ 16 }

/-! ### IcarusStatus -/

structure IcarusStatusMessage where
  actual_extension_percentage : Nat
  servo_temperature_raw : Nat
  servo_current_raw : Nat
  deriving DecidableEq, Repr

def IcarusStatusMessage.MESSAGE_TYPE : Nat := 160
def IcarusStatusMessage.SIZE_BYTES : Nat := 6
def IcarusStatusMessage.PRIORITY : Nat := 5

def IcarusStatusMessage.get_id (_msg : IcarusStatusMessage) (node_type node_id : Nat) : Nat :=
  CanBusExtendedId.create IcarusStatusMessage.PRIORITY IcarusStatusMessage.MESSAGE_TYPE
    node_type node_id

def IcarusStatusMessage.serialize (msg : IcarusStatusMessage) (buffer : List Nat) : List Nat :=
  let buffer := write_u16_be buffer 0 msg.actual_extension_percentage
  let buffer := write_u16_be buffer 2 msg.servo_temperature_raw
  write_u16_be buffer 4 msg.servo_current_raw

def IcarusStatusMessage.deserialize (buffer : List Nat) : IcarusStatusMessage :=
  { actual_extension_percentage := read_u16_be buffer 0
    servo_temperature_raw := read_u16_be buffer 2
    servo_current_raw := read_u16_be buffer 4 }

/-! ### IMUMeasurement -/

/-- The arrays `acc_raw[3]` and `gyro_raw[3]` are three fields each. -/
structure IMUMeasurementMessage where
  acc_raw_0 : Nat
  acc_raw_1 : Nat
  acc_raw_2 : Nat
  gyro_raw_0 : Nat
  gyro_raw_1 : Nat
  gyro_raw_2 : Nat
  timestamp_us : Nat
  deriving DecidableEq, Repr

def IMUMeasurementMessage.MESSAGE_TYPE : Nat := 129
def IMUMeasurementMessage.SIZE_BYTES : Nat := 31
def IMUMeasurementMessage.PRIORITY : Nat := 3

def IMUMeasurementMessage.get_id (_msg : IMUMeasurementMessage) (node_type node_id : Nat) :
    Nat :=
  CanBusExtendedId.create IMUMeasurementMessage.PRIORITY IMUMeasurementMessage.MESSAGE_TYPE
    node_type node_id

def IMUMeasurementMessage.serialize (msg : IMUMeasurementMessage) (buffer : List Nat) :
    List Nat :=
  let buffer := write_u32_be buffer (0 * 4) msg.acc_raw_0
  let buffer := write_u32_be buffer (1 * 4) msg.acc_raw_1
  let buffer := write_u32_be buffer (2 * 4) msg.acc_raw_2
  let buffer := write_u32_be buffer (12 + 0 * 4) msg.gyro_raw_0
  let buffer := write_u32_be buffer (12 + 1 * 4) msg.gyro_raw_1
  let buffer := write_u32_be buffer (12 + 2 * 4) msg.gyro_raw_2
  write_u56_be buffer 24 msg.timestamp_us

def IMUMeasurementMessage.deserialize (buffer : List Nat) : IMUMeasurementMessage :=
  { acc_raw_0 := read_u32_be buffer (0 * 4)
    acc_raw_1 := read_u32_be buffer (1 * 4)
    acc_raw_2 := read_u32_be buffer (2 * 4)
    gyro_raw_0 := read_u32_be buffer (12 + 0 * 4)
    gyro_raw_1 := read_u32_be buffer (12 + 1 * 4)
    gyro_raw_2 := read_u32_be buffer (12 + 2 * 4)
    timestamp_us := read_u56_be buffer 24 }

/-! ### MagMeasurement -/

/-- The array `mag_raw[3]` is three fields. -/
structure MagMeasurementMessage where
  mag_raw_0 : Nat
  mag_raw_1 : Nat
  mag_raw_2 : Nat
  timestamp_us : Nat
  deriving DecidableEq, Repr

def MagMeasurementMessage.MESSAGE_TYPE : Nat := 132
def MagMeasurementMessage.SIZE_BYTES : Nat := 19
def MagMeasurementMessage.PRIORITY : Nat := 3

def MagMeasurementMessage.get_id (_msg : MagMeasurementMessage) (node_type node_id : Nat) :
    Nat :=
  CanBusExtendedId.create MagMeasurementMessage.PRIORITY MagMeasurementMessage.MESSAGE_TYPE
    node_type node_id

def MagMeasurementMessage.serialize (msg : MagMeasurementMessage) (buffer : List Nat) :
    List Nat :=
  let buffer := write_u32_be buffer (0 * 4) msg.mag_raw_0
  let buffer := write_u32_be buffer (1 * 4) msg.mag_raw_1
  let buffer := write_u32_be buffer (2 * 4) msg.mag_raw_2
  write_u56_be buffer 12 msg.timestamp_us

def MagMeasurementMessage.deserialize (buffer : List Nat) : MagMeasurementMessage :=
  { mag_raw_0 := read_u32_be buffer (0 * 4)
    mag_raw_1 := read_u32_be buffer (1 * 4)
    mag_raw_2 := read_u32_be buffer (2 * 4)
    timestamp_us := read_u56_be buffer 12 }

/-! ### NodeStatus -/

structure NodeStatusMessage where
  uptime_s : Nat
  health : Nat
  mode : Nat
  custom_status_raw : Nat
  deriving DecidableEq, Repr

def NodeStatusMessage.MESSAGE_TYPE : Nat := 32
def NodeStatusMessage.SIZE_BYTES : Nat := 5
def NodeStatusMessage.PRIORITY : Nat := 5

def NodeStatusMessage.get_id (_msg : NodeStatusMessage) (node_type node_id : Nat) : Nat :=
  CanBusExtendedId.create NodeStatusMessage.PRIORITY NodeStatusMessage.MESSAGE_TYPE
    node_type node_id

def NodeStatusMessage.serialize (msg : NodeStatusMessage) (buffer : List Nat) : List Nat :=
  let buffer := write_u24_be buffer 0 msg.uptime_s
  let b3 := 0
  let b3 := (b3 ||| ((msg.health &&& 0x03) <<< 6)) % 256
  let b3 := (b3 ||| ((msg.mode &&& 0x03) <<< 4)) % 256
  let b3 := (b3 ||| ((msg.custom_status_raw >>> 7) &&& 0x0F)) % 256
  let buffer := store buffer 3 b3
  store buffer 4 ((msg.custom_status_raw &&& 0x7F) <<< 1)

def NodeStatusMessage.deserialize (buffer : List Nat) : NodeStatusMessage :=
  let b3 := byte_at buffer 3
  let csr := ((b3 &&& 0x0F) <<< 7) % 2 ^ 16
  let csr := (csr ||| ((byte_at buffer 4 >>> 1) &&& 0x7F)) % 2 ^ 16
  { uptime_s := read_u24_be buffer 0
    health := (b3 >>> 6) &&& 0x03
    mode := (b3 >>> 4) &&& 0x03
    custom_status_raw := csr }

/-! ### OzysMeasurement -/

structure OzysMeasurementMessage where
  sg_1_raw : Nat
  sg_2_raw : Nat
  sg_3_raw : Nat
  sg_4_raw : Nat
  deriving DecidableEq, Repr

def OzysMeasurementMessage.MESSAGE_TYPE : Nat := 133
def OzysMeasurementMessage.SIZE_BYTES : Nat := 16
def OzysMeasurementMessage.PRIORITY : Nat := 5

def OzysMeasurementMessage.get_id (_msg : OzysMeasurementMessage) (node_type node_id : Nat) :
    Nat :=
  CanBusExtendedId.create OzysMeasurementMessage.PRIORITY OzysMeasurementMessage.MESSAGE_TYPE
    node_type node_id

def OzysMeasurementMessage.serialize (msg : OzysMeasurementMessage) (buffer : List Nat) :
    List Nat :=
  let buffer := write_u32_be buffer 0 msg.sg_1_raw
  let buffer := write_u32_be buffer 4 msg.sg_2_raw
  let buffer := write_u32_be buffer 8 msg.sg_3_raw
  write_u32_be buffer 12 msg.sg_4_raw

def OzysMeasurementMessage.deserialize (buffer : List Nat) : OzysMeasurementMessage :=
  { sg_1_raw := read_u32_be buffer 0
    sg_2_raw := read_u32_be buffer 4
    sg_3_raw := read_u32_be buffer 8
    sg_4_raw := read_u32_be buffer 12 }

/-! ### PayloadEPSOutputOverwrite -/

structure PayloadEPSOutputOverwriteMessage where
  out_3v3 : Nat
  out_5v : Nat
  out_9v : Nat
  node_id : Nat
  deriving DecidableEq, Repr

def PayloadEPSOutputOverwriteMessage.MESSAGE_TYPE : Nat := 65
def PayloadEPSOutputOverwriteMessage.SIZE_BYTES : Nat := 3
def PayloadEPSOutputOverwriteMessage.PRIORITY : Nat := 2

def PayloadEPSOutputOverwriteMessage.get_id (_msg : PayloadEPSOutputOverwriteMessage)
    (node_type node_id : Nat) : Nat :=
  CanBusExtendedId.create PayloadEPSOutputOverwriteMessage.PRIORITY
    PayloadEPSOutputOverwriteMessage.MESSAGE_TYPE node_type node_id

def PayloadEPSOutputOverwriteMessage.serialize (msg : PayloadEPSOutputOverwriteMessage)
    (buffer : List Nat) : List Nat :=
  let b0 := 0
  let b0 := (b0 ||| ((msg.out_3v3 &&& 0x03) <<< 6)) % 256
  let b0 := (b0 ||| ((msg.out_5v &&& 0x03) <<< 4)) % 256
  let b0 := (b0 ||| ((msg.out_9v &&& 0x03) <<< 2)) % 256
  let b0 := (b0 ||| ((msg.node_id >>> 10) &&& 0x03)) % 256
  let buffer := store buffer 0 b0
  let buffer := store buffer 1 ((msg.node_id >>> 2) &&& 0xFF)
  store buffer 2 ((msg.node_id &&& 0x03) <<< 6)

def PayloadEPSOutputOverwriteMessage.deserialize (buffer : List Nat) :
    PayloadEPSOutputOverwriteMessage :=
  let b0 := byte_at buffer 0
  let nid := ((b0 &&& 0x03) <<< 10) % 2 ^ 16
  let nid := (nid ||| ((byte_at buffer 1 % 2 ^ 16) <<< 2)) % 2 ^ 16
  let nid := (nid ||| ((byte_at buffer 2 >>> 6) &&& 0x03)) % 2 ^ 16
  { out_3v3 := (b0 >>> 6) &&& 0x03
    out_5v := (b0 >>> 4) &&& 0x03
    out_9v := (b0 >>> 2) &&& 0x03
    node_id := nid }

/-! ### PayloadEPSStatus -/

structure PayloadEPSOutputStatus where
  current_ma : Nat
  overwrote : Bool
  status : Nat
  deriving DecidableEq, Repr

/-- The call `serialize(buffer + off)`. -/
def PayloadEPSOutputStatus.serialize (msg : PayloadEPSOutputStatus) (buffer : List Nat)
    (off : Nat) : List Nat :=
  let buffer := store buffer off ((msg.current_ma >>> 5) &&& 0xFF)
  let b1 := 0
  let b1 := (b1 ||| ((msg.current_ma &&& 0x1F) <<< 3)) % 256
  let b1 := if msg.overwrote then b1 ||| 0x04 else b1
  let b1 := (b1 ||| (msg.status &&& 0x03)) % 256
  store buffer (off + 1) b1

/-- The call `deserialize(buffer + off)`. -/
def PayloadEPSOutputStatus.deserialize (buffer : List Nat) (off : Nat) :
    PayloadEPSOutputStatus :=
  { current_ma :=
      (((byte_at buffer off % 2 ^ 16) <<< 5) ||| ((byte_at buffer (off + 1) >>> 3) &&& 0x1F))
        % 2 ^ 16
    overwrote := (byte_at buffer (off + 1) &&& 0x04) != 0
    status := byte_at buffer (off + 1) &&& 0x03 }

structure PayloadEPSStatusMessage where
  battery1_mv : Nat
  battery1_temperature_raw : Nat
  battery2_mv : Nat
  battery2_temperature_raw : Nat
  output_3v3 : PayloadEPSOutputStatus
  output_5v : PayloadEPSOutputStatus
  output_9v : PayloadEPSOutputStatus
  deriving DecidableEq, Repr

def PayloadEPSStatusMessage.MESSAGE_TYPE : Nat := 34
def PayloadEPSStatusMessage.SIZE_BYTES : Nat := 14
def PayloadEPSStatusMessage.PRIORITY : Nat := 5

def PayloadEPSStatusMessage.get_id (_msg : PayloadEPSStatusMessage) (node_type node_id : Nat) :
    Nat :=
  CanBusExtendedId.create PayloadEPSStatusMessage.PRIORITY PayloadEPSStatusMessage.MESSAGE_TYPE
    node_type node_id

def PayloadEPSStatusMessage.serialize (msg : PayloadEPSStatusMessage) (buffer : List Nat) :
    List Nat :=
  let buffer := write_u16_be buffer 0 msg.battery1_mv
  let buffer := write_u16_be buffer 2 msg.battery1_temperature_raw
  let buffer := write_u16_be buffer 4 msg.battery2_mv
  let buffer := write_u16_be buffer 6 msg.battery2_temperature_raw
  let buffer := msg.output_3v3.serialize buffer 8
  let buffer := msg.output_5v.serialize buffer 10
  msg.output_9v.serialize buffer 12

def PayloadEPSStatusMessage.deserialize (buffer : List Nat) : PayloadEPSStatusMessage :=
  { battery1_mv := read_u16_be buffer 0
    battery1_temperature_raw := read_u16_be buffer 2
    battery2_mv := read_u16_be buffer 4
    battery2_temperature_raw := read_u16_be buffer 6
    output_3v3 := PayloadEPSOutputStatus.deserialize buffer 8
    output_5v := PayloadEPSOutputStatus.deserialize buffer 10
    output_9v := PayloadEPSOutputStatus.deserialize buffer 12 }

/-! ### Reset -/

structure ResetMessage where
  node_id : Nat
  reset_all : Bool
  into_bootloader : Bool
  deriving DecidableEq, Repr

def ResetMessage.MESSAGE_TYPE : Nat := 0
def ResetMessage.SIZE_BYTES : Nat := 2
def ResetMessage.PRIORITY : Nat := 0

def ResetMessage.get_id (_msg : ResetMessage) (node_type node_id : Nat) : Nat :=
  CanBusExtendedId.create ResetMessage.PRIORITY ResetMessage.MESSAGE_TYPE node_type node_id

def ResetMessage.serialize (msg : ResetMessage) (buffer : List Nat) : List Nat :=
  let buffer := store buffer 0 ((msg.node_id >>> 4) &&& 0xFF)
  let b1 := 0
  let b1 := (b1 ||| ((msg.node_id &&& 0x0F) <<< 4)) % 256
  let b1 := if msg.reset_all then b1 ||| 0x08 else b1
  let b1 := if msg.into_bootloader then b1 ||| 0x04 else b1
  store buffer 1 b1

def ResetMessage.deserialize (buffer : List Nat) : ResetMessage :=
  { node_id :=
      (((byte_at buffer 0 % 2 ^ 16) <<< 4) ||| ((byte_at buffer 1 >>> 4) &&& 0x0F)) % 2 ^ 16
    reset_all := (byte_at buffer 1 &&& 0x08) != 0
    into_bootloader := (byte_at buffer 1 &&& 0x04) != 0 }

/-! ### RocketState -/

/-- The array `velocity_raw[2]` is two fields. -/
structure RocketStateMessage where
  velocity_raw_0 : Nat
  velocity_raw_1 : Nat
  altitude_agl_raw : Nat
  timestamp_us : Nat
  is_coasting : Bool
  deriving DecidableEq, Repr

def RocketStateMessage.MESSAGE_TYPE : Nat := 131
def RocketStateMessage.SIZE_BYTES : Nat := 20
def RocketStateMessage.PRIORITY : Nat := 3

def RocketStateMessage.get_id (_msg : RocketStateMessage) (node_type node_id : Nat) : Nat :=
  CanBusExtendedId.create RocketStateMessage.PRIORITY RocketStateMessage.MESSAGE_TYPE
    node_type node_id

def RocketStateMessage.serialize (msg : RocketStateMessage) (buffer : List Nat) : List Nat :=
  let buffer := write_u32_be buffer 0 msg.velocity_raw_0
  let buffer := write_u32_be buffer 4 msg.velocity_raw_1
  let buffer := write_u32_be buffer 8 msg.altitude_agl_raw
  let buffer := write_u56_be buffer 12 msg.timestamp_us
  store buffer 19 (if msg.is_coasting then 0x80 else 0x00)

def RocketStateMessage.deserialize (buffer : List Nat) : RocketStateMessage :=
  { velocity_raw_0 := read_u32_be buffer 0
    velocity_raw_1 := read_u32_be buffer 4
    altitude_agl_raw := read_u32_be buffer 8
    timestamp_us := read_u56_be buffer 12
    is_coasting := (byte_at buffer 19 &&& 0x80) != 0 }

/-! ### UnixTime -/

structure UnixTimeMessage where
  timestamp_us : Nat
  deriving DecidableEq, Repr

def UnixTimeMessage.MESSAGE_TYPE : Nat := 7
def UnixTimeMessage.SIZE_BYTES : Nat := 7
def UnixTimeMessage.PRIORITY : Nat := 1

def UnixTimeMessage.get_id (_msg : UnixTimeMessage) (node_type node_id : Nat) : Nat :=
  CanBusExtendedId.create UnixTimeMessage.PRIORITY UnixTimeMessage.MESSAGE_TYPE
    node_type node_id

def UnixTimeMessage.serialize (msg : UnixTimeMessage) (buffer : List Nat) : List Nat :=
  write_u56_be buffer 0 msg.timestamp_us

def UnixTimeMessage.deserialize (buffer : List Nat) : UnixTimeMessage :=
  { timestamp_us := read_u56_be buffer 0 }

/-! ### VLStatus -/

structure VLStatusMessage where
  flight_stage : Nat
  battery_mv : Nat
  deriving DecidableEq, Repr

def VLStatusMessage.MESSAGE_TYPE : Nat := 36
def VLStatusMessage.SIZE_BYTES : Nat := 5
def VLStatusMessage.PRIORITY : Nat := 2

def VLStatusMessage.get_id (_msg : VLStatusMessage) (node_type node_id : Nat) : Nat :=
  CanBusExtendedId.create VLStatusMessage.PRIORITY VLStatusMessage.MESSAGE_TYPE
    node_type node_id

def VLStatusMessage.serialize (msg : VLStatusMessage) (buffer : List Nat) : List Nat :=
  let buffer := store buffer 0 msg.flight_stage
  let buffer := write_u16_be buffer 1 msg.battery_mv
  let buffer := store buffer 3 0
  store buffer 4 0

def VLStatusMessage.deserialize (buffer : List Nat) : VLStatusMessage :=
  { flight_stage := byte_at buffer 0
    battery_mv := read_u16_be buffer 1 }

/-! ### AirBrakesControl -/

structure AirBrakesControlMessage where
  extension_percentage : Nat
  deriving DecidableEq, Repr

def AirBrakesControlMessage.MESSAGE_TYPE : Nat := 69
def AirBrakesControlMessage.SIZE_BYTES : Nat := 6
def AirBrakesControlMessage.PRIORITY : Nat := 2

def AirBrakesControlMessage.get_id (_msg : AirBrakesControlMessage) (node_type node_id : Nat) :
    Nat :=
  CanBusExtendedId.create AirBrakesControlMessage.PRIORITY AirBrakesControlMessage.MESSAGE_TYPE
    node_type node_id

def AirBrakesControlMessage.serialize (msg : AirBrakesControlMessage) (buffer : List Nat) :
    List Nat :=
  let buffer := memset buffer 0 0 AirBrakesControlMessage.SIZE_BYTES
  write_u16_be buffer 0 msg.extension_percentage

def AirBrakesControlMessage.deserialize (buffer : List Nat) : AirBrakesControlMessage :=
  { extension_percentage := read_u16_be buffer 0 }

/-! ### AmpControl -/

structure AmpControlMessage where
  out1_enable : Bool
  out2_enable : Bool
  out3_enable : Bool
  out4_enable : Bool
  deriving DecidableEq, Repr

def AmpControlMessage.MESSAGE_TYPE : Nat := 64
def AmpControlMessage.SIZE_BYTES : Nat := 1
def AmpControlMessage.PRIORITY : Nat := 2

def AmpControlMessage.get_id (_msg : AmpControlMessage) (node_type node_id : Nat) : Nat :=
  CanBusExtendedId.create AmpControlMessage.PRIORITY AmpControlMessage.MESSAGE_TYPE
    node_type node_id

def AmpControlMessage.serialize (msg : AmpControlMessage) (buffer : List Nat) : List Nat :=
  let byte := 0
  let byte := if msg.out1_enable then byte ||| (1 <<< 7) else byte
  let byte := if msg.out2_enable then byte ||| (1 <<< 6) else byte
  let byte := if msg.out3_enable then byte ||| (1 <<< 5) else byte
  let byte := if msg.out4_enable then byte ||| (1 <<< 4) else byte
  store buffer 0 byte

def AmpControlMessage.deserialize (buffer : List Nat) : AmpControlMessage :=
  let byte := byte_at buffer 0
  { out1_enable := (byte &&& (1 <<< 7)) != 0
    out2_enable := (byte &&& (1 <<< 6)) != 0
    out3_enable := (byte &&& (1 <<< 5)) != 0
    out4_enable := (byte &&& (1 <<< 4)) != 0 }

/-! ### Tail byte -/

structure TailByte where
  start_of_transfer : Bool
  end_of_transfer : Bool
  toggle : Bool
  deriving DecidableEq, Repr

def TailByte.to_byte (t : TailByte) : Nat :=
  let b := 0
  let b := if t.start_of_transfer then b ||| 0x80 else b
  let b := if t.end_of_transfer then b ||| 0x40 else b
  let b := if t.toggle then b ||| 0x20 else b
  b

def TailByte.from_byte (b : Nat) : TailByte :=
  { start_of_transfer := (b &&& 0x80) != 0
    end_of_transfer := (b &&& 0x40) != 0
    toggle := (b &&& 0x20) != 0 }

/-! ### PreUnixTime -/

structure PreUnixTimeMessage where
  deriving DecidableEq, Repr

def PreUnixTimeMessage.MESSAGE_TYPE : Nat := 8
def PreUnixTimeMessage.SIZE_BYTES : Nat := 0

def PreUnixTimeMessage.deserialize (_buffer : List Nat) : PreUnixTimeMessage := {}

def PreUnixTimeMessage.serialize (_msg : PreUnixTimeMessage) (buffer : List Nat) : List Nat :=
  buffer

/-! ## The message sum -/

/-- The variant `CanBusMessage`; each alternative is named after its class. -/
inductive CanBusMessage where
  | monostate
  | Ack (m : AckMessage)
  | AirBrakesControl (m : AirBrakesControlMessage)
  | AmpControl (m : AmpControlMessage)
  | AmpOverwrite (m : AmpOverwriteMessage)
  | AmpResetOutput (m : AmpResetOutputMessage)
  | AmpStatus (m : AmpStatusMessage)
  | BaroMeasurement (m : BaroMeasurementMessage)
  | BrightnessMeasurement (m : BrightnessMeasurementMessage)
  | DataTransfer (m : DataTransferMessage)
  | IcarusStatus (m : IcarusStatusMessage)
  | IMUMeasurement (m : IMUMeasurementMessage)
  | MagMeasurement (m : MagMeasurementMessage)
  | NodeStatus (m : NodeStatusMessage)
  | OzysMeasurement (m : OzysMeasurementMessage)
  | PayloadEPSOutputOverwrite (m : PayloadEPSOutputOverwriteMessage)
  | PayloadEPSStatus (m : PayloadEPSStatusMessage)
  | PreUnixTime (m : PreUnixTimeMessage)
  | Reset (m : ResetMessage)
  | RocketState (m : RocketStateMessage)
  | UnixTime (m : UnixTimeMessage)
  | VLStatus (m : VLStatusMessage)
  deriving DecidableEq, Repr

/-! ## CRC-16 -/

/-- One round of the inner loop of `calculate_crc` on the 16-bit register. -/
def crc_shift (crc : Nat) : Nat :=
  if crc &&& 0x8000 ≠ 0 then ((crc <<< 1) ^^^ 0x1021) % 2 ^ 16 else (crc <<< 1) % 2 ^ 16

/-- The body of the outer loop of `calculate_crc` for the byte `b`. -/
def crc_update (crc b : Nat) : Nat :=
  let crc := (crc ^^^ ((b % 2 ^ 16) <<< 8)) % 2 ^ 16
  (List.range 8).foldl (fun crc _j => crc_shift crc) crc

/-- The function `CanBusMultiFrameEncoder::calculate_crc`. -/
def CanBusMultiFrameEncoder.calculate_crc (data : List Nat) (len : Nat) : Nat :=
  (List.range len).foldl (fun crc i => crc_update crc (byte_at data i)) 0xFFFF

/-! ## Multi-frame encoder -/

/-- The struct `CanBusMultiFrameEncoder::Frame`. -/
structure Frame where
  data : List Nat
  len : Nat
  deriving DecidableEq, Repr

structure CanBusMultiFrameEncoder where
  serialized_message : List Nat
  message_len : Nat
  offset : Nat
  toggle : Bool
  crc : Nat
  deriving DecidableEq, Repr

def CanBusMultiFrameEncoder.MAX_CAN_MESSAGE_SIZE : Nat := 64

/-- The `std::visit` of the constructor: `(message_len, serialized_message)`. -/
def CanBusMultiFrameEncoder.visit (message : CanBusMessage) (serialized_message : List Nat) :
    Nat × List Nat :=
  match message with
  | .monostate => (0, serialized_message)
  | .Ack m => (AckMessage.SIZE_BYTES, m.serialize serialized_message)
  | .AirBrakesControl m => (AirBrakesControlMessage.SIZE_BYTES, m.serialize serialized_message)
  | .AmpControl m => (AmpControlMessage.SIZE_BYTES, m.serialize serialized_message)
  | .AmpOverwrite m => (AmpOverwriteMessage.SIZE_BYTES, m.serialize serialized_message)
  | .AmpResetOutput m => (AmpResetOutputMessage.SIZE_BYTES, m.serialize serialized_message)
  | .AmpStatus m => (AmpStatusMessage.SIZE_BYTES, m.serialize serialized_message)
  | .BaroMeasurement m => (BaroMeasurementMessage.SIZE_BYTES, m.serialize serialized_message)
  | .BrightnessMeasurement m =>
      (BrightnessMeasurementMessage.SIZE_BYTES, m.serialize serialized_message)
  | .DataTransfer m => (DataTransferMessage.SIZE_BYTES, m.serialize serialized_message)
  | .IcarusStatus m => (IcarusStatusMessage.SIZE_BYTES, m.serialize serialized_message)
  | .IMUMeasurement m => (IMUMeasurementMessage.SIZE_BYTES, m.serialize serialized_message)
  | .MagMeasurement m => (MagMeasurementMessage.SIZE_BYTES, m.serialize serialized_message)
  | .NodeStatus m => (NodeStatusMessage.SIZE_BYTES, m.serialize serialized_message)
  | .OzysMeasurement m => (OzysMeasurementMessage.SIZE_BYTES, m.serialize serialized_message)
  | .PayloadEPSOutputOverwrite m =>
      (PayloadEPSOutputOverwriteMessage.SIZE_BYTES, m.serialize serialized_message)
  | .PayloadEPSStatus m => (PayloadEPSStatusMessage.SIZE_BYTES, m.serialize serialized_message)
  | .PreUnixTime m => (PreUnixTimeMessage.SIZE_BYTES, m.serialize serialized_message)
  | .Reset m => (ResetMessage.SIZE_BYTES, m.serialize serialized_message)
  | .RocketState m => (RocketStateMessage.SIZE_BYTES, m.serialize serialized_message)
  | .UnixTime m => (UnixTimeMessage.SIZE_BYTES, m.serialize serialized_message)
  | .VLStatus m => (VLStatusMessage.SIZE_BYTES, m.serialize serialized_message)

/-- The constructor `CanBusMultiFrameEncoder(message)`.  The member array
`serialized_message[64]` is not initialised by the constructor: `mem` is what the
storage held before. -/
def CanBusMultiFrameEncoder.new (mem : List Nat) (message : CanBusMessage) :
    CanBusMultiFrameEncoder :=
  let r := CanBusMultiFrameEncoder.visit message mem
  { serialized_message := r.2
    message_len := r.1
    offset := 0
    toggle := false
    crc := CanBusMultiFrameEncoder.calculate_crc r.2 r.1 }

def CanBusMultiFrameEncoder.has_next (e : CanBusMultiFrameEncoder) : Bool :=
  e.offset < e.message_len

/-- The method `next()`: the frame returned and the encoder afterwards. -/
def CanBusMultiFrameEncoder.next (e : CanBusMultiFrameEncoder) :
    Frame × CanBusMultiFrameEncoder :=
  let data := List.replicate 8 0
  if e.offset = 0 ∧ e.message_len ≤ 7 then
    let data := memcpy data 0 e.serialized_message 0 e.message_len
    let data := store data e.message_len (TailByte.to_byte ⟨true, true, false⟩)
    ({ data := data, len := e.message_len + 1 }, { e with offset := e.message_len })
  else
    let r : Frame × Nat :=
      if e.offset = 0 then
        let data := store data 0 (e.crc &&& 0xFF)
        let data := store data 1 ((e.crc >>> 8) &&& 0xFF)
        let data := memcpy data 2 e.serialized_message 0 5
        let data := store data 7 (TailByte.to_byte ⟨true, false, e.toggle⟩)
        ({ data := data, len := 8 }, 5)
      else if e.offset + 7 ≥ e.message_len then
        let remaining := e.message_len - e.offset
        let data := memcpy data 0 e.serialized_message e.offset remaining
        let data := store data remaining (TailByte.to_byte ⟨false, true, e.toggle⟩)
        ({ data := data, len := remaining + 1 }, e.message_len)
      else
        let data := memcpy data 0 e.serialized_message e.offset 7
        let data := store data 7 (TailByte.to_byte ⟨false, false, e.toggle⟩)
        ({ data := data, len := 8 }, e.offset + 7)
    (r.1, { e with offset := r.2, toggle := !e.toggle })

def CanBusMultiFrameEncoder.get_crc (e : CanBusMultiFrameEncoder) : Nat := e.crc

/-! ## Dispatch -/

/-- The function `decode(message_type, buffer)`. -/
def decode (message_type : Nat) (buffer : List Nat) : Option CanBusMessage :=
  if message_type = AckMessage.MESSAGE_TYPE then
    some (.Ack (AckMessage.deserialize buffer))
  else if message_type = AirBrakesControlMessage.MESSAGE_TYPE then
    some (.AirBrakesControl (AirBrakesControlMessage.deserialize buffer))
  else if message_type = AmpControlMessage.MESSAGE_TYPE then
    some (.AmpControl (AmpControlMessage.deserialize buffer))
  else if message_type = AmpOverwriteMessage.MESSAGE_TYPE then
    some (.AmpOverwrite (AmpOverwriteMessage.deserialize buffer))
  else if message_type = AmpResetOutputMessage.MESSAGE_TYPE then
    some (.AmpResetOutput (AmpResetOutputMessage.deserialize buffer))
  else if message_type = AmpStatusMessage.MESSAGE_TYPE then
    some (.AmpStatus (AmpStatusMessage.deserialize buffer))
  else if message_type = BaroMeasurementMessage.MESSAGE_TYPE then
    some (.BaroMeasurement (BaroMeasurementMessage.deserialize buffer))
  else if message_type = BrightnessMeasurementMessage.MESSAGE_TYPE then
    some (.BrightnessMeasurement (BrightnessMeasurementMessage.deserialize buffer))
  else if message_type = DataTransferMessage.MESSAGE_TYPE then
    some (.DataTransfer (DataTransferMessage.deserialize buffer))
  else if message_type = IcarusStatusMessage.MESSAGE_TYPE then
    some (.IcarusStatus (IcarusStatusMessage.deserialize buffer))
  else if message_type = IMUMeasurementMessage.MESSAGE_TYPE then
    some (.IMUMeasurement (IMUMeasurementMessage.deserialize buffer))
  else if message_type = MagMeasurementMessage.MESSAGE_TYPE then
    some (.MagMeasurement (MagMeasurementMessage.deserialize buffer))
  else if message_type = NodeStatusMessage.MESSAGE_TYPE then
    some (.NodeStatus (NodeStatusMessage.deserialize buffer))
  else if message_type = OzysMeasurementMessage.MESSAGE_TYPE then
    some (.OzysMeasurement (OzysMeasurementMessage.deserialize buffer))
  else if message_type = PayloadEPSOutputOverwriteMessage.MESSAGE_TYPE then
    some (.PayloadEPSOutputOverwrite (PayloadEPSOutputOverwriteMessage.deserialize buffer))
  else if message_type = PayloadEPSStatusMessage.MESSAGE_TYPE then
    some (.PayloadEPSStatus (PayloadEPSStatusMessage.deserialize buffer))
  else if message_type = PreUnixTimeMessage.MESSAGE_TYPE then
    some (.PreUnixTime (PreUnixTimeMessage.deserialize buffer))
  else if message_type = ResetMessage.MESSAGE_TYPE then
    some (.Reset (ResetMessage.deserialize buffer))
  else if message_type = RocketStateMessage.MESSAGE_TYPE then
    some (.RocketState (RocketStateMessage.deserialize buffer))
  else if message_type = UnixTimeMessage.MESSAGE_TYPE then
    some (.UnixTime (UnixTimeMessage.deserialize buffer))
  else if message_type = VLStatusMessage.MESSAGE_TYPE then
    some (.VLStatus (VLStatusMessage.deserialize buffer))
  else
    none

structure ReceivedCanBusMessage where
  id : Nat
  crc : Nat
  message : CanBusMessage
  deriving DecidableEq, Repr

/-! ## Reassembly slot -/

namespace detail

/-- The enum `StateMachine::Type`. -/
inductive SlotType where
  | Empty
  | MultiFrame
  deriving DecidableEq, Repr

/-- The anonymous struct member `multi_frame`; `data` is the array `data[256]`. -/
structure MultiFrameState where
  id : Nat
  first_frame_timestamp_us : Nat
  crc : Nat
  data : List Nat
  data_len : Nat
  deriving DecidableEq, Repr

structure StateMachine where
  type : SlotType
  multi_frame : MultiFrameState
  deriving DecidableEq, Repr

/-- Width of `size_t` in bits on the modelled target. -/
def SIZE_T_BITS : Nat := 64

/-- Unsigned `size_t` subtraction `a - b`, wrapping modulo `2 ^ SIZE_T_BITS`. -/
def size_t_sub (a b : Nat) : Nat := (a % 2 ^ SIZE_T_BITS + 2 ^ SIZE_T_BITS - b % 2 ^ SIZE_T_BITS)
  % 2 ^ SIZE_T_BITS

def StateMachine.has_same_id (sm : StateMachine) (id : Nat) : Bool :=
  sm.type == SlotType.MultiFrame && sm.multi_frame.id == id

/-- The function `StateMachine::calculate_crc`. -/
def StateMachine.calculate_crc (data : List Nat) (len : Nat) : Nat :=
  (List.range len).foldl (fun crc i => crc_update crc (byte_at data i)) 0xFFFF

/-- The method `StateMachine::process_frame`: the result and the slot afterwards.

The branch that opens a slot copies `frame_len - 3` bytes into `data[256]` and, unlike the
branch that continues a transfer, checks no bound: in the source a frame of more than 259
bytes writes past the array. This definition is the method for `frame_len <= 259`, where
every copy stays inside the array (a CAN frame has at most 8 bytes); the statements about the
content of a slot bound the frame length accordingly. -/
def StateMachine.process_frame (sm : StateMachine) (frame_id : Nat) (frame_data : List Nat)
    (frame_len : Nat) (timestamp_us : Nat) : Option ReceivedCanBusMessage × StateMachine :=
  if frame_len = 0 then (none, sm)
  else
    let tail_byte := TailByte.from_byte (byte_at frame_data (frame_len - 1))
    if tail_byte.start_of_transfer && tail_byte.end_of_transfer then
      if tail_byte.toggle then (none, sm)
      else
        let data_len := frame_len - 1
        let message_type := (frame_id >>> 18) &&& 0xFF
        match decode message_type frame_data with
        | some decoded =>
            (some { id := frame_id, crc := StateMachine.calculate_crc frame_data data_len,
                    message := decoded }, sm)
        | none => (none, sm)
    else if h : sm.type = SlotType.Empty then
      if !(tail_byte.start_of_transfer && !tail_byte.end_of_transfer && !tail_byte.toggle) then
        (none, sm)
      else if frame_len < 4 then (none, sm)
      else
        let data_len := frame_len - 3
        (none,
          { type := SlotType.MultiFrame
            multi_frame :=
              { id := frame_id
                first_frame_timestamp_us := timestamp_us
                crc := ((byte_at frame_data 0 % 2 ^ 16) |||
                  ((byte_at frame_data 1 % 2 ^ 16) <<< 8)) % 2 ^ 16
                data := memcpy sm.multi_frame.data 0 frame_data 2 data_len
                data_len := data_len } })
    else
      if sm.multi_frame.id ≠ frame_id then
        StateMachine.process_frame { sm with type := SlotType.Empty } frame_id frame_data
          frame_len timestamp_us
      else
        let expected_toggle_bit := (size_t_sub sm.multi_frame.data_len 5 / 7) % 2 == 0
        if tail_byte.toggle != expected_toggle_bit then (none, sm)
        else if tail_byte.start_of_transfer then (none, sm)
        else
          let new_data_len := frame_len - 1
          if sm.multi_frame.data_len + new_data_len > 256 then
            (none, { sm with type := SlotType.Empty })
          else
            let data := memcpy sm.multi_frame.data sm.multi_frame.data_len frame_data 0
              new_data_len
            let data_len := sm.multi_frame.data_len + new_data_len
            let mf : MultiFrameState := { sm.multi_frame with data := data, data_len := data_len }
            if tail_byte.end_of_transfer then
              let calculated_crc := StateMachine.calculate_crc data data_len
              if calculated_crc ≠ mf.crc then
                (none, { type := SlotType.Empty, multi_frame := mf })
              else
                let message_type := (mf.id >>> 18) &&& 0xFF
                match decode message_type data with
                | some decoded =>
                    (some { id := mf.id, crc := calculated_crc, message := decoded },
                      { type := SlotType.Empty, multi_frame := mf })
                | none => (none, { type := SlotType.Empty, multi_frame := mf })
            else (none, { type := sm.type, multi_frame := mf })
termination_by (if sm.type = SlotType.Empty then 0 else 1)
decreasing_by simp [h]

def StateMachine.get_first_frame_timestamp_us (sm : StateMachine) : Nat :=
  if sm.type = SlotType.MultiFrame then sm.multi_frame.first_frame_timestamp_us else 0

def StateMachine.is_empty (sm : StateMachine) : Bool := sm.type == SlotType.Empty

end detail

/-! ## Multi-frame decoder -/

structure CanBusMultiFrameDecoder where
  state_machines : List detail.StateMachine
  deriving DecidableEq, Repr

def CanBusMultiFrameDecoder.Q : Nat := 8

/-- The slot `state_machines[i]`. -/
def CanBusMultiFrameDecoder.slot (d : CanBusMultiFrameDecoder) (i : Nat) : detail.StateMachine :=
  d.state_machines.getD i
    { type := detail.SlotType.Empty
      multi_frame := { id := 0, first_frame_timestamp_us := 0, crc := 0, data := [],
                       data_len := 0 } }

/-- The call `state_machines[i].process_frame(...)` on the decoder. -/
def CanBusMultiFrameDecoder.route (d : CanBusMultiFrameDecoder) (i : Nat) (frame_id : Nat)
    (frame_data : List Nat) (frame_len : Nat) (timestamp_us : Nat) :
    Option ReceivedCanBusMessage × CanBusMultiFrameDecoder :=
  let r := (d.slot i).process_frame frame_id frame_data frame_len timestamp_us
  (r.1, { state_machines := d.state_machines.set i r.2 })

/-- The second loop and the third: the index of the first empty slot, else of the
slot with the smallest first-frame timestamp. -/
def CanBusMultiFrameDecoder.lru_index (d : CanBusMultiFrameDecoder) : Nat :=
  match (List.range CanBusMultiFrameDecoder.Q).find? (fun i => (d.slot i).is_empty) with
  | some i => i
  | none =>
    let r : Nat × Nat :=
      (List.range' 1 (CanBusMultiFrameDecoder.Q - 1)).foldl
        (fun (acc : Nat × Nat) i =>
          let ts := (d.slot i).get_first_frame_timestamp_us
          if ts < acc.1 then (ts, i) else acc)
        ((d.slot 0).get_first_frame_timestamp_us, 0)
    r.2

/-- The method `CanBusMultiFrameDecoder::process_frame`: the result and the decoder
afterwards. -/
def CanBusMultiFrameDecoder.process_frame (d : CanBusMultiFrameDecoder) (frame_id : Nat)
    (frame_data : List Nat) (frame_len : Nat) (timestamp_us : Nat) :
    Option ReceivedCanBusMessage × CanBusMultiFrameDecoder :=
  let message_type := (frame_id >>> 18) &&& 0xFF
  if message_type = 255 then (none, d)
  else
    match (List.range CanBusMultiFrameDecoder.Q).find? (fun i => (d.slot i).has_same_id frame_id)
    with
    | some i => d.route i frame_id frame_data frame_len timestamp_us
    | none => d.route d.lru_index frame_id frame_data frame_len timestamp_us

/-! ## Declared field ranges

The bit width each field has on the wire (the `// n bits` comments and the width of
the `write_uN_be` that stores it) and the enumerators of each enumeration. -/

@[reducible] def AckMessage.valid (m : AckMessage) : Prop :=
  m.crc < 2 ^ 16 ∧ m.node_id < 2 ^ 12

@[reducible] def AmpOverwriteMessage.valid (m : AmpOverwriteMessage) : Prop :=
  m.out1 ≤ 2 ∧ m.out2 ≤ 2 ∧ m.out3 ≤ 2 ∧ m.out4 ≤ 2

@[reducible] def AmpResetOutputMessage.valid (m : AmpResetOutputMessage) : Prop :=
  m.output < 2 ^ 8

@[reducible] def AmpOutputStatus.valid (s : AmpOutputStatus) : Prop :=
  s.status ≤ 2

@[reducible] def AmpStatusMessage.valid (m : AmpStatusMessage) : Prop :=
  m.shared_battery_mv < 2 ^ 16 ∧ m.out1.valid ∧ m.out2.valid ∧ m.out3.valid ∧ m.out4.valid

@[reducible] def BaroMeasurementMessage.valid (m : BaroMeasurementMessage) : Prop :=
  m.pressure_raw < 2 ^ 32 ∧ m.temperature_raw < 2 ^ 16 ∧ m.timestamp_us < 2 ^ 56

@[reducible] def BrightnessMeasurementMessage.valid (m : BrightnessMeasurementMessage) : Prop :=
  m.brightness_lux_raw < 2 ^ 32 ∧ m.timestamp_us < 2 ^ 56

@[reducible] def DataTransferMessage.valid (m : DataTransferMessage) : Prop :=
  m.data.length = DataTransferMessage.DATA_CAPACITY ∧ (∀ b ∈ m.data, b < 2 ^ 8) ∧
    m.data_len < 2 ^ 8 ∧ m.sequence_number < 2 ^ 8 ∧ m.data_type ≤ 1 ∧
    m.destination_node_id < 2 ^ 12

@[reducible] def IcarusStatusMessage.valid (m : IcarusStatusMessage) : Prop :=
  m.actual_extension_percentage < 2 ^ 16 ∧ m.servo_temperature_raw < 2 ^ 16 ∧
    m.servo_current_raw < 2 ^ 16

@[reducible] def IMUMeasurementMessage.valid (m : IMUMeasurementMessage) : Prop :=
  m.acc_raw_0 < 2 ^ 32 ∧ m.acc_raw_1 < 2 ^ 32 ∧ m.acc_raw_2 < 2 ^ 32 ∧
    m.gyro_raw_0 < 2 ^ 32 ∧ m.gyro_raw_1 < 2 ^ 32 ∧ m.gyro_raw_2 < 2 ^ 32 ∧
    m.timestamp_us < 2 ^ 56

@[reducible] def MagMeasurementMessage.valid (m : MagMeasurementMessage) : Prop :=
  m.mag_raw_0 < 2 ^ 32 ∧ m.mag_raw_1 < 2 ^ 32 ∧ m.mag_raw_2 < 2 ^ 32 ∧ m.timestamp_us < 2 ^ 56

@[reducible] def NodeStatusMessage.valid (m : NodeStatusMessage) : Prop :=
  m.uptime_s < 2 ^ 24 ∧ m.health ≤ 3 ∧ m.mode ≤ 3 ∧ m.custom_status_raw < 2 ^ 11

@[reducible] def OzysMeasurementMessage.valid (m : OzysMeasurementMessage) : Prop :=
  m.sg_1_raw < 2 ^ 32 ∧ m.sg_2_raw < 2 ^ 32 ∧ m.sg_3_raw < 2 ^ 32 ∧ m.sg_4_raw < 2 ^ 32

@[reducible] def PayloadEPSOutputOverwriteMessage.valid (m : PayloadEPSOutputOverwriteMessage) :
    Prop :=
  m.out_3v3 ≤ 2 ∧ m.out_5v ≤ 2 ∧ m.out_9v ≤ 2 ∧ m.node_id < 2 ^ 12

@[reducible] def PayloadEPSOutputStatus.valid (s : PayloadEPSOutputStatus) : Prop :=
  s.current_ma < 2 ^ 13 ∧ s.status ≤ 2

@[reducible] def PayloadEPSStatusMessage.valid (m : PayloadEPSStatusMessage) : Prop :=
  m.battery1_mv < 2 ^ 16 ∧ m.battery1_temperature_raw < 2 ^ 16 ∧ m.battery2_mv < 2 ^ 16 ∧
    m.battery2_temperature_raw < 2 ^ 16 ∧ m.output_3v3.valid ∧ m.output_5v.valid ∧
    m.output_9v.valid

@[reducible] def ResetMessage.valid (m : ResetMessage) : Prop :=
  m.node_id < 2 ^ 12

@[reducible] def RocketStateMessage.valid (m : RocketStateMessage) : Prop :=
  m.velocity_raw_0 < 2 ^ 32 ∧ m.velocity_raw_1 < 2 ^ 32 ∧ m.altitude_agl_raw < 2 ^ 32 ∧
    m.timestamp_us < 2 ^ 56

@[reducible] def UnixTimeMessage.valid (m : UnixTimeMessage) : Prop :=
  m.timestamp_us < 2 ^ 56

@[reducible] def VLStatusMessage.valid (m : VLStatusMessage) : Prop :=
  m.flight_stage ≤ 7 ∧ m.battery_mv < 2 ^ 16

@[reducible] def AirBrakesControlMessage.valid (m : AirBrakesControlMessage) : Prop :=
  m.extension_percentage < 2 ^ 16

/-- Field ranges of whichever class the variant holds. -/
@[reducible] def CanBusMessage.valid : CanBusMessage → Prop
  | .monostate => True
  | .Ack m => m.valid
  | .AirBrakesControl m => m.valid
  | .AmpControl _ => True
  | .AmpOverwrite m => m.valid
  | .AmpResetOutput m => m.valid
  | .AmpStatus m => m.valid
  | .BaroMeasurement m => m.valid
  | .BrightnessMeasurement m => m.valid
  | .DataTransfer m => m.valid
  | .IcarusStatus m => m.valid
  | .IMUMeasurement m => m.valid
  | .MagMeasurement m => m.valid
  | .NodeStatus m => m.valid
  | .OzysMeasurement m => m.valid
  | .PayloadEPSOutputOverwrite m => m.valid
  | .PayloadEPSStatus m => m.valid
  | .PreUnixTime _ => True
  | .Reset m => m.valid
  | .RocketState m => m.valid
  | .UnixTime m => m.valid
  | .VLStatus m => m.valid

/-- The call `msg.get_id(node_type, node_id)` on the class the variant holds; `monostate`
and `PreUnixTimeMessage` have no `get_id`. -/
def CanBusMessage.get_id (v : CanBusMessage) (node_type node_id : Nat) : Option Nat :=
  match v with
  | .monostate => none
  | .Ack m => some (m.get_id node_type node_id)
  | .AirBrakesControl m => some (m.get_id node_type node_id)
  | .AmpControl m => some (m.get_id node_type node_id)
  | .AmpOverwrite m => some (m.get_id node_type node_id)
  | .AmpResetOutput m => some (m.get_id node_type node_id)
  | .AmpStatus m => some (m.get_id node_type node_id)
  | .BaroMeasurement m => some (m.get_id node_type node_id)
  | .BrightnessMeasurement m => some (m.get_id node_type node_id)
  | .DataTransfer m => some (m.get_id node_type node_id)
  | .IcarusStatus m => some (m.get_id node_type node_id)
  | .IMUMeasurement m => some (m.get_id node_type node_id)
  | .MagMeasurement m => some (m.get_id node_type node_id)
  | .NodeStatus m => some (m.get_id node_type node_id)
  | .OzysMeasurement m => some (m.get_id node_type node_id)
  | .PayloadEPSOutputOverwrite m => some (m.get_id node_type node_id)
  | .PayloadEPSStatus m => some (m.get_id node_type node_id)
  | .PreUnixTime _ => none
  | .Reset m => some (m.get_id node_type node_id)
  | .RocketState m => some (m.get_id node_type node_id)
  | .UnixTime m => some (m.get_id node_type node_id)
  | .VLStatus m => some (m.get_id node_type node_id)

/-- The constant `SIZE_BYTES` of the class the variant holds (`0` for `monostate`): the
`message_len` the encoder records. -/
def CanBusMessage.SIZE_BYTES (v : CanBusMessage) : Nat :=
  (CanBusMultiFrameEncoder.visit v []).1

/-- The bytes `serialize` leaves in `buffer[0 .. SIZE_BYTES)`, taken from a zeroed scratch
buffer of `MAX_CAN_MESSAGE_SIZE` cells. -/
def CanBusMessage.serialized (v : CanBusMessage) : List Nat :=
  (CanBusMultiFrameEncoder.visit v
    (List.replicate CanBusMultiFrameEncoder.MAX_CAN_MESSAGE_SIZE 0)).2.take v.SIZE_BYTES

/-! ## Driving the encoder and the decoder -/

/-- The loop `while (encoder.has_next()) { frame = encoder.next(); ... }`, cut after
`fuel` iterations: the frames in order and the encoder afterwards. -/
def CanBusMultiFrameEncoder.drain : Nat → CanBusMultiFrameEncoder →
    List Frame × CanBusMultiFrameEncoder
  | 0, e => ([], e)
  | fuel + 1, e =>
    if e.has_next then
      let r := e.next
      let rest := CanBusMultiFrameEncoder.drain fuel r.2
      (r.1 :: rest.1, rest.2)
    else ([], e)

/-- All frames of the encoder: `message_len` iterations always finish the loop. -/
def CanBusMultiFrameEncoder.frames (e : CanBusMultiFrameEncoder) : List Frame :=
  (CanBusMultiFrameEncoder.drain e.message_len e).1

/-- One received frame: the arguments of a `process_frame` call. -/
structure Rx where
  frame_id : Nat
  frame : Frame
  timestamp_us : Nat
  deriving DecidableEq, Repr

/-- Successive calls `decoder.process_frame(r.frame_id, r.frame.data, r.frame.len,
r.timestamp_us)` for the received frames of a list: the results in call order and the
decoder afterwards. -/
def CanBusMultiFrameDecoder.run (d : CanBusMultiFrameDecoder) :
    List Rx → List (Option ReceivedCanBusMessage) × CanBusMultiFrameDecoder
  | [] => ([], d)
  | r :: rs =>
    let p := d.process_frame r.frame_id r.frame.data r.frame.len r.timestamp_us
    let rest := CanBusMultiFrameDecoder.run p.2 rs
    (p.1 :: rest.1, rest.2)

/-- A decoder as its constructor leaves it: `Q` slots, all of type `Empty`; the rest of
each slot is not initialised, the array `data` has 256 cells. -/
@[reducible] def CanBusMultiFrameDecoder.fresh (d : CanBusMultiFrameDecoder) : Prop :=
  d.state_machines.length = CanBusMultiFrameDecoder.Q ∧
    ∀ sm ∈ d.state_machines, sm.type = detail.SlotType.Empty ∧ sm.multi_frame.data.length = 256

/-- A fresh decoder whose uninitialised storage holds zeros. -/
def CanBusMultiFrameDecoder.zeroed : CanBusMultiFrameDecoder :=
  { state_machines := List.replicate CanBusMultiFrameDecoder.Q
      { type := detail.SlotType.Empty
        multi_frame := { id := 0, first_frame_timestamp_us := 0, crc := 0,
                         data := List.replicate 256 0, data_len := 0 } } }

/-- The tail byte of a frame, as `process_frame` reads it. -/
def Frame.tail (f : Frame) : TailByte := TailByte.from_byte (byte_at f.data (f.len - 1))

/-- Flip bit `bit` of the byte `data[i]`. -/
def flip_bit (data : List Nat) (i bit : Nat) : List Nat :=
  data.set i (byte_at data i ^^^ (1 <<< bit))

/-- Flip bit `p` of the concatenation of the non-tail bytes of the frames of a transfer
(bit `p % 8` of its `p / 8`-th non-tail byte); a frame of `len` bytes has `len - 1` non-tail
bytes. -/
def flip_transfer_bit : List Frame → Nat → List Frame
  | [], _ => []
  | f :: fs, p =>
    if p < 8 * (f.len - 1) then { f with data := flip_bit f.data (p / 8) (p % 8) } :: fs
    else f :: flip_transfer_bit fs (p - 8 * (f.len - 1))

/-- A frame that opens a multi-frame transfer: at least four bytes, tail with
`start_of_transfer` only, and an identifier outside the log channel. -/
@[reducible] def Rx.is_opening (r : Rx) : Prop :=
  4 ≤ r.frame.len ∧ r.frame.tail = ⟨true, false, false⟩ ∧ (r.frame_id >>> 18) &&& 0xFF ≠ 255

/-- A second or later frame of a multi-frame transfer: at least the tail byte, and
`start_of_transfer` clear. -/
@[reducible] def Rx.is_continuation (r : Rx) : Prop :=
  1 ≤ r.frame.len ∧ r.frame.tail.start_of_transfer = false

/-! ## Frame layout of a transfer

The layout the encoder produces, written on byte lists; the lemmas below show that the
encoder emits exactly these frames. -/

/-- A frame that carries `payload` and then the tail byte, in eight zeroed cells. -/
def mkframe (payload : List Nat) (tail : TailByte) : Frame :=
  { data := store (memcpy (List.replicate 8 0) 0 payload 0 payload.length) payload.length
      tail.to_byte
    len := payload.length + 1 }

/-- The frames after the first of a multi-frame transfer, for the bytes still to send:
seven bytes per frame, the last frame with `end_of_transfer`. -/
def cont_frames_aux : Nat → Bool → List Nat → List Frame
  | 0, _, _ => []
  | fuel + 1, toggle, rest =>
    if rest.length = 0 then []
    else if rest.length ≤ 7 then [mkframe rest ⟨false, true, toggle⟩]
    else mkframe (rest.take 7) ⟨false, false, toggle⟩ ::
      cont_frames_aux fuel (!toggle) (rest.drop 7)

def cont_frames (toggle : Bool) (rest : List Nat) : List Frame :=
  cont_frames_aux rest.length toggle rest

/-- The frames of a multi-frame transfer whose non-tail bytes, in order, are `w`: the two
CRC bytes and then the message body. -/
def transfer_frames (w : List Nat) : List Frame :=
  mkframe (w.take 7) ⟨true, false, false⟩ :: cont_frames true (w.drop 7)

/-- Successive `process_frame` calls on one slot. -/
def detail.StateMachine.run (sm : detail.StateMachine) :
    List Rx → List (Option ReceivedCanBusMessage) × detail.StateMachine
  | [] => ([], sm)
  | r :: rs =>
    let p := sm.process_frame r.frame_id r.frame.data r.frame.len r.timestamp_us
    let rest := detail.StateMachine.run p.2 rs
    (p.1 :: rest.1, rest.2)

/-! ## Predicates on slots -/

/-- The local `expected_toggle_bit` of `StateMachine::process_frame`, as computed from the
`data_len` the slot holds. -/
def detail.StateMachine.expected_toggle_bit (sm : detail.StateMachine) : Bool :=
  (detail.size_t_sub sm.multi_frame.data_len 5 / 7) % 2 == 0

/-- The slot holds the transfer the opening frame `r` started: it is of type `MultiFrame`
with the identifier and the timestamp of `r`. -/
@[reducible] def detail.StateMachine.in_flight_for (sm : detail.StateMachine) (r : Rx) : Prop :=
  sm.type = detail.SlotType.MultiFrame ∧ sm.multi_frame.id = r.frame_id ∧
    sm.multi_frame.first_frame_timestamp_us = r.timestamp_us

/-- The non-tail bytes of a frame: its first `len - 1` bytes. -/
def Frame.payload (f : Frame) : List Nat := f.data.take (f.len - 1)

/-- No two occupied slots hold the same identifier. -/
@[reducible] def CanBusMultiFrameDecoder.distinct_ids (d : CanBusMultiFrameDecoder) : Prop :=
  ∀ i j, i < CanBusMultiFrameDecoder.Q → j < CanBusMultiFrameDecoder.Q → i ≠ j →
    (d.slot i).type = detail.SlotType.MultiFrame → (d.slot j).type = detail.SlotType.MultiFrame →
    (d.slot i).multi_frame.id ≠ (d.slot j).multi_frame.id

/-- Every slot has a buffer of 256 cells, and an occupied slot holds between 1 and 256
bytes. -/
@[reducible] def CanBusMultiFrameDecoder.lengths_ok (d : CanBusMultiFrameDecoder) : Prop :=
  ∀ s ∈ d.state_machines, s.multi_frame.data.length = 256 ∧
    (s.type = detail.SlotType.MultiFrame →
      1 ≤ s.multi_frame.data_len ∧ s.multi_frame.data_len ≤ 256)

/-- The arguments `(dst_offset, src_offset, count)` of the call
`std::memcpy(multi_frame.data + dst_offset, frame_data + src_offset, count)` that
`StateMachine::process_frame` executes for a frame, none when it executes none. Where
`process_frame` calls itself the slot has just been emptied, so that call takes the branch of
an empty slot. -/
def detail.StateMachine.memcpy_call (sm : detail.StateMachine) (frame_id : Nat)
    (frame_data : List Nat) (frame_len : Nat) : Option (Nat × Nat × Nat) :=
  if frame_len = 0 then none
  else
    let tail_byte := TailByte.from_byte (byte_at frame_data (frame_len - 1))
    if tail_byte.start_of_transfer && tail_byte.end_of_transfer then none
    else if sm.type = detail.SlotType.Empty ∨ sm.multi_frame.id ≠ frame_id then
      if !(tail_byte.start_of_transfer && !tail_byte.end_of_transfer && !tail_byte.toggle) then
        none
      else if frame_len < 4 then none
      else some (0, 2, frame_len - 3)
    else
      let expected_toggle_bit := (detail.size_t_sub sm.multi_frame.data_len 5 / 7) % 2 == 0
      if tail_byte.toggle != expected_toggle_bit then none
      else if tail_byte.start_of_transfer then none
      else if sm.multi_frame.data_len + (frame_len - 1) > 256 then none
      else some (sm.multi_frame.data_len, 0, frame_len - 1)

/-! ## Byte images and reserved bits -/

/-- The big-endian image of the low `8 * n` bits of `v`: `n` bytes, the most significant
first. -/
def be_bytes : Nat → Nat → List Nat
  | 0, _ => []
  | n + 1, v => (v / 2 ^ (8 * n)) % 256 :: be_bytes n v

/-- The reserved (padding) bits of the wire formats: the number of low-order bits of byte `i`
of the message class with the given type that carry no field.  `Ack` byte 3 bits 3..0,
`AmpControl` byte 0 bits 3..0, `AmpStatus` bytes 2..5 bits 4..0, `NodeStatus` byte 4 bit 0,
`PayloadEPSOutputOverwrite` byte 2 bits 5..0, `Reset` byte 1 bits 1..0, `RocketState` byte 19
bits 6..0, `VLStatus` bytes 3..4 and `AirBrakesControl` bytes 2..5 entirely; no other byte of
any class has one. -/
def reserved_low_bits (message_type i : Nat) : Nat :=
  if message_type = AckMessage.MESSAGE_TYPE then (if i = 3 then 4 else 0)
  else if message_type = AmpControlMessage.MESSAGE_TYPE then (if i = 0 then 4 else 0)
  else if message_type = AmpStatusMessage.MESSAGE_TYPE then (if 2 ≤ i ∧ i ≤ 5 then 5 else 0)
  else if message_type = NodeStatusMessage.MESSAGE_TYPE then (if i = 4 then 1 else 0)
  else if message_type = PayloadEPSOutputOverwriteMessage.MESSAGE_TYPE then
    (if i = 2 then 6 else 0)
  else if message_type = ResetMessage.MESSAGE_TYPE then (if i = 1 then 2 else 0)
  else if message_type = RocketStateMessage.MESSAGE_TYPE then (if i = 19 then 7 else 0)
  else if message_type = VLStatusMessage.MESSAGE_TYPE then (if 3 ≤ i ∧ i ≤ 4 then 8 else 0)
  else if message_type = AirBrakesControlMessage.MESSAGE_TYPE then
    (if 2 ≤ i ∧ i ≤ 5 then 8 else 0)
  else 0

/-- The constant `MESSAGE_TYPE` of the class the variant holds; `monostate` has none. -/
def CanBusMessage.MESSAGE_TYPE (v : CanBusMessage) : Option Nat :=
  match v with
  | .monostate => none
  | .Ack _ => some AckMessage.MESSAGE_TYPE
  | .AirBrakesControl _ => some AirBrakesControlMessage.MESSAGE_TYPE
  | .AmpControl _ => some AmpControlMessage.MESSAGE_TYPE
  | .AmpOverwrite _ => some AmpOverwriteMessage.MESSAGE_TYPE
  | .AmpResetOutput _ => some AmpResetOutputMessage.MESSAGE_TYPE
  | .AmpStatus _ => some AmpStatusMessage.MESSAGE_TYPE
  | .BaroMeasurement _ => some BaroMeasurementMessage.MESSAGE_TYPE
  | .BrightnessMeasurement _ => some BrightnessMeasurementMessage.MESSAGE_TYPE
  | .DataTransfer _ => some DataTransferMessage.MESSAGE_TYPE
  | .IcarusStatus _ => some IcarusStatusMessage.MESSAGE_TYPE
  | .IMUMeasurement _ => some IMUMeasurementMessage.MESSAGE_TYPE
  | .MagMeasurement _ => some MagMeasurementMessage.MESSAGE_TYPE
  | .NodeStatus _ => some NodeStatusMessage.MESSAGE_TYPE
  | .OzysMeasurement _ => some OzysMeasurementMessage.MESSAGE_TYPE
  | .PayloadEPSOutputOverwrite _ => some PayloadEPSOutputOverwriteMessage.MESSAGE_TYPE
  | .PayloadEPSStatus _ => some PayloadEPSStatusMessage.MESSAGE_TYPE
  | .PreUnixTime _ => some PreUnixTimeMessage.MESSAGE_TYPE
  | .Reset _ => some ResetMessage.MESSAGE_TYPE
  | .RocketState _ => some RocketStateMessage.MESSAGE_TYPE
  | .UnixTime _ => some UnixTimeMessage.MESSAGE_TYPE
  | .VLStatus _ => some VLStatusMessage.MESSAGE_TYPE

/-! ## CRC-16/CCITT-FALSE, from its parameters

The reference the two `calculate_crc` functions are compared with, written from the
parameters of the algorithm and not from the code: width 16, polynomial `0x1021`, initial
register `0xFFFF`, input and output not reflected, no final xor.  The message is divided bit
by bit, the most significant bit of each byte first. -/

/-- The bits of a message byte in the order they are divided: bit 7 first, bit 0 last. -/
def msb_first_bits (b : Nat) : List Bool :=
  (List.range 8).map (fun j => b.testBit (7 - j))

/-- One step of the bitwise division: the bit that leaves the 16-bit register is compared
with the message bit, the register moves up by one place, and the polynomial `0x1021` is
subtracted (xor) when the two bits differ. -/
def crc16_ccitt_false_step (register : Nat) (bit : Bool) : Nat :=
  let shifted := (register <<< 1) % 2 ^ 16
  if (register.testBit 15 != bit) = true then shifted ^^^ 0x1021 else shifted

/-- CRC-16/CCITT-FALSE of a byte sequence: the register starts at `0xFFFF`, takes every
message bit in turn, and is the result as it stands. -/
def crc16_ccitt_false (message : List Nat) : Nat :=
  (message.flatMap msb_first_bits).foldl crc16_ccitt_false_step 0xFFFF

/-! ## Transfers as a slot and the decoder see them -/

/-- An opening frame with seven bytes and then `n` full continuation frames without
`end_of_transfer`, all of identifier `id`, with the toggle bits the decoder expects; `p0` and
`ps j` are the bytes the frames carry, `ts` their timestamps. -/
def long_transfer (id : Nat) (p0 : List Nat) (ps : Nat → List Nat) (ts : Nat → Nat) (n : Nat) :
    List Rx :=
  { frame_id := id, frame := mkframe p0 ⟨true, false, false⟩, timestamp_us := ts 0 } ::
    (List.range n).map (fun j =>
      { frame_id := id, frame := mkframe (ps j) ⟨false, false, j % 2 == 0⟩,
        timestamp_us := ts (j + 1) })

/-- The frames `rx`, all of identifier `id` outside the log channel, are a transfer that
yields `res`, as any one empty slot sees it: received in order they return `res` at the last
frame and nothing before, leave the slot empty, and keep it occupied with `id` after every
frame but the last. -/
@[reducible] def is_transfer (id : Nat) (rx : List Rx) (res : ReceivedCanBusMessage) : Prop :=
  rx ≠ [] ∧ (id >>> 18) &&& 0xFF ≠ 255 ∧ (∀ r ∈ rx, r.frame_id = id) ∧
    ∀ sm : detail.StateMachine, sm.type = detail.SlotType.Empty →
      sm.multi_frame.data.length = 256 →
      (sm.run rx).1 = List.replicate (rx.length - 1) none ++ [some res] ∧
      (sm.run rx).2.type = detail.SlotType.Empty ∧
      ∀ p q, rx = p ++ q → p ≠ [] → q ≠ [] →
        (sm.run p).2.type = detail.SlotType.MultiFrame ∧ (sm.run p).2.multi_frame.id = id

/-- The decoder `d` is in step with `k` interleaved transfers of which `done j` frames of
transfer `j` have been received: it has its eight slots with buffers of 256 cells, no two
occupied slots hold the same identifier, every occupied slot holds the frames received so far
of a transfer that has begun and not ended, and every such transfer has its slot. -/
@[reducible] def CanBusMultiFrameDecoder.tracks (d : CanBusMultiFrameDecoder) (k : Nat)
    (ids : Nat → Nat) (rxs : Nat → List Rx) (done : Nat → Nat) : Prop :=
  d.state_machines.length = CanBusMultiFrameDecoder.Q ∧
    (∀ i, i < CanBusMultiFrameDecoder.Q → (d.slot i).multi_frame.data.length = 256) ∧
    d.distinct_ids ∧
    (∀ i, i < CanBusMultiFrameDecoder.Q → (d.slot i).type = detail.SlotType.MultiFrame →
      ∃ j, j < k ∧ 0 < done j ∧ done j < (rxs j).length ∧
        ∃ sm0 : detail.StateMachine, sm0.type = detail.SlotType.Empty ∧
          sm0.multi_frame.data.length = 256 ∧
          d.slot i = (sm0.run ((rxs j).take (done j))).2) ∧
    (∀ j, j < k → 0 < done j → done j < (rxs j).length →
      ∃ i, i < CanBusMultiFrameDecoder.Q ∧ (d.slot i).type = detail.SlotType.MultiFrame ∧
        (d.slot i).multi_frame.id = ids j)

/-! ## Call depth of `StateMachine::process_frame` -/

/-- The method `StateMachine::process_frame` with a bound on its activations: `fuel` is the
number of activations allowed (the call itself and the calls it makes of itself), and the
value is none when the bound does not suffice. -/
def detail.StateMachine.process_frame_fuel : Nat → detail.StateMachine → Nat → List Nat →
    Nat → Nat → Option (Option ReceivedCanBusMessage × detail.StateMachine)
  | 0, _, _, _, _, _ => none
  | fuel + 1, sm, frame_id, frame_data, frame_len, timestamp_us =>
    if frame_len = 0 then some (none, sm)
    else
      let tail_byte := TailByte.from_byte (byte_at frame_data (frame_len - 1))
      if tail_byte.start_of_transfer && tail_byte.end_of_transfer then
        if tail_byte.toggle then some (none, sm)
        else
          let data_len := frame_len - 1
          let message_type := (frame_id >>> 18) &&& 0xFF
          match decode message_type frame_data with
          | some decoded =>
              some (some { id := frame_id
                           crc := detail.StateMachine.calculate_crc frame_data data_len
                           message := decoded }, sm)
          | none => some (none, sm)
      else if sm.type = detail.SlotType.Empty then
        if !(tail_byte.start_of_transfer && !tail_byte.end_of_transfer && !tail_byte.toggle) then
          some (none, sm)
        else if frame_len < 4 then some (none, sm)
        else
          let data_len := frame_len - 3
          some (none,
            { type := detail.SlotType.MultiFrame
              multi_frame :=
                { id := frame_id
                  first_frame_timestamp_us := timestamp_us
                  crc := ((byte_at frame_data 0 % 2 ^ 16) |||
                    ((byte_at frame_data 1 % 2 ^ 16) <<< 8)) % 2 ^ 16
                  data := memcpy sm.multi_frame.data 0 frame_data 2 data_len
                  data_len := data_len } })
      else
        if sm.multi_frame.id ≠ frame_id then
          detail.StateMachine.process_frame_fuel fuel { sm with type := detail.SlotType.Empty }
            frame_id frame_data frame_len timestamp_us
        else
          let expected_toggle_bit := (detail.size_t_sub sm.multi_frame.data_len 5 / 7) % 2 == 0
          if tail_byte.toggle != expected_toggle_bit then some (none, sm)
          else if tail_byte.start_of_transfer then some (none, sm)
          else
            let new_data_len := frame_len - 1
            if sm.multi_frame.data_len + new_data_len > 256 then
              some (none, { sm with type := detail.SlotType.Empty })
            else
              let data := memcpy sm.multi_frame.data sm.multi_frame.data_len frame_data 0
                new_data_len
              let data_len := sm.multi_frame.data_len + new_data_len
              let mf : detail.MultiFrameState :=
                { sm.multi_frame with data := data, data_len := data_len }
              if tail_byte.end_of_transfer then
                let calculated_crc := detail.StateMachine.calculate_crc data data_len
                if calculated_crc ≠ mf.crc then
                  some (none, { type := detail.SlotType.Empty, multi_frame := mf })
                else
                  let message_type := (mf.id >>> 18) &&& 0xFF
                  match decode message_type data with
                  | some decoded =>
                      some (some { id := mf.id, crc := calculated_crc, message := decoded },
                        { type := detail.SlotType.Empty, multi_frame := mf })
                  | none => some (none, { type := detail.SlotType.Empty, multi_frame := mf })
              else some (none, { type := sm.type, multi_frame := mf })

/-- The method `CanBusMultiFrameDecoder::process_frame` with the same bound on the
activations of the `StateMachine::process_frame` it calls. -/
def CanBusMultiFrameDecoder.process_frame_fuel (fuel : Nat) (d : CanBusMultiFrameDecoder)
    (frame_id : Nat) (frame_data : List Nat) (frame_len : Nat) (timestamp_us : Nat) :
    Option (Option ReceivedCanBusMessage × CanBusMultiFrameDecoder) :=
  let message_type := (frame_id >>> 18) &&& 0xFF
  if message_type = 255 then some (none, d)
  else
    let i :=
      match (List.range CanBusMultiFrameDecoder.Q).find?
        (fun i => (d.slot i).has_same_id frame_id) with
      | some i => i
      | none => d.lru_index
    match (d.slot i).process_frame_fuel fuel frame_id frame_data frame_len timestamp_us with
    | some r => some (r.1, { state_machines := d.state_machines.set i r.2 })
    | none => none

/-- Successive calls of `CanBusMultiFrameDecoder::process_frame` with the bound `fuel` on the
activations within each call. -/
def CanBusMultiFrameDecoder.run_fuel (fuel : Nat) (d : CanBusMultiFrameDecoder) :
    List Rx → Option (List (Option ReceivedCanBusMessage) × CanBusMultiFrameDecoder)
  | [] => some ([], d)
  | r :: rs =>
    match d.process_frame_fuel fuel r.frame_id r.frame.data r.frame.len r.timestamp_us with
    | some p =>
      match CanBusMultiFrameDecoder.run_fuel fuel p.2 rs with
      | some rest => some (p.1 :: rest.1, rest.2)
      | none => none
    | none => none

/-! ## Wire widths

A value with each field reduced to the width it has on the wire (`truncated`), and the
values whose fields all lie within that width (`fits_wire`): 56 bits for `timestamp_us`, 24
for `uptime_s`, 11 for `custom_status_raw`, 12 for node identifiers, 13 for `current_ma`, 2 for
the enumerations stored in two bits, and the width of the C++ type for every other integer
field. -/

/-- `AmpOutputStatus` with each field reduced to its wire width. -/
def AmpOutputStatus.truncated (m : AmpOutputStatus) : AmpOutputStatus :=
  { overwrote := m.overwrote
    status := m.status % 2 ^ 2 }

/-- Every field of the `AmpOutputStatus` lies within its wire width. -/
@[reducible] def AmpOutputStatus.fits_wire (m : AmpOutputStatus) : Prop :=
  m.status < 2 ^ 2

/-- `PayloadEPSOutputStatus` with each field reduced to its wire width. -/
def PayloadEPSOutputStatus.truncated (m : PayloadEPSOutputStatus) : PayloadEPSOutputStatus :=
  { current_ma := m.current_ma % 2 ^ 13
    overwrote := m.overwrote
    status := m.status % 2 ^ 2 }

/-- Every field of the `PayloadEPSOutputStatus` lies within its wire width. -/
@[reducible] def PayloadEPSOutputStatus.fits_wire (m : PayloadEPSOutputStatus) : Prop :=
  m.current_ma < 2 ^ 13 ∧ m.status < 2 ^ 2

/-- `AckMessage` with each field reduced to its wire width. -/
def AckMessage.truncated (m : AckMessage) : AckMessage :=
  { crc := m.crc % 2 ^ 16
    node_id := m.node_id % 2 ^ 12 }

/-- Every field of the `AckMessage` lies within its wire width. -/
@[reducible] def AckMessage.fits_wire (m : AckMessage) : Prop :=
  m.crc < 2 ^ 16 ∧ m.node_id < 2 ^ 12

/-- `AirBrakesControlMessage` with each field reduced to its wire width. -/
def AirBrakesControlMessage.truncated (m : AirBrakesControlMessage) : AirBrakesControlMessage :=
  { extension_percentage := m.extension_percentage % 2 ^ 16 }

/-- Every field of the `AirBrakesControlMessage` lies within its wire width. -/
@[reducible] def AirBrakesControlMessage.fits_wire (m : AirBrakesControlMessage) : Prop :=
  m.extension_percentage < 2 ^ 16

/-- `AmpControlMessage` with each field reduced to its wire width. -/
def AmpControlMessage.truncated (m : AmpControlMessage) : AmpControlMessage :=
  { out1_enable := m.out1_enable
    out2_enable := m.out2_enable
    out3_enable := m.out3_enable
    out4_enable := m.out4_enable }

/-- Every field of the `AmpControlMessage` lies within its wire width. -/
@[reducible] def AmpControlMessage.fits_wire (_m : AmpControlMessage) : Prop :=
  True

/-- `AmpOverwriteMessage` with each field reduced to its wire width. -/
def AmpOverwriteMessage.truncated (m : AmpOverwriteMessage) : AmpOverwriteMessage :=
  { out1 := m.out1 % 2 ^ 2
    out2 := m.out2 % 2 ^ 2
    out3 := m.out3 % 2 ^ 2
    out4 := m.out4 % 2 ^ 2 }

/-- Every field of the `AmpOverwriteMessage` lies within its wire width. -/
@[reducible] def AmpOverwriteMessage.fits_wire (m : AmpOverwriteMessage) : Prop :=
  m.out1 < 2 ^ 2 ∧ m.out2 < 2 ^ 2 ∧ m.out3 < 2 ^ 2 ∧ m.out4 < 2 ^ 2

/-- `AmpResetOutputMessage` with each field reduced to its wire width. -/
def AmpResetOutputMessage.truncated (m : AmpResetOutputMessage) : AmpResetOutputMessage :=
  { output := m.output % 2 ^ 8 }

/-- Every field of the `AmpResetOutputMessage` lies within its wire width. -/
@[reducible] def AmpResetOutputMessage.fits_wire (m : AmpResetOutputMessage) : Prop :=
  m.output < 2 ^ 8

/-- `AmpStatusMessage` with each field reduced to its wire width. -/
def AmpStatusMessage.truncated (m : AmpStatusMessage) : AmpStatusMessage :=
  { shared_battery_mv := m.shared_battery_mv % 2 ^ 16
    out1 := m.out1.truncated
    out2 := m.out2.truncated
    out3 := m.out3.truncated
    out4 := m.out4.truncated }

/-- Every field of the `AmpStatusMessage` lies within its wire width. -/
@[reducible] def AmpStatusMessage.fits_wire (m : AmpStatusMessage) : Prop :=
  m.shared_battery_mv < 2 ^ 16 ∧ m.out1.fits_wire ∧ m.out2.fits_wire ∧ m.out3.fits_wire ∧
    m.out4.fits_wire

/-- `BaroMeasurementMessage` with each field reduced to its wire width. -/
def BaroMeasurementMessage.truncated (m : BaroMeasurementMessage) : BaroMeasurementMessage :=
  { pressure_raw := m.pressure_raw % 2 ^ 32
    temperature_raw := m.temperature_raw % 2 ^ 16
    timestamp_us := m.timestamp_us % 2 ^ 56 }

/-- Every field of the `BaroMeasurementMessage` lies within its wire width. -/
@[reducible] def BaroMeasurementMessage.fits_wire (m : BaroMeasurementMessage) : Prop :=
  m.pressure_raw < 2 ^ 32 ∧ m.temperature_raw < 2 ^ 16 ∧ m.timestamp_us < 2 ^ 56

/-- `BrightnessMeasurementMessage` with each field reduced to its wire width. -/
def BrightnessMeasurementMessage.truncated (m : BrightnessMeasurementMessage) : BrightnessMeasurementMessage :=
  { brightness_lux_raw := m.brightness_lux_raw % 2 ^ 32
    timestamp_us := m.timestamp_us % 2 ^ 56 }

/-- Every field of the `BrightnessMeasurementMessage` lies within its wire width. -/
@[reducible] def BrightnessMeasurementMessage.fits_wire (m : BrightnessMeasurementMessage) : Prop :=
  m.brightness_lux_raw < 2 ^ 32 ∧ m.timestamp_us < 2 ^ 56

/-- `DataTransferMessage` with each field reduced to its wire width. -/
def DataTransferMessage.truncated (m : DataTransferMessage) : DataTransferMessage :=
  { data := m.data
    data_len := m.data_len % 2 ^ 8
    sequence_number := m.sequence_number % 2 ^ 8
    start_of_transfer := m.start_of_transfer
    end_of_transfer := m.end_of_transfer
    data_type := m.data_type % 2 ^ 2
    destination_node_id := m.destination_node_id % 2 ^ 12 }

/-- Every field of the `DataTransferMessage` lies within its wire width. -/
@[reducible] def DataTransferMessage.fits_wire (m : DataTransferMessage) : Prop :=
  m.data_len < 2 ^ 8 ∧ m.sequence_number < 2 ^ 8 ∧ m.data_type < 2 ^ 2 ∧
    m.destination_node_id < 2 ^ 12

/-- `IcarusStatusMessage` with each field reduced to its wire width. -/
def IcarusStatusMessage.truncated (m : IcarusStatusMessage) : IcarusStatusMessage :=
  { actual_extension_percentage := m.actual_extension_percentage % 2 ^ 16
    servo_temperature_raw := m.servo_temperature_raw % 2 ^ 16
    servo_current_raw := m.servo_current_raw % 2 ^ 16 }

/-- Every field of the `IcarusStatusMessage` lies within its wire width. -/
@[reducible] def IcarusStatusMessage.fits_wire (m : IcarusStatusMessage) : Prop :=
  m.actual_extension_percentage < 2 ^ 16 ∧ m.servo_temperature_raw < 2 ^ 16 ∧
    m.servo_current_raw < 2 ^ 16

/-- `IMUMeasurementMessage` with each field reduced to its wire width. -/
def IMUMeasurementMessage.truncated (m : IMUMeasurementMessage) : IMUMeasurementMessage :=
  { acc_raw_0 := m.acc_raw_0 % 2 ^ 32
    acc_raw_1 := m.acc_raw_1 % 2 ^ 32
    acc_raw_2 := m.acc_raw_2 % 2 ^ 32
    gyro_raw_0 := m.gyro_raw_0 % 2 ^ 32
    gyro_raw_1 := m.gyro_raw_1 % 2 ^ 32
    gyro_raw_2 := m.gyro_raw_2 % 2 ^ 32
    timestamp_us := m.timestamp_us % 2 ^ 56 }

/-- Every field of the `IMUMeasurementMessage` lies within its wire width. -/
@[reducible] def IMUMeasurementMessage.fits_wire (m : IMUMeasurementMessage) : Prop :=
  m.acc_raw_0 < 2 ^ 32 ∧ m.acc_raw_1 < 2 ^ 32 ∧ m.acc_raw_2 < 2 ^ 32 ∧
    m.gyro_raw_0 < 2 ^ 32 ∧ m.gyro_raw_1 < 2 ^ 32 ∧ m.gyro_raw_2 < 2 ^ 32 ∧
    m.timestamp_us < 2 ^ 56

/-- `MagMeasurementMessage` with each field reduced to its wire width. -/
def MagMeasurementMessage.truncated (m : MagMeasurementMessage) : MagMeasurementMessage :=
  { mag_raw_0 := m.mag_raw_0 % 2 ^ 32
    mag_raw_1 := m.mag_raw_1 % 2 ^ 32
    mag_raw_2 := m.mag_raw_2 % 2 ^ 32
    timestamp_us := m.timestamp_us % 2 ^ 56 }

/-- Every field of the `MagMeasurementMessage` lies within its wire width. -/
@[reducible] def MagMeasurementMessage.fits_wire (m : MagMeasurementMessage) : Prop :=
  m.mag_raw_0 < 2 ^ 32 ∧ m.mag_raw_1 < 2 ^ 32 ∧ m.mag_raw_2 < 2 ^ 32 ∧
    m.timestamp_us < 2 ^ 56

/-- `NodeStatusMessage` with each field reduced to its wire width. -/
def NodeStatusMessage.truncated (m : NodeStatusMessage) : NodeStatusMessage :=
  { uptime_s := m.uptime_s % 2 ^ 24
    health := m.health % 2 ^ 2
    mode := m.mode % 2 ^ 2
    custom_status_raw := m.custom_status_raw % 2 ^ 11 }

/-- Every field of the `NodeStatusMessage` lies within its wire width. -/
@[reducible] def NodeStatusMessage.fits_wire (m : NodeStatusMessage) : Prop :=
  m.uptime_s < 2 ^ 24 ∧ m.health < 2 ^ 2 ∧ m.mode < 2 ^ 2 ∧ m.custom_status_raw < 2 ^ 11

/-- `OzysMeasurementMessage` with each field reduced to its wire width. -/
def OzysMeasurementMessage.truncated (m : OzysMeasurementMessage) : OzysMeasurementMessage :=
  { sg_1_raw := m.sg_1_raw % 2 ^ 32
    sg_2_raw := m.sg_2_raw % 2 ^ 32
    sg_3_raw := m.sg_3_raw % 2 ^ 32
    sg_4_raw := m.sg_4_raw % 2 ^ 32 }

/-- Every field of the `OzysMeasurementMessage` lies within its wire width. -/
@[reducible] def OzysMeasurementMessage.fits_wire (m : OzysMeasurementMessage) : Prop :=
  m.sg_1_raw < 2 ^ 32 ∧ m.sg_2_raw < 2 ^ 32 ∧ m.sg_3_raw < 2 ^ 32 ∧ m.sg_4_raw < 2 ^ 32

/-- `PayloadEPSOutputOverwriteMessage` with each field reduced to its wire width. -/
def PayloadEPSOutputOverwriteMessage.truncated (m : PayloadEPSOutputOverwriteMessage) : PayloadEPSOutputOverwriteMessage :=
  { out_3v3 := m.out_3v3 % 2 ^ 2
    out_5v := m.out_5v % 2 ^ 2
    out_9v := m.out_9v % 2 ^ 2
    node_id := m.node_id % 2 ^ 12 }

/-- Every field of the `PayloadEPSOutputOverwriteMessage` lies within its wire width. -/
@[reducible] def PayloadEPSOutputOverwriteMessage.fits_wire (m : PayloadEPSOutputOverwriteMessage) : Prop :=
  m.out_3v3 < 2 ^ 2 ∧ m.out_5v < 2 ^ 2 ∧ m.out_9v < 2 ^ 2 ∧ m.node_id < 2 ^ 12

/-- `PayloadEPSStatusMessage` with each field reduced to its wire width. -/
def PayloadEPSStatusMessage.truncated (m : PayloadEPSStatusMessage) : PayloadEPSStatusMessage :=
  { battery1_mv := m.battery1_mv % 2 ^ 16
    battery1_temperature_raw := m.battery1_temperature_raw % 2 ^ 16
    battery2_mv := m.battery2_mv % 2 ^ 16
    battery2_temperature_raw := m.battery2_temperature_raw % 2 ^ 16
    output_3v3 := m.output_3v3.truncated
    output_5v := m.output_5v.truncated
    output_9v := m.output_9v.truncated }

/-- Every field of the `PayloadEPSStatusMessage` lies within its wire width. -/
@[reducible] def PayloadEPSStatusMessage.fits_wire (m : PayloadEPSStatusMessage) : Prop :=
  m.battery1_mv < 2 ^ 16 ∧ m.battery1_temperature_raw < 2 ^ 16 ∧ m.battery2_mv < 2 ^ 16 ∧
    m.battery2_temperature_raw < 2 ^ 16 ∧ m.output_3v3.fits_wire ∧ m.output_5v.fits_wire ∧
    m.output_9v.fits_wire

/-- `PreUnixTimeMessage` with each field reduced to its wire width. -/
def PreUnixTimeMessage.truncated (m : PreUnixTimeMessage) : PreUnixTimeMessage := m

/-- Every field of the `PreUnixTimeMessage` lies within its wire width. -/
@[reducible] def PreUnixTimeMessage.fits_wire (_m : PreUnixTimeMessage) : Prop :=
  True

/-- `ResetMessage` with each field reduced to its wire width. -/
def ResetMessage.truncated (m : ResetMessage) : ResetMessage :=
  { node_id := m.node_id % 2 ^ 12
    reset_all := m.reset_all
    into_bootloader := m.into_bootloader }

/-- Every field of the `ResetMessage` lies within its wire width. -/
@[reducible] def ResetMessage.fits_wire (m : ResetMessage) : Prop :=
  m.node_id < 2 ^ 12

/-- `RocketStateMessage` with each field reduced to its wire width. -/
def RocketStateMessage.truncated (m : RocketStateMessage) : RocketStateMessage :=
  { velocity_raw_0 := m.velocity_raw_0 % 2 ^ 32
    velocity_raw_1 := m.velocity_raw_1 % 2 ^ 32
    altitude_agl_raw := m.altitude_agl_raw % 2 ^ 32
    timestamp_us := m.timestamp_us % 2 ^ 56
    is_coasting := m.is_coasting }

/-- Every field of the `RocketStateMessage` lies within its wire width. -/
@[reducible] def RocketStateMessage.fits_wire (m : RocketStateMessage) : Prop :=
  m.velocity_raw_0 < 2 ^ 32 ∧ m.velocity_raw_1 < 2 ^ 32 ∧ m.altitude_agl_raw < 2 ^ 32 ∧
    m.timestamp_us < 2 ^ 56

/-- `UnixTimeMessage` with each field reduced to its wire width. -/
def UnixTimeMessage.truncated (m : UnixTimeMessage) : UnixTimeMessage :=
  { timestamp_us := m.timestamp_us % 2 ^ 56 }

/-- Every field of the `UnixTimeMessage` lies within its wire width. -/
@[reducible] def UnixTimeMessage.fits_wire (m : UnixTimeMessage) : Prop :=
  m.timestamp_us < 2 ^ 56

/-- `VLStatusMessage` with each field reduced to its wire width. -/
def VLStatusMessage.truncated (m : VLStatusMessage) : VLStatusMessage :=
  { flight_stage := m.flight_stage % 2 ^ 8
    battery_mv := m.battery_mv % 2 ^ 16 }

/-- Every field of the `VLStatusMessage` lies within its wire width. -/
@[reducible] def VLStatusMessage.fits_wire (m : VLStatusMessage) : Prop :=
  m.flight_stage < 2 ^ 8 ∧ m.battery_mv < 2 ^ 16

/-! ## The toggle bit along a transfer -/

/-- The CRC an opening frame carries, as `StateMachine::process_frame` reads it:
`frame_data[0] | frame_data[1] << 8` in 16 bits. -/
def Rx.carried_crc (r : Rx) : Nat :=
  ((byte_at r.frame.data 0 % 2 ^ 16) ||| ((byte_at r.frame.data 1 % 2 ^ 16) <<< 8)) % 2 ^ 16

/-- In the decoder that `d0` becomes by the calls `past`, slot `i` holds the transfer that the
frame `o` opened: `past` is `p1`, then `o`, then `p2`; `o` is an opening frame; before `o`
the slot did not hold its identifier; and after `o` and after every later frame the slot is
occupied with the identifier, the timestamp and the CRC of `o`, and its buffer from index
`data_len` on is as it was before `o`. -/
@[reducible] def CanBusMultiFrameDecoder.opened_by (d0 : CanBusMultiFrameDecoder)
    (past : List Rx) (i : Nat) (p1 : List Rx) (o : Rx) (p2 : List Rx) : Prop :=
  past = p1 ++ o :: p2 ∧ o.is_opening ∧
    ((d0.run p1).2.slot i).has_same_id o.frame_id = false ∧
    ∀ n, n ≤ p2.length →
      ((d0.run (p1 ++ o :: p2.take n)).2.slot i).type = detail.SlotType.MultiFrame ∧
      ((d0.run (p1 ++ o :: p2.take n)).2.slot i).multi_frame.id = o.frame_id ∧
      ((d0.run (p1 ++ o :: p2.take n)).2.slot i).multi_frame.first_frame_timestamp_us
        = o.timestamp_us ∧
      ((d0.run (p1 ++ o :: p2.take n)).2.slot i).multi_frame.crc = o.carried_crc ∧
      ∀ k, ((d0.run (p1 ++ o :: p2.take n)).2.slot i).multi_frame.data_len ≤ k →
        byte_at ((d0.run (p1 ++ o :: p2.take n)).2.slot i).multi_frame.data k
          = byte_at ((d0.run p1).2.slot i).multi_frame.data k

/-! # Lemmas -/

/-! ## Bit operations as arithmetic -/

theorem and_shifted_mask (x a b : Nat) :
    x &&& ((2 ^ a - 1) * 2 ^ b) = x / 2 ^ b % 2 ^ a * 2 ^ b := by
  apply Nat.eq_of_testBit_eq
  intro i
  rw [← Nat.shiftRight_eq_div_pow, Nat.mul_comm _ (2 ^ b), Nat.mul_comm _ (2 ^ b)]
  simp only [Nat.testBit_and, Nat.testBit_mul_pow_two, Nat.testBit_two_pow_sub_one,
    Nat.testBit_mod_two_pow, Nat.testBit_shiftRight]
  by_cases h1 : b ≤ i
  · have e : b + (i - b) = i := by omega
    by_cases h2 : i - b < a <;> simp [h1, h2, e]
  · simp [h1]

theorem and_0x03 (x : Nat) : x &&& 0x03 = x % 4 := Nat.and_pow_two_sub_one_eq_mod x 2
theorem and_0x07 (x : Nat) : x &&& 0x07 = x % 8 := Nat.and_pow_two_sub_one_eq_mod x 3
theorem and_0x0F (x : Nat) : x &&& 0x0F = x % 16 := Nat.and_pow_two_sub_one_eq_mod x 4
theorem and_0x1F (x : Nat) : x &&& 0x1F = x % 32 := Nat.and_pow_two_sub_one_eq_mod x 5
theorem and_0x3F (x : Nat) : x &&& 0x3F = x % 64 := Nat.and_pow_two_sub_one_eq_mod x 6
theorem and_0x7F (x : Nat) : x &&& 0x7F = x % 128 := Nat.and_pow_two_sub_one_eq_mod x 7
theorem and_0xFF (x : Nat) : x &&& 0xFF = x % 256 := Nat.and_pow_two_sub_one_eq_mod x 8
theorem and_0xFFF (x : Nat) : x &&& 0xFFF = x % 4096 := Nat.and_pow_two_sub_one_eq_mod x 12
theorem and_0xFFFFFFFF (x : Nat) : x &&& 0xFFFFFFFF = x % 4294967296 :=
  Nat.and_pow_two_sub_one_eq_mod x 32
theorem and_0xF0 (x : Nat) : x &&& 0xF0 = x / 16 % 16 * 16 := and_shifted_mask x 4 4
theorem and_0x80 (x : Nat) : x &&& 0x80 = x / 128 % 2 * 128 := and_shifted_mask x 1 7
theorem and_0x40 (x : Nat) : x &&& 0x40 = x / 64 % 2 * 64 := and_shifted_mask x 1 6
theorem and_0x20 (x : Nat) : x &&& 0x20 = x / 32 % 2 * 32 := and_shifted_mask x 1 5
theorem and_0x10 (x : Nat) : x &&& 0x10 = x / 16 % 2 * 16 := and_shifted_mask x 1 4
theorem and_0x08 (x : Nat) : x &&& 0x08 = x / 8 % 2 * 8 := and_shifted_mask x 1 3
theorem and_0x04 (x : Nat) : x &&& 0x04 = x / 4 % 2 * 4 := and_shifted_mask x 1 2
theorem and_0x8000 (x : Nat) : x &&& 0x8000 = x / 32768 % 2 * 32768 := and_shifted_mask x 1 15

/-- A bit-or of a multiple of `2 ^ k` with a value below `2 ^ k` is their sum. -/
theorem or_eq_add (k x y : Nat) (hx : x % 2 ^ k = 0) (hy : y < 2 ^ k) : x ||| y = x + y := by
  have h := Nat.mul_add_lt_is_or hy (x / 2 ^ k)
  have hx' : 2 ^ k * (x / 2 ^ k) = x := by
    have := Nat.div_add_mod x (2 ^ k)
    omega
  rw [hx'] at h
  exact h.symm

theorem or_add_1 (x y : Nat) (hx : x % 2 = 0) (hy : y < 2) : x ||| y = x + y :=
  or_eq_add 1 x y hx hy

theorem or_add_2 (x y : Nat) (hx : x % 4 = 0) (hy : y < 4) : x ||| y = x + y :=
  or_eq_add 2 x y hx hy

theorem or_add_3 (x y : Nat) (hx : x % 8 = 0) (hy : y < 8) : x ||| y = x + y :=
  or_eq_add 3 x y hx hy

theorem or_add_4 (x y : Nat) (hx : x % 16 = 0) (hy : y < 16) : x ||| y = x + y :=
  or_eq_add 4 x y hx hy

theorem or_add_5 (x y : Nat) (hx : x % 32 = 0) (hy : y < 32) : x ||| y = x + y :=
  or_eq_add 5 x y hx hy

theorem or_add_6 (x y : Nat) (hx : x % 64 = 0) (hy : y < 64) : x ||| y = x + y :=
  or_eq_add 6 x y hx hy

theorem or_add_7 (x y : Nat) (hx : x % 128 = 0) (hy : y < 128) : x ||| y = x + y :=
  or_eq_add 7 x y hx hy

theorem or_add_8 (x y : Nat) (hx : x % 256 = 0) (hy : y < 256) : x ||| y = x + y :=
  or_eq_add 8 x y hx hy

theorem or_add_10 (x y : Nat) (hx : x % 1024 = 0) (hy : y < 1024) : x ||| y = x + y :=
  or_eq_add 10 x y hx hy

theorem or_add_12 (x y : Nat) (hx : x % 4096 = 0) (hy : y < 4096) : x ||| y = x + y :=
  or_eq_add 12 x y hx hy

theorem or_add_16 (x y : Nat) (hx : x % 65536 = 0) (hy : y < 65536) : x ||| y = x + y :=
  or_eq_add 16 x y hx hy

theorem or_add_18 (x y : Nat) (hx : x % 262144 = 0) (hy : y < 262144) : x ||| y = x + y :=
  or_eq_add 18 x y hx hy

theorem or_add_24 (x y : Nat) (hx : x % 16777216 = 0) (hy : y < 16777216) : x ||| y = x + y :=
  or_eq_add 24 x y hx hy

theorem or_add_26 (x y : Nat) (hx : x % 67108864 = 0) (hy : y < 67108864) : x ||| y = x + y :=
  or_eq_add 26 x y hx hy

theorem or_add_32 (x y : Nat) (hx : x % 4294967296 = 0) (hy : y < 4294967296) : x ||| y = x + y :=
  or_eq_add 32 x y hx hy

theorem or_add_40 (x y : Nat) (hx : x % 1099511627776 = 0) (hy : y < 1099511627776) : x ||| y = x + y :=
  or_eq_add 40 x y hx hy

theorem or_add_48 (x y : Nat) (hx : x % 281474976710656 = 0) (hy : y < 281474976710656) : x ||| y = x + y :=
  or_eq_add 48 x y hx hy

/-! ## Raw memory -/

@[simp] theorem length_store (b : List Nat) (i v : Nat) : (store b i v).length = b.length := by
  simp [store]

@[simp] theorem length_memset (n : Nat) :
    ∀ (b : List Nat) (off v : Nat), (memset b off v n).length = b.length := by
  induction n with
  | zero => intro b off v; rfl
  | succ n ih => intro b off v; simp [memset, ih]

@[simp] theorem length_memcpy (src : List Nat) (n : Nat) :
    ∀ (dst : List Nat) (doff soff : Nat), (memcpy dst doff src soff n).length = dst.length := by
  induction n with
  | zero => intro dst doff soff; rfl
  | succ n ih => intro dst doff soff; simp [memcpy, ih]

theorem byte_at_set (b : List Nat) (i v j : Nat) :
    byte_at (b.set i v) j = if j = i ∧ i < b.length then v else byte_at b j := by
  unfold byte_at
  simp only [List.getD_eq_getElem?_getD, List.getElem?_set]
  by_cases h : i = j
  · subst h
    by_cases h2 : i < b.length
    · simp [h2]
    · simp [h2, List.getElem?_eq_none (Nat.le_of_not_lt h2)]
  · have h' : ¬ (j = i) := fun e => h e.symm
    simp [h, h']

theorem byte_at_store (b : List Nat) (i v j : Nat) :
    byte_at (store b i v) j = if j = i ∧ i < b.length then v % 256 else byte_at b j := by
  unfold store; exact byte_at_set b i _ j

theorem byte_at_memset (n : Nat) : ∀ (b : List Nat) (off v j : Nat),
    byte_at (memset b off v n) j
      = if off ≤ j ∧ j < off + n ∧ j < b.length then v % 256 else byte_at b j := by
  induction n with
  | zero =>
    intro b off v j
    rw [memset, if_neg (by omega)]
  | succ n ih =>
    intro b off v j
    rw [memset, ih, byte_at_store, length_store]
    split_ifs <;> first | rfl | (exfalso; omega)

theorem byte_at_memcpy (src : List Nat) (n : Nat) : ∀ (dst : List Nat) (doff soff j : Nat),
    byte_at (memcpy dst doff src soff n) j
      = if doff ≤ j ∧ j < doff + n ∧ j < dst.length then byte_at src (soff + (j - doff))
        else byte_at dst j := by
  induction n with
  | zero =>
    intro dst doff soff j
    rw [memcpy, if_neg (by omega)]
  | succ n ih =>
    intro dst doff soff j
    rw [memcpy, ih, byte_at_set, List.length_set]
    split_ifs <;> first | rfl | (exfalso; omega) | (congr 1; omega)

theorem byte_at_of_le (b : List Nat) (i : Nat) (h : b.length ≤ i) : byte_at b i = 0 := by
  unfold byte_at
  simp [List.getD_eq_getElem?_getD, List.getElem?_eq_none h]

theorem lt_length_of_le {l : List Nat} {n : Nat} (h : n ≤ l.length) (i : Nat) (hi : i < n) :
    (i < l.length) = True := by
  simp; omega

/-- Two lists of the same length with the same bytes are equal. -/
theorem ext_byte_at (a b : List Nat) (hl : a.length = b.length)
    (h : ∀ i, i < a.length → byte_at a i = byte_at b i) : a = b := by
  apply List.ext_getElem hl
  intro i h1 h2
  have := h i h1
  simpa [byte_at, List.getD_eq_getElem?_getD, List.getElem?_eq_getElem h1,
    List.getElem?_eq_getElem h2] using this

set_option linter.unusedTactic false
set_option linter.unreachableTactic false
set_option linter.unnecessarySeqFocus false

/-! ## Big-endian splitting -/

theorem be16_split (v : Nat) : (v / 2 ^ 8 % 256) <<< 8 ||| v % 256 = v % 2 ^ 16 := by
  simp only [Nat.shiftLeft_eq]
  rw [or_eq_add 8 _ _ (by omega) (by omega)]
  omega

theorem be24_split (v : Nat) :
    (v / 2 ^ 16 % 256) <<< 16 ||| (v / 2 ^ 8 % 256) <<< 8 ||| v % 256 = v % 2 ^ 24 := by
  simp only [Nat.shiftLeft_eq]
  rw [or_eq_add 16 (v / 2 ^ 16 % 256 * 2 ^ 16) _ (by omega) (by omega),
    or_eq_add 8 _ (v % 256) (by omega) (by omega)]
  omega

theorem be32_split (v : Nat) :
    (v / 2 ^ 24 % 256) <<< 24 ||| (v / 2 ^ 16 % 256) <<< 16 ||| (v / 2 ^ 8 % 256) <<< 8 |||
      v % 256 = v % 2 ^ 32 := by
  simp only [Nat.shiftLeft_eq]
  rw [or_eq_add 24 (v / 2 ^ 24 % 256 * 2 ^ 24) (v / 2 ^ 16 % 256 * 2 ^ 16) (by omega) (by omega),
    or_eq_add 16 _ (v / 2 ^ 8 % 256 * 2 ^ 8) (by omega) (by omega),
    or_eq_add 8 _ (v % 256) (by omega) (by omega)]
  omega

theorem be56_split (v : Nat) :
    (v / 2 ^ 48 % 256) <<< 48 ||| (v / 2 ^ 40 % 256) <<< 40 ||| (v / 2 ^ 32 % 256) <<< 32 |||
      (v / 2 ^ 24 % 256) <<< 24 ||| (v / 2 ^ 16 % 256) <<< 16 ||| (v / 2 ^ 8 % 256) <<< 8 |||
      v % 256 = v % 2 ^ 56 := by
  simp only [Nat.shiftLeft_eq]
  rw [or_eq_add 48 (v / 2 ^ 48 % 256 * 2 ^ 48) (v / 2 ^ 40 % 256 * 2 ^ 40) (by omega) (by omega),
    or_eq_add 40 _ (v / 2 ^ 32 % 256 * 2 ^ 32) (by omega) (by omega),
    or_eq_add 32 _ (v / 2 ^ 24 % 256 * 2 ^ 24) (by omega) (by omega),
    or_eq_add 24 _ (v / 2 ^ 16 % 256 * 2 ^ 16) (by omega) (by omega),
    or_eq_add 16 _ (v / 2 ^ 8 % 256 * 2 ^ 8) (by omega) (by omega),
    or_eq_add 8 _ (v % 256) (by omega) (by omega)]
  omega

/-! ## Round trips of the message classes -/

theorem AckMessage_roundtrip (v : AckMessage) (hv : v.valid) (buffer : List Nat)
    (hb : AckMessage.SIZE_BYTES ≤ buffer.length) : AckMessage.deserialize (v.serialize buffer) = v := by
  unfold AckMessage.SIZE_BYTES at hb
  obtain ⟨crc, nid⟩ := v
  simp only [AckMessage.valid, Nat.reducePow] at hv
  simp [AckMessage.deserialize, AckMessage.serialize, AckMessage.SIZE_BYTES,
    read_u16_be, write_u16_be, read_u24_be, write_u24_be, read_u32_be, write_u32_be, read_u56_be, write_u56_be, byte_at_store, byte_at_memset, byte_at_memcpy, length_store, length_memset, length_memcpy, lt_length_of_le hb]
  try simp only [Nat.shiftRight_eq_div_pow, and_0x03, and_0x07, and_0x0F, and_0x1F, and_0x3F, and_0x7F, and_0xFF, and_0xFFF, and_0xFFFFFFFF, and_0xF0, and_0x80, and_0x40, and_0x20, and_0x10, and_0x08, and_0x04, Nat.mod_mod]
  try simp only [be16_split, be24_split, be32_split, be56_split]
  (repeat' apply And.intro) <;>
  (try (split_ifs <;> (try simp only [Bool.not_eq_true] at *) <;> subst_vars)) <;>
  (try simp (disch := omega) only [Nat.shiftLeft_eq, Nat.zero_or, Nat.mod_mod, or_add_1, or_add_2, or_add_3, or_add_4, or_add_5, or_add_6, or_add_7, or_add_8, or_add_10, or_add_12]) <;>
  (try simp only [bne_iff_ne, bne_eq_false_iff_eq, ne_eq]) <;>
  omega

theorem AmpOverwriteMessage_roundtrip (v : AmpOverwriteMessage) (hv : v.valid) (buffer : List Nat)
    (hb : AmpOverwriteMessage.SIZE_BYTES ≤ buffer.length) : AmpOverwriteMessage.deserialize (v.serialize buffer) = v := by
  unfold AmpOverwriteMessage.SIZE_BYTES at hb
  obtain ⟨o1, o2, o3, o4⟩ := v
  simp only [AmpOverwriteMessage.valid, Nat.reducePow] at hv
  simp [AmpOverwriteMessage.deserialize, AmpOverwriteMessage.serialize, AmpOverwriteMessage.SIZE_BYTES,
    read_u16_be, write_u16_be, read_u24_be, write_u24_be, read_u32_be, write_u32_be, read_u56_be, write_u56_be, byte_at_store, byte_at_memset, byte_at_memcpy, length_store, length_memset, length_memcpy, lt_length_of_le hb]
  try simp only [Nat.shiftRight_eq_div_pow, and_0x03, and_0x07, and_0x0F, and_0x1F, and_0x3F, and_0x7F, and_0xFF, and_0xFFF, and_0xFFFFFFFF, and_0xF0, and_0x80, and_0x40, and_0x20, and_0x10, and_0x08, and_0x04, Nat.mod_mod]
  try simp only [be16_split, be24_split, be32_split, be56_split]
  (repeat' apply And.intro) <;>
  (try (split_ifs <;> (try simp only [Bool.not_eq_true] at *) <;> subst_vars)) <;>
  (try simp (disch := omega) only [Nat.shiftLeft_eq, Nat.zero_or, Nat.mod_mod, or_add_1, or_add_2, or_add_3, or_add_4, or_add_5, or_add_6, or_add_7, or_add_8, or_add_10, or_add_12]) <;>
  (try simp only [bne_iff_ne, bne_eq_false_iff_eq, ne_eq]) <;>
  omega

theorem AmpResetOutputMessage_roundtrip (v : AmpResetOutputMessage) (hv : v.valid) (buffer : List Nat)
    (hb : AmpResetOutputMessage.SIZE_BYTES ≤ buffer.length) : AmpResetOutputMessage.deserialize (v.serialize buffer) = v := by
  unfold AmpResetOutputMessage.SIZE_BYTES at hb
  obtain ⟨o⟩ := v
  simp only [AmpResetOutputMessage.valid, Nat.reducePow] at hv
  simp [AmpResetOutputMessage.deserialize, AmpResetOutputMessage.serialize, AmpResetOutputMessage.SIZE_BYTES,
    read_u16_be, write_u16_be, read_u24_be, write_u24_be, read_u32_be, write_u32_be, read_u56_be, write_u56_be, byte_at_store, byte_at_memset, byte_at_memcpy, length_store, length_memset, length_memcpy, lt_length_of_le hb]
  try simp only [Nat.shiftRight_eq_div_pow, and_0x03, and_0x07, and_0x0F, and_0x1F, and_0x3F, and_0x7F, and_0xFF, and_0xFFF, and_0xFFFFFFFF, and_0xF0, and_0x80, and_0x40, and_0x20, and_0x10, and_0x08, and_0x04, Nat.mod_mod]
  try simp only [be16_split, be24_split, be32_split, be56_split]
  (repeat' apply And.intro) <;>
  (try (split_ifs <;> (try simp only [Bool.not_eq_true] at *) <;> subst_vars)) <;>
  (try simp (disch := omega) only [Nat.shiftLeft_eq, Nat.zero_or, Nat.mod_mod, or_add_1, or_add_2, or_add_3, or_add_4, or_add_5, or_add_6, or_add_7, or_add_8, or_add_10, or_add_12]) <;>
  (try simp only [bne_iff_ne, bne_eq_false_iff_eq, ne_eq]) <;>
  omega

theorem AmpStatusMessage_roundtrip (v : AmpStatusMessage) (hv : v.valid) (buffer : List Nat)
    (hb : AmpStatusMessage.SIZE_BYTES ≤ buffer.length) : AmpStatusMessage.deserialize (v.serialize buffer) = v := by
  unfold AmpStatusMessage.SIZE_BYTES at hb
  obtain ⟨mv, ⟨w1, s1⟩, ⟨w2, s2⟩, ⟨w3, s3⟩, ⟨w4, s4⟩⟩ := v
  simp only [AmpStatusMessage.valid, AmpOutputStatus.valid, Nat.reducePow] at hv
  simp [AmpStatusMessage.deserialize, AmpStatusMessage.serialize, AmpOutputStatus.from_byte, AmpOutputStatus.to_byte, AmpStatusMessage.SIZE_BYTES,
    read_u16_be, write_u16_be, read_u24_be, write_u24_be, read_u32_be, write_u32_be, read_u56_be, write_u56_be, byte_at_store, byte_at_memset, byte_at_memcpy, length_store, length_memset, length_memcpy, lt_length_of_le hb]
  try simp only [Nat.shiftRight_eq_div_pow, and_0x03, and_0x07, and_0x0F, and_0x1F, and_0x3F, and_0x7F, and_0xFF, and_0xFFF, and_0xFFFFFFFF, and_0xF0, and_0x80, and_0x40, and_0x20, and_0x10, and_0x08, and_0x04, Nat.mod_mod]
  try simp only [be16_split, be24_split, be32_split, be56_split]
  (repeat' apply And.intro) <;>
  (try (split_ifs <;> (try simp only [Bool.not_eq_true] at *) <;> subst_vars)) <;>
  (try simp (disch := omega) only [Nat.shiftLeft_eq, Nat.zero_or, Nat.mod_mod, or_add_1, or_add_2, or_add_3, or_add_4, or_add_5, or_add_6, or_add_7, or_add_8, or_add_10, or_add_12]) <;>
  (try simp only [bne_iff_ne, bne_eq_false_iff_eq, ne_eq]) <;>
  omega

theorem BaroMeasurementMessage_roundtrip (v : BaroMeasurementMessage) (hv : v.valid) (buffer : List Nat)
    (hb : BaroMeasurementMessage.SIZE_BYTES ≤ buffer.length) : BaroMeasurementMessage.deserialize (v.serialize buffer) = v := by
  unfold BaroMeasurementMessage.SIZE_BYTES at hb
  obtain ⟨p, t, ts⟩ := v
  simp only [BaroMeasurementMessage.valid, Nat.reducePow] at hv
  simp [BaroMeasurementMessage.deserialize, BaroMeasurementMessage.serialize, BaroMeasurementMessage.SIZE_BYTES,
    read_u16_be, write_u16_be, read_u24_be, write_u24_be, read_u32_be, write_u32_be, read_u56_be, write_u56_be, byte_at_store, byte_at_memset, byte_at_memcpy, length_store, length_memset, length_memcpy, lt_length_of_le hb]
  try simp only [Nat.shiftRight_eq_div_pow, and_0x03, and_0x07, and_0x0F, and_0x1F, and_0x3F, and_0x7F, and_0xFF, and_0xFFF, and_0xFFFFFFFF, and_0xF0, and_0x80, and_0x40, and_0x20, and_0x10, and_0x08, and_0x04, Nat.mod_mod]
  try simp only [be16_split, be24_split, be32_split, be56_split]
  (repeat' apply And.intro) <;>
  (try (split_ifs <;> (try simp only [Bool.not_eq_true] at *) <;> subst_vars)) <;>
  (try simp (disch := omega) only [Nat.shiftLeft_eq, Nat.zero_or, Nat.mod_mod, or_add_1, or_add_2, or_add_3, or_add_4, or_add_5, or_add_6, or_add_7, or_add_8, or_add_10, or_add_12]) <;>
  (try simp only [bne_iff_ne, bne_eq_false_iff_eq, ne_eq]) <;>
  omega

theorem BrightnessMeasurementMessage_roundtrip (v : BrightnessMeasurementMessage) (hv : v.valid) (buffer : List Nat)
    (hb : BrightnessMeasurementMessage.SIZE_BYTES ≤ buffer.length) : BrightnessMeasurementMessage.deserialize (v.serialize buffer) = v := by
  unfold BrightnessMeasurementMessage.SIZE_BYTES at hb
  obtain ⟨l, ts⟩ := v
  simp only [BrightnessMeasurementMessage.valid, Nat.reducePow] at hv
  simp [BrightnessMeasurementMessage.deserialize, BrightnessMeasurementMessage.serialize, BrightnessMeasurementMessage.SIZE_BYTES,
    read_u16_be, write_u16_be, read_u24_be, write_u24_be, read_u32_be, write_u32_be, read_u56_be, write_u56_be, byte_at_store, byte_at_memset, byte_at_memcpy, length_store, length_memset, length_memcpy, lt_length_of_le hb]
  try simp only [Nat.shiftRight_eq_div_pow, and_0x03, and_0x07, and_0x0F, and_0x1F, and_0x3F, and_0x7F, and_0xFF, and_0xFFF, and_0xFFFFFFFF, and_0xF0, and_0x80, and_0x40, and_0x20, and_0x10, and_0x08, and_0x04, Nat.mod_mod]
  try simp only [be16_split, be24_split, be32_split, be56_split]
  (repeat' apply And.intro) <;>
  (try (split_ifs <;> (try simp only [Bool.not_eq_true] at *) <;> subst_vars)) <;>
  (try simp (disch := omega) only [Nat.shiftLeft_eq, Nat.zero_or, Nat.mod_mod, or_add_1, or_add_2, or_add_3, or_add_4, or_add_5, or_add_6, or_add_7, or_add_8, or_add_10, or_add_12]) <;>
  (try simp only [bne_iff_ne, bne_eq_false_iff_eq, ne_eq]) <;>
  omega

theorem IcarusStatusMessage_roundtrip (v : IcarusStatusMessage) (hv : v.valid) (buffer : List Nat)
    (hb : IcarusStatusMessage.SIZE_BYTES ≤ buffer.length) : IcarusStatusMessage.deserialize (v.serialize buffer) = v := by
  unfold IcarusStatusMessage.SIZE_BYTES at hb
  obtain ⟨a, b, c⟩ := v
  simp only [IcarusStatusMessage.valid, Nat.reducePow] at hv
  simp [IcarusStatusMessage.deserialize, IcarusStatusMessage.serialize, IcarusStatusMessage.SIZE_BYTES,
    read_u16_be, write_u16_be, read_u24_be, write_u24_be, read_u32_be, write_u32_be, read_u56_be, write_u56_be, byte_at_store, byte_at_memset, byte_at_memcpy, length_store, length_memset, length_memcpy, lt_length_of_le hb]
  try simp only [Nat.shiftRight_eq_div_pow, and_0x03, and_0x07, and_0x0F, and_0x1F, and_0x3F, and_0x7F, and_0xFF, and_0xFFF, and_0xFFFFFFFF, and_0xF0, and_0x80, and_0x40, and_0x20, and_0x10, and_0x08, and_0x04, Nat.mod_mod]
  try simp only [be16_split, be24_split, be32_split, be56_split]
  (repeat' apply And.intro) <;>
  (try (split_ifs <;> (try simp only [Bool.not_eq_true] at *) <;> subst_vars)) <;>
  (try simp (disch := omega) only [Nat.shiftLeft_eq, Nat.zero_or, Nat.mod_mod, or_add_1, or_add_2, or_add_3, or_add_4, or_add_5, or_add_6, or_add_7, or_add_8, or_add_10, or_add_12]) <;>
  (try simp only [bne_iff_ne, bne_eq_false_iff_eq, ne_eq]) <;>
  omega

theorem IMUMeasurementMessage_roundtrip (v : IMUMeasurementMessage) (hv : v.valid) (buffer : List Nat)
    (hb : IMUMeasurementMessage.SIZE_BYTES ≤ buffer.length) : IMUMeasurementMessage.deserialize (v.serialize buffer) = v := by
  unfold IMUMeasurementMessage.SIZE_BYTES at hb
  obtain ⟨a0, a1, a2, g0, g1, g2, ts⟩ := v
  simp only [IMUMeasurementMessage.valid, Nat.reducePow] at hv
  simp [IMUMeasurementMessage.deserialize, IMUMeasurementMessage.serialize, IMUMeasurementMessage.SIZE_BYTES,
    read_u16_be, write_u16_be, read_u24_be, write_u24_be, read_u32_be, write_u32_be, read_u56_be, write_u56_be, byte_at_store, byte_at_memset, byte_at_memcpy, length_store, length_memset, length_memcpy, lt_length_of_le hb]
  try simp only [Nat.shiftRight_eq_div_pow, and_0x03, and_0x07, and_0x0F, and_0x1F, and_0x3F, and_0x7F, and_0xFF, and_0xFFF, and_0xFFFFFFFF, and_0xF0, and_0x80, and_0x40, and_0x20, and_0x10, and_0x08, and_0x04, Nat.mod_mod]
  try simp only [be16_split, be24_split, be32_split, be56_split]
  (repeat' apply And.intro) <;>
  (try (split_ifs <;> (try simp only [Bool.not_eq_true] at *) <;> subst_vars)) <;>
  (try simp (disch := omega) only [Nat.shiftLeft_eq, Nat.zero_or, Nat.mod_mod, or_add_1, or_add_2, or_add_3, or_add_4, or_add_5, or_add_6, or_add_7, or_add_8, or_add_10, or_add_12]) <;>
  (try simp only [bne_iff_ne, bne_eq_false_iff_eq, ne_eq]) <;>
  omega

theorem MagMeasurementMessage_roundtrip (v : MagMeasurementMessage) (hv : v.valid) (buffer : List Nat)
    (hb : MagMeasurementMessage.SIZE_BYTES ≤ buffer.length) : MagMeasurementMessage.deserialize (v.serialize buffer) = v := by
  unfold MagMeasurementMessage.SIZE_BYTES at hb
  obtain ⟨m0, m1, m2, ts⟩ := v
  simp only [MagMeasurementMessage.valid, Nat.reducePow] at hv
  simp [MagMeasurementMessage.deserialize, MagMeasurementMessage.serialize, MagMeasurementMessage.SIZE_BYTES,
    read_u16_be, write_u16_be, read_u24_be, write_u24_be, read_u32_be, write_u32_be, read_u56_be, write_u56_be, byte_at_store, byte_at_memset, byte_at_memcpy, length_store, length_memset, length_memcpy, lt_length_of_le hb]
  try simp only [Nat.shiftRight_eq_div_pow, and_0x03, and_0x07, and_0x0F, and_0x1F, and_0x3F, and_0x7F, and_0xFF, and_0xFFF, and_0xFFFFFFFF, and_0xF0, and_0x80, and_0x40, and_0x20, and_0x10, and_0x08, and_0x04, Nat.mod_mod]
  try simp only [be16_split, be24_split, be32_split, be56_split]
  (repeat' apply And.intro) <;>
  (try (split_ifs <;> (try simp only [Bool.not_eq_true] at *) <;> subst_vars)) <;>
  (try simp (disch := omega) only [Nat.shiftLeft_eq, Nat.zero_or, Nat.mod_mod, or_add_1, or_add_2, or_add_3, or_add_4, or_add_5, or_add_6, or_add_7, or_add_8, or_add_10, or_add_12]) <;>
  (try simp only [bne_iff_ne, bne_eq_false_iff_eq, ne_eq]) <;>
  omega

theorem NodeStatusMessage_roundtrip (v : NodeStatusMessage) (hv : v.valid) (buffer : List Nat)
    (hb : NodeStatusMessage.SIZE_BYTES ≤ buffer.length) : NodeStatusMessage.deserialize (v.serialize buffer) = v := by
  unfold NodeStatusMessage.SIZE_BYTES at hb
  obtain ⟨u, h, m, c⟩ := v
  simp only [NodeStatusMessage.valid, Nat.reducePow] at hv
  simp [NodeStatusMessage.deserialize, NodeStatusMessage.serialize, NodeStatusMessage.SIZE_BYTES,
    read_u16_be, write_u16_be, read_u24_be, write_u24_be, read_u32_be, write_u32_be, read_u56_be, write_u56_be, byte_at_store, byte_at_memset, byte_at_memcpy, length_store, length_memset, length_memcpy, lt_length_of_le hb]
  try simp only [Nat.shiftRight_eq_div_pow, and_0x03, and_0x07, and_0x0F, and_0x1F, and_0x3F, and_0x7F, and_0xFF, and_0xFFF, and_0xFFFFFFFF, and_0xF0, and_0x80, and_0x40, and_0x20, and_0x10, and_0x08, and_0x04, Nat.mod_mod]
  try simp only [be16_split, be24_split, be32_split, be56_split]
  (repeat' apply And.intro) <;>
  (try (split_ifs <;> (try simp only [Bool.not_eq_true] at *) <;> subst_vars)) <;>
  (try simp (disch := omega) only [Nat.shiftLeft_eq, Nat.zero_or, Nat.mod_mod, or_add_1, or_add_2, or_add_3, or_add_4, or_add_5, or_add_6, or_add_7, or_add_8, or_add_10, or_add_12]) <;>
  (try simp only [bne_iff_ne, bne_eq_false_iff_eq, ne_eq]) <;>
  omega

theorem OzysMeasurementMessage_roundtrip (v : OzysMeasurementMessage) (hv : v.valid) (buffer : List Nat)
    (hb : OzysMeasurementMessage.SIZE_BYTES ≤ buffer.length) : OzysMeasurementMessage.deserialize (v.serialize buffer) = v := by
  unfold OzysMeasurementMessage.SIZE_BYTES at hb
  obtain ⟨a, b, c, d⟩ := v
  simp only [OzysMeasurementMessage.valid, Nat.reducePow] at hv
  simp [OzysMeasurementMessage.deserialize, OzysMeasurementMessage.serialize, OzysMeasurementMessage.SIZE_BYTES,
    read_u16_be, write_u16_be, read_u24_be, write_u24_be, read_u32_be, write_u32_be, read_u56_be, write_u56_be, byte_at_store, byte_at_memset, byte_at_memcpy, length_store, length_memset, length_memcpy, lt_length_of_le hb]
  try simp only [Nat.shiftRight_eq_div_pow, and_0x03, and_0x07, and_0x0F, and_0x1F, and_0x3F, and_0x7F, and_0xFF, and_0xFFF, and_0xFFFFFFFF, and_0xF0, and_0x80, and_0x40, and_0x20, and_0x10, and_0x08, and_0x04, Nat.mod_mod]
  try simp only [be16_split, be24_split, be32_split, be56_split]
  (repeat' apply And.intro) <;>
  (try (split_ifs <;> (try simp only [Bool.not_eq_true] at *) <;> subst_vars)) <;>
  (try simp (disch := omega) only [Nat.shiftLeft_eq, Nat.zero_or, Nat.mod_mod, or_add_1, or_add_2, or_add_3, or_add_4, or_add_5, or_add_6, or_add_7, or_add_8, or_add_10, or_add_12]) <;>
  (try simp only [bne_iff_ne, bne_eq_false_iff_eq, ne_eq]) <;>
  omega

theorem PayloadEPSOutputOverwriteMessage_roundtrip (v : PayloadEPSOutputOverwriteMessage) (hv : v.valid) (buffer : List Nat)
    (hb : PayloadEPSOutputOverwriteMessage.SIZE_BYTES ≤ buffer.length) : PayloadEPSOutputOverwriteMessage.deserialize (v.serialize buffer) = v := by
  unfold PayloadEPSOutputOverwriteMessage.SIZE_BYTES at hb
  obtain ⟨a, b, c, n⟩ := v
  simp only [PayloadEPSOutputOverwriteMessage.valid, Nat.reducePow] at hv
  simp [PayloadEPSOutputOverwriteMessage.deserialize, PayloadEPSOutputOverwriteMessage.serialize, PayloadEPSOutputOverwriteMessage.SIZE_BYTES,
    read_u16_be, write_u16_be, read_u24_be, write_u24_be, read_u32_be, write_u32_be, read_u56_be, write_u56_be, byte_at_store, byte_at_memset, byte_at_memcpy, length_store, length_memset, length_memcpy, lt_length_of_le hb]
  try simp only [Nat.shiftRight_eq_div_pow, and_0x03, and_0x07, and_0x0F, and_0x1F, and_0x3F, and_0x7F, and_0xFF, and_0xFFF, and_0xFFFFFFFF, and_0xF0, and_0x80, and_0x40, and_0x20, and_0x10, and_0x08, and_0x04, Nat.mod_mod]
  try simp only [be16_split, be24_split, be32_split, be56_split]
  (repeat' apply And.intro) <;>
  (try (split_ifs <;> (try simp only [Bool.not_eq_true] at *) <;> subst_vars)) <;>
  (try simp (disch := omega) only [Nat.shiftLeft_eq, Nat.zero_or, Nat.mod_mod, or_add_1, or_add_2, or_add_3, or_add_4, or_add_5, or_add_6, or_add_7, or_add_8, or_add_10, or_add_12]) <;>
  (try simp only [bne_iff_ne, bne_eq_false_iff_eq, ne_eq]) <;>
  omega

theorem PayloadEPSStatusMessage_roundtrip (v : PayloadEPSStatusMessage) (hv : v.valid) (buffer : List Nat)
    (hb : PayloadEPSStatusMessage.SIZE_BYTES ≤ buffer.length) : PayloadEPSStatusMessage.deserialize (v.serialize buffer) = v := by
  unfold PayloadEPSStatusMessage.SIZE_BYTES at hb
  obtain ⟨b1, t1, b2, t2, ⟨c1, w1, s1⟩, ⟨c2, w2, s2⟩, ⟨c3, w3, s3⟩⟩ := v
  simp only [PayloadEPSStatusMessage.valid, PayloadEPSOutputStatus.valid, Nat.reducePow] at hv
  simp [PayloadEPSStatusMessage.deserialize, PayloadEPSStatusMessage.serialize, PayloadEPSOutputStatus.serialize, PayloadEPSOutputStatus.deserialize, PayloadEPSStatusMessage.SIZE_BYTES,
    read_u16_be, write_u16_be, read_u24_be, write_u24_be, read_u32_be, write_u32_be, read_u56_be, write_u56_be, byte_at_store, byte_at_memset, byte_at_memcpy, length_store, length_memset, length_memcpy, lt_length_of_le hb]
  try simp only [Nat.shiftRight_eq_div_pow, and_0x03, and_0x07, and_0x0F, and_0x1F, and_0x3F, and_0x7F, and_0xFF, and_0xFFF, and_0xFFFFFFFF, and_0xF0, and_0x80, and_0x40, and_0x20, and_0x10, and_0x08, and_0x04, Nat.mod_mod]
  try simp only [be16_split, be24_split, be32_split, be56_split]
  (repeat' apply And.intro) <;>
  (try (split_ifs <;> (try simp only [Bool.not_eq_true] at *) <;> subst_vars)) <;>
  (try simp (disch := omega) only [Nat.shiftLeft_eq, Nat.zero_or, Nat.mod_mod, or_add_1, or_add_2, or_add_3, or_add_4, or_add_5, or_add_6, or_add_7, or_add_8, or_add_10, or_add_12]) <;>
  (try simp only [bne_iff_ne, bne_eq_false_iff_eq, ne_eq]) <;>
  omega

theorem ResetMessage_roundtrip (v : ResetMessage) (hv : v.valid) (buffer : List Nat)
    (hb : ResetMessage.SIZE_BYTES ≤ buffer.length) : ResetMessage.deserialize (v.serialize buffer) = v := by
  unfold ResetMessage.SIZE_BYTES at hb
  obtain ⟨n, w1, w2⟩ := v
  simp only [ResetMessage.valid, Nat.reducePow] at hv
  simp [ResetMessage.deserialize, ResetMessage.serialize, ResetMessage.SIZE_BYTES,
    read_u16_be, write_u16_be, read_u24_be, write_u24_be, read_u32_be, write_u32_be, read_u56_be, write_u56_be, byte_at_store, byte_at_memset, byte_at_memcpy, length_store, length_memset, length_memcpy, lt_length_of_le hb]
  try simp only [Nat.shiftRight_eq_div_pow, and_0x03, and_0x07, and_0x0F, and_0x1F, and_0x3F, and_0x7F, and_0xFF, and_0xFFF, and_0xFFFFFFFF, and_0xF0, and_0x80, and_0x40, and_0x20, and_0x10, and_0x08, and_0x04, Nat.mod_mod]
  try simp only [be16_split, be24_split, be32_split, be56_split]
  (repeat' apply And.intro) <;>
  (try (split_ifs <;> (try simp only [Bool.not_eq_true] at *) <;> subst_vars)) <;>
  (try simp (disch := omega) only [Nat.shiftLeft_eq, Nat.zero_or, Nat.mod_mod, or_add_1, or_add_2, or_add_3, or_add_4, or_add_5, or_add_6, or_add_7, or_add_8, or_add_10, or_add_12]) <;>
  (try simp only [bne_iff_ne, bne_eq_false_iff_eq, ne_eq]) <;>
  omega

theorem RocketStateMessage_roundtrip (v : RocketStateMessage) (hv : v.valid) (buffer : List Nat)
    (hb : RocketStateMessage.SIZE_BYTES ≤ buffer.length) : RocketStateMessage.deserialize (v.serialize buffer) = v := by
  unfold RocketStateMessage.SIZE_BYTES at hb
  obtain ⟨v0, v1, a, ts, w⟩ := v
  simp only [RocketStateMessage.valid, Nat.reducePow] at hv
  simp [RocketStateMessage.deserialize, RocketStateMessage.serialize, RocketStateMessage.SIZE_BYTES,
    read_u16_be, write_u16_be, read_u24_be, write_u24_be, read_u32_be, write_u32_be, read_u56_be, write_u56_be, byte_at_store, byte_at_memset, byte_at_memcpy, length_store, length_memset, length_memcpy, lt_length_of_le hb]
  try simp only [Nat.shiftRight_eq_div_pow, and_0x03, and_0x07, and_0x0F, and_0x1F, and_0x3F, and_0x7F, and_0xFF, and_0xFFF, and_0xFFFFFFFF, and_0xF0, and_0x80, and_0x40, and_0x20, and_0x10, and_0x08, and_0x04, Nat.mod_mod]
  try simp only [be16_split, be24_split, be32_split, be56_split]
  (repeat' apply And.intro) <;>
  (try (split_ifs <;> (try simp only [Bool.not_eq_true] at *) <;> subst_vars)) <;>
  (try simp (disch := omega) only [Nat.shiftLeft_eq, Nat.zero_or, Nat.mod_mod, or_add_1, or_add_2, or_add_3, or_add_4, or_add_5, or_add_6, or_add_7, or_add_8, or_add_10, or_add_12]) <;>
  (try simp only [bne_iff_ne, bne_eq_false_iff_eq, ne_eq]) <;>
  omega

theorem UnixTimeMessage_roundtrip (v : UnixTimeMessage) (hv : v.valid) (buffer : List Nat)
    (hb : UnixTimeMessage.SIZE_BYTES ≤ buffer.length) : UnixTimeMessage.deserialize (v.serialize buffer) = v := by
  unfold UnixTimeMessage.SIZE_BYTES at hb
  obtain ⟨ts⟩ := v
  simp only [UnixTimeMessage.valid, Nat.reducePow] at hv
  simp [UnixTimeMessage.deserialize, UnixTimeMessage.serialize, UnixTimeMessage.SIZE_BYTES,
    read_u16_be, write_u16_be, read_u24_be, write_u24_be, read_u32_be, write_u32_be, read_u56_be, write_u56_be, byte_at_store, byte_at_memset, byte_at_memcpy, length_store, length_memset, length_memcpy, lt_length_of_le hb]
  try simp only [Nat.shiftRight_eq_div_pow, and_0x03, and_0x07, and_0x0F, and_0x1F, and_0x3F, and_0x7F, and_0xFF, and_0xFFF, and_0xFFFFFFFF, and_0xF0, and_0x80, and_0x40, and_0x20, and_0x10, and_0x08, and_0x04, Nat.mod_mod]
  try simp only [be16_split, be24_split, be32_split, be56_split]
  (repeat' apply And.intro) <;>
  (try (split_ifs <;> (try simp only [Bool.not_eq_true] at *) <;> subst_vars)) <;>
  (try simp (disch := omega) only [Nat.shiftLeft_eq, Nat.zero_or, Nat.mod_mod, or_add_1, or_add_2, or_add_3, or_add_4, or_add_5, or_add_6, or_add_7, or_add_8, or_add_10, or_add_12]) <;>
  (try simp only [bne_iff_ne, bne_eq_false_iff_eq, ne_eq]) <;>
  omega

theorem VLStatusMessage_roundtrip (v : VLStatusMessage) (hv : v.valid) (buffer : List Nat)
    (hb : VLStatusMessage.SIZE_BYTES ≤ buffer.length) : VLStatusMessage.deserialize (v.serialize buffer) = v := by
  unfold VLStatusMessage.SIZE_BYTES at hb
  obtain ⟨f, b⟩ := v
  simp only [VLStatusMessage.valid, Nat.reducePow] at hv
  simp [VLStatusMessage.deserialize, VLStatusMessage.serialize, VLStatusMessage.SIZE_BYTES,
    read_u16_be, write_u16_be, read_u24_be, write_u24_be, read_u32_be, write_u32_be, read_u56_be, write_u56_be, byte_at_store, byte_at_memset, byte_at_memcpy, length_store, length_memset, length_memcpy, lt_length_of_le hb]
  try simp only [Nat.shiftRight_eq_div_pow, and_0x03, and_0x07, and_0x0F, and_0x1F, and_0x3F, and_0x7F, and_0xFF, and_0xFFF, and_0xFFFFFFFF, and_0xF0, and_0x80, and_0x40, and_0x20, and_0x10, and_0x08, and_0x04, Nat.mod_mod]
  try simp only [be16_split, be24_split, be32_split, be56_split]
  (repeat' apply And.intro) <;>
  (try (split_ifs <;> (try simp only [Bool.not_eq_true] at *) <;> subst_vars)) <;>
  (try simp (disch := omega) only [Nat.shiftLeft_eq, Nat.zero_or, Nat.mod_mod, or_add_1, or_add_2, or_add_3, or_add_4, or_add_5, or_add_6, or_add_7, or_add_8, or_add_10, or_add_12]) <;>
  (try simp only [bne_iff_ne, bne_eq_false_iff_eq, ne_eq]) <;>
  omega

theorem AirBrakesControlMessage_roundtrip (v : AirBrakesControlMessage) (hv : v.valid) (buffer : List Nat)
    (hb : AirBrakesControlMessage.SIZE_BYTES ≤ buffer.length) : AirBrakesControlMessage.deserialize (v.serialize buffer) = v := by
  unfold AirBrakesControlMessage.SIZE_BYTES at hb
  obtain ⟨e⟩ := v
  simp only [AirBrakesControlMessage.valid, Nat.reducePow] at hv
  simp [AirBrakesControlMessage.deserialize, AirBrakesControlMessage.serialize, AirBrakesControlMessage.SIZE_BYTES,
    read_u16_be, write_u16_be, read_u24_be, write_u24_be, read_u32_be, write_u32_be, read_u56_be, write_u56_be, byte_at_store, byte_at_memset, byte_at_memcpy, length_store, length_memset, length_memcpy, lt_length_of_le hb]
  try simp only [Nat.shiftRight_eq_div_pow, and_0x03, and_0x07, and_0x0F, and_0x1F, and_0x3F, and_0x7F, and_0xFF, and_0xFFF, and_0xFFFFFFFF, and_0xF0, and_0x80, and_0x40, and_0x20, and_0x10, and_0x08, and_0x04, Nat.mod_mod]
  try simp only [be16_split, be24_split, be32_split, be56_split]
  (repeat' apply And.intro) <;>
  (try (split_ifs <;> (try simp only [Bool.not_eq_true] at *) <;> subst_vars)) <;>
  (try simp (disch := omega) only [Nat.shiftLeft_eq, Nat.zero_or, Nat.mod_mod, or_add_1, or_add_2, or_add_3, or_add_4, or_add_5, or_add_6, or_add_7, or_add_8, or_add_10, or_add_12]) <;>
  (try simp only [bne_iff_ne, bne_eq_false_iff_eq, ne_eq]) <;>
  omega

theorem AmpControlMessage_roundtrip (v : AmpControlMessage) (buffer : List Nat)
    (hb : AmpControlMessage.SIZE_BYTES ≤ buffer.length) :
    AmpControlMessage.deserialize (v.serialize buffer) = v := by
  unfold AmpControlMessage.SIZE_BYTES at hb
  obtain ⟨_ | _, _ | _, _ | _, _ | _⟩ := v <;>
  simp [AmpControlMessage.deserialize, AmpControlMessage.serialize, byte_at_store,
    lt_length_of_le hb] <;>
  decide

theorem DataTransferMessage_roundtrip (v : DataTransferMessage) (hv : v.valid)
    (buffer : List Nat) (hb : DataTransferMessage.SIZE_BYTES ≤ buffer.length) :
    DataTransferMessage.deserialize (v.serialize buffer) = v := by
  unfold DataTransferMessage.SIZE_BYTES at hb
  obtain ⟨data, dl, sq, w1, w2, dt, dn⟩ := v
  simp only [DataTransferMessage.valid, DataTransferMessage.DATA_CAPACITY, Nat.reducePow] at hv
  obtain ⟨hlen, -, hv⟩ := hv
  have hdata : memcpy (List.replicate 32 0) 0
      (DataTransferMessage.serialize ⟨data, dl, sq, w1, w2, dt, dn⟩ buffer) 0 32 = data := by
    apply ext_byte_at
    · simp [hlen]
    · intro i hi
      simp only [length_memcpy, List.length_replicate] at hi
      have h32 : ¬ i = 32 := by omega
      have h33 : ¬ i = 33 := by omega
      have h34 : ¬ i = 34 := by omega
      have h35 : ¬ i = 35 := by omega
      have hi' : i < buffer.length := by omega
      simp [DataTransferMessage.serialize, DataTransferMessage.DATA_CAPACITY, byte_at_store, byte_at_memset, byte_at_memcpy, length_store, length_memset, length_memcpy, lt_length_of_le hb, hi, hi',
        h32, h33, h34, h35]
  simp only [DataTransferMessage.deserialize, DataTransferMessage.DATA_CAPACITY,
    DataTransferMessage.mk.injEq]
  refine ⟨hdata, ?_⟩
  simp [DataTransferMessage.serialize, DataTransferMessage.DATA_CAPACITY, byte_at_store, byte_at_memset, byte_at_memcpy, length_store, length_memset, length_memcpy, lt_length_of_le hb]
  try simp only [Nat.shiftRight_eq_div_pow, and_0x03, and_0x07, and_0x0F, and_0x1F, and_0x3F, and_0x7F, and_0xFF, and_0xFFF, and_0xFFFFFFFF, and_0xF0, and_0x80, and_0x40, and_0x20, and_0x10, and_0x08, and_0x04, Nat.mod_mod]
  (repeat' apply And.intro) <;>
  (try (split_ifs <;> (try simp only [Bool.not_eq_true] at *) <;> subst_vars)) <;>
  (try simp (disch := omega) only [Nat.shiftLeft_eq, Nat.zero_or, Nat.mod_mod, or_add_1, or_add_2, or_add_3, or_add_4, or_add_5, or_add_6, or_add_7, or_add_8, or_add_10, or_add_12]) <;>
  (try simp only [bne_iff_ne, bne_eq_false_iff_eq, ne_eq]) <;>
  omega

/-! ## What `serialize` writes -/

theorem visit_fst (v : CanBusMessage) (b b' : List Nat) :
    (CanBusMultiFrameEncoder.visit v b).1 = (CanBusMultiFrameEncoder.visit v b').1 := by
  cases v <;> rfl

theorem visit_length (v : CanBusMessage) (b : List Nat) :
    (CanBusMultiFrameEncoder.visit v b).2.length = b.length := by
  cases v <;>
  simp [CanBusMultiFrameEncoder.visit, AckMessage.serialize, AirBrakesControlMessage.serialize,
    AmpControlMessage.serialize, AmpOverwriteMessage.serialize, AmpResetOutputMessage.serialize,
    AmpStatusMessage.serialize, BaroMeasurementMessage.serialize,
    BrightnessMeasurementMessage.serialize, DataTransferMessage.serialize,
    IcarusStatusMessage.serialize, IMUMeasurementMessage.serialize,
    MagMeasurementMessage.serialize, NodeStatusMessage.serialize,
    OzysMeasurementMessage.serialize, PayloadEPSOutputOverwriteMessage.serialize,
    PayloadEPSStatusMessage.serialize, PayloadEPSOutputStatus.serialize,
    PreUnixTimeMessage.serialize, ResetMessage.serialize, RocketStateMessage.serialize,
    UnixTimeMessage.serialize, VLStatusMessage.serialize,
    write_u16_be, write_u24_be, write_u32_be, write_u56_be]

theorem byte_at_store_of_ne (b : List Nat) (i v j : Nat) (h : j ≠ i) :
    byte_at (store b i v) j = byte_at b j := by
  rw [byte_at_store, if_neg (fun c => h c.1)]

theorem byte_at_memset_of_ge (b : List Nat) (off v n j : Nat) (h : off + n ≤ j) :
    byte_at (memset b off v n) j = byte_at b j := by
  rw [byte_at_memset, if_neg (by omega)]

theorem byte_at_memcpy_of_ge (dst : List Nat) (doff : Nat) (src : List Nat) (soff n j : Nat)
    (h : doff + n ≤ j) : byte_at (memcpy dst doff src soff n) j = byte_at dst j := by
  rw [byte_at_memcpy, if_neg (by omega)]

theorem visit_frame (v : CanBusMessage) (b : List Nat) (i : Nat)
    (hi : (CanBusMultiFrameEncoder.visit v b).1 ≤ i) :
    byte_at (CanBusMultiFrameEncoder.visit v b).2 i = byte_at b i := by
  cases v <;>
  simp only [CanBusMultiFrameEncoder.visit, AckMessage.SIZE_BYTES,
    AirBrakesControlMessage.SIZE_BYTES, AmpControlMessage.SIZE_BYTES,
    AmpOverwriteMessage.SIZE_BYTES, AmpResetOutputMessage.SIZE_BYTES,
    AmpStatusMessage.SIZE_BYTES, BaroMeasurementMessage.SIZE_BYTES,
    BrightnessMeasurementMessage.SIZE_BYTES, DataTransferMessage.SIZE_BYTES,
    IcarusStatusMessage.SIZE_BYTES, IMUMeasurementMessage.SIZE_BYTES,
    MagMeasurementMessage.SIZE_BYTES, NodeStatusMessage.SIZE_BYTES,
    OzysMeasurementMessage.SIZE_BYTES, PayloadEPSOutputOverwriteMessage.SIZE_BYTES,
    PayloadEPSStatusMessage.SIZE_BYTES, PreUnixTimeMessage.SIZE_BYTES, ResetMessage.SIZE_BYTES,
    RocketStateMessage.SIZE_BYTES, UnixTimeMessage.SIZE_BYTES, VLStatusMessage.SIZE_BYTES]
    at hi <;>
  simp (disch := omega) only [CanBusMultiFrameEncoder.visit, DataTransferMessage.DATA_CAPACITY,
    AckMessage.SIZE_BYTES, AirBrakesControlMessage.SIZE_BYTES, AmpStatusMessage.SIZE_BYTES,
    AckMessage.serialize, AirBrakesControlMessage.serialize,
    AmpControlMessage.serialize, AmpOverwriteMessage.serialize, AmpResetOutputMessage.serialize,
    AmpStatusMessage.serialize, BaroMeasurementMessage.serialize,
    BrightnessMeasurementMessage.serialize, DataTransferMessage.serialize,
    IcarusStatusMessage.serialize, IMUMeasurementMessage.serialize,
    MagMeasurementMessage.serialize, NodeStatusMessage.serialize,
    OzysMeasurementMessage.serialize, PayloadEPSOutputOverwriteMessage.serialize,
    PayloadEPSStatusMessage.serialize, PayloadEPSOutputStatus.serialize,
    PreUnixTimeMessage.serialize, ResetMessage.serialize, RocketStateMessage.serialize,
    UnixTimeMessage.serialize, VLStatusMessage.serialize,
    write_u16_be, write_u24_be, write_u32_be, write_u56_be,
    byte_at_store_of_ne, byte_at_memset_of_ge, byte_at_memcpy_of_ge]

theorem byte_at_store_of_lt (b : List Nat) (i v j : Nat) (h : i < b.length) :
    byte_at (store b i v) j = if j = i then v % 256 else byte_at b j := by
  rw [byte_at_store]; simp [h]

theorem byte_at_memset_of_le (b : List Nat) (off v n j : Nat) (h : off + n ≤ b.length) :
    byte_at (memset b off v n) j = if off ≤ j ∧ j < off + n then v % 256 else byte_at b j := by
  rw [byte_at_memset]
  by_cases h1 : off ≤ j ∧ j < off + n
  · rw [if_pos h1, if_pos ⟨h1.1, h1.2, by omega⟩]
  · rw [if_neg h1, if_neg (fun c => h1 ⟨c.1, c.2.1⟩)]

theorem byte_at_memcpy_of_le (dst : List Nat) (doff : Nat) (src : List Nat) (soff n j : Nat)
    (h : doff + n ≤ dst.length) :
    byte_at (memcpy dst doff src soff n) j
      = if doff ≤ j ∧ j < doff + n then byte_at src (soff + (j - doff)) else byte_at dst j := by
  rw [byte_at_memcpy]
  by_cases h1 : doff ≤ j ∧ j < doff + n
  · rw [if_pos h1, if_pos ⟨h1.1, h1.2, by omega⟩]
  · rw [if_neg h1, if_neg (fun c => h1 ⟨c.1, c.2.1⟩)]

theorem ite_tail_congr {c : Prop} [Decidable c] {a x y : Nat} (h : ¬ c → x = y) :
    (if c then a else x) = (if c then a else y) := by
  by_cases hc : c
  · simp [hc]
  · simp [hc, h hc]

set_option maxHeartbeats 1000000 in
theorem visit_indep (v : CanBusMessage) (b b' : List Nat) (i : Nat)
    (hb : (CanBusMultiFrameEncoder.visit v b).1 ≤ b.length)
    (hb' : (CanBusMultiFrameEncoder.visit v b).1 ≤ b'.length)
    (hi : i < (CanBusMultiFrameEncoder.visit v b).1) :
    byte_at (CanBusMultiFrameEncoder.visit v b).2 i
      = byte_at (CanBusMultiFrameEncoder.visit v b').2 i := by
  have hib : (i < b.length) = True := by simp; omega
  have hib' : (i < b'.length) = True := by simp; omega
  cases v <;>
  simp only [CanBusMultiFrameEncoder.visit, AckMessage.SIZE_BYTES,
    AirBrakesControlMessage.SIZE_BYTES, AmpControlMessage.SIZE_BYTES,
    AmpOverwriteMessage.SIZE_BYTES, AmpResetOutputMessage.SIZE_BYTES,
    AmpStatusMessage.SIZE_BYTES, BaroMeasurementMessage.SIZE_BYTES,
    BrightnessMeasurementMessage.SIZE_BYTES, DataTransferMessage.SIZE_BYTES,
    IcarusStatusMessage.SIZE_BYTES, IMUMeasurementMessage.SIZE_BYTES,
    MagMeasurementMessage.SIZE_BYTES, NodeStatusMessage.SIZE_BYTES,
    OzysMeasurementMessage.SIZE_BYTES, PayloadEPSOutputOverwriteMessage.SIZE_BYTES,
    PayloadEPSStatusMessage.SIZE_BYTES, PreUnixTimeMessage.SIZE_BYTES, ResetMessage.SIZE_BYTES,
    RocketStateMessage.SIZE_BYTES, UnixTimeMessage.SIZE_BYTES, VLStatusMessage.SIZE_BYTES]
    at hi hb hb' <;>
  (try omega) <;>
  simp [CanBusMultiFrameEncoder.visit, DataTransferMessage.DATA_CAPACITY,
    AckMessage.SIZE_BYTES, AirBrakesControlMessage.SIZE_BYTES, AmpStatusMessage.SIZE_BYTES,
    AckMessage.serialize, AirBrakesControlMessage.serialize,
    AmpControlMessage.serialize, AmpOverwriteMessage.serialize, AmpResetOutputMessage.serialize,
    AmpStatusMessage.serialize, BaroMeasurementMessage.serialize,
    BrightnessMeasurementMessage.serialize, DataTransferMessage.serialize,
    IcarusStatusMessage.serialize, IMUMeasurementMessage.serialize,
    MagMeasurementMessage.serialize, NodeStatusMessage.serialize,
    OzysMeasurementMessage.serialize, PayloadEPSOutputOverwriteMessage.serialize,
    PayloadEPSStatusMessage.serialize, PayloadEPSOutputStatus.serialize,
    PreUnixTimeMessage.serialize, ResetMessage.serialize, RocketStateMessage.serialize,
    UnixTimeMessage.serialize, VLStatusMessage.serialize,
    write_u16_be, write_u24_be, write_u32_be, write_u56_be,
    byte_at_store, byte_at_memset, byte_at_memcpy, lt_length_of_le hb, lt_length_of_le hb',
    hib, hib'] <;>
  (repeat (refine ite_tail_congr (fun hc => ?_))) <;>
  first | rfl | (exfalso; omega)

theorem byte_at_append (a b : List Nat) (i : Nat) :
    byte_at (a ++ b) i = if i < a.length then byte_at a i else byte_at b (i - a.length) := by
  unfold byte_at
  by_cases h : i < a.length
  · simp [h, List.getD_eq_getElem?_getD, List.getElem?_append_left h]
  · simp [h, List.getD_eq_getElem?_getD, List.getElem?_append_right (Nat.le_of_not_lt h)]

theorem byte_at_take (l : List Nat) (n i : Nat) :
    byte_at (l.take n) i = if i < n then byte_at l i else 0 := by
  unfold byte_at
  by_cases h : i < n
  · simp [h, List.getD_eq_getElem?_getD, List.getElem?_take_of_lt h]
  · have h' : (l.take n).length ≤ i := by simp; omega
    simp [h, List.getD_eq_getElem?_getD, List.getElem?_eq_none h']

theorem byte_at_drop (l : List Nat) (n i : Nat) : byte_at (l.drop n) i = byte_at l (n + i) := by
  unfold byte_at
  simp [List.getD_eq_getElem?_getD, List.getElem?_drop]

theorem visit_size_le (v : CanBusMessage) (b : List Nat) :
    (CanBusMultiFrameEncoder.visit v b).1 ≤ 36 := by
  cases v <;> simp only [CanBusMultiFrameEncoder.visit] <;> decide

theorem visit_fst_eq (v : CanBusMessage) (b : List Nat) :
    (CanBusMultiFrameEncoder.visit v b).1 = v.SIZE_BYTES := visit_fst v b []

theorem serialized_length (v : CanBusMessage) : v.serialized.length = v.SIZE_BYTES := by
  have h := visit_size_le v []
  rw [visit_fst_eq] at h
  simp [CanBusMessage.serialized, visit_length, CanBusMultiFrameEncoder.MAX_CAN_MESSAGE_SIZE]
  omega

/-- On a buffer of at least `SIZE_BYTES` cells `serialize` leaves `serialized` in the first
`SIZE_BYTES` cells and the rest as it was. -/
theorem visit_eq (v : CanBusMessage) (buffer : List Nat) (hb : v.SIZE_BYTES ≤ buffer.length) :
    (CanBusMultiFrameEncoder.visit v buffer).2 = v.serialized ++ buffer.drop v.SIZE_BYTES := by
  have h36 := visit_size_le v []
  rw [visit_fst_eq] at h36
  apply ext_byte_at
  · simp [visit_length, serialized_length]; omega
  · intro i hi
    rw [byte_at_append, serialized_length, byte_at_drop]
    by_cases h : i < v.SIZE_BYTES
    · rw [if_pos h, CanBusMessage.serialized, byte_at_take, if_pos h]
      apply visit_indep
      · rw [visit_fst_eq]; exact hb
      · rw [visit_fst_eq]
        simp [CanBusMultiFrameEncoder.MAX_CAN_MESSAGE_SIZE]; omega
      · rw [visit_fst_eq]; exact h
    · rw [if_neg h]
      have e : v.SIZE_BYTES + (i - v.SIZE_BYTES) = i := by omega
      rw [e]
      apply visit_frame
      rw [visit_fst_eq]; omega

theorem byte_at_visit (v : CanBusMessage) (buffer : List Nat) (hb : v.SIZE_BYTES ≤ buffer.length)
    (i : Nat) (hi : i < v.SIZE_BYTES) :
    byte_at (CanBusMultiFrameEncoder.visit v buffer).2 i = byte_at v.serialized i := by
  rw [visit_eq v buffer hb, byte_at_append, serialized_length, if_pos hi]

/-! ## The branches of `StateMachine::process_frame` -/

open detail


theorem to_byte_lt (t : TailByte) : t.to_byte < 256 := by
  obtain ⟨_ | _, _ | _, _ | _⟩ := t <;> decide

theorem from_byte_to_byte (t : TailByte) : TailByte.from_byte t.to_byte = t := by
  obtain ⟨_ | _, _ | _, _ | _⟩ := t <;> decide

theorem sm_process_frame_zero (sm : StateMachine) (id : Nat) (fd : List Nat) (ts : Nat) :
    sm.process_frame id fd 0 ts = (none, sm) := by
  rw [StateMachine.process_frame]; simp

theorem sm_process_frame_single (sm : StateMachine) (id : Nat) (fd : List Nat) (fl ts : Nat)
    (hfl : fl ≠ 0) (t : TailByte) (ht : TailByte.from_byte (byte_at fd (fl - 1)) = t)
    (hs : t.start_of_transfer = true) (he : t.end_of_transfer = true) :
    sm.process_frame id fd fl ts
      = (if t.toggle then none
         else (decode ((id >>> 18) &&& 0xFF) fd).map
           (fun m => { id := id, crc := StateMachine.calculate_crc fd (fl - 1), message := m }),
         sm) := by
  rw [StateMachine.process_frame]
  simp only [hfl, if_false, ht, hs, he, Bool.and_self, if_true]
  cases t.toggle
  · cases decode ((id >>> 18) &&& 0xFF) fd <;> simp
  · simp

theorem sm_process_frame_empty (sm : StateMachine) (id : Nat) (fd : List Nat) (fl ts : Nat)
    (hfl : fl ≠ 0) (t : TailByte) (ht : TailByte.from_byte (byte_at fd (fl - 1)) = t)
    (hns : (t.start_of_transfer && t.end_of_transfer) = false)
    (hty : sm.type = SlotType.Empty) :
    sm.process_frame id fd fl ts
      = if t = ⟨true, false, false⟩ ∧ 4 ≤ fl then
          (none,
            { type := SlotType.MultiFrame
              multi_frame :=
                { id := id
                  first_frame_timestamp_us := ts
                  crc := ((byte_at fd 0 % 2 ^ 16) ||| ((byte_at fd 1 % 2 ^ 16) <<< 8)) % 2 ^ 16
                  data := memcpy sm.multi_frame.data 0 fd 2 (fl - 3)
                  data_len := fl - 3 } })
        else (none, sm) := by
  rw [StateMachine.process_frame]
  simp only [hfl, if_false, ht, hns, hty, dite_true]
  obtain ⟨_ | _, _ | _, _ | _⟩ := t <;> simp <;> split_ifs <;> first | rfl | omega

theorem sm_process_frame_other (sm : StateMachine) (id : Nat) (fd : List Nat) (fl ts : Nat)
    (hfl : fl ≠ 0) (t : TailByte) (ht : TailByte.from_byte (byte_at fd (fl - 1)) = t)
    (hns : (t.start_of_transfer && t.end_of_transfer) = false)
    (hty : sm.type = SlotType.MultiFrame) (hid : sm.multi_frame.id ≠ id) :
    sm.process_frame id fd fl ts
      = StateMachine.process_frame { sm with type := SlotType.Empty } id fd fl ts := by
  rw [StateMachine.process_frame]
  simp only [hfl, if_false, ht, hns, hty]
  simp
  intro h
  exact absurd h hid

theorem sm_process_frame_same (sm : StateMachine) (id : Nat) (fd : List Nat) (fl ts : Nat)
    (hfl : fl ≠ 0) (t : TailByte) (ht : TailByte.from_byte (byte_at fd (fl - 1)) = t)
    (hns : (t.start_of_transfer && t.end_of_transfer) = false)
    (hty : sm.type = SlotType.MultiFrame) (hid : sm.multi_frame.id = id) :
    sm.process_frame id fd fl ts
      = if t.toggle ≠ ((size_t_sub sm.multi_frame.data_len 5 / 7) % 2 == 0) then (none, sm)
        else if t.start_of_transfer then (none, sm)
        else if sm.multi_frame.data_len + (fl - 1) > 256 then
          (none, { sm with type := SlotType.Empty })
        else
          let data := memcpy sm.multi_frame.data sm.multi_frame.data_len fd 0 (fl - 1)
          let data_len := sm.multi_frame.data_len + (fl - 1)
          let mf : MultiFrameState := { sm.multi_frame with data := data, data_len := data_len }
          if t.end_of_transfer then
            if StateMachine.calculate_crc data data_len ≠ sm.multi_frame.crc then
              (none, { type := SlotType.Empty, multi_frame := mf })
            else
              ((decode ((id >>> 18) &&& 0xFF) data).map
                (fun m => { id := id, crc := StateMachine.calculate_crc data data_len,
                            message := m }),
                { type := SlotType.Empty, multi_frame := mf })
          else (none, { type := SlotType.MultiFrame, multi_frame := mf }) := by
  rw [StateMachine.process_frame]
  simp only [hfl, if_false, ht, hns, hty, hid]
  simp
  split_ifs <;> try rfl
  cases decode ((id >>> 18) &&& 0xFF) _ <;> rfl

/-! ## Frames -/

theorem byte_at_replicate_zero (n i : Nat) : byte_at (List.replicate n 0) i = 0 := by
  unfold byte_at
  by_cases h : i < n
  · simp [List.getD_eq_getElem?_getD, List.getElem?_replicate, h]
  · simp [List.getD_eq_getElem?_getD, List.getElem?_replicate, h]

theorem byte_at_cons_zero (x : Nat) (l : List Nat) : byte_at (x :: l) 0 = x := rfl

theorem byte_at_cons_succ (x : Nat) (l : List Nat) (i : Nat) :
    byte_at (x :: l) (i + 1) = byte_at l i := rfl

theorem mkframe_len (p : List Nat) (t : TailByte) : (mkframe p t).len = p.length + 1 := rfl

theorem mkframe_data_length (p : List Nat) (t : TailByte) : (mkframe p t).data.length = 8 := by
  simp [mkframe]

theorem byte_at_mkframe (p : List Nat) (t : TailByte) (hp : p.length ≤ 7) (i : Nat) :
    byte_at (mkframe p t).data i
      = if i < p.length then byte_at p i else if i = p.length then t.to_byte else 0 := by
  have ht := to_byte_lt t
  simp only [mkframe, byte_at_store, byte_at_memcpy, length_memcpy, List.length_replicate,
    byte_at_replicate_zero]
  split_ifs <;> first | rfl | omega | (congr 1; omega) | (exfalso; omega)

theorem mkframe_tail (p : List Nat) (t : TailByte) (hp : p.length ≤ 7) :
    TailByte.from_byte (byte_at (mkframe p t).data ((mkframe p t).len - 1)) = t := by
  rw [mkframe_len, Nat.add_sub_cancel, byte_at_mkframe p t hp, if_neg (by omega), if_pos rfl,
    from_byte_to_byte]

/-- A frame built in place by the encoder is `mkframe` of the bytes copied. -/
theorem encoder_frame_eq (buf : List Nat) (o k : Nat) (t : TailByte) (hk : k ≤ 7)
    (hb : o + k ≤ buf.length) :
    ({ data := store (memcpy (List.replicate 8 0) 0 buf o k) k t.to_byte, len := k + 1 } : Frame)
      = mkframe ((buf.drop o).take k) t := by
  have hl : ((buf.drop o).take k).length = k := by simp; omega
  have ht := to_byte_lt t
  simp only [mkframe, hl]
  congr 1
  apply ext_byte_at
  · simp
  · intro i _
    simp only [byte_at_store, byte_at_memcpy, length_memcpy, List.length_replicate,
      byte_at_replicate_zero, byte_at_take, byte_at_drop]
    split_ifs <;> first | rfl | omega | (congr 1; omega) | (exfalso; omega)

theorem encoder_first_frame_eq (buf : List Nat) (c : Nat) (hb : 5 ≤ buf.length) :
    ({ data := store (memcpy (store (store (List.replicate 8 0) 0 (c &&& 0xFF)) 1
          ((c >>> 8) &&& 0xFF)) 2 buf 0 5) 7 (TailByte.to_byte ⟨true, false, false⟩),
       len := 8 } : Frame)
      = mkframe (((c &&& 0xFF) % 256 :: ((c >>> 8) &&& 0xFF) % 256 :: buf).take 7)
          ⟨true, false, false⟩ := by
  have hl : (((c &&& 0xFF) % 256 :: ((c >>> 8) &&& 0xFF) % 256 :: buf).take 7).length = 7 := by
    simp; omega
  simp only [mkframe, hl]
  congr 1
  apply ext_byte_at
  · simp
  · intro i hi
    simp only [length_store, length_memcpy, List.length_replicate] at hi
    interval_cases i <;>
    simp [byte_at_store, byte_at_memcpy, byte_at_replicate_zero, byte_at_take,
      byte_at_cons_zero, byte_at_cons_succ] <;> rfl

/-! ## The encoder emits the frame layout -/

theorem drain_done (fuel : Nat) (e : CanBusMultiFrameEncoder) (h : e.has_next = false) :
    CanBusMultiFrameEncoder.drain fuel e = ([], e) := by
  cases fuel with
  | zero => rfl
  | succ n => simp [CanBusMultiFrameEncoder.drain, h]

theorem cont_frames_aux_fuel (f1 : Nat) : ∀ (f2 : Nat) (tg : Bool) (rest : List Nat),
    rest.length ≤ f1 → rest.length ≤ f2 →
    cont_frames_aux f1 tg rest = cont_frames_aux f2 tg rest := by
  induction f1 with
  | zero =>
    intro f2 tg rest h1 _
    have h0 : rest.length = 0 := by omega
    cases f2 with
    | zero => rfl
    | succ n => simp [cont_frames_aux, h0]
  | succ n ih =>
    intro f2 tg rest h1 h2
    cases f2 with
    | zero =>
      have h0 : rest.length = 0 := by omega
      simp [cont_frames_aux, h0]
    | succ m =>
      simp only [cont_frames_aux]
      split_ifs with h0 h7
      · rfl
      · rfl
      · congr 1
        apply ih <;> simp <;> omega

theorem next_single (e : CanBusMultiFrameEncoder) (h0 : e.offset = 0) (h7 : e.message_len ≤ 7)
    (hb : e.message_len ≤ e.serialized_message.length) :
    e.next = (mkframe (e.serialized_message.take e.message_len) ⟨true, true, false⟩,
      { e with offset := e.message_len }) := by
  have h := encoder_frame_eq e.serialized_message 0 e.message_len ⟨true, true, false⟩ h7
    (by omega)
  simp only [List.drop_zero] at h
  simp only [CanBusMultiFrameEncoder.next, h0, h7, and_self, if_true, h]

theorem next_first (e : CanBusMultiFrameEncoder) (h0 : e.offset = 0) (h8 : 8 ≤ e.message_len)
    (ht : e.toggle = false) (hb : e.message_len ≤ e.serialized_message.length) :
    e.next = (mkframe (((e.crc &&& 0xFF) % 256 :: ((e.crc >>> 8) &&& 0xFF) % 256
        :: e.serialized_message).take 7) ⟨true, false, false⟩,
      { e with offset := 5, toggle := true }) := by
  have h := encoder_first_frame_eq e.serialized_message e.crc (by omega)
  have h7 : ¬ e.message_len ≤ 7 := by omega
  simp only [CanBusMultiFrameEncoder.next, h0, h7, and_false, if_false, if_true, ht, h,
    Bool.not_false]

theorem next_last (e : CanBusMultiFrameEncoder) (h0 : 0 < e.offset)
    (hl : e.offset + 7 ≥ e.message_len) (ho : e.offset ≤ e.message_len)
    (hb : e.message_len ≤ e.serialized_message.length) :
    e.next = (mkframe ((e.serialized_message.drop e.offset).take (e.message_len - e.offset))
        ⟨false, true, e.toggle⟩,
      { e with offset := e.message_len, toggle := !e.toggle }) := by
  have h := encoder_frame_eq e.serialized_message e.offset (e.message_len - e.offset)
    ⟨false, true, e.toggle⟩ (by omega) (by omega)
  have h0' : ¬ e.offset = 0 := by omega
  simp only [CanBusMultiFrameEncoder.next, h0', false_and, if_false, hl, if_true, h]

theorem next_middle (e : CanBusMultiFrameEncoder) (h0 : 0 < e.offset)
    (hl : e.offset + 7 < e.message_len)
    (hb : e.message_len ≤ e.serialized_message.length) :
    e.next = (mkframe ((e.serialized_message.drop e.offset).take 7) ⟨false, false, e.toggle⟩,
      { e with offset := e.offset + 7, toggle := !e.toggle }) := by
  have h := encoder_frame_eq e.serialized_message e.offset 7
    ⟨false, false, e.toggle⟩ (by omega) (by omega)
  have h0' : ¬ e.offset = 0 := by omega
  have hl' : ¬ e.offset + 7 ≥ e.message_len := by omega
  simp only [CanBusMultiFrameEncoder.next, h0', false_and, if_false, hl', h]

theorem drain_cont (fuel : Nat) : ∀ (e : CanBusMultiFrameEncoder), 0 < e.offset →
    e.offset ≤ e.message_len → e.message_len ≤ e.serialized_message.length →
    (CanBusMultiFrameEncoder.drain fuel e).1
      = cont_frames_aux fuel e.toggle
          ((e.serialized_message.take e.message_len).drop e.offset) := by
  induction fuel with
  | zero => intro e _ _ _; rfl
  | succ n ih =>
    intro e h0 ho hb
    by_cases hn : e.offset < e.message_len
    · have hhn : e.has_next = true := by simp [CanBusMultiFrameEncoder.has_next, hn]
      have hrl : ((e.serialized_message.take e.message_len).drop e.offset).length
          = e.message_len - e.offset := by simp; omega
      simp only [CanBusMultiFrameEncoder.drain, hhn, if_true, cont_frames_aux, hrl]
      by_cases hl : e.offset + 7 ≥ e.message_len
      · rw [next_last e h0 hl ho hb]
        have hd : CanBusMultiFrameEncoder.has_next
            { e with offset := e.message_len, toggle := !e.toggle } = false := by
          simp [CanBusMultiFrameEncoder.has_next]
        rw [if_neg (by omega), if_pos (by omega)]
        simp only [drain_done _ _ hd, List.drop_take]
      · have hl' : e.offset + 7 < e.message_len := by omega
        rw [next_middle e h0 hl' hb, if_neg (by omega), if_neg (by omega)]
        have hih := ih { e with offset := e.offset + 7, toggle := !e.toggle }
          (by simp) (by simp; omega) (by simpa using hb)
        simp only at hih
        simp only [hih, List.drop_drop]
        congr 2
        rw [List.drop_take, List.take_take]
        congr 1
        omega
    · have hhn : e.has_next = false := by
        simp only [CanBusMultiFrameEncoder.has_next, decide_eq_false_iff_not]; omega
      have hrl : ((e.serialized_message.take e.message_len).drop e.offset).length = 0 := by
        simp; omega
      simp [CanBusMultiFrameEncoder.drain, hhn, cont_frames_aux, hrl]

theorem frames_single (e : CanBusMultiFrameEncoder) (h0 : e.offset = 0)
    (h1 : 1 ≤ e.message_len) (h7 : e.message_len ≤ 7)
    (hb : e.message_len ≤ e.serialized_message.length) :
    e.frames = [mkframe (e.serialized_message.take e.message_len) ⟨true, true, false⟩] := by
  obtain ⟨n, hn⟩ : ∃ n, e.message_len = n + 1 := ⟨e.message_len - 1, by omega⟩
  have hhn : e.has_next = true := by simp [CanBusMultiFrameEncoder.has_next]; omega
  have hd : CanBusMultiFrameEncoder.has_next { e with offset := e.message_len } = false := by
    simp [CanBusMultiFrameEncoder.has_next]
  have hf : e.frames = (CanBusMultiFrameEncoder.drain (n + 1) e).1 := by
    unfold CanBusMultiFrameEncoder.frames; rw [hn]
  rw [hf, CanBusMultiFrameEncoder.drain, if_pos hhn]
  simp only [next_single e h0 h7 hb, drain_done _ _ hd]

theorem frames_multi (e : CanBusMultiFrameEncoder) (h0 : e.offset = 0)
    (h8 : 8 ≤ e.message_len) (ht : e.toggle = false)
    (hb : e.message_len ≤ e.serialized_message.length) :
    e.frames = transfer_frames ((e.crc &&& 0xFF) % 256 :: ((e.crc >>> 8) &&& 0xFF) % 256
      :: e.serialized_message.take e.message_len) := by
  obtain ⟨n, hn⟩ : ∃ n, e.message_len = n + 1 := ⟨e.message_len - 1, by omega⟩
  have hhn : e.has_next = true := by simp [CanBusMultiFrameEncoder.has_next]; omega
  have hf : e.frames = (CanBusMultiFrameEncoder.drain (n + 1) e).1 := by
    unfold CanBusMultiFrameEncoder.frames; rw [hn]
  unfold transfer_frames
  rw [hf, CanBusMultiFrameEncoder.drain, if_pos hhn]
  simp only [next_first e h0 h8 ht hb]
  have hc := drain_cont n { e with offset := 5, toggle := true } (by simp) (by simp; omega)
    (by simpa using hb)
  simp only at hc
  rw [hc]
  congr 1
  · congr 1
    simp [List.take_succ_cons]
    rw [List.take_take]
    congr 1
    omega
  · unfold cont_frames
    simp only [List.drop_succ_cons]
    apply cont_frames_aux_fuel <;> simp <;> omega

/-! ## Reassembly of the frame layout in one slot -/

theorem expected_toggle (j : Nat) (h : 5 + 7 * j ≤ 256) :
    ((size_t_sub (5 + 7 * j) 5 / 7) % 2 == 0) = (j % 2 == 0) := by
  have e : size_t_sub (5 + 7 * j) 5 / 7 = j := by
    unfold size_t_sub SIZE_T_BITS
    omega
  rw [e]

/-- An opening frame of the layout, received by an empty slot. -/
theorem sm_open (sm : StateMachine) (r : Rx) (p : List Nat) (hp : p.length = 7)
    (hf : r.frame = mkframe p ⟨true, false, false⟩) (hty : sm.type = SlotType.Empty) :
    sm.process_frame r.frame_id r.frame.data r.frame.len r.timestamp_us
      = (none,
          { type := SlotType.MultiFrame
            multi_frame :=
              { id := r.frame_id
                first_frame_timestamp_us := r.timestamp_us
                crc := ((byte_at p 0 % 2 ^ 16) ||| ((byte_at p 1 % 2 ^ 16) <<< 8)) % 2 ^ 16
                data := memcpy sm.multi_frame.data 0 r.frame.data 2 5
                data_len := 5 } }) := by
  have ht := mkframe_tail p ⟨true, false, false⟩ (by omega)
  rw [← hf] at ht
  have hl : r.frame.len = 8 := by rw [hf, mkframe_len, hp]
  rw [sm_process_frame_empty sm _ _ _ _ (by omega) _ ht rfl hty, if_pos ⟨rfl, by omega⟩]
  have h0 : byte_at r.frame.data 0 = byte_at p 0 := by
    rw [hf, byte_at_mkframe p _ (by omega), if_pos (by omega)]
  have h1 : byte_at r.frame.data 1 = byte_at p 1 := by
    rw [hf, byte_at_mkframe p _ (by omega), if_pos (by omega)]
  rw [h0, h1, hl]

/-- A continuation frame of the layout that is not the last, received by the slot of its
transfer. -/
theorem sm_middle (sm : StateMachine) (r : Rx) (p : List Nat) (j : Nat) (hp : p.length = 7)
    (hf : r.frame = mkframe p ⟨false, false, j % 2 == 0⟩)
    (hty : sm.type = SlotType.MultiFrame) (hid : sm.multi_frame.id = r.frame_id)
    (hn : sm.multi_frame.data_len = 5 + 7 * j) (h256 : 5 + 7 * j + 7 ≤ 256) :
    sm.process_frame r.frame_id r.frame.data r.frame.len r.timestamp_us
      = (none,
          { type := SlotType.MultiFrame
            multi_frame :=
              { sm.multi_frame with
                data := memcpy sm.multi_frame.data sm.multi_frame.data_len r.frame.data 0 7
                data_len := 5 + 7 * (j + 1) } }) := by
  have ht := mkframe_tail p ⟨false, false, j % 2 == 0⟩ (by omega)
  rw [← hf] at ht
  have hl : r.frame.len = 8 := by rw [hf, mkframe_len, hp]
  rw [sm_process_frame_same sm _ _ _ _ (by omega) _ ht rfl hty hid]
  simp only [hn, expected_toggle j (by omega), ne_eq, not_true_eq_false, if_false, hl,
    Bool.false_eq_true]
  rw [if_neg (by omega)]
  have e1 : 8 - 1 = 7 := rfl
  have e2 : 5 + 7 * j + 7 = 5 + 7 * (j + 1) := by omega
  simp only [e1, e2]

/-- The last frame of the layout, received by the slot of its transfer. -/
theorem sm_last (sm : StateMachine) (r : Rx) (p : List Nat) (j : Nat) (hp : p.length ≤ 7)
    (hf : r.frame = mkframe p ⟨false, true, j % 2 == 0⟩)
    (hty : sm.type = SlotType.MultiFrame) (hid : sm.multi_frame.id = r.frame_id)
    (hn : sm.multi_frame.data_len = 5 + 7 * j) (h256 : 5 + 7 * j + p.length ≤ 256) :
    sm.process_frame r.frame_id r.frame.data r.frame.len r.timestamp_us
      = (if StateMachine.calculate_crc
              (memcpy sm.multi_frame.data sm.multi_frame.data_len r.frame.data 0 p.length)
              (5 + 7 * j + p.length) = sm.multi_frame.crc then
            (decode ((r.frame_id >>> 18) &&& 0xFF)
              (memcpy sm.multi_frame.data sm.multi_frame.data_len r.frame.data 0 p.length)).map
              (fun m =>
                { id := r.frame_id
                  crc := StateMachine.calculate_crc
                    (memcpy sm.multi_frame.data sm.multi_frame.data_len r.frame.data 0 p.length)
                    (5 + 7 * j + p.length)
                  message := m })
          else none,
          { type := SlotType.Empty
            multi_frame :=
              { sm.multi_frame with
                data := memcpy sm.multi_frame.data sm.multi_frame.data_len r.frame.data 0 p.length
                data_len := 5 + 7 * j + p.length } }) := by
  have ht := mkframe_tail p ⟨false, true, j % 2 == 0⟩ (by omega)
  rw [← hf] at ht
  have hl : r.frame.len = p.length + 1 := by rw [hf, mkframe_len]
  rw [sm_process_frame_same sm _ _ _ _ (by omega) _ ht rfl hty hid]
  simp only [hn, expected_toggle j (by omega), ne_eq, not_true_eq_false, if_false, hl,
    Bool.false_eq_true, Nat.add_sub_cancel, if_true]
  rw [if_neg (by omega)]
  split_ifs <;> rfl

theorem agree_step (data acc p fd : List Nat) (hlen : data.length = 256)
    (hacc : ∀ i, i < acc.length → byte_at data i = byte_at acc i)
    (hfd : ∀ i, i < p.length → byte_at fd i = byte_at p i)
    (h256 : acc.length + p.length ≤ 256) :
    ∀ i, i < acc.length + p.length →
      byte_at (memcpy data acc.length fd 0 p.length) i = byte_at (acc ++ p) i := by
  intro i hi
  rw [byte_at_memcpy, byte_at_append]
  by_cases h : i < acc.length
  · rw [if_neg (by omega), if_pos h, hacc i h]
  · rw [if_pos ⟨by omega, by omega, by omega⟩, if_neg h, Nat.zero_add, hfd _ (by omega)]

theorem byte_at_mkframe_payload (p : List Nat) (t : TailByte) (hp : p.length ≤ 7) (i : Nat)
    (hi : i < p.length) : byte_at (mkframe p t).data i = byte_at p i := by
  rw [byte_at_mkframe p t hp, if_pos hi]

theorem sm_run_length (rx : List Rx) : ∀ sm : StateMachine, (sm.run rx).1.length = rx.length := by
  induction rx with
  | nil => intro sm; rfl
  | cons r rs ih => intro sm; simp [StateMachine.run, ih]

theorem toggle_succ (j : Nat) : (!(j % 2 == 0)) = ((j + 1) % 2 == 0) := by
  rcases Nat.mod_two_eq_zero_or_one j with h | h
  · have h' : (j + 1) % 2 = 1 := by omega
    simp [h, h']
  · have h' : (j + 1) % 2 = 0 := by omega
    simp [h, h']

/-- The continuation frames of the layout, received in order by the slot of their transfer:
no result before the last frame, and at the last frame the CRC check and the dispatch on the
reassembled bytes. -/
theorem sm_run_cont (id c : Nat) (fuel : Nat) :
    ∀ (rest acc : List Nat) (j : Nat) (sm : StateMachine) (rx : List Rx),
      rest.length ≤ fuel → rest ≠ [] →
      rx.map Rx.frame = cont_frames_aux fuel (j % 2 == 0) rest →
      (∀ r ∈ rx, r.frame_id = id) →
      sm.type = SlotType.MultiFrame → sm.multi_frame.id = id → sm.multi_frame.crc = c →
      sm.multi_frame.data.length = 256 → sm.multi_frame.data_len = 5 + 7 * j →
      acc.length = 5 + 7 * j →
      (∀ i, i < acc.length → byte_at sm.multi_frame.data i = byte_at acc i) →
      acc.length + rest.length ≤ 256 →
      ∃ (k : Nat) (data : List Nat),
        (∀ i, i < acc.length + rest.length → byte_at data i = byte_at (acc ++ rest) i) ∧
        (sm.run rx).1 = List.replicate k none ++
          [if StateMachine.calculate_crc data (acc.length + rest.length) = c then
             (decode ((id >>> 18) &&& 0xFF) data).map
               (fun m => { id := id
                           crc := StateMachine.calculate_crc data (acc.length + rest.length)
                           message := m })
           else none] := by
  induction fuel with
  | zero =>
    intro rest acc j sm rx hfuel hne
    exfalso
    apply hne
    exact List.length_eq_zero.mp (by omega)
  | succ n ih =>
    intro rest acc j sm rx hfuel hne hrx hids hty hid hcrc hlen hn hacc hagree h256
    have hpos : rest.length ≠ 0 := fun h => hne (List.length_eq_zero.mp h)
    have hn' : sm.multi_frame.data_len = acc.length := by omega
    simp only [cont_frames_aux, hpos, if_false] at hrx
    by_cases h7 : rest.length ≤ 7
    · rw [if_pos h7] at hrx
      obtain ⟨r, rx', rfl, hr, hrx'⟩ := List.map_eq_cons_iff.mp hrx
      have hnil : rx' = [] := List.map_eq_nil_iff.mp hrx'
      subst hnil
      have hrid : r.frame_id = id := hids r (by simp)
      have hstep := sm_last sm r rest j h7 hr hty (by rw [hid, hrid]) hn (by omega)
      rw [hrid, hn', ← hacc, hcrc] at hstep
      refine ⟨0, memcpy sm.multi_frame.data acc.length r.frame.data 0 rest.length, ?_, ?_⟩
      · apply agree_step _ _ _ _ hlen hagree _ h256
        intro i hi
        rw [hr]
        exact byte_at_mkframe_payload rest _ h7 i hi
      · simp only [StateMachine.run, hrid, hstep, List.replicate_zero, List.nil_append]
    · rw [if_neg h7] at hrx
      obtain ⟨r, rx', rfl, hr, hrx'⟩ := List.map_eq_cons_iff.mp hrx
      have hrid : r.frame_id = id := hids r (by simp)
      have htl : (rest.take 7).length = 7 := by simp; omega
      have hstep := sm_middle sm r (rest.take 7) j htl hr hty (by rw [hid, hrid]) hn (by omega)
      rw [hrid, hn'] at hstep
      rw [toggle_succ] at hrx'
      have hdl : (rest.drop 7).length = rest.length - 7 := by simp
      have hal : (acc ++ rest.take 7).length = acc.length + 7 := by
        rw [List.length_append, htl]
      have key := agree_step sm.multi_frame.data acc (rest.take 7) r.frame.data hlen hagree
        (by
          intro i hi
          rw [hr]
          exact byte_at_mkframe_payload _ _ (by omega) i hi)
        (by omega)
      rw [htl] at key
      obtain ⟨k, data, hdata, hres⟩ := ih (rest.drop 7) (acc ++ rest.take 7) (j + 1)
        { type := SlotType.MultiFrame
          multi_frame :=
            { sm.multi_frame with
              data := memcpy sm.multi_frame.data acc.length r.frame.data 0 7
              data_len := 5 + 7 * (j + 1) } }
        rx' (by omega) (by intro h; rw [h] at hdl; simp at hdl; omega) hrx'
        (fun r' hr' => hids r' (by simp [hr'])) rfl hid hcrc (by simp [hlen]) rfl
        (by omega)
        (by
          intro i hi
          exact key i (by omega))
        (by omega)
      refine ⟨k + 1, data, ?_, ?_⟩
      · intro i hi
        have := hdata i (by omega)
        rw [List.append_assoc, List.take_append_drop] at this
        exact this
      · simp only [StateMachine.run, hrid, hstep]
        rw [hres, hal, hdl]
        have e : acc.length + 7 + (rest.length - 7) = acc.length + rest.length := by omega
        rw [e]
        rfl

/-- The frames of the layout for the non-tail bytes `w`, received in order by an empty slot:
no result before the last frame; at the last frame the CRC of the reassembled bytes is
compared with the CRC the first two bytes carry, and the bytes are dispatched. -/
theorem sm_run_transfer (id : Nat) (w : List Nat) (hw8 : 8 ≤ w.length) (hw : w.length ≤ 258)
    (sm : StateMachine) (hty : sm.type = SlotType.Empty)
    (hlen : sm.multi_frame.data.length = 256) (rx : List Rx)
    (hrx : rx.map Rx.frame = transfer_frames w) (hids : ∀ r ∈ rx, r.frame_id = id) :
    ∃ (k : Nat) (data : List Nat),
      (∀ i, i < w.length - 2 → byte_at data i = byte_at (w.drop 2) i) ∧
      (sm.run rx).1 = List.replicate k none ++
        [if StateMachine.calculate_crc data (w.length - 2)
              = ((byte_at w 0 % 2 ^ 16) ||| ((byte_at w 1 % 2 ^ 16) <<< 8)) % 2 ^ 16 then
           (decode ((id >>> 18) &&& 0xFF) data).map
             (fun m => { id := id
                         crc := StateMachine.calculate_crc data (w.length - 2)
                         message := m })
         else none] := by
  unfold transfer_frames at hrx
  obtain ⟨r, rx', rfl, hr, hrx'⟩ := List.map_eq_cons_iff.mp hrx
  have hrid : r.frame_id = id := hids r (by simp)
  have htl : (w.take 7).length = 7 := by simp; omega
  have hstep := sm_open sm r (w.take 7) htl hr hty
  rw [hrid] at hstep
  have hb0 : byte_at (w.take 7) 0 = byte_at w 0 := by rw [byte_at_take, if_pos (by omega)]
  have hb1 : byte_at (w.take 7) 1 = byte_at w 1 := by rw [byte_at_take, if_pos (by omega)]
  rw [hb0, hb1] at hstep
  have hal : ((w.drop 2).take 5).length = 5 := by simp; omega
  have hdl : (w.drop 7).length = w.length - 7 := by simp
  unfold cont_frames at hrx'
  obtain ⟨k, data, hdata, hres⟩ := sm_run_cont id
    (((byte_at w 0 % 2 ^ 16) ||| ((byte_at w 1 % 2 ^ 16) <<< 8)) % 2 ^ 16)
    (w.drop 7).length (w.drop 7) ((w.drop 2).take 5) 0
    { type := SlotType.MultiFrame
      multi_frame :=
        { id := id
          first_frame_timestamp_us := r.timestamp_us
          crc := ((byte_at w 0 % 2 ^ 16) ||| ((byte_at w 1 % 2 ^ 16) <<< 8)) % 2 ^ 16
          data := memcpy sm.multi_frame.data 0 r.frame.data 2 5
          data_len := 5 } }
    rx' (Nat.le_refl _) (by intro h; rw [h] at hdl; simp at hdl; omega) hrx'
    (fun r' hr' => hids r' (by simp [hr'])) rfl rfl rfl (by simp [hlen]) rfl (by omega)
    (by
      intro i hi
      rw [hal] at hi
      rw [byte_at_memcpy, if_pos ⟨by omega, by omega, by omega⟩, hr,
        byte_at_mkframe_payload _ _ (by omega) _ (by omega), byte_at_take, if_pos (by omega),
        byte_at_take, if_pos hi, byte_at_drop]
      congr 1)
    (by omega)
  have happ : (w.drop 2).take 5 ++ w.drop 7 = w.drop 2 := by
    have : w.drop 7 = (w.drop 2).drop 5 := by rw [List.drop_drop]
    rw [this, List.take_append_drop]
  rw [happ, hal, hdl] at hdata
  rw [hal, hdl] at hres
  have e : 5 + (w.length - 7) = w.length - 2 := by omega
  rw [e] at hdata hres
  refine ⟨k + 1, data, hdata, ?_⟩
  simp only [StateMachine.run, hrid, hstep]
  rw [hres]
  rfl

/-! ## From a fresh decoder every frame of one identifier goes to slot 0 -/

theorem range_Q : List.range CanBusMultiFrameDecoder.Q = [0, 1, 2, 3, 4, 5, 6, 7] := by decide

theorem slot_zero (s0 : StateMachine) (rest : List StateMachine) :
    CanBusMultiFrameDecoder.slot ⟨s0 :: rest⟩ 0 = s0 := rfl

theorem slot_succ_empty (s0 : StateMachine) (rest : List StateMachine)
    (hrest : ∀ sm ∈ rest, sm.type = SlotType.Empty) (i : Nat) :
    (CanBusMultiFrameDecoder.slot ⟨s0 :: rest⟩ (i + 1)).type = SlotType.Empty := by
  unfold CanBusMultiFrameDecoder.slot
  rw [List.getD_cons_succ, List.getD_eq_getElem?_getD]
  cases h : rest[i]? with
  | none => rfl
  | some sm =>
    rw [Option.getD_some]
    exact hrest sm (List.getElem?_mem h)

theorem has_same_id_of_empty (sm : StateMachine) (id : Nat) (h : sm.type = SlotType.Empty) :
    sm.has_same_id id = false := by
  simp [StateMachine.has_same_id, h]

/-- With every other slot empty, a frame whose identifier is not the log channel is
processed by slot 0 when that slot is empty or holds the same identifier. -/
theorem process_frame_slot0 (s0 : StateMachine) (rest : List StateMachine)
    (hrest : ∀ sm ∈ rest, sm.type = SlotType.Empty) (id : Nat) (fd : List Nat) (fl ts : Nat)
    (hmt : (id >>> 18) &&& 0xFF ≠ 255)
    (h0 : s0.type = SlotType.Empty ∨ s0.multi_frame.id = id) :
    CanBusMultiFrameDecoder.process_frame ⟨s0 :: rest⟩ id fd fl ts
      = ((s0.process_frame id fd fl ts).1, ⟨(s0.process_frame id fd fl ts).2 :: rest⟩) := by
  have hs : ∀ i, (CanBusMultiFrameDecoder.slot ⟨s0 :: rest⟩ (i + 1)).has_same_id id = false :=
    fun i => has_same_id_of_empty _ _ (slot_succ_empty s0 rest hrest i)
  unfold CanBusMultiFrameDecoder.process_frame
  simp only [hmt, if_false, range_Q]
  by_cases hty : s0.type = SlotType.Empty
  · have hs0 : s0.has_same_id id = false := has_same_id_of_empty _ _ hty
    have hf : List.find? (fun i => (CanBusMultiFrameDecoder.slot ⟨s0 :: rest⟩ i).has_same_id id)
        [0, 1, 2, 3, 4, 5, 6, 7] = none := by
      simp only [List.find?_cons, slot_zero, hs0, hs 0, hs 1, hs 2, hs 3, hs 4, hs 5, hs 6,
        List.find?_nil]
    have hl : CanBusMultiFrameDecoder.lru_index ⟨s0 :: rest⟩ = 0 := by
      unfold CanBusMultiFrameDecoder.lru_index
      simp only [range_Q, List.find?_cons, slot_zero, StateMachine.is_empty, hty, beq_self_eq_true]
    rw [hf]
    simp only [hl, CanBusMultiFrameDecoder.route, slot_zero, List.set_cons_zero]
  · have hid : s0.multi_frame.id = id := h0.resolve_left hty
    have hmf : s0.type = SlotType.MultiFrame := by
      cases h : s0.type with
      | Empty => exact absurd h hty
      | MultiFrame => rfl
    have hs0 : s0.has_same_id id = true := by
      simp [StateMachine.has_same_id, hmf, hid]
    simp only [List.find?_cons, slot_zero, hs0, CanBusMultiFrameDecoder.route,
      List.set_cons_zero]

theorem sm_process_frame_id (sm : StateMachine) (id : Nat) (fd : List Nat) (fl ts : Nat)
    (h0 : sm.type = SlotType.Empty ∨ sm.multi_frame.id = id) :
    (sm.process_frame id fd fl ts).2.type = SlotType.Empty ∨
      (sm.process_frame id fd fl ts).2.multi_frame.id = id := by
  by_cases hfl : fl = 0
  · subst hfl
    rw [sm_process_frame_zero]
    exact h0
  · by_cases hns : ((TailByte.from_byte (byte_at fd (fl - 1))).start_of_transfer &&
        (TailByte.from_byte (byte_at fd (fl - 1))).end_of_transfer) = true
    · simp only [Bool.and_eq_true] at hns
      rw [sm_process_frame_single sm id fd fl ts hfl _ rfl hns.1 hns.2]
      exact h0
    · simp only [Bool.not_eq_true] at hns
      by_cases hty : sm.type = SlotType.Empty
      · rw [sm_process_frame_empty sm id fd fl ts hfl _ rfl hns hty]
        split_ifs
        · right; rfl
        · exact h0
      · have hid : sm.multi_frame.id = id := h0.resolve_left hty
        have hmf : sm.type = SlotType.MultiFrame := by
          cases h : sm.type with
          | Empty => exact absurd h hty
          | MultiFrame => rfl
        rw [sm_process_frame_same sm id fd fl ts hfl _ rfl hns hmf hid]
        simp only
        split_ifs <;> first | exact h0 | (left; rfl) | (right; exact hid)

theorem run_slot0 (id : Nat) (hmt : (id >>> 18) &&& 0xFF ≠ 255) (rest : List StateMachine)
    (hrest : ∀ sm ∈ rest, sm.type = SlotType.Empty) (rx : List Rx) :
    ∀ (s0 : StateMachine), (∀ r ∈ rx, r.frame_id = id) →
      (s0.type = SlotType.Empty ∨ s0.multi_frame.id = id) →
      CanBusMultiFrameDecoder.run ⟨s0 :: rest⟩ rx = ((s0.run rx).1, ⟨(s0.run rx).2 :: rest⟩) := by
  induction rx with
  | nil => intro s0 _ _; rfl
  | cons r rs ih =>
    intro s0 hids h0
    have hrid : r.frame_id = id := hids r (by simp)
    simp only [CanBusMultiFrameDecoder.run, StateMachine.run, hrid]
    rw [process_frame_slot0 s0 rest hrest id _ _ _ hmt h0]
    simp only
    rw [ih _ (fun r' hr' => hids r' (by simp [hr'])) (sm_process_frame_id s0 id _ _ _ h0)]

theorem fresh_cons (d : CanBusMultiFrameDecoder) (hd : d.fresh) :
    ∃ (s0 : StateMachine) (rest : List StateMachine), d = ⟨s0 :: rest⟩ ∧
      s0.type = SlotType.Empty ∧ s0.multi_frame.data.length = 256 ∧
      ∀ sm ∈ rest, sm.type = SlotType.Empty := by
  obtain ⟨l⟩ := d
  obtain ⟨hl, hall⟩ := hd
  cases l with
  | nil => simp [CanBusMultiFrameDecoder.Q] at hl
  | cons s0 rest =>
    refine ⟨s0, rest, rfl, (hall s0 (by simp)).1, (hall s0 (by simp)).2, ?_⟩
    intro sm hsm
    exact (hall sm (by simp [hsm])).1

/-! ## `deserialize` reads only the first `SIZE_BYTES` bytes -/

theorem AckMessage_deserialize_congr (a b : List Nat)
    (h : ∀ i, i < AckMessage.SIZE_BYTES → byte_at a i = byte_at b i) :
    AckMessage.deserialize a = AckMessage.deserialize b := by
  unfold AckMessage.SIZE_BYTES at h
  simp [AckMessage.deserialize, PayloadEPSOutputStatus.deserialize, read_u16_be, read_u24_be,
    read_u32_be, read_u56_be, h]

theorem AirBrakesControlMessage_deserialize_congr (a b : List Nat)
    (h : ∀ i, i < AirBrakesControlMessage.SIZE_BYTES → byte_at a i = byte_at b i) :
    AirBrakesControlMessage.deserialize a = AirBrakesControlMessage.deserialize b := by
  unfold AirBrakesControlMessage.SIZE_BYTES at h
  simp [AirBrakesControlMessage.deserialize, PayloadEPSOutputStatus.deserialize, read_u16_be, read_u24_be,
    read_u32_be, read_u56_be, h]

theorem AmpControlMessage_deserialize_congr (a b : List Nat)
    (h : ∀ i, i < AmpControlMessage.SIZE_BYTES → byte_at a i = byte_at b i) :
    AmpControlMessage.deserialize a = AmpControlMessage.deserialize b := by
  unfold AmpControlMessage.SIZE_BYTES at h
  simp [AmpControlMessage.deserialize, PayloadEPSOutputStatus.deserialize, read_u16_be, read_u24_be,
    read_u32_be, read_u56_be, h]

theorem AmpOverwriteMessage_deserialize_congr (a b : List Nat)
    (h : ∀ i, i < AmpOverwriteMessage.SIZE_BYTES → byte_at a i = byte_at b i) :
    AmpOverwriteMessage.deserialize a = AmpOverwriteMessage.deserialize b := by
  unfold AmpOverwriteMessage.SIZE_BYTES at h
  simp [AmpOverwriteMessage.deserialize, PayloadEPSOutputStatus.deserialize, read_u16_be, read_u24_be,
    read_u32_be, read_u56_be, h]

theorem AmpResetOutputMessage_deserialize_congr (a b : List Nat)
    (h : ∀ i, i < AmpResetOutputMessage.SIZE_BYTES → byte_at a i = byte_at b i) :
    AmpResetOutputMessage.deserialize a = AmpResetOutputMessage.deserialize b := by
  unfold AmpResetOutputMessage.SIZE_BYTES at h
  simp [AmpResetOutputMessage.deserialize, PayloadEPSOutputStatus.deserialize, read_u16_be, read_u24_be,
    read_u32_be, read_u56_be, h]

theorem AmpStatusMessage_deserialize_congr (a b : List Nat)
    (h : ∀ i, i < AmpStatusMessage.SIZE_BYTES → byte_at a i = byte_at b i) :
    AmpStatusMessage.deserialize a = AmpStatusMessage.deserialize b := by
  unfold AmpStatusMessage.SIZE_BYTES at h
  simp [AmpStatusMessage.deserialize, PayloadEPSOutputStatus.deserialize, read_u16_be, read_u24_be,
    read_u32_be, read_u56_be, h]

theorem BaroMeasurementMessage_deserialize_congr (a b : List Nat)
    (h : ∀ i, i < BaroMeasurementMessage.SIZE_BYTES → byte_at a i = byte_at b i) :
    BaroMeasurementMessage.deserialize a = BaroMeasurementMessage.deserialize b := by
  unfold BaroMeasurementMessage.SIZE_BYTES at h
  simp [BaroMeasurementMessage.deserialize, PayloadEPSOutputStatus.deserialize, read_u16_be, read_u24_be,
    read_u32_be, read_u56_be, h]

theorem BrightnessMeasurementMessage_deserialize_congr (a b : List Nat)
    (h : ∀ i, i < BrightnessMeasurementMessage.SIZE_BYTES → byte_at a i = byte_at b i) :
    BrightnessMeasurementMessage.deserialize a = BrightnessMeasurementMessage.deserialize b := by
  unfold BrightnessMeasurementMessage.SIZE_BYTES at h
  simp [BrightnessMeasurementMessage.deserialize, PayloadEPSOutputStatus.deserialize, read_u16_be, read_u24_be,
    read_u32_be, read_u56_be, h]

theorem IcarusStatusMessage_deserialize_congr (a b : List Nat)
    (h : ∀ i, i < IcarusStatusMessage.SIZE_BYTES → byte_at a i = byte_at b i) :
    IcarusStatusMessage.deserialize a = IcarusStatusMessage.deserialize b := by
  unfold IcarusStatusMessage.SIZE_BYTES at h
  simp [IcarusStatusMessage.deserialize, PayloadEPSOutputStatus.deserialize, read_u16_be, read_u24_be,
    read_u32_be, read_u56_be, h]

theorem IMUMeasurementMessage_deserialize_congr (a b : List Nat)
    (h : ∀ i, i < IMUMeasurementMessage.SIZE_BYTES → byte_at a i = byte_at b i) :
    IMUMeasurementMessage.deserialize a = IMUMeasurementMessage.deserialize b := by
  unfold IMUMeasurementMessage.SIZE_BYTES at h
  simp [IMUMeasurementMessage.deserialize, PayloadEPSOutputStatus.deserialize, read_u16_be, read_u24_be,
    read_u32_be, read_u56_be, h]

theorem MagMeasurementMessage_deserialize_congr (a b : List Nat)
    (h : ∀ i, i < MagMeasurementMessage.SIZE_BYTES → byte_at a i = byte_at b i) :
    MagMeasurementMessage.deserialize a = MagMeasurementMessage.deserialize b := by
  unfold MagMeasurementMessage.SIZE_BYTES at h
  simp [MagMeasurementMessage.deserialize, PayloadEPSOutputStatus.deserialize, read_u16_be, read_u24_be,
    read_u32_be, read_u56_be, h]

theorem NodeStatusMessage_deserialize_congr (a b : List Nat)
    (h : ∀ i, i < NodeStatusMessage.SIZE_BYTES → byte_at a i = byte_at b i) :
    NodeStatusMessage.deserialize a = NodeStatusMessage.deserialize b := by
  unfold NodeStatusMessage.SIZE_BYTES at h
  simp [NodeStatusMessage.deserialize, PayloadEPSOutputStatus.deserialize, read_u16_be, read_u24_be,
    read_u32_be, read_u56_be, h]

theorem OzysMeasurementMessage_deserialize_congr (a b : List Nat)
    (h : ∀ i, i < OzysMeasurementMessage.SIZE_BYTES → byte_at a i = byte_at b i) :
    OzysMeasurementMessage.deserialize a = OzysMeasurementMessage.deserialize b := by
  unfold OzysMeasurementMessage.SIZE_BYTES at h
  simp [OzysMeasurementMessage.deserialize, PayloadEPSOutputStatus.deserialize, read_u16_be, read_u24_be,
    read_u32_be, read_u56_be, h]

theorem PayloadEPSOutputOverwriteMessage_deserialize_congr (a b : List Nat)
    (h : ∀ i, i < PayloadEPSOutputOverwriteMessage.SIZE_BYTES → byte_at a i = byte_at b i) :
    PayloadEPSOutputOverwriteMessage.deserialize a = PayloadEPSOutputOverwriteMessage.deserialize b := by
  unfold PayloadEPSOutputOverwriteMessage.SIZE_BYTES at h
  simp [PayloadEPSOutputOverwriteMessage.deserialize, PayloadEPSOutputStatus.deserialize, read_u16_be, read_u24_be,
    read_u32_be, read_u56_be, h]

theorem PayloadEPSStatusMessage_deserialize_congr (a b : List Nat)
    (h : ∀ i, i < PayloadEPSStatusMessage.SIZE_BYTES → byte_at a i = byte_at b i) :
    PayloadEPSStatusMessage.deserialize a = PayloadEPSStatusMessage.deserialize b := by
  unfold PayloadEPSStatusMessage.SIZE_BYTES at h
  simp [PayloadEPSStatusMessage.deserialize, PayloadEPSOutputStatus.deserialize, read_u16_be, read_u24_be,
    read_u32_be, read_u56_be, h]

theorem ResetMessage_deserialize_congr (a b : List Nat)
    (h : ∀ i, i < ResetMessage.SIZE_BYTES → byte_at a i = byte_at b i) :
    ResetMessage.deserialize a = ResetMessage.deserialize b := by
  unfold ResetMessage.SIZE_BYTES at h
  simp [ResetMessage.deserialize, PayloadEPSOutputStatus.deserialize, read_u16_be, read_u24_be,
    read_u32_be, read_u56_be, h]

theorem RocketStateMessage_deserialize_congr (a b : List Nat)
    (h : ∀ i, i < RocketStateMessage.SIZE_BYTES → byte_at a i = byte_at b i) :
    RocketStateMessage.deserialize a = RocketStateMessage.deserialize b := by
  unfold RocketStateMessage.SIZE_BYTES at h
  simp [RocketStateMessage.deserialize, PayloadEPSOutputStatus.deserialize, read_u16_be, read_u24_be,
    read_u32_be, read_u56_be, h]

theorem UnixTimeMessage_deserialize_congr (a b : List Nat)
    (h : ∀ i, i < UnixTimeMessage.SIZE_BYTES → byte_at a i = byte_at b i) :
    UnixTimeMessage.deserialize a = UnixTimeMessage.deserialize b := by
  unfold UnixTimeMessage.SIZE_BYTES at h
  simp [UnixTimeMessage.deserialize, PayloadEPSOutputStatus.deserialize, read_u16_be, read_u24_be,
    read_u32_be, read_u56_be, h]

theorem VLStatusMessage_deserialize_congr (a b : List Nat)
    (h : ∀ i, i < VLStatusMessage.SIZE_BYTES → byte_at a i = byte_at b i) :
    VLStatusMessage.deserialize a = VLStatusMessage.deserialize b := by
  unfold VLStatusMessage.SIZE_BYTES at h
  simp [VLStatusMessage.deserialize, PayloadEPSOutputStatus.deserialize, read_u16_be, read_u24_be,
    read_u32_be, read_u56_be, h]

theorem DataTransferMessage_deserialize_congr (a b : List Nat)
    (h : ∀ i, i < DataTransferMessage.SIZE_BYTES → byte_at a i = byte_at b i) :
    DataTransferMessage.deserialize a = DataTransferMessage.deserialize b := by
  unfold DataTransferMessage.SIZE_BYTES at h
  have hd : memcpy (List.replicate 32 0) 0 a 0 32 = memcpy (List.replicate 32 0) 0 b 0 32 := by
    apply ext_byte_at
    · simp
    · intro i hi
      simp only [length_memcpy, List.length_replicate] at hi
      rw [byte_at_memcpy, byte_at_memcpy]
      simp only [List.length_replicate, Nat.zero_add, Nat.sub_zero]
      rw [h i (by omega)]
  simp only [DataTransferMessage.deserialize, DataTransferMessage.DATA_CAPACITY, hd]
  simp [h]

/-! ## CRC-16: range and locality -/

theorem crc_shift_lt (c : Nat) : crc_shift c < 2 ^ 16 := by
  unfold crc_shift
  split_ifs <;> exact Nat.mod_lt _ (by decide)

theorem foldl_crc_shift_lt (l : List Nat) : ∀ c, c < 2 ^ 16 →
    l.foldl (fun crc _j => crc_shift crc) c < 2 ^ 16 := by
  induction l with
  | nil => intro c hc; exact hc
  | cons x xs ih => intro c _; exact ih _ (crc_shift_lt c)

theorem crc_update_lt (c b : Nat) : crc_update c b < 2 ^ 16 := by
  unfold crc_update
  exact foldl_crc_shift_lt _ _ (Nat.mod_lt _ (by decide))

theorem calculate_crc_eq (data : List Nat) (len : Nat) :
    StateMachine.calculate_crc data len = CanBusMultiFrameEncoder.calculate_crc data len := rfl

theorem calculate_crc_succ (data : List Nat) (n : Nat) :
    CanBusMultiFrameEncoder.calculate_crc data (n + 1)
      = crc_update (CanBusMultiFrameEncoder.calculate_crc data n) (byte_at data n) := by
  unfold CanBusMultiFrameEncoder.calculate_crc
  rw [List.range_succ, List.foldl_append]
  rfl

theorem calculate_crc_zero (data : List Nat) :
    CanBusMultiFrameEncoder.calculate_crc data 0 = 0xFFFF := by
  unfold CanBusMultiFrameEncoder.calculate_crc
  rfl

theorem calculate_crc_lt (data : List Nat) (len : Nat) :
    CanBusMultiFrameEncoder.calculate_crc data len < 2 ^ 16 := by
  cases len with
  | zero => rw [calculate_crc_zero]; decide
  | succ n => rw [calculate_crc_succ]; exact crc_update_lt _ _

theorem calculate_crc_congr (a b : List Nat) (n : Nat)
    (h : ∀ i, i < n → byte_at a i = byte_at b i) :
    CanBusMultiFrameEncoder.calculate_crc a n = CanBusMultiFrameEncoder.calculate_crc b n := by
  induction n with
  | zero => rw [calculate_crc_zero, calculate_crc_zero]
  | succ n ih =>
    rw [calculate_crc_succ, calculate_crc_succ, ih (fun i hi => h i (by omega)), h n (by omega)]

/-- The two CRC bytes of the first frame carry the 16-bit CRC, low byte first. -/
theorem crc_bytes (c : Nat) (hc : c < 2 ^ 16) :
    (((c &&& 0xFF) % 256) % 2 ^ 16 ||| ((((c >>> 8) &&& 0xFF) % 256) % 2 ^ 16) <<< 8) % 2 ^ 16
      = c := by
  simp only [and_0xFF, Nat.shiftRight_eq_div_pow, Nat.shiftLeft_eq, Nat.mod_mod]
  rw [Nat.lor_comm, or_eq_add 8 _ _ (by omega) (by omega)]
  omega

/-! ## The identifier carries the message type -/

theorem create_eq (p mt nt ni : Nat) :
    CanBusExtendedId.create p mt nt ni
      = p % 8 * 2 ^ 26 + mt % 256 * 2 ^ 18 + nt % 64 * 2 ^ 12 + ni % 4096 := by
  simp only [CanBusExtendedId.create, and_0xFF, and_0x07, and_0x3F, and_0xFFF, Nat.shiftLeft_eq,
    Nat.zero_or]
  rw [or_eq_add 26 (p % 8 * 2 ^ 26) (mt % 256 * 2 ^ 18) (by omega) (by omega),
    or_eq_add 18 _ (nt % 64 * 2 ^ 12) (by omega) (by omega),
    or_eq_add 12 _ (ni % 4096) (by omega) (by omega)]

theorem create_message_type (p mt nt ni : Nat) :
    (CanBusExtendedId.create p mt nt ni >>> 18) &&& 0xFF = mt % 256 := by
  rw [create_eq, and_0xFF, Nat.shiftRight_eq_div_pow]
  omega

/-! ## Dispatch on the serialized bytes -/

theorem byte_at_serialized (v : CanBusMessage) (i : Nat) (hi : i < v.SIZE_BYTES) :
    byte_at v.serialized i = byte_at (CanBusMultiFrameEncoder.visit v
      (List.replicate CanBusMultiFrameEncoder.MAX_CAN_MESSAGE_SIZE 0)).2 i := by
  rw [CanBusMessage.serialized, byte_at_take, if_pos hi]

/-- Any buffer that starts with the serialized bytes of a message in range is decoded, under
the message type of its identifier, to that message. -/
theorem decode_serialized (v : CanBusMessage) (hv : v.valid) (node_type node_id id : Nat)
    (hid : v.get_id node_type node_id = some id) (data : List Nat)
    (h : ∀ i, i < v.SIZE_BYTES → byte_at data i = byte_at v.serialized i) :
    decode ((id >>> 18) &&& 0xFF) data = some v := by
  have h' : ∀ i, i < v.SIZE_BYTES → byte_at data i = byte_at (CanBusMultiFrameEncoder.visit v
      (List.replicate CanBusMultiFrameEncoder.MAX_CAN_MESSAGE_SIZE 0)).2 i :=
    fun i hi => (h i hi).trans (byte_at_serialized v i hi)
  cases v with
  | monostate => simp [CanBusMessage.get_id] at hid
  | PreUnixTime m => simp [CanBusMessage.get_id] at hid
  | Ack m =>
    simp only [CanBusMessage.get_id, Option.some.injEq] at hid
    subst hid
    simp only [CanBusMessage.SIZE_BYTES, CanBusMultiFrameEncoder.visit] at h'
    rw [AckMessage.get_id, create_message_type]
    have hz : AckMessage.SIZE_BYTES
        ≤ (List.replicate CanBusMultiFrameEncoder.MAX_CAN_MESSAGE_SIZE 0).length := by
      rw [List.length_replicate]; decide
    have hc := AckMessage_deserialize_congr data
      (m.serialize (List.replicate CanBusMultiFrameEncoder.MAX_CAN_MESSAGE_SIZE 0)) h'
    rw [AckMessage_roundtrip m hv _ hz] at hc
    rw [← hc]
    rfl
  | AirBrakesControl m =>
    simp only [CanBusMessage.get_id, Option.some.injEq] at hid
    subst hid
    simp only [CanBusMessage.SIZE_BYTES, CanBusMultiFrameEncoder.visit] at h'
    rw [AirBrakesControlMessage.get_id, create_message_type]
    have hz : AirBrakesControlMessage.SIZE_BYTES
        ≤ (List.replicate CanBusMultiFrameEncoder.MAX_CAN_MESSAGE_SIZE 0).length := by
      rw [List.length_replicate]; decide
    have hc := AirBrakesControlMessage_deserialize_congr data
      (m.serialize (List.replicate CanBusMultiFrameEncoder.MAX_CAN_MESSAGE_SIZE 0)) h'
    rw [AirBrakesControlMessage_roundtrip m hv _ hz] at hc
    rw [← hc]
    rfl
  | AmpControl m =>
    simp only [CanBusMessage.get_id, Option.some.injEq] at hid
    subst hid
    simp only [CanBusMessage.SIZE_BYTES, CanBusMultiFrameEncoder.visit] at h'
    rw [AmpControlMessage.get_id, create_message_type]
    have hz : AmpControlMessage.SIZE_BYTES
        ≤ (List.replicate CanBusMultiFrameEncoder.MAX_CAN_MESSAGE_SIZE 0).length := by
      rw [List.length_replicate]; decide
    have hc := AmpControlMessage_deserialize_congr data
      (m.serialize (List.replicate CanBusMultiFrameEncoder.MAX_CAN_MESSAGE_SIZE 0)) h'
    rw [AmpControlMessage_roundtrip m _ hz] at hc
    rw [← hc]
    rfl
  | AmpOverwrite m =>
    simp only [CanBusMessage.get_id, Option.some.injEq] at hid
    subst hid
    simp only [CanBusMessage.SIZE_BYTES, CanBusMultiFrameEncoder.visit] at h'
    rw [AmpOverwriteMessage.get_id, create_message_type]
    have hz : AmpOverwriteMessage.SIZE_BYTES
        ≤ (List.replicate CanBusMultiFrameEncoder.MAX_CAN_MESSAGE_SIZE 0).length := by
      rw [List.length_replicate]; decide
    have hc := AmpOverwriteMessage_deserialize_congr data
      (m.serialize (List.replicate CanBusMultiFrameEncoder.MAX_CAN_MESSAGE_SIZE 0)) h'
    rw [AmpOverwriteMessage_roundtrip m hv _ hz] at hc
    rw [← hc]
    rfl
  | AmpResetOutput m =>
    simp only [CanBusMessage.get_id, Option.some.injEq] at hid
    subst hid
    simp only [CanBusMessage.SIZE_BYTES, CanBusMultiFrameEncoder.visit] at h'
    rw [AmpResetOutputMessage.get_id, create_message_type]
    have hz : AmpResetOutputMessage.SIZE_BYTES
        ≤ (List.replicate CanBusMultiFrameEncoder.MAX_CAN_MESSAGE_SIZE 0).length := by
      rw [List.length_replicate]; decide
    have hc := AmpResetOutputMessage_deserialize_congr data
      (m.serialize (List.replicate CanBusMultiFrameEncoder.MAX_CAN_MESSAGE_SIZE 0)) h'
    rw [AmpResetOutputMessage_roundtrip m hv _ hz] at hc
    rw [← hc]
    rfl
  | AmpStatus m =>
    simp only [CanBusMessage.get_id, Option.some.injEq] at hid
    subst hid
    simp only [CanBusMessage.SIZE_BYTES, CanBusMultiFrameEncoder.visit] at h'
    rw [AmpStatusMessage.get_id, create_message_type]
    have hz : AmpStatusMessage.SIZE_BYTES
        ≤ (List.replicate CanBusMultiFrameEncoder.MAX_CAN_MESSAGE_SIZE 0).length := by
      rw [List.length_replicate]; decide
    have hc := AmpStatusMessage_deserialize_congr data
      (m.serialize (List.replicate CanBusMultiFrameEncoder.MAX_CAN_MESSAGE_SIZE 0)) h'
    rw [AmpStatusMessage_roundtrip m hv _ hz] at hc
    rw [← hc]
    rfl
  | BaroMeasurement m =>
    simp only [CanBusMessage.get_id, Option.some.injEq] at hid
    subst hid
    simp only [CanBusMessage.SIZE_BYTES, CanBusMultiFrameEncoder.visit] at h'
    rw [BaroMeasurementMessage.get_id, create_message_type]
    have hz : BaroMeasurementMessage.SIZE_BYTES
        ≤ (List.replicate CanBusMultiFrameEncoder.MAX_CAN_MESSAGE_SIZE 0).length := by
      rw [List.length_replicate]; decide
    have hc := BaroMeasurementMessage_deserialize_congr data
      (m.serialize (List.replicate CanBusMultiFrameEncoder.MAX_CAN_MESSAGE_SIZE 0)) h'
    rw [BaroMeasurementMessage_roundtrip m hv _ hz] at hc
    rw [← hc]
    rfl
  | BrightnessMeasurement m =>
    simp only [CanBusMessage.get_id, Option.some.injEq] at hid
    subst hid
    simp only [CanBusMessage.SIZE_BYTES, CanBusMultiFrameEncoder.visit] at h'
    rw [BrightnessMeasurementMessage.get_id, create_message_type]
    have hz : BrightnessMeasurementMessage.SIZE_BYTES
        ≤ (List.replicate CanBusMultiFrameEncoder.MAX_CAN_MESSAGE_SIZE 0).length := by
      rw [List.length_replicate]; decide
    have hc := BrightnessMeasurementMessage_deserialize_congr data
      (m.serialize (List.replicate CanBusMultiFrameEncoder.MAX_CAN_MESSAGE_SIZE 0)) h'
    rw [BrightnessMeasurementMessage_roundtrip m hv _ hz] at hc
    rw [← hc]
    rfl
  | DataTransfer m =>
    simp only [CanBusMessage.get_id, Option.some.injEq] at hid
    subst hid
    simp only [CanBusMessage.SIZE_BYTES, CanBusMultiFrameEncoder.visit] at h'
    rw [DataTransferMessage.get_id, create_message_type]
    have hz : DataTransferMessage.SIZE_BYTES
        ≤ (List.replicate CanBusMultiFrameEncoder.MAX_CAN_MESSAGE_SIZE 0).length := by
      rw [List.length_replicate]; decide
    have hc := DataTransferMessage_deserialize_congr data
      (m.serialize (List.replicate CanBusMultiFrameEncoder.MAX_CAN_MESSAGE_SIZE 0)) h'
    rw [DataTransferMessage_roundtrip m hv _ hz] at hc
    rw [← hc]
    rfl
  | IcarusStatus m =>
    simp only [CanBusMessage.get_id, Option.some.injEq] at hid
    subst hid
    simp only [CanBusMessage.SIZE_BYTES, CanBusMultiFrameEncoder.visit] at h'
    rw [IcarusStatusMessage.get_id, create_message_type]
    have hz : IcarusStatusMessage.SIZE_BYTES
        ≤ (List.replicate CanBusMultiFrameEncoder.MAX_CAN_MESSAGE_SIZE 0).length := by
      rw [List.length_replicate]; decide
    have hc := IcarusStatusMessage_deserialize_congr data
      (m.serialize (List.replicate CanBusMultiFrameEncoder.MAX_CAN_MESSAGE_SIZE 0)) h'
    rw [IcarusStatusMessage_roundtrip m hv _ hz] at hc
    rw [← hc]
    rfl
  | IMUMeasurement m =>
    simp only [CanBusMessage.get_id, Option.some.injEq] at hid
    subst hid
    simp only [CanBusMessage.SIZE_BYTES, CanBusMultiFrameEncoder.visit] at h'
    rw [IMUMeasurementMessage.get_id, create_message_type]
    have hz : IMUMeasurementMessage.SIZE_BYTES
        ≤ (List.replicate CanBusMultiFrameEncoder.MAX_CAN_MESSAGE_SIZE 0).length := by
      rw [List.length_replicate]; decide
    have hc := IMUMeasurementMessage_deserialize_congr data
      (m.serialize (List.replicate CanBusMultiFrameEncoder.MAX_CAN_MESSAGE_SIZE 0)) h'
    rw [IMUMeasurementMessage_roundtrip m hv _ hz] at hc
    rw [← hc]
    rfl
  | MagMeasurement m =>
    simp only [CanBusMessage.get_id, Option.some.injEq] at hid
    subst hid
    simp only [CanBusMessage.SIZE_BYTES, CanBusMultiFrameEncoder.visit] at h'
    rw [MagMeasurementMessage.get_id, create_message_type]
    have hz : MagMeasurementMessage.SIZE_BYTES
        ≤ (List.replicate CanBusMultiFrameEncoder.MAX_CAN_MESSAGE_SIZE 0).length := by
      rw [List.length_replicate]; decide
    have hc := MagMeasurementMessage_deserialize_congr data
      (m.serialize (List.replicate CanBusMultiFrameEncoder.MAX_CAN_MESSAGE_SIZE 0)) h'
    rw [MagMeasurementMessage_roundtrip m hv _ hz] at hc
    rw [← hc]
    rfl
  | NodeStatus m =>
    simp only [CanBusMessage.get_id, Option.some.injEq] at hid
    subst hid
    simp only [CanBusMessage.SIZE_BYTES, CanBusMultiFrameEncoder.visit] at h'
    rw [NodeStatusMessage.get_id, create_message_type]
    have hz : NodeStatusMessage.SIZE_BYTES
        ≤ (List.replicate CanBusMultiFrameEncoder.MAX_CAN_MESSAGE_SIZE 0).length := by
      rw [List.length_replicate]; decide
    have hc := NodeStatusMessage_deserialize_congr data
      (m.serialize (List.replicate CanBusMultiFrameEncoder.MAX_CAN_MESSAGE_SIZE 0)) h'
    rw [NodeStatusMessage_roundtrip m hv _ hz] at hc
    rw [← hc]
    rfl
  | OzysMeasurement m =>
    simp only [CanBusMessage.get_id, Option.some.injEq] at hid
    subst hid
    simp only [CanBusMessage.SIZE_BYTES, CanBusMultiFrameEncoder.visit] at h'
    rw [OzysMeasurementMessage.get_id, create_message_type]
    have hz : OzysMeasurementMessage.SIZE_BYTES
        ≤ (List.replicate CanBusMultiFrameEncoder.MAX_CAN_MESSAGE_SIZE 0).length := by
      rw [List.length_replicate]; decide
    have hc := OzysMeasurementMessage_deserialize_congr data
      (m.serialize (List.replicate CanBusMultiFrameEncoder.MAX_CAN_MESSAGE_SIZE 0)) h'
    rw [OzysMeasurementMessage_roundtrip m hv _ hz] at hc
    rw [← hc]
    rfl
  | PayloadEPSOutputOverwrite m =>
    simp only [CanBusMessage.get_id, Option.some.injEq] at hid
    subst hid
    simp only [CanBusMessage.SIZE_BYTES, CanBusMultiFrameEncoder.visit] at h'
    rw [PayloadEPSOutputOverwriteMessage.get_id, create_message_type]
    have hz : PayloadEPSOutputOverwriteMessage.SIZE_BYTES
        ≤ (List.replicate CanBusMultiFrameEncoder.MAX_CAN_MESSAGE_SIZE 0).length := by
      rw [List.length_replicate]; decide
    have hc := PayloadEPSOutputOverwriteMessage_deserialize_congr data
      (m.serialize (List.replicate CanBusMultiFrameEncoder.MAX_CAN_MESSAGE_SIZE 0)) h'
    rw [PayloadEPSOutputOverwriteMessage_roundtrip m hv _ hz] at hc
    rw [← hc]
    rfl
  | PayloadEPSStatus m =>
    simp only [CanBusMessage.get_id, Option.some.injEq] at hid
    subst hid
    simp only [CanBusMessage.SIZE_BYTES, CanBusMultiFrameEncoder.visit] at h'
    rw [PayloadEPSStatusMessage.get_id, create_message_type]
    have hz : PayloadEPSStatusMessage.SIZE_BYTES
        ≤ (List.replicate CanBusMultiFrameEncoder.MAX_CAN_MESSAGE_SIZE 0).length := by
      rw [List.length_replicate]; decide
    have hc := PayloadEPSStatusMessage_deserialize_congr data
      (m.serialize (List.replicate CanBusMultiFrameEncoder.MAX_CAN_MESSAGE_SIZE 0)) h'
    rw [PayloadEPSStatusMessage_roundtrip m hv _ hz] at hc
    rw [← hc]
    rfl
  | Reset m =>
    simp only [CanBusMessage.get_id, Option.some.injEq] at hid
    subst hid
    simp only [CanBusMessage.SIZE_BYTES, CanBusMultiFrameEncoder.visit] at h'
    rw [ResetMessage.get_id, create_message_type]
    have hz : ResetMessage.SIZE_BYTES
        ≤ (List.replicate CanBusMultiFrameEncoder.MAX_CAN_MESSAGE_SIZE 0).length := by
      rw [List.length_replicate]; decide
    have hc := ResetMessage_deserialize_congr data
      (m.serialize (List.replicate CanBusMultiFrameEncoder.MAX_CAN_MESSAGE_SIZE 0)) h'
    rw [ResetMessage_roundtrip m hv _ hz] at hc
    rw [← hc]
    rfl
  | RocketState m =>
    simp only [CanBusMessage.get_id, Option.some.injEq] at hid
    subst hid
    simp only [CanBusMessage.SIZE_BYTES, CanBusMultiFrameEncoder.visit] at h'
    rw [RocketStateMessage.get_id, create_message_type]
    have hz : RocketStateMessage.SIZE_BYTES
        ≤ (List.replicate CanBusMultiFrameEncoder.MAX_CAN_MESSAGE_SIZE 0).length := by
      rw [List.length_replicate]; decide
    have hc := RocketStateMessage_deserialize_congr data
      (m.serialize (List.replicate CanBusMultiFrameEncoder.MAX_CAN_MESSAGE_SIZE 0)) h'
    rw [RocketStateMessage_roundtrip m hv _ hz] at hc
    rw [← hc]
    rfl
  | UnixTime m =>
    simp only [CanBusMessage.get_id, Option.some.injEq] at hid
    subst hid
    simp only [CanBusMessage.SIZE_BYTES, CanBusMultiFrameEncoder.visit] at h'
    rw [UnixTimeMessage.get_id, create_message_type]
    have hz : UnixTimeMessage.SIZE_BYTES
        ≤ (List.replicate CanBusMultiFrameEncoder.MAX_CAN_MESSAGE_SIZE 0).length := by
      rw [List.length_replicate]; decide
    have hc := UnixTimeMessage_deserialize_congr data
      (m.serialize (List.replicate CanBusMultiFrameEncoder.MAX_CAN_MESSAGE_SIZE 0)) h'
    rw [UnixTimeMessage_roundtrip m hv _ hz] at hc
    rw [← hc]
    rfl
  | VLStatus m =>
    simp only [CanBusMessage.get_id, Option.some.injEq] at hid
    subst hid
    simp only [CanBusMessage.SIZE_BYTES, CanBusMultiFrameEncoder.visit] at h'
    rw [VLStatusMessage.get_id, create_message_type]
    have hz : VLStatusMessage.SIZE_BYTES
        ≤ (List.replicate CanBusMultiFrameEncoder.MAX_CAN_MESSAGE_SIZE 0).length := by
      rw [List.length_replicate]; decide
    have hc := VLStatusMessage_deserialize_congr data
      (m.serialize (List.replicate CanBusMultiFrameEncoder.MAX_CAN_MESSAGE_SIZE 0)) h'
    rw [VLStatusMessage_roundtrip m hv _ hz] at hc
    rw [← hc]
    rfl

/-! ## The encoder of a message -/

theorem get_id_message_type (v : CanBusMessage) (node_type node_id id : Nat)
    (hid : v.get_id node_type node_id = some id) : (id >>> 18) &&& 0xFF ≠ 255 := by
  cases v <;> simp only [CanBusMessage.get_id, Option.some.injEq] at hid <;>
    first
    | contradiction
    | (subst hid
       simp only [AckMessage.get_id, AirBrakesControlMessage.get_id, AmpControlMessage.get_id,
         AmpOverwriteMessage.get_id, AmpResetOutputMessage.get_id, AmpStatusMessage.get_id,
         BaroMeasurementMessage.get_id, BrightnessMeasurementMessage.get_id,
         DataTransferMessage.get_id, IcarusStatusMessage.get_id, IMUMeasurementMessage.get_id,
         MagMeasurementMessage.get_id, NodeStatusMessage.get_id, OzysMeasurementMessage.get_id,
         PayloadEPSOutputOverwriteMessage.get_id, PayloadEPSStatusMessage.get_id,
         ResetMessage.get_id, RocketStateMessage.get_id, UnixTimeMessage.get_id,
         VLStatusMessage.get_id, create_message_type]
       decide)

theorem get_id_size_pos (v : CanBusMessage) (node_type node_id id : Nat)
    (hid : v.get_id node_type node_id = some id) : 1 ≤ v.SIZE_BYTES := by
  cases v <;> simp only [CanBusMessage.get_id] at hid <;>
    first
    | contradiction
    | (simp only [CanBusMessage.SIZE_BYTES, CanBusMultiFrameEncoder.visit]; decide)

theorem new_message_len (mem : List Nat) (v : CanBusMessage) :
    (CanBusMultiFrameEncoder.new mem v).message_len = v.SIZE_BYTES := visit_fst_eq v mem

theorem new_serialized_message (mem : List Nat) (v : CanBusMessage)
    (hmem : v.SIZE_BYTES ≤ mem.length) :
    (CanBusMultiFrameEncoder.new mem v).serialized_message
      = v.serialized ++ mem.drop v.SIZE_BYTES := visit_eq v mem hmem

theorem take_serialized_message (mem : List Nat) (v : CanBusMessage)
    (hmem : v.SIZE_BYTES ≤ mem.length) :
    (CanBusMultiFrameEncoder.new mem v).serialized_message.take v.SIZE_BYTES = v.serialized := by
  rw [new_serialized_message mem v hmem, List.take_append_of_le_length (by rw [serialized_length]),
    List.take_of_length_le (by rw [serialized_length])]

theorem new_crc (mem : List Nat) (v : CanBusMessage) (hmem : v.SIZE_BYTES ≤ mem.length) :
    (CanBusMultiFrameEncoder.new mem v).crc
      = CanBusMultiFrameEncoder.calculate_crc v.serialized v.SIZE_BYTES := by
  show CanBusMultiFrameEncoder.calculate_crc (CanBusMultiFrameEncoder.visit v mem).2
    (CanBusMultiFrameEncoder.visit v mem).1 = _
  rw [visit_fst_eq]
  exact calculate_crc_congr _ _ _ (fun i hi => byte_at_visit v mem hmem i hi)

theorem size_le_36 (v : CanBusMessage) : v.SIZE_BYTES ≤ 36 := visit_size_le v []

/-- The frames of a message of at most seven bytes. -/
theorem frames_of_short (mem : List Nat) (v : CanBusMessage) (hmem : v.SIZE_BYTES ≤ mem.length)
    (h1 : 1 ≤ v.SIZE_BYTES) (h7 : v.SIZE_BYTES ≤ 7) :
    (CanBusMultiFrameEncoder.new mem v).frames = [mkframe v.serialized ⟨true, true, false⟩] := by
  rw [frames_single _ rfl (by rw [new_message_len]; exact h1) (by rw [new_message_len]; exact h7)
    (by rw [new_message_len, new_serialized_message mem v hmem]; simp [serialized_length]),
    new_message_len, take_serialized_message mem v hmem]

/-- The frames of a message of at least eight bytes. -/
theorem frames_of_long (mem : List Nat) (v : CanBusMessage) (hmem : v.SIZE_BYTES ≤ mem.length)
    (h8 : 8 ≤ v.SIZE_BYTES) :
    (CanBusMultiFrameEncoder.new mem v).frames
      = transfer_frames
          ((CanBusMultiFrameEncoder.calculate_crc v.serialized v.SIZE_BYTES &&& 0xFF) % 256 ::
           ((CanBusMultiFrameEncoder.calculate_crc v.serialized v.SIZE_BYTES >>> 8) &&& 0xFF) % 256
             :: v.serialized) := by
  rw [frames_multi _ rfl (by rw [new_message_len]; exact h8) rfl
    (by rw [new_message_len, new_serialized_message mem v hmem]; simp [serialized_length]),
    new_message_len, take_serialized_message mem v hmem, new_crc mem v hmem]

theorem getLast?_replicate_append (k : Nat) (x : Option ReceivedCanBusMessage) :
    (List.replicate k none ++ [x]).getLast? = some x := by
  simp [List.getLast?_append]

theorem zeroed_fresh : CanBusMultiFrameDecoder.zeroed.fresh := by
  refine ⟨List.length_replicate _ _, ?_⟩
  intro sm hsm
  rw [CanBusMultiFrameDecoder.zeroed, List.mem_replicate] at hsm
  rw [hsm.2]
  exact ⟨rfl, List.length_replicate _ _⟩

/-! ## A frame with the wrong toggle bit -/

/-- A slot in flight drops a frame of its identifier that is not a single-frame transfer and
whose toggle bit is not the expected one, and stays as it was. -/
theorem sm_wrong_toggle (sm : StateMachine) (id : Nat) (fd : List Nat) (fl ts : Nat)
    (hty : sm.type = SlotType.MultiFrame) (hid : sm.multi_frame.id = id)
    (hns : ((TailByte.from_byte (byte_at fd (fl - 1))).start_of_transfer
      && (TailByte.from_byte (byte_at fd (fl - 1))).end_of_transfer) = false)
    (htog : (TailByte.from_byte (byte_at fd (fl - 1))).toggle ≠ sm.expected_toggle_bit) :
    sm.process_frame id fd fl ts = (none, sm) := by
  by_cases hfl : fl = 0
  · rw [hfl, sm_process_frame_zero]
  · rw [sm_process_frame_same sm id fd fl ts hfl _ rfl hns hty hid]
    exact if_pos htog

theorem has_same_id_iff (sm : StateMachine) (id : Nat) :
    sm.has_same_id id = true ↔ sm.type = SlotType.MultiFrame ∧ sm.multi_frame.id = id := by
  simp [StateMachine.has_same_id]

/-- The first loop of `CanBusMultiFrameDecoder::process_frame` stops at the first slot that
holds the identifier. -/
theorem find_same_id (d : CanBusMultiFrameDecoder) (id i : Nat)
    (hi : i < CanBusMultiFrameDecoder.Q) (hsame : (d.slot i).has_same_id id = true)
    (hfirst : ∀ j, j < i → (d.slot j).has_same_id id = false) :
    (List.range CanBusMultiFrameDecoder.Q).find? (fun k => (d.slot k).has_same_id id)
      = some i := by
  rw [range_Q]
  unfold CanBusMultiFrameDecoder.Q at hi
  interval_cases i <;> simp [List.find?_cons, hsame, hfirst]

/-- Writing back the slot that was read leaves the slots as they were. -/
theorem set_slot_self (d : CanBusMultiFrameDecoder) (i : Nat)
    (h : (d.slot i).type = SlotType.MultiFrame) :
    d.state_machines.set i (d.slot i) = d.state_machines := by
  by_cases hi : i < d.state_machines.length
  · unfold CanBusMultiFrameDecoder.slot
    apply List.ext_getElem (by simp)
    intro k h1 h2
    rw [List.getElem_set]
    split_ifs with hk
    · subst hk
      rw [List.getD_eq_getElem _ _ h2]
    · rfl
  · unfold CanBusMultiFrameDecoder.slot at h
    rw [List.getD_eq_default _ _ (by omega)] at h
    cases h

/-- The decoder drops a frame with the wrong toggle bit for a transfer in flight and stays
as it was. -/
theorem process_frame_wrong_toggle (d : CanBusMultiFrameDecoder) (id i : Nat)
    (hi : i < CanBusMultiFrameDecoder.Q) (hsame : (d.slot i).has_same_id id = true)
    (hfirst : ∀ j, j < i → (d.slot j).has_same_id id = false)
    (fd : List Nat) (fl ts : Nat)
    (hns : ((TailByte.from_byte (byte_at fd (fl - 1))).start_of_transfer
      && (TailByte.from_byte (byte_at fd (fl - 1))).end_of_transfer) = false)
    (htog : (TailByte.from_byte (byte_at fd (fl - 1))).toggle ≠ (d.slot i).expected_toggle_bit) :
    d.process_frame id fd fl ts = (none, d) := by
  unfold CanBusMultiFrameDecoder.process_frame
  simp only
  split_ifs with hmt
  · rfl
  · obtain ⟨hty, hid⟩ := (has_same_id_iff _ _).mp hsame
    rw [find_same_id d id i hi hsame hfirst]
    simp only [CanBusMultiFrameDecoder.route,
      sm_wrong_toggle (d.slot i) id fd fl ts hty hid hns htog, set_slot_self d i hty]

theorem sm_run_cons (sm : StateMachine) (r : Rx) (rs : List Rx) :
    sm.run (r :: rs)
      = ((sm.process_frame r.frame_id r.frame.data r.frame.len r.timestamp_us).1 ::
          ((sm.process_frame r.frame_id r.frame.data r.frame.len r.timestamp_us).2.run rs).1,
         ((sm.process_frame r.frame_id r.frame.data r.frame.len r.timestamp_us).2.run rs).2) :=
  rfl

theorem run_cons (d : CanBusMultiFrameDecoder) (r : Rx) (rs : List Rx) :
    d.run (r :: rs)
      = ((d.process_frame r.frame_id r.frame.data r.frame.len r.timestamp_us).1 ::
          ((d.process_frame r.frame_id r.frame.data r.frame.len r.timestamp_us).2.run rs).1,
         ((d.process_frame r.frame_id r.frame.data r.frame.len r.timestamp_us).2.run rs).2) :=
  rfl

theorem sm_run_append (a : List Rx) : ∀ (sm : StateMachine) (b : List Rx),
    sm.run (a ++ b) = ((sm.run a).1 ++ ((sm.run a).2.run b).1, ((sm.run a).2.run b).2) := by
  induction a with
  | nil => intro sm b; rfl
  | cons r rs ih =>
    intro sm b
    rw [List.cons_append, sm_run_cons, ih, sm_run_cons]
    rfl

theorem run_append (a : List Rx) : ∀ (d : CanBusMultiFrameDecoder) (b : List Rx),
    d.run (a ++ b) = ((d.run a).1 ++ ((d.run a).2.run b).1, ((d.run a).2.run b).2) := by
  induction a with
  | nil => intro d b; rfl
  | cons r rs ih =>
    intro d b
    rw [List.cons_append, run_cons, ih, run_cons]
    rfl

theorem run_length (rx : List Rx) :
    ∀ d : CanBusMultiFrameDecoder, (d.run rx).1.length = rx.length := by
  induction rx with
  | nil => intro d; rfl
  | cons r rs ih => intro d; simp [CanBusMultiFrameDecoder.run, ih]

/-- The slot of a transfer after some of its continuation frames, with more to come: still
in flight, and the toggle bit it expects is the one the next frame carries. -/
theorem sm_cont_prefix (id : Nat) (pre : List Rx) :
    ∀ (fuel : Nat) (rest : List Nat) (j : Nat) (sm : StateMachine) (post : List Rx),
      (pre ++ post).map Rx.frame = cont_frames_aux fuel (j % 2 == 0) rest →
      post ≠ [] → (∀ r ∈ pre, r.frame_id = id) →
      sm.type = SlotType.MultiFrame → sm.multi_frame.id = id →
      sm.multi_frame.data_len = 5 + 7 * j → 5 + 7 * j + rest.length ≤ 256 →
      (sm.run pre).2.type = SlotType.MultiFrame ∧ (sm.run pre).2.multi_frame.id = id ∧
        ∀ r, post.head? = some r →
          r.frame.tail.toggle = (sm.run pre).2.expected_toggle_bit ∧
          r.frame.tail.start_of_transfer = false := by
  induction pre with
  | nil =>
    intro fuel rest j sm post hrx hpost _ hty hid hn h256
    refine ⟨hty, hid, ?_⟩
    intro r hr
    obtain ⟨post', rfl⟩ : ∃ post', post = r :: post' := by
      cases post with
      | nil => exact absurd rfl hpost
      | cons a l => simp at hr; exact ⟨l, by rw [hr]⟩
    simp only [StateMachine.run, StateMachine.expected_toggle_bit, hn,
      expected_toggle j (by omega)]
    cases fuel with
    | zero => simp [cont_frames_aux] at hrx
    | succ n =>
      simp only [List.nil_append, List.map_cons, cont_frames_aux] at hrx
      unfold Frame.tail
      by_cases h0 : rest.length = 0
      · rw [if_pos h0] at hrx
        exact absurd hrx (List.cons_ne_nil _ _)
      · rw [if_neg h0] at hrx
        by_cases h7 : rest.length ≤ 7
        · rw [if_pos h7] at hrx
          have hf := (List.cons.inj hrx).1
          have ht := mkframe_tail rest ⟨false, true, j % 2 == 0⟩ h7
          rw [← hf] at ht
          rw [ht]
          exact ⟨rfl, rfl⟩
        · rw [if_neg h7] at hrx
          have hf := (List.cons.inj hrx).1
          have ht := mkframe_tail (rest.take 7) ⟨false, false, j % 2 == 0⟩ (by simp)
          rw [← hf] at ht
          rw [ht]
          exact ⟨rfl, rfl⟩
  | cons r pre' ih =>
    intro fuel rest j sm post hrx hpost hids hty hid hn h256
    have hrid : r.frame_id = id := hids r (by simp)
    have hne : (pre' ++ post).map Rx.frame ≠ [] := by
      cases pre' <;> cases post <;> simp_all
    cases fuel with
    | zero => simp [cont_frames_aux] at hrx
    | succ n =>
      simp only [List.cons_append, List.map_cons, cont_frames_aux] at hrx
      by_cases h0 : rest.length = 0
      · rw [if_pos h0] at hrx
        exact absurd hrx (List.cons_ne_nil _ _)
      · rw [if_neg h0] at hrx
        by_cases h7 : rest.length ≤ 7
        · rw [if_pos h7] at hrx
          exact absurd (List.cons.inj hrx).2 hne
        · rw [if_neg h7] at hrx
          have hf := (List.cons.inj hrx).1
          have hrx' := (List.cons.inj hrx).2
          have htl : (rest.take 7).length = 7 := by simp; omega
          have hstep := sm_middle sm r (rest.take 7) j htl hf hty (by rw [hid, hrid]) hn
            (by omega)
          rw [toggle_succ] at hrx'
          have hdl : (rest.drop 7).length = rest.length - 7 := by simp
          rw [sm_run_cons, hstep]
          exact ih n (rest.drop 7) (j + 1) _ post hrx' hpost
            (fun r' hr' => hids r' (by simp [hr'])) rfl hid rfl (by omega)

/-- The slot of a transfer after its opening frame and some of its continuation frames, with
more to come. -/
theorem sm_transfer_prefix (id : Nat) (w : List Nat) (hw8 : 8 ≤ w.length) (hw : w.length ≤ 258)
    (sm : StateMachine) (hty : sm.type = SlotType.Empty) (pre post : List Rx)
    (hpre : pre ≠ []) (hpost : post ≠ [])
    (hrx : (pre ++ post).map Rx.frame = transfer_frames w)
    (hids : ∀ r ∈ pre, r.frame_id = id) :
    (sm.run pre).2.type = SlotType.MultiFrame ∧ (sm.run pre).2.multi_frame.id = id ∧
      ∀ r, post.head? = some r →
        r.frame.tail.toggle = (sm.run pre).2.expected_toggle_bit ∧
        r.frame.tail.start_of_transfer = false := by
  cases pre with
  | nil => exact absurd rfl hpre
  | cons r pre' =>
    unfold transfer_frames at hrx
    simp only [List.cons_append, List.map_cons] at hrx
    have hf := (List.cons.inj hrx).1
    have hrx' := (List.cons.inj hrx).2
    have hrid : r.frame_id = id := hids r (by simp)
    have htl : (w.take 7).length = 7 := by simp; omega
    have hstep := sm_open sm r (w.take 7) htl hf hty
    have hdl : (w.drop 7).length = w.length - 7 := by simp
    unfold cont_frames at hrx'
    rw [sm_run_cons, hstep]
    exact sm_cont_prefix id pre' _ (w.drop 7) 0 _ post hrx' hpost
      (fun r' hr' => hids r' (by simp [hr'])) rfl hrid rfl (by omega)

/-- The frames of a message of at least eight bytes, received in order by an empty slot: the
call for the last frame returns the message. -/
theorem sm_roundtrip_long (v : CanBusMessage) (hv : v.valid)
    (node_type node_id id : Nat) (hid : v.get_id node_type node_id = some id)
    (h8 : 8 ≤ v.SIZE_BYTES) (mem : List Nat) (hm : v.SIZE_BYTES ≤ mem.length)
    (s0 : StateMachine) (hty : s0.type = SlotType.Empty)
    (hlen : s0.multi_frame.data.length = 256) (rx : List Rx)
    (hrx : rx.map Rx.frame = (CanBusMultiFrameEncoder.new mem v).frames)
    (hids : ∀ r ∈ rx, r.frame_id = id) :
    (s0.run rx).1.getLast?
      = some (some { id := id
                     crc := CanBusMultiFrameEncoder.calculate_crc v.serialized v.SIZE_BYTES
                     message := v }) := by
  have h36 := size_le_36 v
  rw [frames_of_long mem v hm h8] at hrx
  obtain ⟨k, data, hdata, hres⟩ := sm_run_transfer id _ (by simp [serialized_length]; omega)
    (by simp [serialized_length]; omega) s0 hty hlen rx hrx hids
  have e2 : v.SIZE_BYTES + 1 + 1 - 2 = v.SIZE_BYTES := by omega
  simp only [List.length_cons, serialized_length, e2, List.drop_succ_cons,
    List.drop_zero, byte_at_cons_zero, byte_at_cons_succ] at hdata hres
  have hcrc : StateMachine.calculate_crc data v.SIZE_BYTES
      = CanBusMultiFrameEncoder.calculate_crc v.serialized v.SIZE_BYTES := by
    rw [calculate_crc_eq]
    exact calculate_crc_congr _ _ _ hdata
  rw [hres, hcrc, crc_bytes _ (calculate_crc_lt _ _), if_pos rfl,
    decode_serialized v hv node_type node_id id hid _ hdata, getLast?_replicate_append]
  rfl

/-! ## Slot choice -/

theorem find_range_Q (p : Nat → Bool) (i : Nat) (hi : i < CanBusMultiFrameDecoder.Q)
    (hp : p i = true) (hfirst : ∀ j, j < i → p j = false) :
    (List.range CanBusMultiFrameDecoder.Q).find? p = some i := by
  rw [range_Q]
  unfold CanBusMultiFrameDecoder.Q at hi
  interval_cases i <;> simp [List.find?_cons, hp, hfirst]

theorem slot_mem_or_empty (d : CanBusMultiFrameDecoder) (i : Nat) :
    d.slot i ∈ d.state_machines ∨ (d.slot i).type = SlotType.Empty := by
  unfold CanBusMultiFrameDecoder.slot
  by_cases hi : i < d.state_machines.length
  · left
    rw [List.getD_eq_getElem _ _ hi]
    exact List.getElem_mem hi
  · right
    rw [List.getD_eq_default _ _ (by omega)]

theorem slot_of_lt (d : CanBusMultiFrameDecoder) (i : Nat) (hi : i < d.state_machines.length) :
    d.slot i ∈ d.state_machines := by
  unfold CanBusMultiFrameDecoder.slot
  rw [List.getD_eq_getElem _ _ hi]
  exact List.getElem_mem hi

/-- No slot holds the identifier: the first loop finds nothing. -/
theorem find_same_id_none (d : CanBusMultiFrameDecoder) (id : Nat)
    (h : ∀ s ∈ d.state_machines, s.has_same_id id = false) :
    (List.range CanBusMultiFrameDecoder.Q).find? (fun i => (d.slot i).has_same_id id)
      = none := by
  rw [List.find?_eq_none]
  intro i _
  rcases slot_mem_or_empty d i with hm | he
  · simp [h _ hm]
  · simp [has_same_id_of_empty _ _ he]

theorem process_frame_route_lru (d : CanBusMultiFrameDecoder) (id : Nat) (fd : List Nat)
    (fl ts : Nat) (hmt : (id >>> 18) &&& 0xFF ≠ 255)
    (h : ∀ s ∈ d.state_machines, s.has_same_id id = false) :
    d.process_frame id fd fl ts = d.route d.lru_index id fd fl ts := by
  unfold CanBusMultiFrameDecoder.process_frame
  simp only [hmt, if_false, find_same_id_none d id h]

theorem slot_append_left (occ emp : List StateMachine) (j : Nat) (hj : j < occ.length) :
    CanBusMultiFrameDecoder.slot ⟨occ ++ emp⟩ j ∈ occ := by
  unfold CanBusMultiFrameDecoder.slot
  simp only
  rw [List.getD_append _ _ _ _ hj, List.getD_eq_getElem _ _ hj]
  exact List.getElem_mem hj

theorem slot_append_length (occ : List StateMachine) (e : StateMachine)
    (emp : List StateMachine) :
    CanBusMultiFrameDecoder.slot ⟨occ ++ e :: emp⟩ occ.length = e := by
  unfold CanBusMultiFrameDecoder.slot
  simp only
  rw [List.getD_append_right _ _ _ _ (Nat.le_refl _), Nat.sub_self, List.getD_cons_zero]

/-- The second loop stops at the first empty slot. -/
theorem lru_index_first_empty (occ : List StateMachine) (e : StateMachine)
    (emp : List StateMachine) (hocc : ∀ s ∈ occ, s.type = SlotType.MultiFrame)
    (he : e.type = SlotType.Empty) (hlen : occ.length < CanBusMultiFrameDecoder.Q) :
    CanBusMultiFrameDecoder.lru_index ⟨occ ++ e :: emp⟩ = occ.length := by
  unfold CanBusMultiFrameDecoder.lru_index
  rw [find_range_Q _ occ.length hlen
    (by rw [slot_append_length]; simp [StateMachine.is_empty, he])
    (by
      intro j hj
      have := hocc _ (slot_append_left occ (e :: emp) j hj)
      simp [StateMachine.is_empty, this])]

/-- An opening frame with a new identifier takes the first empty slot. -/
theorem process_frame_open (occ : List StateMachine) (e : StateMachine)
    (emp : List StateMachine) (id : Nat) (fd : List Nat) (fl ts : Nat)
    (hocc : ∀ s ∈ occ, s.type = SlotType.MultiFrame ∧ s.multi_frame.id ≠ id)
    (he : e.type = SlotType.Empty) (hemp : ∀ s ∈ emp, s.type = SlotType.Empty)
    (hlen : occ.length < CanBusMultiFrameDecoder.Q)
    (hmt : (id >>> 18) &&& 0xFF ≠ 255) (h4 : 4 ≤ fl)
    (ht : TailByte.from_byte (byte_at fd (fl - 1)) = ⟨true, false, false⟩) :
    CanBusMultiFrameDecoder.process_frame ⟨occ ++ e :: emp⟩ id fd fl ts
      = (none,
          ⟨occ ++
            { type := SlotType.MultiFrame
              multi_frame :=
                { id := id
                  first_frame_timestamp_us := ts
                  crc := ((byte_at fd 0 % 2 ^ 16) ||| ((byte_at fd 1 % 2 ^ 16) <<< 8)) % 2 ^ 16
                  data := memcpy e.multi_frame.data 0 fd 2 (fl - 3)
                  data_len := fl - 3 } } :: emp⟩) := by
  have hno : ∀ s ∈ (⟨occ ++ e :: emp⟩ : CanBusMultiFrameDecoder).state_machines,
      s.has_same_id id = false := by
    intro s hs
    simp only [List.mem_append, List.mem_cons] at hs
    rcases hs with hs | hs | hs
    · simp [StateMachine.has_same_id, (hocc s hs).2]
    · rw [hs]; exact has_same_id_of_empty _ _ he
    · exact has_same_id_of_empty _ _ (hemp s hs)
  rw [process_frame_route_lru _ id fd fl ts hmt hno,
    lru_index_first_empty occ e emp (fun s hs => (hocc s hs).1) he hlen]
  unfold CanBusMultiFrameDecoder.route
  rw [slot_append_length,
    sm_process_frame_empty e id fd fl ts (by omega) _ ht rfl he, if_pos ⟨rfl, h4⟩]
  simp only [List.set_append_right _ _ (Nat.le_refl _), Nat.sub_self, List.set_cons_zero]

/-- Opening frames with pairwise distinct new identifiers fill the empty slots in order. -/
theorem run_opens (opens : List Rx) :
    ∀ (occ emp : List StateMachine),
      (∀ s ∈ occ, s.type = SlotType.MultiFrame) → (∀ s ∈ emp, s.type = SlotType.Empty) →
      occ.length + emp.length = CanBusMultiFrameDecoder.Q → opens.length ≤ emp.length →
      (∀ r ∈ opens, r.is_opening) → (opens.map Rx.frame_id).Nodup →
      (∀ s ∈ occ, ∀ r ∈ opens, s.multi_frame.id ≠ r.frame_id) →
      ∃ occ' : List StateMachine, List.Forall₂ StateMachine.in_flight_for occ' opens ∧
        CanBusMultiFrameDecoder.run ⟨occ ++ emp⟩ opens
          = (List.replicate opens.length none, ⟨occ ++ occ' ++ emp.drop opens.length⟩) := by
  induction opens with
  | nil =>
    intro occ emp _ _ _ _ _ _ _
    exact ⟨[], List.Forall₂.nil, by simp [CanBusMultiFrameDecoder.run]⟩
  | cons r rs ih =>
    intro occ emp hocc hemp hlen hle hop hnd hne
    cases emp with
    | nil => simp at hle
    | cons e emp' =>
      simp only [List.length_cons] at hlen hle
      simp only [List.map_cons, List.nodup_cons, List.mem_map, not_exists, not_and] at hnd
      obtain ⟨h4, ht, hmt⟩ := hop r (by simp)
      have hstep := process_frame_open occ e emp' r.frame_id r.frame.data r.frame.len
        r.timestamp_us (fun s hs => ⟨hocc s hs, hne s hs r (by simp)⟩) (hemp e (by simp))
        (fun s hs => hemp s (by simp [hs])) (by omega) hmt h4 ht
      obtain ⟨occ', hF, hrun⟩ := ih
        (occ ++ [{ type := SlotType.MultiFrame
                   multi_frame :=
                     { id := r.frame_id
                       first_frame_timestamp_us := r.timestamp_us
                       crc := ((byte_at r.frame.data 0 % 2 ^ 16)
                         ||| ((byte_at r.frame.data 1 % 2 ^ 16) <<< 8)) % 2 ^ 16
                       data := memcpy e.multi_frame.data 0 r.frame.data 2 (r.frame.len - 3)
                       data_len := r.frame.len - 3 } }])
        emp'
        (by
          intro s hs
          simp only [List.mem_append, List.mem_singleton] at hs
          rcases hs with hs | hs
          · exact hocc s hs
          · rw [hs])
        (fun s hs => hemp s (by simp [hs]))
        (by simp; omega) (by omega)
        (fun r' hr' => hop r' (by simp [hr']))
        hnd.2
        (by
          intro s hs r' hr'
          simp only [List.mem_append, List.mem_singleton] at hs
          rcases hs with hs | hs
          · exact hne s hs r' (by simp [hr'])
          · rw [hs]
            intro h
            exact hnd.1 r' hr' h.symm)
      refine ⟨{ type := SlotType.MultiFrame
                multi_frame :=
                  { id := r.frame_id
                    first_frame_timestamp_us := r.timestamp_us
                    crc := ((byte_at r.frame.data 0 % 2 ^ 16)
                      ||| ((byte_at r.frame.data 1 % 2 ^ 16) <<< 8)) % 2 ^ 16
                    data := memcpy e.multi_frame.data 0 r.frame.data 2 (r.frame.len - 3)
                    data_len := r.frame.len - 3 } } :: occ',
        List.Forall₂.cons ⟨rfl, rfl, rfl⟩ hF, ?_⟩
      rw [run_cons, hstep]
      simp only [List.append_assoc, List.singleton_append] at hrun
      simp only [hrun, List.length_cons, List.replicate_succ, List.drop_succ_cons,
        List.append_assoc, List.cons_append]

theorem forall₂_mem_left {R : StateMachine → Rx → Prop} {l : List StateMachine} {rs : List Rx}
    (h : List.Forall₂ R l rs) : ∀ s ∈ l, ∃ r ∈ rs, R s r := by
  induction h with
  | nil => intro s hs; simp at hs
  | cons hab _ ih =>
    intro s hs
    simp only [List.mem_cons] at hs
    rcases hs with hs | hs
    · exact ⟨_, by simp, hs ▸ hab⟩
    · obtain ⟨r, hr, hR⟩ := ih s hs
      exact ⟨r, by simp [hr], hR⟩

theorem forall₂_slot {R : StateMachine → Rx → Prop} {l : List StateMachine} {rs : List Rx}
    (h : List.Forall₂ R l rs) :
    ∀ (k : Nat) (r : Rx), rs[k]? = some r → R (CanBusMultiFrameDecoder.slot ⟨l⟩ k) r := by
  induction h with
  | nil => intro k r hr; simp at hr
  | cons hab _ ih =>
    intro k r hr
    cases k with
    | zero =>
      simp only [List.getElem?_cons_zero, Option.some.injEq] at hr
      rw [slot_zero, ← hr]
      exact hab
    | succ k =>
      simp only [List.getElem?_cons_succ] at hr
      exact ih k r hr

theorem foldl_keep (ts : Nat → Nat) (l : List Nat) (acc : Nat × Nat)
    (h : ∀ i ∈ l, ¬ ts i < acc.1) :
    l.foldl (fun (acc : Nat × Nat) i => if ts i < acc.1 then (ts i, i) else acc) acc = acc := by
  induction l with
  | nil => rfl
  | cons a l ih =>
    rw [List.foldl_cons, if_neg (h a (by simp))]
    exact ih (fun i hi => h i (by simp [hi]))

/-- With every slot occupied and the oldest transfer in slot 0, the third loop keeps
`lru_index = 0`. -/
theorem lru_index_oldest (a0 : StateMachine) (tl : List StateMachine)
    (hlen : (a0 :: tl).length = CanBusMultiFrameDecoder.Q)
    (hty : ∀ s ∈ a0 :: tl, s.type = SlotType.MultiFrame)
    (hts : ∀ s ∈ tl, a0.multi_frame.first_frame_timestamp_us
      < s.multi_frame.first_frame_timestamp_us) :
    CanBusMultiFrameDecoder.lru_index ⟨a0 :: tl⟩ = 0 := by
  have hne : (List.range CanBusMultiFrameDecoder.Q).find?
      (fun i => (CanBusMultiFrameDecoder.slot ⟨a0 :: tl⟩ i).is_empty) = none := by
    rw [List.find?_eq_none]
    intro i hi
    rw [List.mem_range] at hi
    have := hty _ (slot_of_lt ⟨a0 :: tl⟩ i (by rw [hlen]; exact hi))
    simp [StateMachine.is_empty, this]
  unfold CanBusMultiFrameDecoder.lru_index
  rw [hne]
  simp only
  rw [foldl_keep]
  intro i hi
  rw [List.mem_range'_1] at hi
  unfold CanBusMultiFrameDecoder.Q at hi hlen
  simp only [List.length_cons] at hlen
  obtain ⟨k, rfl⟩ : ∃ k, i = k + 1 := ⟨i - 1, by omega⟩
  have hmem : CanBusMultiFrameDecoder.slot ⟨a0 :: tl⟩ (k + 1) ∈ tl := by
    unfold CanBusMultiFrameDecoder.slot
    simp only [List.getD_cons_succ]
    rw [List.getD_eq_getElem _ _ (by omega)]
    exact List.getElem_mem _
  have h1 := hts _ hmem
  have h2 := hty _ (List.mem_cons_of_mem _ hmem)
  have h3 := hty a0 (by simp)
  simp only [slot_zero, StateMachine.get_first_frame_timestamp_us, h2, h3, if_true]
  omega

/-- An opening frame with a new identifier, with every slot occupied and the oldest transfer
in slot 0: slot 0 is cleared and opened for the new identifier, the other slots stay. -/
theorem process_frame_evict (a0 : StateMachine) (tl : List StateMachine)
    (id : Nat) (fd : List Nat) (fl ts : Nat)
    (hlen : (a0 :: tl).length = CanBusMultiFrameDecoder.Q)
    (hty : ∀ s ∈ a0 :: tl, s.type = SlotType.MultiFrame ∧ s.multi_frame.id ≠ id)
    (hts : ∀ s ∈ tl, a0.multi_frame.first_frame_timestamp_us
      < s.multi_frame.first_frame_timestamp_us)
    (hmt : (id >>> 18) &&& 0xFF ≠ 255) (h4 : 4 ≤ fl)
    (ht : TailByte.from_byte (byte_at fd (fl - 1)) = ⟨true, false, false⟩) :
    CanBusMultiFrameDecoder.process_frame ⟨a0 :: tl⟩ id fd fl ts
      = (none,
          ⟨{ type := SlotType.MultiFrame
             multi_frame :=
               { id := id
                 first_frame_timestamp_us := ts
                 crc := ((byte_at fd 0 % 2 ^ 16) ||| ((byte_at fd 1 % 2 ^ 16) <<< 8)) % 2 ^ 16
                 data := memcpy a0.multi_frame.data 0 fd 2 (fl - 3)
                 data_len := fl - 3 } } :: tl⟩) := by
  have hno : ∀ s ∈ (⟨a0 :: tl⟩ : CanBusMultiFrameDecoder).state_machines,
      s.has_same_id id = false := by
    intro s hs
    simp [StateMachine.has_same_id, (hty s hs).2]
  rw [process_frame_route_lru _ id fd fl ts hmt hno,
    lru_index_oldest a0 tl hlen (fun s hs => (hty s hs).1) hts]
  unfold CanBusMultiFrameDecoder.route
  rw [slot_zero, sm_process_frame_other a0 id fd fl ts (by omega) _ ht rfl
      (hty a0 (by simp)).1 (hty a0 (by simp)).2,
    sm_process_frame_empty _ id fd fl ts (by omega) _ ht rfl rfl, if_pos ⟨rfl, h4⟩]
  rfl

/-- A frame without `start_of_transfer` whose identifier no slot holds: the slot it reaches
returns none and does not take the identifier. -/
theorem sm_stray (sm : StateMachine) (id : Nat) (fd : List Nat) (fl ts : Nat)
    (hno : sm.has_same_id id = false)
    (hs : (TailByte.from_byte (byte_at fd (fl - 1))).start_of_transfer = false) :
    (sm.process_frame id fd fl ts).1 = none ∧
      (sm.process_frame id fd fl ts).2.has_same_id id = false := by
  by_cases hfl : fl = 0
  · rw [hfl, sm_process_frame_zero]
    exact ⟨rfl, hno⟩
  · have hns : ((TailByte.from_byte (byte_at fd (fl - 1))).start_of_transfer
        && (TailByte.from_byte (byte_at fd (fl - 1))).end_of_transfer) = false := by
      rw [hs]; rfl
    have hne : ¬ (TailByte.from_byte (byte_at fd (fl - 1)) = ⟨true, false, false⟩ ∧ 4 ≤ fl) := by
      intro h
      rw [h.1] at hs
      cases hs
    cases hty : sm.type with
    | Empty =>
      rw [sm_process_frame_empty sm id fd fl ts hfl _ rfl hns hty, if_neg hne]
      exact ⟨rfl, hno⟩
    | MultiFrame =>
      have hid : sm.multi_frame.id ≠ id := by
        intro h
        simp [StateMachine.has_same_id, hty, h] at hno
      rw [sm_process_frame_other sm id fd fl ts hfl _ rfl hns hty hid,
        sm_process_frame_empty _ id fd fl ts hfl _ rfl hns rfl, if_neg hne]
      exact ⟨rfl, has_same_id_of_empty _ _ rfl⟩

theorem process_frame_stray (d : CanBusMultiFrameDecoder) (id : Nat) (fd : List Nat)
    (fl ts : Nat) (hno : ∀ s ∈ d.state_machines, s.has_same_id id = false)
    (hs : (TailByte.from_byte (byte_at fd (fl - 1))).start_of_transfer = false) :
    (d.process_frame id fd fl ts).1 = none ∧
      ∀ s ∈ (d.process_frame id fd fl ts).2.state_machines, s.has_same_id id = false := by
  by_cases hmt : (id >>> 18) &&& 0xFF = 255
  · unfold CanBusMultiFrameDecoder.process_frame
    rw [if_pos hmt]
    exact ⟨rfl, hno⟩
  · rw [process_frame_route_lru d id fd fl ts hmt hno]
    unfold CanBusMultiFrameDecoder.route
    have hslot : (d.slot d.lru_index).has_same_id id = false := by
      rcases slot_mem_or_empty d d.lru_index with hm | he
      · exact hno _ hm
      · exact has_same_id_of_empty _ _ he
    obtain ⟨h1, h2⟩ := sm_stray (d.slot d.lru_index) id fd fl ts hslot hs
    refine ⟨h1, ?_⟩
    intro s hs'
    rcases List.mem_or_eq_of_mem_set hs' with h | h
    · exact hno s h
    · rw [h]; exact h2

/-- Frames without `start_of_transfer` for an identifier that no slot holds all return
none. -/
theorem run_stray (id : Nat) (rx : List Rx) :
    ∀ d : CanBusMultiFrameDecoder, (∀ s ∈ d.state_machines, s.has_same_id id = false) →
      (∀ r ∈ rx, r.frame_id = id ∧ r.is_continuation) →
      ∀ x ∈ (d.run rx).1, x = none := by
  induction rx with
  | nil => intro d _ _ x hx; simp [CanBusMultiFrameDecoder.run] at hx
  | cons r rs ih =>
    intro d hno hrx x hx
    obtain ⟨hrid, -, hsot⟩ := hrx r (by simp)
    obtain ⟨h1, h2⟩ := process_frame_stray d id r.frame.data r.frame.len r.timestamp_us hno hsot
    rw [run_cons, hrid] at hx
    simp only [List.mem_cons] at hx
    rcases hx with hx | hx
    · rw [hx]; exact h1
    · exact ih _ h2 (fun r' hr' => hrx r' (by simp [hr'])) x hx

/-! ## The CRC tells apart two messages that differ in one byte -/

theorem xor_mod_two_pow (a b n : Nat) : (a ^^^ b) % 2 ^ n = (a % 2 ^ n) ^^^ (b % 2 ^ n) := by
  apply Nat.eq_of_testBit_eq
  intro i
  simp only [Nat.testBit_mod_two_pow, Nat.testBit_xor]
  cases decide (i < n) <;> simp

theorem crc_shift_eq (x : Nat) (hx : x < 2 ^ 16) :
    crc_shift x = if 2 ^ 15 ≤ x then (2 * x - 2 ^ 16) ^^^ 0x1021 else 2 * x := by
  unfold crc_shift
  rw [and_0x8000, Nat.shiftLeft_eq, xor_mod_two_pow]
  have e : (0x1021 : Nat) % 2 ^ 16 = 0x1021 := by decide
  rw [e]
  by_cases h : 2 ^ 15 ≤ x
  · have h1 : x / 32768 % 2 * 32768 ≠ 0 := by omega
    have h2 : x * 2 ^ 1 % 2 ^ 16 = 2 * x - 2 ^ 16 := by omega
    rw [if_pos h1, if_pos h, h2]
  · have h1 : ¬ (x / 32768 % 2 * 32768 ≠ 0) := by omega
    have h2 : x * 2 ^ 1 % 2 ^ 16 = 2 * x := by omega
    rw [if_neg h1, if_neg h, h2]

/-- One round of the CRC register is one-to-one on 16-bit values. -/
theorem crc_shift_inj (x y : Nat) (hx : x < 2 ^ 16) (hy : y < 2 ^ 16)
    (h : crc_shift x = crc_shift y) : x = y := by
  rw [crc_shift_eq x hx, crc_shift_eq y hy] at h
  have hodd : ∀ a : Nat, (a ^^^ 0x1021) % 2 = (a + 1) % 2 := by
    intro a
    rw [Nat.xor_mod_two_eq]
    omega
  by_cases h1 : 2 ^ 15 ≤ x <;> by_cases h2 : 2 ^ 15 ≤ y
  · rw [if_pos h1, if_pos h2] at h
    have := Nat.xor_left_injective h
    simp only at this
    omega
  · rw [if_pos h1, if_neg h2] at h
    have := hodd (2 * x - 2 ^ 16)
    rw [h] at this
    omega
  · rw [if_neg h1, if_pos h2] at h
    have := hodd (2 * y - 2 ^ 16)
    rw [← h] at this
    omega
  · rw [if_neg h1, if_neg h2] at h
    omega

theorem foldl_crc_shift_inj (l : List Nat) : ∀ x y, x < 2 ^ 16 → y < 2 ^ 16 →
    l.foldl (fun crc _j => crc_shift crc) x = l.foldl (fun crc _j => crc_shift crc) y →
    x = y := by
  induction l with
  | nil => intro x y _ _ h; exact h
  | cons a l ih =>
    intro x y hx hy h
    exact crc_shift_inj x y hx hy (ih _ _ (crc_shift_lt x) (crc_shift_lt y) h)

/-- For a fixed byte the update of the CRC register is one-to-one on 16-bit values. -/
theorem crc_update_state_inj (s t b : Nat) (hs : s < 2 ^ 16) (ht : t < 2 ^ 16)
    (h : crc_update s b = crc_update t b) : s = t := by
  unfold crc_update at h
  have h1 := foldl_crc_shift_inj _ _ _ (Nat.mod_lt _ (by decide)) (Nat.mod_lt _ (by decide)) h
  rw [xor_mod_two_pow, xor_mod_two_pow, Nat.mod_eq_of_lt hs, Nat.mod_eq_of_lt ht] at h1
  exact Nat.xor_left_injective h1

/-- For a fixed register the update of the CRC tells apart two bytes. -/
theorem crc_update_byte_inj (s b c : Nat) (h : crc_update s b = crc_update s c) :
    b % 256 = c % 256 := by
  unfold crc_update at h
  have h1 := foldl_crc_shift_inj _ _ _ (Nat.mod_lt _ (by decide)) (Nat.mod_lt _ (by decide)) h
  rw [xor_mod_two_pow, xor_mod_two_pow s] at h1
  have h2 := Nat.xor_right_inj.mp h1
  simp only [Nat.shiftLeft_eq] at h2
  omega

/-- Two buffers that differ in exactly one of their first `n` bytes have different CRCs. -/
theorem calculate_crc_ne (a b : List Nat) (j : Nat) : ∀ n : Nat, j < n →
    (∀ i, i < n → i ≠ j → byte_at a i = byte_at b i) →
    byte_at a j % 256 ≠ byte_at b j % 256 →
    CanBusMultiFrameEncoder.calculate_crc a n ≠ CanBusMultiFrameEncoder.calculate_crc b n := by
  intro n
  induction n with
  | zero => intro hj; omega
  | succ m ih =>
    intro hj hsame hdiff
    rw [calculate_crc_succ, calculate_crc_succ]
    by_cases hjm : j = m
    · subst hjm
      rw [calculate_crc_congr a b j (fun i hi => hsame i (by omega) (by omega))]
      exact fun h => hdiff (crc_update_byte_inj _ _ _ h)
    · rw [hsame m (by omega) (fun h => hjm h.symm)]
      intro h
      exact ih (by omega) (fun i hi hij => hsame i (by omega) hij) hdiff
        (crc_update_state_inj _ _ _ (calculate_crc_lt _ _) (calculate_crc_lt _ _) h)

/-- Flipping one of the low eight bits changes the byte. -/
theorem flip_mod_ne (x k : Nat) (hk : k < 8) : (x ^^^ (1 <<< k)) % 256 ≠ x % 256 := by
  have e : (256 : Nat) = 2 ^ 8 := by decide
  rw [e, xor_mod_two_pow, Nat.one_shiftLeft]
  have hlt : 2 ^ k < 2 ^ 8 := Nat.pow_lt_pow_right (by decide) hk
  rw [Nat.mod_eq_of_lt hlt]
  intro h
  have h0 : x % 2 ^ 8 ^^^ 2 ^ k = x % 2 ^ 8 ^^^ 0 := by rw [h, Nat.xor_zero]
  have := Nat.xor_right_inj.mp h0
  have hpos : 0 < 2 ^ k := Nat.two_pow_pos k
  omega

/-! ## A flipped bit in the frames is a flipped bit in the bytes they carry -/

theorem length_flip_bit (l : List Nat) (i b : Nat) : (flip_bit l i b).length = l.length := by
  unfold flip_bit
  exact List.length_set _ _ _

theorem byte_at_flip_bit (l : List Nat) (i b k : Nat) :
    byte_at (flip_bit l i b) k
      = if k = i ∧ i < l.length then byte_at l i ^^^ (1 <<< b) else byte_at l k := by
  unfold flip_bit
  exact byte_at_set _ _ _ _

theorem flip_bit_take (l : List Nat) (n i b : Nat) (hi : i < n) :
    (flip_bit l i b).take n = flip_bit (l.take n) i b := by
  apply ext_byte_at
  · simp [length_flip_bit]
  · intro k _
    rw [byte_at_take, byte_at_flip_bit, byte_at_flip_bit, byte_at_take, byte_at_take,
      List.length_take]
    split_ifs <;> first | rfl | (exfalso; omega)

theorem flip_bit_take_of_le (l : List Nat) (n i b : Nat) (hi : n ≤ i) :
    (flip_bit l i b).take n = l.take n := by
  apply ext_byte_at
  · simp [length_flip_bit]
  · intro k _
    rw [byte_at_take, byte_at_flip_bit, byte_at_take]
    split_ifs <;> first | rfl | (exfalso; omega)

theorem flip_bit_drop (l : List Nat) (n i b : Nat) (hi : n ≤ i) :
    (flip_bit l i b).drop n = flip_bit (l.drop n) (i - n) b := by
  apply ext_byte_at
  · simp [length_flip_bit]
  · intro k _
    rw [byte_at_drop, byte_at_flip_bit, byte_at_flip_bit, byte_at_drop, byte_at_drop,
      List.length_drop]
    have e : n + (i - n) = i := by omega
    rw [e]
    split_ifs <;> first | rfl | (exfalso; omega)

theorem flip_bit_drop_of_lt (l : List Nat) (n i b : Nat) (hi : i < n) :
    (flip_bit l i b).drop n = l.drop n := by
  apply ext_byte_at
  · simp [length_flip_bit]
  · intro k _
    rw [byte_at_drop, byte_at_flip_bit, byte_at_drop]
    split_ifs <;> first | rfl | (exfalso; omega)

/-- Flipping a bit of a payload byte of a frame of the layout. -/
theorem flip_mkframe (pl : List Nat) (t : TailByte) (i b n : Nat) (hp : pl.length ≤ 7)
    (hi : i < pl.length) (hn : n = pl.length + 1) :
    ({ data := flip_bit (mkframe pl t).data i b, len := n } : Frame)
      = mkframe (flip_bit pl i b) t := by
  have hd : flip_bit (mkframe pl t).data i b = (mkframe (flip_bit pl i b) t).data := by
    apply ext_byte_at
    · rw [length_flip_bit, mkframe_data_length, mkframe_data_length]
    · intro k _
      rw [byte_at_flip_bit, byte_at_mkframe _ _ hp, byte_at_mkframe _ _ hp,
        byte_at_mkframe _ _ (by rw [length_flip_bit]; exact hp), byte_at_flip_bit,
        length_flip_bit, mkframe_data_length]
      split_ifs <;> first | rfl | (exfalso; omega)
  have hl : n = (mkframe (flip_bit pl i b) t).len := by
    rw [mkframe_len, length_flip_bit]; exact hn
  rw [hd, hl]

theorem flip_cont_frames (fuel : Nat) : ∀ (tg : Bool) (rest : List Nat) (q : Nat),
    rest.length ≤ fuel → q < 8 * rest.length →
    flip_transfer_bit (cont_frames_aux fuel tg rest) q
      = cont_frames_aux fuel tg (flip_bit rest (q / 8) (q % 8)) := by
  induction fuel with
  | zero => intro tg rest q h hq; omega
  | succ n ih =>
    intro tg rest q h hq
    have h0 : ¬ rest.length = 0 := by omega
    simp only [cont_frames_aux, length_flip_bit, h0, if_false]
    by_cases h7 : rest.length ≤ 7
    · simp only [if_pos h7, flip_transfer_bit, mkframe_len, Nat.add_sub_cancel, if_pos hq]
      rw [flip_mkframe rest _ (q / 8) (q % 8) _ h7 (by omega) rfl]
    · simp only [if_neg h7, flip_transfer_bit, mkframe_len, Nat.add_sub_cancel,
        List.length_take]
      have e7 : min 7 rest.length = 7 := by omega
      rw [e7]
      by_cases hq7 : q < 8 * 7
      · rw [if_pos hq7, flip_mkframe (rest.take 7) _ (q / 8) (q % 8) _ (by simp)
            (by simp; omega) (by simp; omega),
          flip_bit_take _ _ _ _ (by omega), flip_bit_drop_of_lt _ _ _ _ (by omega)]
      · rw [if_neg hq7, ih _ _ _ (by simp; omega) (by simp; omega),
          flip_bit_take_of_le _ _ _ _ (by omega), flip_bit_drop _ _ _ _ (by omega)]
        have e1 : (q - 8 * 7) / 8 = q / 8 - 7 := by omega
        have e2 : (q - 8 * 7) % 8 = q % 8 := by omega
        rw [e1, e2]

/-- Flipping bit `p` of the non-tail bytes of the frames of the layout gives the frames of
the layout for the bytes with that bit flipped. -/
theorem flip_transfer_frames (w : List Nat) (p : Nat) (hw : 8 ≤ w.length)
    (hp : p < 8 * w.length) :
    flip_transfer_bit (transfer_frames w) p
      = transfer_frames (flip_bit w (p / 8) (p % 8)) := by
  unfold transfer_frames cont_frames
  simp only [flip_transfer_bit, mkframe_len, Nat.add_sub_cancel, List.length_take,
    List.length_drop, length_flip_bit]
  have e7 : min 7 w.length = 7 := by omega
  rw [e7]
  by_cases hq7 : p < 8 * 7
  · rw [if_pos hq7, flip_mkframe (w.take 7) _ (p / 8) (p % 8) _ (by simp) (by simp; omega)
        (by simp; omega),
      flip_bit_take _ _ _ _ (by omega), flip_bit_drop_of_lt _ _ _ _ (by omega)]
  · rw [if_neg hq7, flip_cont_frames _ _ _ _ (by simp) (by simp; omega),
      flip_bit_take_of_le _ _ _ _ (by omega), flip_bit_drop _ _ _ _ (by omega)]
    have e1 : (p - 8 * 7) / 8 = p / 8 - 7 := by omega
    have e2 : (p - 8 * 7) % 8 = p % 8 := by omega
    rw [e1, e2]

/-- Frames on the log channel (message type 255) are ignored. -/
theorem run_log (id : Nat) (hmt : (id >>> 18) &&& 0xFF = 255) (rx : List Rx) :
    ∀ d : CanBusMultiFrameDecoder, (∀ r ∈ rx, r.frame_id = id) →
      ∀ x ∈ (d.run rx).1, x = none := by
  induction rx with
  | nil => intro d _ x hx; simp [CanBusMultiFrameDecoder.run] at hx
  | cons r rs ih =>
    intro d hids x hx
    have hrid : r.frame_id = id := hids r (by simp)
    have hstep : d.process_frame id r.frame.data r.frame.len r.timestamp_us = (none, d) := by
      unfold CanBusMultiFrameDecoder.process_frame
      exact if_pos hmt
    rw [run_cons, hrid, hstep] at hx
    simp only [List.mem_cons] at hx
    rcases hx with hx | hx
    · exact hx
    · exact ih d (fun r' hr' => hids r' (by simp [hr'])) x hx

/-- Two bytes other than the CRC bytes of `c` do not reassemble to `c`. -/
theorem stored_crc_ne (c lo hi : Nat) (hlo : lo < 256) (hhi : hi < 256)
    (hne : lo ≠ c % 256 ∨ hi ≠ c / 256 % 256) :
    ((lo % 2 ^ 16) ||| ((hi % 2 ^ 16) <<< 8)) % 2 ^ 16 ≠ c := by
  simp only [Nat.shiftLeft_eq]
  rw [Nat.lor_comm, or_eq_add 8 _ _ (by omega) (by omega)]
  omega

/-- The frames of a transfer with one bit of the non-tail bytes flipped, received in order by
an empty slot: the CRC check fails, so no call returns a message. -/
theorem sm_run_flipped (id : Nat) (body : List Nat) (hb8 : 8 ≤ body.length)
    (hb : body.length ≤ 256) (p : Nat) (hp : p < 8 * (body.length + 2))
    (sm : StateMachine) (hty : sm.type = SlotType.Empty)
    (hlen : sm.multi_frame.data.length = 256) (rx : List Rx)
    (hrx : rx.map Rx.frame = flip_transfer_bit
      (transfer_frames
        ((CanBusMultiFrameEncoder.calculate_crc body body.length &&& 0xFF) % 256 ::
          ((CanBusMultiFrameEncoder.calculate_crc body body.length >>> 8) &&& 0xFF) % 256
            :: body)) p)
    (hids : ∀ r ∈ rx, r.frame_id = id) :
    ∀ x ∈ (sm.run rx).1, x = none := by
  have hc := calculate_crc_lt body body.length
  obtain ⟨c, hcdef⟩ : ∃ c, c = CanBusMultiFrameEncoder.calculate_crc body body.length := ⟨_, rfl⟩
  rw [← hcdef] at hrx hc
  have hlo : (c &&& 0xFF) % 256 = c % 256 := by rw [and_0xFF, Nat.mod_mod]
  have hhi : ((c >>> 8) &&& 0xFF) % 256 = c / 256 % 256 := by
    rw [and_0xFF, Nat.mod_mod, Nat.shiftRight_eq_div_pow]
  rw [hlo, hhi, flip_transfer_frames _ p (by simp; omega) (by simpa using hp)] at hrx
  have hb8' : p % 8 < 8 := Nat.mod_lt _ (by decide)
  have hi2 : p / 8 < body.length + 2 := by omega
  generalize p / 8 = i at hrx hi2
  generalize p % 8 = b at hrx hb8'
  obtain ⟨k, data, hdata, hres⟩ := sm_run_transfer id _
    (by rw [length_flip_bit]; simp; omega) (by rw [length_flip_bit]; simp; omega)
    sm hty hlen rx hrx hids
  have e2 : (flip_bit (c % 256 :: c / 256 % 256 :: body) i b).length - 2 = body.length := by
    rw [length_flip_bit]; simp
  rw [e2] at hdata hres
  have hcrc : StateMachine.calculate_crc data body.length
      = CanBusMultiFrameEncoder.calculate_crc
          ((flip_bit (c % 256 :: c / 256 % 256 :: body) i b).drop 2) body.length := by
    rw [calculate_crc_eq]
    exact calculate_crc_congr _ _ _ hdata
  have hbit : (1 <<< b) < 2 ^ 8 := by
    rw [Nat.one_shiftLeft]; exact Nat.pow_lt_pow_right (by decide) hb8'
  have hl8 : c % 256 < 2 ^ 8 := Nat.mod_lt _ (by decide)
  have hh8 : c / 256 % 256 < 2 ^ 8 := Nat.mod_lt _ (by decide)
  have hfail : ¬ (StateMachine.calculate_crc data body.length
      = ((byte_at (flip_bit (c % 256 :: c / 256 % 256 :: body) i b) 0 % 2 ^ 16)
          ||| ((byte_at (flip_bit (c % 256 :: c / 256 % 256 :: body) i b) 1 % 2 ^ 16) <<< 8))
            % 2 ^ 16) := by
    rw [hcrc]
    by_cases hi : i < 2
    · -- the flipped bit is in the CRC bytes
      rw [flip_bit_drop_of_lt _ _ _ _ hi]
      simp only [List.drop_succ_cons, List.drop_zero]
      rw [← hcdef]
      intro h
      have hi01 : i = 0 ∨ i = 1 := by omega
      rcases hi01 with rfl | rfl
      · have b0 : byte_at (flip_bit (c % 256 :: c / 256 % 256 :: body) 0 b) 0
            = c % 256 ^^^ (1 <<< b) := by
          rw [byte_at_flip_bit, if_pos ⟨rfl, by simp⟩]; rfl
        have b1 : byte_at (flip_bit (c % 256 :: c / 256 % 256 :: body) 0 b) 1
            = c / 256 % 256 := by
          rw [byte_at_flip_bit, if_neg (by omega)]; rfl
        rw [b0, b1] at h
        have h1 := flip_mod_ne (c % 256) b hb8'
        have h2 : (c % 256 ^^^ 1 <<< b) < 2 ^ 8 := Nat.xor_lt_two_pow hl8 hbit
        exact stored_crc_ne c _ _ h2 hh8 (Or.inl (by omega)) h.symm
      · have b0 : byte_at (flip_bit (c % 256 :: c / 256 % 256 :: body) 1 b) 0
            = c % 256 := by
          rw [byte_at_flip_bit, if_neg (by omega)]; rfl
        have b1 : byte_at (flip_bit (c % 256 :: c / 256 % 256 :: body) 1 b) 1
            = c / 256 % 256 ^^^ (1 <<< b) := by
          rw [byte_at_flip_bit, if_pos ⟨rfl, by simp⟩]; rfl
        rw [b0, b1] at h
        have h1 := flip_mod_ne (c / 256 % 256) b hb8'
        have h2 : (c / 256 % 256 ^^^ 1 <<< b) < 2 ^ 8 := Nat.xor_lt_two_pow hh8 hbit
        exact stored_crc_ne c _ _ hl8 h2 (Or.inr (by omega)) h.symm
    · -- the flipped bit is in the body
      have b0 : byte_at (flip_bit (c % 256 :: c / 256 % 256 :: body) i b) 0 = c % 256 := by
        rw [byte_at_flip_bit, if_neg (by omega)]; rfl
      have b1 : byte_at (flip_bit (c % 256 :: c / 256 % 256 :: body) i b) 1
          = c / 256 % 256 := by
        rw [byte_at_flip_bit, if_neg (by omega)]; rfl
      have hcb := crc_bytes c hc
      rw [hlo, hhi] at hcb
      rw [b0, b1, flip_bit_drop _ _ _ _ (by omega), hcb, hcdef]
      simp only [List.drop_succ_cons, List.drop_zero]
      apply calculate_crc_ne _ _ (i - 2) _ (by omega)
      · intro k' _ hk'
        rw [byte_at_flip_bit, if_neg (by omega)]
      · rw [byte_at_flip_bit, if_pos ⟨rfl, by omega⟩]
        exact flip_mod_ne _ _ hb8'
  rw [hres, if_neg hfail]
  intro x hx
  simp only [List.mem_append, List.mem_replicate, List.mem_singleton] at hx
  rcases hx with hx | hx
  · exact hx.2
  · exact hx

theorem length_flip_transfer_bit (fs : List Frame) :
    ∀ p, (flip_transfer_bit fs p).length = fs.length := by
  induction fs with
  | nil => intro p; rfl
  | cons f fs ih =>
    intro p
    unfold flip_transfer_bit
    split_ifs
    · rfl
    · simp [ih]

/-! ## Frames that do not use a slot -/

/-- Writing back the slot that was read leaves the slots as they were. -/
theorem set_slot_same (d : CanBusMultiFrameDecoder) (i : Nat) :
    d.state_machines.set i (d.slot i) = d.state_machines := by
  by_cases hi : i < d.state_machines.length
  · unfold CanBusMultiFrameDecoder.slot
    apply List.ext_getElem (by simp)
    intro k h1 h2
    rw [List.getElem_set]
    split_ifs with hk
    · subst hk
      rw [List.getD_eq_getElem _ _ h2]
    · rfl
  · exact List.set_eq_of_length_le (by omega)

theorem decode_255 (buffer : List Nat) : decode 255 buffer = none := rfl

/-- A frame whose tail has SOT and EOT is decoded on its own and no slot changes. -/
theorem process_frame_single (d : CanBusMultiFrameDecoder) (id : Nat) (fd : List Nat)
    (fl ts : Nat) (hfl : fl ≠ 0)
    (hs : (TailByte.from_byte (byte_at fd (fl - 1))).start_of_transfer = true)
    (he : (TailByte.from_byte (byte_at fd (fl - 1))).end_of_transfer = true) :
    d.process_frame id fd fl ts
      = (if (TailByte.from_byte (byte_at fd (fl - 1))).toggle then none
         else (decode ((id >>> 18) &&& 0xFF) fd).map
           (fun m => { id := id, crc := StateMachine.calculate_crc fd (fl - 1), message := m }),
         d) := by
  unfold CanBusMultiFrameDecoder.process_frame
  simp only
  by_cases hmt : (id >>> 18) &&& 0xFF = 255
  · rw [if_pos hmt, hmt, decode_255]
    simp
  · rw [if_neg hmt]
    cases (List.range CanBusMultiFrameDecoder.Q).find?
        (fun i => (d.slot i).has_same_id id) with
    | none =>
      simp only [CanBusMultiFrameDecoder.route,
        sm_process_frame_single _ id fd fl ts hfl _ rfl hs he, set_slot_same]
    | some i =>
      simp only [CanBusMultiFrameDecoder.route,
        sm_process_frame_single _ id fd fl ts hfl _ rfl hs he, set_slot_same]

/-- An occupied slot drops a frame of its id that is not a single-frame transfer and that has
the wrong toggle bit or has SOT, and stays as it was. -/
theorem sm_violation (sm : StateMachine) (id : Nat) (fd : List Nat) (fl ts : Nat)
    (hty : sm.type = SlotType.MultiFrame) (hid : sm.multi_frame.id = id)
    (hns : ((TailByte.from_byte (byte_at fd (fl - 1))).start_of_transfer
      && (TailByte.from_byte (byte_at fd (fl - 1))).end_of_transfer) = false)
    (hv : (TailByte.from_byte (byte_at fd (fl - 1))).toggle ≠ sm.expected_toggle_bit
      ∨ (TailByte.from_byte (byte_at fd (fl - 1))).start_of_transfer = true) :
    sm.process_frame id fd fl ts = (none, sm) := by
  by_cases hfl : fl = 0
  · rw [hfl, sm_process_frame_zero]
  · rw [sm_process_frame_same sm id fd fl ts hfl _ rfl hns hty hid]
    by_cases htog : (TailByte.from_byte (byte_at fd (fl - 1))).toggle
        ≠ ((size_t_sub sm.multi_frame.data_len 5 / 7) % 2 == 0)
    · rw [if_pos htog]
    · rw [if_neg htog, if_pos (hv.resolve_left htog)]

/-! ## Shape of the frames of a transfer -/

theorem payload_mkframe (p : List Nat) (t : TailByte) (hp : p.length ≤ 7) :
    (mkframe p t).payload = p := by
  unfold Frame.payload
  rw [mkframe_len, Nat.add_sub_cancel]
  apply ext_byte_at
  · rw [List.length_take, mkframe_data_length]; omega
  · intro i hi
    rw [List.length_take, mkframe_data_length] at hi
    rw [byte_at_take, if_pos (by omega), byte_at_mkframe p t hp, if_pos (by omega)]

theorem tail_byte_mkframe (p : List Nat) (t : TailByte) (hp : p.length ≤ 7) :
    byte_at (mkframe p t).data ((mkframe p t).len - 1) = t.to_byte := by
  rw [mkframe_len, Nat.add_sub_cancel, byte_at_mkframe p t hp, if_neg (by omega), if_pos rfl]

theorem cont_frames_aux_ne_nil (fuel : Nat) (tg : Bool) (rest : List Nat)
    (h : rest.length ≤ fuel) (hne : rest.length ≠ 0) : cont_frames_aux fuel tg rest ≠ [] := by
  cases fuel with
  | zero => omega
  | succ n =>
    simp only [cont_frames_aux, hne, if_false]
    split_ifs <;> exact List.cons_ne_nil _ _

/-- The payloads of the continuation frames, in order, are the bytes that were left to
send. -/
theorem cont_frames_payload (fuel : Nat) : ∀ (tg : Bool) (rest : List Nat),
    rest.length ≤ fuel →
    ((cont_frames_aux fuel tg rest).map Frame.payload).flatten = rest := by
  induction fuel with
  | zero =>
    intro tg rest h
    have : rest = [] := List.length_eq_zero.mp (by omega)
    rw [this]
    rfl
  | succ n ih =>
    intro tg rest h
    unfold cont_frames_aux
    by_cases h0 : rest.length = 0
    · rw [if_pos h0, List.length_eq_zero.mp h0]
      rfl
    · rw [if_neg h0]
      by_cases h7 : rest.length ≤ 7
      · rw [if_pos h7]
        simp only [List.map_cons, List.map_nil, List.flatten_cons, List.flatten_nil,
          List.append_nil]
        exact payload_mkframe rest _ h7
      · rw [if_neg h7]
        simp only [List.map_cons, List.flatten_cons]
        rw [payload_mkframe _ _ (by simp), ih _ _ (by simp; omega), List.take_append_drop]

/-- Length, position and tail byte of the `k`-th continuation frame. -/
theorem cont_frames_shape (fuel : Nat) : ∀ (tg : Bool) (rest : List Nat),
    rest.length ≤ fuel → ∀ (k : Nat) (f : Frame),
    (cont_frames_aux fuel tg rest)[k]? = some f →
    2 ≤ f.len ∧ f.len ≤ 8 ∧
      (k + 1 < (cont_frames_aux fuel tg rest).length → f.len = 8) ∧
      byte_at f.data (f.len - 1)
        = (TailByte.mk false (decide (k + 1 = (cont_frames_aux fuel tg rest).length))
            (tg != decide (k % 2 = 1))).to_byte := by
  induction fuel with
  | zero =>
    intro tg rest h k f hf
    simp [cont_frames_aux] at hf
  | succ n ih =>
    intro tg rest h k f hf
    unfold cont_frames_aux at hf ⊢
    by_cases h0 : rest.length = 0
    · rw [if_pos h0] at hf
      simp at hf
    · rw [if_neg h0] at hf ⊢
      by_cases h7 : rest.length ≤ 7
      · rw [if_pos h7] at hf ⊢
        cases k with
        | zero =>
          simp only [List.getElem?_cons_zero, Option.some.injEq] at hf
          subst hf
          refine ⟨by rw [mkframe_len]; omega, by rw [mkframe_len]; omega, ?_, ?_⟩
          · intro hk
            simp at hk
          · rw [tail_byte_mkframe _ _ h7]
            cases tg <;> rfl
        | succ k => simp at hf
      · rw [if_neg h7] at hf ⊢
        have hne := cont_frames_aux_ne_nil n (!tg) (rest.drop 7) (by simp; omega)
          (by simp; omega)
        have hpos : 0 < (cont_frames_aux n (!tg) (rest.drop 7)).length :=
          List.length_pos.mpr hne
        cases k with
        | zero =>
          simp only [List.getElem?_cons_zero, Option.some.injEq] at hf
          subst hf
          have hl : (rest.take 7).length = 7 := by simp; omega
          refine ⟨by rw [mkframe_len]; omega, by rw [mkframe_len]; omega, ?_, ?_⟩
          · intro _
            rw [mkframe_len, hl]
          · rw [tail_byte_mkframe _ _ (by omega)]
            have hd : decide (0 + 1
                = (mkframe (rest.take 7) ⟨false, false, tg⟩
                    :: cont_frames_aux n (!tg) (rest.drop 7)).length) = false := by
              simp only [List.length_cons, decide_eq_false_iff_not]
              omega
            rw [hd]
            cases tg <;> rfl
        | succ k =>
          simp only [List.getElem?_cons_succ] at hf
          obtain ⟨h2, h8, hfull, htail⟩ := ih (!tg) (rest.drop 7) (by simp; omega) k f hf
          refine ⟨h2, h8, ?_, ?_⟩
          · intro hk
            simp only [List.length_cons] at hk
            exact hfull (by omega)
          · rw [htail]
            have e1 : decide (k + 1 + 1
                = (mkframe (rest.take 7) ⟨false, false, tg⟩
                    :: cont_frames_aux n (!tg) (rest.drop 7)).length)
                = decide (k + 1 = (cont_frames_aux n (!tg) (rest.drop 7)).length) := by
              simp only [List.length_cons]
              by_cases hh : k + 1 = (cont_frames_aux n (!tg) (rest.drop 7)).length
              · simp [hh]
              · simp [hh]
            have e2 : ((!tg) != decide (k % 2 = 1)) = (tg != decide ((k + 1) % 2 = 1)) := by
              rcases Nat.mod_two_eq_zero_or_one k with hk | hk
              · have hk' : (k + 1) % 2 = 1 := by omega
                rw [hk, hk']
                cases tg <;> rfl
              · have hk' : (k + 1) % 2 = 0 := by omega
                rw [hk, hk']
                cases tg <;> rfl
            rw [e1, e2]

theorem to_byte_low_bits (t : TailByte) : t.to_byte &&& 0x1F = 0 := by
  obtain ⟨_ | _, _ | _, _ | _⟩ := t <;> rfl

/-- Each `next()` moves the offset forward and keeps the message length. -/
theorem next_progress (e : CanBusMultiFrameEncoder) (h : e.offset < e.message_len) :
    (e.next).2.message_len = e.message_len ∧
      e.message_len - (e.next).2.offset < e.message_len - e.offset := by
  unfold CanBusMultiFrameEncoder.next
  simp only
  split_ifs with h1 h2 h3 <;> refine ⟨rfl, ?_⟩ <;> dsimp only <;> omega

/-- The loop `while (has_next()) next()` stops within `message_len - offset` iterations. -/
theorem drain_finishes (fuel : Nat) : ∀ e : CanBusMultiFrameEncoder,
    e.message_len - e.offset ≤ fuel →
    (CanBusMultiFrameEncoder.drain fuel e).2.has_next = false := by
  induction fuel with
  | zero =>
    intro e h
    simp only [CanBusMultiFrameEncoder.drain, CanBusMultiFrameEncoder.has_next,
      decide_eq_false_iff_not]
    omega
  | succ n ih =>
    intro e h
    unfold CanBusMultiFrameEncoder.drain
    by_cases hn : e.offset < e.message_len
    · have hhn : e.has_next = true := by simp [CanBusMultiFrameEncoder.has_next, hn]
      rw [if_pos hhn]
      obtain ⟨h1, h2⟩ := next_progress e hn
      exact ih _ (by rw [h1]; omega)
    · have hhn : e.has_next = false := by
        simp only [CanBusMultiFrameEncoder.has_next, decide_eq_false_iff_not]; exact hn
      rw [if_neg (by rw [hhn]; decide)]
      exact hhn

theorem transfer_frames_length (w : List Nat) (hw : 8 ≤ w.length) :
    2 ≤ (transfer_frames w).length := by
  unfold transfer_frames cont_frames
  have := List.length_pos.mpr
    (cont_frames_aux_ne_nil (w.drop 7).length true (w.drop 7) (Nat.le_refl _) (by simp; omega))
  simp only [List.length_cons]
  omega

/-- Length, position and tail byte of the `k`-th frame of a transfer. -/
theorem transfer_frames_shape (w : List Nat) (hw : 8 ≤ w.length) (k : Nat) (f : Frame)
    (hf : (transfer_frames w)[k]? = some f) :
    2 ≤ f.len ∧ f.len ≤ 8 ∧ (k + 1 < (transfer_frames w).length → f.len = 8) ∧
      byte_at f.data (f.len - 1)
        = (TailByte.mk (decide (k = 0)) (decide (k + 1 = (transfer_frames w).length))
            (decide (k % 2 = 1))).to_byte := by
  have h2 := transfer_frames_length w hw
  unfold transfer_frames at hf h2 ⊢
  unfold cont_frames at hf h2 ⊢
  have hl : (w.take 7).length = 7 := by simp; omega
  cases k with
  | zero =>
    simp only [List.getElem?_cons_zero, Option.some.injEq] at hf
    subst hf
    refine ⟨by rw [mkframe_len]; omega, by rw [mkframe_len]; omega, ?_, ?_⟩
    · intro _
      rw [mkframe_len, hl]
    · rw [tail_byte_mkframe _ _ (by omega)]
      have hd : decide (0 + 1
          = (mkframe (w.take 7) ⟨true, false, false⟩
              :: cont_frames_aux (w.drop 7).length true (w.drop 7)).length) = false := by
        simp only [decide_eq_false_iff_not]
        omega
      rw [hd]
      rfl
  | succ k =>
    simp only [List.getElem?_cons_succ] at hf
    obtain ⟨h2', h8, hfull, htail⟩ :=
      cont_frames_shape (w.drop 7).length true (w.drop 7) (Nat.le_refl _) k f hf
    refine ⟨h2', h8, ?_, ?_⟩
    · intro hk
      simp only [List.length_cons] at hk
      exact hfull (by omega)
    · rw [htail]
      have e0 : decide (k + 1 = 0) = false := by simp
      have e1 : decide (k + 1 + 1
          = (mkframe (w.take 7) ⟨true, false, false⟩
              :: cont_frames_aux (w.drop 7).length true (w.drop 7)).length)
          = decide (k + 1 = (cont_frames_aux (w.drop 7).length true (w.drop 7)).length) := by
        simp only [List.length_cons]
        by_cases hh : k + 1 = (cont_frames_aux (w.drop 7).length true (w.drop 7)).length
        · simp [hh]
        · simp [hh]
      have e2 : (true != decide (k % 2 = 1)) = decide ((k + 1) % 2 = 1) := by
        rcases Nat.mod_two_eq_zero_or_one k with hk | hk
        · have hk' : (k + 1) % 2 = 1 := by omega
          rw [hk, hk']
          rfl
        · have hk' : (k + 1) % 2 = 0 := by omega
          rw [hk, hk']
          rfl
      rw [e0, e1, e2]

/-- The payloads of the frames of a transfer, in order, are its non-tail bytes. -/
theorem transfer_frames_payload (w : List Nat) :
    ((transfer_frames w).map Frame.payload).flatten = w := by
  unfold transfer_frames cont_frames
  simp only [List.map_cons, List.flatten_cons]
  rw [payload_mkframe _ _ (by simp), cont_frames_payload _ _ _ (Nat.le_refl _),
    List.take_append_drop]

/-! ## What one call does to a slot -/

/-- The slot after `StateMachine::process_frame`: as it was, emptied, opened for the frame's
id with `frame_len - 3` bytes, or (occupied with the frame's id before) extended by the
`frame_len - 1` bytes of the frame within the 256 cells. -/
theorem sm_process_frame_cases (sm : StateMachine) (id : Nat) (fd : List Nat) (fl ts : Nat) :
    (sm.process_frame id fd fl ts).2 = sm
    ∨ (sm.process_frame id fd fl ts).2 = { sm with type := SlotType.Empty }
    ∨ (4 ≤ fl ∧ (sm.process_frame id fd fl ts).2
        = { type := SlotType.MultiFrame
            multi_frame :=
              { id := id
                first_frame_timestamp_us := ts
                crc := ((byte_at fd 0 % 2 ^ 16) ||| ((byte_at fd 1 % 2 ^ 16) <<< 8)) % 2 ^ 16
                data := memcpy sm.multi_frame.data 0 fd 2 (fl - 3)
                data_len := fl - 3 } })
    ∨ (sm.type = SlotType.MultiFrame ∧ sm.multi_frame.id = id ∧ 1 ≤ fl ∧
        sm.multi_frame.data_len + (fl - 1) ≤ 256 ∧
        ∃ ty, (sm.process_frame id fd fl ts).2
          = { type := ty
              multi_frame :=
                { sm.multi_frame with
                  data := memcpy sm.multi_frame.data sm.multi_frame.data_len fd 0 (fl - 1)
                  data_len := sm.multi_frame.data_len + (fl - 1) } }) := by
  by_cases hfl : fl = 0
  · subst hfl
    rw [sm_process_frame_zero]
    exact Or.inl rfl
  · by_cases hns : ((TailByte.from_byte (byte_at fd (fl - 1))).start_of_transfer &&
        (TailByte.from_byte (byte_at fd (fl - 1))).end_of_transfer) = true
    · simp only [Bool.and_eq_true] at hns
      rw [sm_process_frame_single sm id fd fl ts hfl _ rfl hns.1 hns.2]
      exact Or.inl rfl
    · simp only [Bool.not_eq_true] at hns
      by_cases hte : sm.type = SlotType.Empty
      · rw [sm_process_frame_empty sm id fd fl ts hfl _ rfl hns hte]
        split_ifs with h
        · exact Or.inr (Or.inr (Or.inl ⟨h.2, rfl⟩))
        · exact Or.inl rfl
      · have hty : sm.type = SlotType.MultiFrame := by
          cases h : sm.type with
          | Empty => exact absurd h hte
          | MultiFrame => rfl
        by_cases hid : sm.multi_frame.id = id
        · rw [sm_process_frame_same sm id fd fl ts hfl _ rfl hns hty hid]
          simp only
          split_ifs with h1 h2 h3 h4 h5
          · exact Or.inl rfl
          · exact Or.inl rfl
          · exact Or.inr (Or.inl rfl)
          · exact Or.inr (Or.inr (Or.inr ⟨hty, hid, by omega, by omega, _, rfl⟩))
          · exact Or.inr (Or.inr (Or.inr ⟨hty, hid, by omega, by omega, _, rfl⟩))
          · exact Or.inr (Or.inr (Or.inr ⟨hty, hid, by omega, by omega, _, rfl⟩))
        · rw [sm_process_frame_other sm id fd fl ts hfl _ rfl hns hty hid,
            sm_process_frame_empty _ id fd fl ts hfl _ rfl hns rfl]
          split_ifs with h
          · exact Or.inr (Or.inr (Or.inl ⟨h.2, rfl⟩))
          · exact Or.inr (Or.inl rfl)

/-! ## Invariants of the decoder -/

/-- Where `CanBusMultiFrameDecoder::process_frame` sends a frame: nowhere (log channel), to
the first slot that holds its id, or, when no slot holds it, to the slot `lru_index`. -/
theorem process_frame_route (d : CanBusMultiFrameDecoder) (id : Nat) (fd : List Nat)
    (fl ts : Nat) :
    d.process_frame id fd fl ts = (none, d) ∨
    ∃ i, d.process_frame id fd fl ts = d.route i id fd fl ts ∧
      ((i < CanBusMultiFrameDecoder.Q ∧ (d.slot i).has_same_id id = true) ∨
        ∀ k, k < CanBusMultiFrameDecoder.Q → (d.slot k).has_same_id id = false) := by
  unfold CanBusMultiFrameDecoder.process_frame
  simp only
  by_cases hmt : (id >>> 18) &&& 0xFF = 255
  · rw [if_pos hmt]
    exact Or.inl rfl
  · rw [if_neg hmt]
    right
    cases hf : (List.range CanBusMultiFrameDecoder.Q).find?
        (fun i => (d.slot i).has_same_id id) with
    | none =>
      refine ⟨d.lru_index, rfl, Or.inr ?_⟩
      intro k hk
      have := List.find?_eq_none.mp hf k (List.mem_range.mpr hk)
      simpa using this
    | some i =>
      refine ⟨i, rfl, Or.inl ⟨?_, ?_⟩⟩
      · exact List.mem_range.mp (List.mem_of_find?_eq_some hf)
      · exact List.find?_some (p := fun i => (d.slot i).has_same_id id) hf

theorem slot_set (l : List StateMachine) (i : Nat) (x : StateMachine) (k : Nat) :
    CanBusMultiFrameDecoder.slot ⟨l.set i x⟩ k
      = if k = i ∧ i < l.length then x else CanBusMultiFrameDecoder.slot ⟨l⟩ k := by
  unfold CanBusMultiFrameDecoder.slot
  simp only [List.getD_eq_getElem?_getD, List.getElem?_set]
  by_cases hik : i = k
  · subst hik
    by_cases hl : i < l.length
    · simp [hl]
    · simp [hl, List.getElem?_eq_none (Nat.le_of_not_lt hl)]
  · have hki : ¬ k = i := fun h => hik h.symm
    simp [hik, hki]

theorem process_frame_length (d : CanBusMultiFrameDecoder) (id : Nat) (fd : List Nat)
    (fl ts : Nat) :
    (d.process_frame id fd fl ts).2.state_machines.length = d.state_machines.length := by
  rcases process_frame_route d id fd fl ts with h | ⟨i, h, -⟩
  · rw [h]
  · rw [h]
    exact List.length_set _ _ _

theorem run_state_length (rx : List Rx) : ∀ d : CanBusMultiFrameDecoder,
    (d.run rx).2.state_machines.length = d.state_machines.length := by
  induction rx with
  | nil => intro d; rfl
  | cons r rs ih =>
    intro d
    rw [run_cons, ih, process_frame_length]

/-- Replacing slot `i` by a slot whose id, if it is occupied, is held by no other occupied
slot keeps the ids distinct. -/
theorem distinct_ids_set (d : CanBusMultiFrameDecoder) (i : Nat) (x : StateMachine)
    (hd : d.distinct_ids)
    (hx : x.type = SlotType.MultiFrame → ∀ k, k < CanBusMultiFrameDecoder.Q → k ≠ i →
      (d.slot k).type = SlotType.MultiFrame → x.multi_frame.id ≠ (d.slot k).multi_frame.id) :
    CanBusMultiFrameDecoder.distinct_ids ⟨d.state_machines.set i x⟩ := by
  intro a b ha hb hab hta htb
  rw [slot_set] at hta htb ⊢
  rw [slot_set]
  by_cases hai : a = i ∧ i < d.state_machines.length
  · have hbi : ¬ (b = i ∧ i < d.state_machines.length) := fun h => hab (hai.1.trans h.1.symm)
    rw [if_pos hai] at hta ⊢
    rw [if_neg hbi] at htb ⊢
    exact hx hta b hb (fun h => hab (hai.1.trans h.symm)) htb
  · rw [if_neg hai] at hta ⊢
    by_cases hbi : b = i ∧ i < d.state_machines.length
    · rw [if_pos hbi] at htb ⊢
      exact fun h => hx htb a ha (fun h' => hab (h'.trans hbi.1.symm)) hta h.symm
    · rw [if_neg hbi] at htb ⊢
      exact hd a b ha hb hab hta htb

/-- One call keeps the ids of the occupied slots distinct. -/
theorem distinct_ids_step (d : CanBusMultiFrameDecoder) (id : Nat) (fd : List Nat)
    (fl ts : Nat) (hd : d.distinct_ids) : (d.process_frame id fd fl ts).2.distinct_ids := by
  rcases process_frame_route d id fd fl ts with h | ⟨i, h, hi⟩
  · rw [h]; exact hd
  · rw [h]
    unfold CanBusMultiFrameDecoder.route
    simp only
    rcases hi with ⟨hiQ, hsame⟩ | hnone
    · obtain ⟨hty, hid⟩ := (has_same_id_iff _ _).mp hsame
      apply distinct_ids_set d i _ hd
      intro hx k hk hki hkt
      have hnew : ((d.slot i).process_frame id fd fl ts).2.multi_frame.id = id := by
        rcases sm_process_frame_id (d.slot i) id fd fl ts (Or.inr hid) with h1 | h1
        · rw [h1] at hx; cases hx
        · exact h1
      rw [hnew, ← hid]
      exact hd i k hiQ hk (fun h' => hki h'.symm) hty hkt
    · rcases sm_process_frame_cases (d.slot i) id fd fl ts with h1 | h1 | ⟨-, h1⟩ | ⟨hty, hid, -⟩
      · rw [h1, set_slot_same]
        exact hd
      · apply distinct_ids_set d i _ hd
        intro hx
        rw [h1] at hx
        cases hx
      · apply distinct_ids_set d i _ hd
        intro _ k hk _ hkt
        rw [h1]
        intro h'
        have := hnone k hk
        rw [StateMachine.has_same_id, hkt] at this
        simp only [beq_self_eq_true, Bool.true_and, beq_eq_false_iff_ne] at this
        exact this h'.symm
      · rcases slot_mem_or_empty d i with hm | he
        · by_cases hiQ : i < CanBusMultiFrameDecoder.Q
          · have := hnone i hiQ
            rw [(has_same_id_iff _ _).mpr ⟨hty, hid⟩] at this
            cases this
          · -- the slot is beyond the eight slots the loops look at
            apply distinct_ids_set d i _ hd
            intro hx k hk hki hkt
            intro h'
            have hnew : ((d.slot i).process_frame id fd fl ts).2.multi_frame.id = id := by
              rcases sm_process_frame_id (d.slot i) id fd fl ts (Or.inr hid) with h1 | h1
              · rw [h1] at hx; cases hx
              · exact h1
            have := hnone k hk
            rw [StateMachine.has_same_id, hkt] at this
            simp only [beq_self_eq_true, Bool.true_and, beq_eq_false_iff_ne] at this
            exact this (h'.symm.trans hnew)
        · rw [he] at hty
          cases hty

theorem distinct_ids_run (rx : List Rx) : ∀ d : CanBusMultiFrameDecoder, d.distinct_ids →
    (d.run rx).2.distinct_ids := by
  induction rx with
  | nil => intro d hd; exact hd
  | cons r rs ih =>
    intro d hd
    rw [run_cons]
    exact ih _ (distinct_ids_step d _ _ _ _ hd)

theorem distinct_ids_fresh (d : CanBusMultiFrameDecoder) (hd : d.fresh) : d.distinct_ids := by
  intro i j _ _ _ hti _
  rcases slot_mem_or_empty d i with hm | he
  · rw [(hd.2 _ hm).1] at hti; cases hti
  · rw [he] at hti; cases hti

/-- The buffer of the slot after `StateMachine::process_frame` is the buffer before with the
one `memcpy` of the call applied, when there is one. -/
theorem memcpy_call_data (sm : StateMachine) (id : Nat) (fd : List Nat) (fl ts : Nat) :
    (sm.process_frame id fd fl ts).2.multi_frame.data
      = match sm.memcpy_call id fd fl with
        | none => sm.multi_frame.data
        | some (o, s, n) => memcpy sm.multi_frame.data o fd s n := by
  unfold StateMachine.memcpy_call
  by_cases hfl : fl = 0
  · subst hfl
    rw [sm_process_frame_zero]
    rfl
  · rw [if_neg hfl]
    simp only
    by_cases hns : ((TailByte.from_byte (byte_at fd (fl - 1))).start_of_transfer &&
        (TailByte.from_byte (byte_at fd (fl - 1))).end_of_transfer) = true
    · rw [if_pos hns]
      simp only [Bool.and_eq_true] at hns
      rw [sm_process_frame_single sm id fd fl ts hfl _ rfl hns.1 hns.2]
    · rw [if_neg hns]
      simp only [Bool.not_eq_true] at hns
      by_cases hte : sm.type = SlotType.Empty
      · rw [if_pos (Or.inl hte), sm_process_frame_empty sm id fd fl ts hfl _ rfl hns hte]
        obtain ⟨_ | _, _ | _, _ | _⟩ := TailByte.from_byte (byte_at fd (fl - 1)) <;>
          simp <;> split_ifs <;> first | rfl | (exfalso; omega)
      · have hty : sm.type = SlotType.MultiFrame := by
          cases h : sm.type with
          | Empty => exact absurd h hte
          | MultiFrame => rfl
        by_cases hid : sm.multi_frame.id = id
        · rw [if_neg (by rw [hty]; simp [hid]),
            sm_process_frame_same sm id fd fl ts hfl _ rfl hns hty hid]
          simp only
          split_ifs <;> first | rfl | (exfalso; simp_all)
        · rw [if_pos (Or.inr hid), sm_process_frame_other sm id fd fl ts hfl _ rfl hns hty hid,
            sm_process_frame_empty _ id fd fl ts hfl _ rfl hns rfl]
          obtain ⟨_ | _, _ | _, _ | _⟩ := TailByte.from_byte (byte_at fd (fl - 1)) <;>
            simp <;> split_ifs <;> first | rfl | (exfalso; omega)

/-- The `memcpy` of a call for a frame of at most eight bytes stays inside the 256 cells of
the slot buffer, and reads inside the frame. -/
theorem memcpy_call_bound (sm : StateMachine) (id : Nat) (fd : List Nat) (fl : Nat)
    (hfl : fl ≤ 8) (o s n : Nat) (h : sm.memcpy_call id fd fl = some (o, s, n)) :
    o + n ≤ 256 ∧ s + n < fl := by
  unfold StateMachine.memcpy_call at h
  simp only at h
  split_ifs at h <;> simp only [Option.some.injEq, Prod.mk.injEq] at h <;>
    first
    | (exfalso; exact h)
    | (obtain ⟨rfl, rfl, rfl⟩ := h; omega)

/-- One call for a frame of at most eight bytes keeps every buffer at 256 cells and every
occupied slot between 1 and 256 bytes. -/
theorem lengths_ok_step (d : CanBusMultiFrameDecoder) (id : Nat) (fd : List Nat)
    (fl ts : Nat) (hfl : fl ≤ 8) (hd : d.lengths_ok) :
    (d.process_frame id fd fl ts).2.lengths_ok := by
  rcases process_frame_route d id fd fl ts with h | ⟨i, h, -⟩
  · rw [h]; exact hd
  · rw [h]
    unfold CanBusMultiFrameDecoder.route
    simp only
    by_cases hi : i < d.state_machines.length
    · have hs := hd _ (slot_of_lt d i hi)
      intro s hs'
      rcases List.mem_or_eq_of_mem_set hs' with hm | rfl
      · exact hd s hm
      · rcases sm_process_frame_cases (d.slot i) id fd fl ts with h1 | h1 | ⟨h4, h1⟩
            | ⟨hty, -, h1fl, hfit, ty, h1⟩
        · rw [h1]; exact hs
        · rw [h1]
          exact ⟨hs.1, fun h' => by cases h'⟩
        · rw [h1]
          refine ⟨by simp [hs.1], fun _ => ?_⟩
          simp only
          omega
        · rw [h1]
          refine ⟨by simp [hs.1], fun _ => ?_⟩
          have := hs.2 hty
          simp only
          omega
    · rw [List.set_eq_of_length_le (by omega)]
      exact hd

theorem lengths_ok_run (rx : List Rx) : ∀ d : CanBusMultiFrameDecoder, d.lengths_ok →
    (∀ r ∈ rx, r.frame.len ≤ 8) → (d.run rx).2.lengths_ok := by
  induction rx with
  | nil => intro d hd _; exact hd
  | cons r rs ih =>
    intro d hd hrx
    rw [run_cons]
    exact ih _ (lengths_ok_step d _ _ _ _ (hrx r (by simp)) hd)
      (fun r' hr' => hrx r' (by simp [hr']))

theorem lengths_ok_fresh (d : CanBusMultiFrameDecoder) (hd : d.fresh) : d.lengths_ok := by
  intro s hs
  refine ⟨(hd.2 s hs).2, fun h => ?_⟩
  rw [(hd.2 s hs).1] at h
  cases h

/-! ## Big-endian integer I/O on a buffer -/

theorem length_be_bytes (n v : Nat) : (be_bytes n v).length = n := by
  induction n with
  | zero => rfl
  | succ n ih => simp [be_bytes, ih]

/-- A buffer that differs from `buffer` exactly by holding `l` at offset `off`. -/
theorem splice_eq (buffer l w : List Nat) (off : Nat) (h : off + l.length ≤ buffer.length)
    (hw : w.length = buffer.length)
    (hin : ∀ k, k < l.length → byte_at w (off + k) = byte_at l k)
    (hout : ∀ i, i < off ∨ off + l.length ≤ i → byte_at w i = byte_at buffer i) :
    w = buffer.take off ++ l ++ buffer.drop (off + l.length) := by
  apply ext_byte_at
  · simp only [List.length_append, List.length_take, List.length_drop, hw]; omega
  · intro i _
    rw [byte_at_append, List.length_append, List.length_take, byte_at_append, List.length_take,
      byte_at_take, byte_at_drop, Nat.min_eq_left (by omega)]
    by_cases h1 : i < off
    · rw [if_pos (by omega), if_pos h1, if_pos h1]; exact hout i (Or.inl h1)
    · by_cases h2 : i < off + l.length
      · rw [if_pos h2, if_neg h1, ← hin (i - off) (by omega)]
        congr 1; omega
      · rw [if_neg h2, hout i (Or.inr (by omega))]
        congr 1; omega

theorem write_u16_be_eq (buffer : List Nat) (off v : Nat) (h : off + 2 ≤ buffer.length) :
    write_u16_be buffer off v = buffer.take off ++ be_bytes 2 v ++ buffer.drop (off + 2) := by
  have e0 : (off < buffer.length) = True := by simp; omega
  have e1 : (off + 1 < buffer.length) = True := by simp; omega
  refine splice_eq buffer (be_bytes 2 v) _ off h (by simp [write_u16_be]) ?_ ?_
  · intro k hk
    simp only [length_be_bytes] at hk
    interval_cases k <;>
      simp [write_u16_be, be_bytes, byte_at_store, e0, e1, and_0xFF, Nat.shiftRight_eq_div_pow,
        byte_at_cons_zero, byte_at_cons_succ]
  · intro i hi
    simp only [length_be_bytes] at hi
    simp only [write_u16_be]
    rw [byte_at_store_of_ne _ _ _ _ (by omega), byte_at_store_of_ne _ _ _ _ (by omega)]

theorem write_u24_be_eq (buffer : List Nat) (off v : Nat) (h : off + 3 ≤ buffer.length) :
    write_u24_be buffer off v = buffer.take off ++ be_bytes 3 v ++ buffer.drop (off + 3) := by
  have e0 : (off < buffer.length) = True := by simp; omega
  have e1 : (off + 1 < buffer.length) = True := by simp; omega
  have e2 : (off + 2 < buffer.length) = True := by simp; omega
  refine splice_eq buffer (be_bytes 3 v) _ off h (by simp [write_u24_be]) ?_ ?_
  · intro k hk
    simp only [length_be_bytes] at hk
    interval_cases k <;>
      simp [write_u24_be, be_bytes, byte_at_store, e0, e1, e2, and_0xFF,
        Nat.shiftRight_eq_div_pow, byte_at_cons_zero, byte_at_cons_succ]
  · intro i hi
    simp only [length_be_bytes] at hi
    simp only [write_u24_be]
    rw [byte_at_store_of_ne _ _ _ _ (by omega), byte_at_store_of_ne _ _ _ _ (by omega),
      byte_at_store_of_ne _ _ _ _ (by omega)]

theorem write_u32_be_eq (buffer : List Nat) (off v : Nat) (h : off + 4 ≤ buffer.length) :
    write_u32_be buffer off v = buffer.take off ++ be_bytes 4 v ++ buffer.drop (off + 4) := by
  have e0 : (off < buffer.length) = True := by simp; omega
  have e1 : (off + 1 < buffer.length) = True := by simp; omega
  have e2 : (off + 2 < buffer.length) = True := by simp; omega
  have e3 : (off + 3 < buffer.length) = True := by simp; omega
  refine splice_eq buffer (be_bytes 4 v) _ off h (by simp [write_u32_be]) ?_ ?_
  · intro k hk
    simp only [length_be_bytes] at hk
    interval_cases k <;>
      simp [write_u32_be, be_bytes, byte_at_store, e0, e1, e2, e3, and_0xFF,
        Nat.shiftRight_eq_div_pow, byte_at_cons_zero, byte_at_cons_succ]
  · intro i hi
    simp only [length_be_bytes] at hi
    simp only [write_u32_be]
    rw [byte_at_store_of_ne _ _ _ _ (by omega), byte_at_store_of_ne _ _ _ _ (by omega),
      byte_at_store_of_ne _ _ _ _ (by omega), byte_at_store_of_ne _ _ _ _ (by omega)]

theorem write_u56_be_eq (buffer : List Nat) (off v : Nat) (h : off + 7 ≤ buffer.length) :
    write_u56_be buffer off v = buffer.take off ++ be_bytes 7 v ++ buffer.drop (off + 7) := by
  have e0 : (off < buffer.length) = True := by simp; omega
  have e1 : (off + 1 < buffer.length) = True := by simp; omega
  have e2 : (off + 2 < buffer.length) = True := by simp; omega
  have e3 : (off + 3 < buffer.length) = True := by simp; omega
  have e4 : (off + 4 < buffer.length) = True := by simp; omega
  have e5 : (off + 5 < buffer.length) = True := by simp; omega
  have e6 : (off + 6 < buffer.length) = True := by simp; omega
  refine splice_eq buffer (be_bytes 7 v) _ off h (by simp [write_u56_be]) ?_ ?_
  · intro k hk
    simp only [length_be_bytes] at hk
    interval_cases k <;>
      simp [write_u56_be, be_bytes, byte_at_store, e0, e1, e2, e3, e4, e5, e6, and_0xFF,
        Nat.shiftRight_eq_div_pow, byte_at_cons_zero, byte_at_cons_succ]
  · intro i hi
    simp only [length_be_bytes] at hi
    simp only [write_u56_be]
    rw [byte_at_store_of_ne _ _ _ _ (by omega), byte_at_store_of_ne _ _ _ _ (by omega),
      byte_at_store_of_ne _ _ _ _ (by omega), byte_at_store_of_ne _ _ _ _ (by omega),
      byte_at_store_of_ne _ _ _ _ (by omega), byte_at_store_of_ne _ _ _ _ (by omega),
      byte_at_store_of_ne _ _ _ _ (by omega)]

theorem write_u64_be_eq (buffer : List Nat) (off v : Nat) (h : off + 8 ≤ buffer.length) :
    write_u64_be buffer off v = buffer.take off ++ be_bytes 8 v ++ buffer.drop (off + 8) := by
  have e0 : (off < buffer.length) = True := by simp; omega
  have e1 : (off + 1 < buffer.length) = True := by simp; omega
  have e2 : (off + 2 < buffer.length) = True := by simp; omega
  have e3 : (off + 3 < buffer.length) = True := by simp; omega
  have e4 : (off + 4 < buffer.length) = True := by simp; omega
  have e5 : (off + 5 < buffer.length) = True := by simp; omega
  have e6 : (off + 6 < buffer.length) = True := by simp; omega
  have e7 : (off + 7 < buffer.length) = True := by simp; omega
  refine splice_eq buffer (be_bytes 8 v) _ off h (by simp [write_u64_be, write_u32_be]) ?_ ?_
  · intro k hk
    simp only [length_be_bytes] at hk
    interval_cases k <;>
      simp [write_u64_be, write_u32_be, be_bytes, byte_at_store, e0, e1, e2, e3, e4, e5, e6, e7,
        and_0xFF, and_0xFFFFFFFF, Nat.shiftRight_eq_div_pow, byte_at_cons_zero,
        byte_at_cons_succ, Nat.add_assoc] <;>
      omega
  · intro i hi
    simp only [length_be_bytes] at hi
    simp only [write_u64_be, write_u32_be]
    rw [byte_at_store_of_ne _ _ _ _ (by omega), byte_at_store_of_ne _ _ _ _ (by omega),
      byte_at_store_of_ne _ _ _ _ (by omega), byte_at_store_of_ne _ _ _ _ (by omega),
      byte_at_store_of_ne _ _ _ _ (by omega), byte_at_store_of_ne _ _ _ _ (by omega),
      byte_at_store_of_ne _ _ _ _ (by omega), byte_at_store_of_ne _ _ _ _ (by omega)]

theorem read_write_u16_be (buffer : List Nat) (off v : Nat) (h : off + 2 ≤ buffer.length) :
    read_u16_be (write_u16_be buffer off v) off = v % 2 ^ 16 := by
  have e0 : (off < buffer.length) = True := by simp; omega
  have e1 : (off + 1 < buffer.length) = True := by simp; omega
  simp [read_u16_be, write_u16_be, byte_at_store, e0, e1, and_0xFF, Nat.shiftRight_eq_div_pow]
  simp only [Nat.shiftLeft_eq]
  simp (disch := omega) only [or_add_8, or_add_16, or_add_24, or_add_32, or_add_40, or_add_48]
  omega

theorem read_write_u24_be (buffer : List Nat) (off v : Nat) (h : off + 3 ≤ buffer.length) :
    read_u24_be (write_u24_be buffer off v) off = v % 2 ^ 24 := by
  have e0 : (off < buffer.length) = True := by simp; omega
  have e1 : (off + 1 < buffer.length) = True := by simp; omega
  have e2 : (off + 2 < buffer.length) = True := by simp; omega
  simp [read_u24_be, write_u24_be, byte_at_store, e0, e1, e2, and_0xFF,
    Nat.shiftRight_eq_div_pow]
  simp only [Nat.shiftLeft_eq]
  simp (disch := omega) only [or_add_8, or_add_16, or_add_24, or_add_32, or_add_40, or_add_48]
  omega

theorem read_write_u32_be (buffer : List Nat) (off v : Nat) (h : off + 4 ≤ buffer.length) :
    read_u32_be (write_u32_be buffer off v) off = v % 2 ^ 32 := by
  have e0 : (off < buffer.length) = True := by simp; omega
  have e1 : (off + 1 < buffer.length) = True := by simp; omega
  have e2 : (off + 2 < buffer.length) = True := by simp; omega
  have e3 : (off + 3 < buffer.length) = True := by simp; omega
  simp [read_u32_be, write_u32_be, byte_at_store, e0, e1, e2, e3, and_0xFF,
    Nat.shiftRight_eq_div_pow]
  simp only [Nat.shiftLeft_eq]
  simp (disch := omega) only [or_add_8, or_add_16, or_add_24, or_add_32, or_add_40, or_add_48]
  omega

theorem read_write_u56_be (buffer : List Nat) (off v : Nat) (h : off + 7 ≤ buffer.length) :
    read_u56_be (write_u56_be buffer off v) off = v % 2 ^ 56 := by
  have e0 : (off < buffer.length) = True := by simp; omega
  have e1 : (off + 1 < buffer.length) = True := by simp; omega
  have e2 : (off + 2 < buffer.length) = True := by simp; omega
  have e3 : (off + 3 < buffer.length) = True := by simp; omega
  have e4 : (off + 4 < buffer.length) = True := by simp; omega
  have e5 : (off + 5 < buffer.length) = True := by simp; omega
  have e6 : (off + 6 < buffer.length) = True := by simp; omega
  simp [read_u56_be, write_u56_be, byte_at_store, e0, e1, e2, e3, e4, e5, e6, and_0xFF,
    Nat.shiftRight_eq_div_pow]
  simp only [Nat.shiftLeft_eq]
  simp (disch := omega) only [or_add_8, or_add_16, or_add_24, or_add_32, or_add_40, or_add_48]
  omega

theorem read_u32_be_lt (buffer : List Nat) (off : Nat) : read_u32_be buffer off < 2 ^ 32 :=
  Nat.mod_lt _ (by decide)

theorem read_u32_be_write_of_ge (buffer : List Nat) (off o v : Nat) (h : off + 4 ≤ o) :
    read_u32_be (write_u32_be buffer o v) off = read_u32_be buffer off := by
  simp only [read_u32_be, write_u32_be]
  repeat rw [byte_at_store_of_ne _ _ _ _ (by omega)]

theorem read_write_u64_be (buffer : List Nat) (off v : Nat) (h : off + 8 ≤ buffer.length) :
    read_u64_be (write_u64_be buffer off v) off = v % 2 ^ 64 := by
  have hl : (write_u32_be buffer off ((v >>> 32) &&& 0xFFFFFFFF)).length = buffer.length := by
    simp [write_u32_be]
  unfold read_u64_be write_u64_be
  rw [read_write_u32_be _ _ _ (by rw [hl]; omega), read_u32_be_write_of_ge _ _ _ _ (by omega),
    read_write_u32_be _ _ _ (by omega), and_0xFFFFFFFF, and_0xFFFFFFFF,
    Nat.shiftRight_eq_div_pow, Nat.shiftLeft_eq]
  rw [or_eq_add 32 _ _ (by omega) (by omega)]
  omega

theorem write_read_u16_be (b : List Nat) (hl : b.length = 2) (hb : ∀ x ∈ b, x < 256) :
    write_u16_be b 0 (read_u16_be b 0) = b := by
  rcases b with _ | ⟨b0, _ | ⟨b1, _ | ⟨b2, t⟩⟩⟩ <;> simp at hl
  simp only [List.mem_cons, List.mem_singleton, forall_eq_or_imp, forall_eq,
    List.not_mem_nil, false_implies, implies_true, and_true] at hb
  obtain ⟨h0, h1⟩ := hb
  simp [write_u16_be, read_u16_be, store, byte_at, and_0xFF, Nat.shiftRight_eq_div_pow,
    Nat.shiftLeft_eq]
  simp (disch := omega) only [or_add_8]
  omega

theorem write_read_u24_be (b : List Nat) (hl : b.length = 3) (hb : ∀ x ∈ b, x < 256) :
    write_u24_be b 0 (read_u24_be b 0) = b := by
  rcases b with _ | ⟨b0, _ | ⟨b1, _ | ⟨b2, _ | ⟨b3, t⟩⟩⟩⟩ <;> simp at hl
  simp only [List.mem_cons, List.mem_singleton, forall_eq_or_imp, forall_eq,
    List.not_mem_nil, false_implies, implies_true, and_true] at hb
  obtain ⟨h0, h1, h2⟩ := hb
  simp [write_u24_be, read_u24_be, store, byte_at, and_0xFF, Nat.shiftRight_eq_div_pow,
    Nat.shiftLeft_eq]
  simp (disch := omega) only [or_add_8, or_add_16]
  omega

theorem write_read_u32_be (b : List Nat) (hl : b.length = 4) (hb : ∀ x ∈ b, x < 256) :
    write_u32_be b 0 (read_u32_be b 0) = b := by
  rcases b with _ | ⟨b0, _ | ⟨b1, _ | ⟨b2, _ | ⟨b3, _ | ⟨b4, t⟩⟩⟩⟩⟩ <;> simp at hl
  simp only [List.mem_cons, List.mem_singleton, forall_eq_or_imp, forall_eq,
    List.not_mem_nil, false_implies, implies_true, and_true] at hb
  obtain ⟨h0, h1, h2, h3⟩ := hb
  simp [write_u32_be, read_u32_be, store, byte_at, and_0xFF, Nat.shiftRight_eq_div_pow,
    Nat.shiftLeft_eq]
  simp (disch := omega) only [or_add_8, or_add_16, or_add_24]
  omega

theorem write_read_u56_be (b : List Nat) (hl : b.length = 7) (hb : ∀ x ∈ b, x < 256) :
    write_u56_be b 0 (read_u56_be b 0) = b := by
  rcases b with _ | ⟨b0, _ | ⟨b1, _ | ⟨b2, _ | ⟨b3, _ | ⟨b4, _ | ⟨b5, _ | ⟨b6, _ | ⟨b7, t⟩⟩⟩⟩⟩⟩⟩⟩
    <;> simp at hl
  simp only [List.mem_cons, List.mem_singleton, forall_eq_or_imp, forall_eq,
    List.not_mem_nil, false_implies, implies_true, and_true] at hb
  obtain ⟨h0, h1, h2, h3, h4, h5, h6⟩ := hb
  simp [write_u56_be, read_u56_be, store, byte_at, and_0xFF, Nat.shiftRight_eq_div_pow,
    Nat.shiftLeft_eq]
  simp (disch := omega) only [or_add_8, or_add_16, or_add_24, or_add_32, or_add_40, or_add_48]
  omega

theorem write_read_u64_be (b : List Nat) (hl : b.length = 8) (hb : ∀ x ∈ b, x < 256) :
    write_u64_be b 0 (read_u64_be b 0) = b := by
  rcases b with _ | ⟨b0, _ | ⟨b1, _ | ⟨b2, _ | ⟨b3, _ | ⟨b4, _ | ⟨b5, _ | ⟨b6, _ | ⟨b7,
    _ | ⟨b8, t⟩⟩⟩⟩⟩⟩⟩⟩⟩ <;> simp at hl
  simp only [List.mem_cons, List.mem_singleton, forall_eq_or_imp, forall_eq,
    List.not_mem_nil, false_implies, implies_true, and_true] at hb
  obtain ⟨h0, h1, h2, h3, h4, h5, h6, h7⟩ := hb
  simp [write_u64_be, read_u64_be, write_u32_be, read_u32_be, store, byte_at, and_0xFF,
    and_0xFFFFFFFF, Nat.shiftRight_eq_div_pow, Nat.shiftLeft_eq]
  simp (disch := omega) only [or_add_8, or_add_16, or_add_24, or_add_32]
  omega

theorem byte_at_be_bytes (n : Nat) : ∀ (v k : Nat), k < n →
    byte_at (be_bytes n v) k = (v / 2 ^ (8 * (n - 1 - k))) % 256 := by
  induction n with
  | zero => intro v k hk; omega
  | succ n ih =>
    intro v k hk
    cases k with
    | zero => simp [be_bytes, byte_at_cons_zero]
    | succ k =>
      rw [be_bytes, byte_at_cons_succ, ih v k (by omega)]
      congr 3
      omega

/-! ## Reserved bits -/

/-- Two numbers with the same bits from bit `k` on have the same bits under a mask that is
clear below bit `k`. -/
theorem and_congr_of_shiftRight (x y k m : Nat) (h : x >>> k = y >>> k) (hm : m % 2 ^ k = 0) :
    x &&& m = y &&& m := by
  apply Nat.eq_of_testBit_eq
  intro i
  rw [Nat.testBit_and, Nat.testBit_and]
  by_cases hi : i < k
  · have : (m % 2 ^ k).testBit i = false := by rw [hm]; exact Nat.zero_testBit i
    rw [Nat.testBit_mod_two_pow] at this
    simp only [hi, decide_True, Bool.true_and] at this
    rw [this, Bool.and_false, Bool.and_false]
  · have e : k + (i - k) = i := by omega
    have hx := Nat.testBit_shiftRight (i := k) (j := i - k) x
    have hy := Nat.testBit_shiftRight (i := k) (j := i - k) y
    rw [e] at hx hy
    rw [← hx, ← hy, h]

theorem shiftRight_congr_of_le (x y k j : Nat) (h : x >>> k = y >>> k) (hj : k ≤ j) :
    x >>> j = y >>> j := by
  have e : j = k + (j - k) := by omega
  rw [e, Nat.shiftRight_add, Nat.shiftRight_add, h]

theorem decode_congr (message_type : Nat) (a b : List Nat)
    (h66 : message_type = AckMessage.MESSAGE_TYPE →
      AckMessage.deserialize a = AckMessage.deserialize b)
    (h69 : message_type = AirBrakesControlMessage.MESSAGE_TYPE →
      AirBrakesControlMessage.deserialize a = AirBrakesControlMessage.deserialize b)
    (h64 : message_type = AmpControlMessage.MESSAGE_TYPE →
      AmpControlMessage.deserialize a = AmpControlMessage.deserialize b)
    (h67 : message_type = AmpOverwriteMessage.MESSAGE_TYPE →
      AmpOverwriteMessage.deserialize a = AmpOverwriteMessage.deserialize b)
    (h68 : message_type = AmpResetOutputMessage.MESSAGE_TYPE →
      AmpResetOutputMessage.deserialize a = AmpResetOutputMessage.deserialize b)
    (h33 : message_type = AmpStatusMessage.MESSAGE_TYPE →
      AmpStatusMessage.deserialize a = AmpStatusMessage.deserialize b)
    (h128 : message_type = BaroMeasurementMessage.MESSAGE_TYPE →
      BaroMeasurementMessage.deserialize a = BaroMeasurementMessage.deserialize b)
    (h130 : message_type = BrightnessMeasurementMessage.MESSAGE_TYPE →
      BrightnessMeasurementMessage.deserialize a = BrightnessMeasurementMessage.deserialize b)
    (h16 : message_type = DataTransferMessage.MESSAGE_TYPE →
      DataTransferMessage.deserialize a = DataTransferMessage.deserialize b)
    (h160 : message_type = IcarusStatusMessage.MESSAGE_TYPE →
      IcarusStatusMessage.deserialize a = IcarusStatusMessage.deserialize b)
    (h129 : message_type = IMUMeasurementMessage.MESSAGE_TYPE →
      IMUMeasurementMessage.deserialize a = IMUMeasurementMessage.deserialize b)
    (h132 : message_type = MagMeasurementMessage.MESSAGE_TYPE →
      MagMeasurementMessage.deserialize a = MagMeasurementMessage.deserialize b)
    (h32 : message_type = NodeStatusMessage.MESSAGE_TYPE →
      NodeStatusMessage.deserialize a = NodeStatusMessage.deserialize b)
    (h133 : message_type = OzysMeasurementMessage.MESSAGE_TYPE →
      OzysMeasurementMessage.deserialize a = OzysMeasurementMessage.deserialize b)
    (h65 : message_type = PayloadEPSOutputOverwriteMessage.MESSAGE_TYPE →
      PayloadEPSOutputOverwriteMessage.deserialize a
        = PayloadEPSOutputOverwriteMessage.deserialize b)
    (h34 : message_type = PayloadEPSStatusMessage.MESSAGE_TYPE →
      PayloadEPSStatusMessage.deserialize a = PayloadEPSStatusMessage.deserialize b)
    (h0 : message_type = ResetMessage.MESSAGE_TYPE →
      ResetMessage.deserialize a = ResetMessage.deserialize b)
    (h131 : message_type = RocketStateMessage.MESSAGE_TYPE →
      RocketStateMessage.deserialize a = RocketStateMessage.deserialize b)
    (h7 : message_type = UnixTimeMessage.MESSAGE_TYPE →
      UnixTimeMessage.deserialize a = UnixTimeMessage.deserialize b)
    (h36 : message_type = VLStatusMessage.MESSAGE_TYPE →
      VLStatusMessage.deserialize a = VLStatusMessage.deserialize b) :
    decode message_type a = decode message_type b := by
  unfold decode
  by_cases e : message_type = AckMessage.MESSAGE_TYPE
  · rw [if_pos e, if_pos e, h66 e]
  rw [if_neg e, if_neg e]; clear e
  by_cases e : message_type = AirBrakesControlMessage.MESSAGE_TYPE
  · rw [if_pos e, if_pos e, h69 e]
  rw [if_neg e, if_neg e]; clear e
  by_cases e : message_type = AmpControlMessage.MESSAGE_TYPE
  · rw [if_pos e, if_pos e, h64 e]
  rw [if_neg e, if_neg e]; clear e
  by_cases e : message_type = AmpOverwriteMessage.MESSAGE_TYPE
  · rw [if_pos e, if_pos e, h67 e]
  rw [if_neg e, if_neg e]; clear e
  by_cases e : message_type = AmpResetOutputMessage.MESSAGE_TYPE
  · rw [if_pos e, if_pos e, h68 e]
  rw [if_neg e, if_neg e]; clear e
  by_cases e : message_type = AmpStatusMessage.MESSAGE_TYPE
  · rw [if_pos e, if_pos e, h33 e]
  rw [if_neg e, if_neg e]; clear e
  by_cases e : message_type = BaroMeasurementMessage.MESSAGE_TYPE
  · rw [if_pos e, if_pos e, h128 e]
  rw [if_neg e, if_neg e]; clear e
  by_cases e : message_type = BrightnessMeasurementMessage.MESSAGE_TYPE
  · rw [if_pos e, if_pos e, h130 e]
  rw [if_neg e, if_neg e]; clear e
  by_cases e : message_type = DataTransferMessage.MESSAGE_TYPE
  · rw [if_pos e, if_pos e, h16 e]
  rw [if_neg e, if_neg e]; clear e
  by_cases e : message_type = IcarusStatusMessage.MESSAGE_TYPE
  · rw [if_pos e, if_pos e, h160 e]
  rw [if_neg e, if_neg e]; clear e
  by_cases e : message_type = IMUMeasurementMessage.MESSAGE_TYPE
  · rw [if_pos e, if_pos e, h129 e]
  rw [if_neg e, if_neg e]; clear e
  by_cases e : message_type = MagMeasurementMessage.MESSAGE_TYPE
  · rw [if_pos e, if_pos e, h132 e]
  rw [if_neg e, if_neg e]; clear e
  by_cases e : message_type = NodeStatusMessage.MESSAGE_TYPE
  · rw [if_pos e, if_pos e, h32 e]
  rw [if_neg e, if_neg e]; clear e
  by_cases e : message_type = OzysMeasurementMessage.MESSAGE_TYPE
  · rw [if_pos e, if_pos e, h133 e]
  rw [if_neg e, if_neg e]; clear e
  by_cases e : message_type = PayloadEPSOutputOverwriteMessage.MESSAGE_TYPE
  · rw [if_pos e, if_pos e, h65 e]
  rw [if_neg e, if_neg e]; clear e
  by_cases e : message_type = PayloadEPSStatusMessage.MESSAGE_TYPE
  · rw [if_pos e, if_pos e, h34 e]
  rw [if_neg e, if_neg e]; clear e
  by_cases e : message_type = PreUnixTimeMessage.MESSAGE_TYPE
  · rw [if_pos e, if_pos e]
  rw [if_neg e, if_neg e]; clear e
  by_cases e : message_type = ResetMessage.MESSAGE_TYPE
  · rw [if_pos e, if_pos e, h0 e]
  rw [if_neg e, if_neg e]; clear e
  by_cases e : message_type = RocketStateMessage.MESSAGE_TYPE
  · rw [if_pos e, if_pos e, h131 e]
  rw [if_neg e, if_neg e]; clear e
  by_cases e : message_type = UnixTimeMessage.MESSAGE_TYPE
  · rw [if_pos e, if_pos e, h7 e]
  rw [if_neg e, if_neg e]; clear e
  by_cases e : message_type = VLStatusMessage.MESSAGE_TYPE
  · rw [if_pos e, if_pos e, h36 e]
  rw [if_neg e, if_neg e]

theorem AckMessage_deserialize_reserved (a b : List Nat)
    (h : ∀ i, i < 3 → byte_at a i = byte_at b i)
    (h3 : byte_at a 3 >>> 4 = byte_at b 3 >>> 4) :
    AckMessage.deserialize a = AckMessage.deserialize b := by
  simp [AckMessage.deserialize, read_u16_be, h, h3]

theorem AmpControlMessage_deserialize_reserved (a b : List Nat)
    (h0 : byte_at a 0 >>> 4 = byte_at b 0 >>> 4) :
    AmpControlMessage.deserialize a = AmpControlMessage.deserialize b := by
  simp only [AmpControlMessage.deserialize]
  rw [and_congr_of_shiftRight _ _ 4 (1 <<< 7) h0 (by decide),
    and_congr_of_shiftRight _ _ 4 (1 <<< 6) h0 (by decide),
    and_congr_of_shiftRight _ _ 4 (1 <<< 5) h0 (by decide),
    and_congr_of_shiftRight _ _ 4 (1 <<< 4) h0 (by decide)]

theorem from_byte_reserved (x y : Nat) (h : x >>> 5 = y >>> 5) :
    AmpOutputStatus.from_byte x = AmpOutputStatus.from_byte y := by
  simp only [AmpOutputStatus.from_byte]
  rw [and_congr_of_shiftRight _ _ 5 0x80 h (by decide), h]

theorem AmpStatusMessage_deserialize_reserved (a b : List Nat)
    (h : ∀ i, i < 2 → byte_at a i = byte_at b i)
    (hr : ∀ i, 2 ≤ i → i ≤ 5 → byte_at a i >>> 5 = byte_at b i >>> 5) :
    AmpStatusMessage.deserialize a = AmpStatusMessage.deserialize b := by
  simp only [AmpStatusMessage.deserialize]
  rw [from_byte_reserved _ _ (hr 2 (by omega) (by omega)),
    from_byte_reserved _ _ (hr 3 (by omega) (by omega)),
    from_byte_reserved _ _ (hr 4 (by omega) (by omega)),
    from_byte_reserved _ _ (hr 5 (by omega) (by omega))]
  simp [read_u16_be, h]

theorem NodeStatusMessage_deserialize_reserved (a b : List Nat)
    (h : ∀ i, i < 4 → byte_at a i = byte_at b i)
    (h4 : byte_at a 4 >>> 1 = byte_at b 4 >>> 1) :
    NodeStatusMessage.deserialize a = NodeStatusMessage.deserialize b := by
  simp [NodeStatusMessage.deserialize, read_u24_be, h, h4]

theorem PayloadEPSOutputOverwriteMessage_deserialize_reserved (a b : List Nat)
    (h : ∀ i, i < 2 → byte_at a i = byte_at b i)
    (h2 : byte_at a 2 >>> 6 = byte_at b 2 >>> 6) :
    PayloadEPSOutputOverwriteMessage.deserialize a
      = PayloadEPSOutputOverwriteMessage.deserialize b := by
  simp [PayloadEPSOutputOverwriteMessage.deserialize, h, h2]

theorem ResetMessage_deserialize_reserved (a b : List Nat)
    (h0 : byte_at a 0 = byte_at b 0)
    (h1 : byte_at a 1 >>> 2 = byte_at b 1 >>> 2) :
    ResetMessage.deserialize a = ResetMessage.deserialize b := by
  simp only [ResetMessage.deserialize]
  rw [and_congr_of_shiftRight _ _ 2 0x08 h1 (by decide),
    and_congr_of_shiftRight _ _ 2 0x04 h1 (by decide),
    shiftRight_congr_of_le _ _ 2 4 h1 (by decide), h0]

theorem RocketStateMessage_deserialize_reserved (a b : List Nat)
    (h : ∀ i, i < 19 → byte_at a i = byte_at b i)
    (h19 : byte_at a 19 >>> 7 = byte_at b 19 >>> 7) :
    RocketStateMessage.deserialize a = RocketStateMessage.deserialize b := by
  simp only [RocketStateMessage.deserialize]
  rw [and_congr_of_shiftRight _ _ 7 0x80 h19 (by decide)]
  simp [read_u32_be, read_u56_be, h]

theorem VLStatusMessage_deserialize_reserved (a b : List Nat)
    (h : ∀ i, i < 3 → byte_at a i = byte_at b i) :
    VLStatusMessage.deserialize a = VLStatusMessage.deserialize b := by
  simp [VLStatusMessage.deserialize, read_u16_be, h]

theorem AirBrakesControlMessage_deserialize_reserved (a b : List Nat)
    (h : ∀ i, i < 2 → byte_at a i = byte_at b i) :
    AirBrakesControlMessage.deserialize a = AirBrakesControlMessage.deserialize b := by
  simp [AirBrakesControlMessage.deserialize, read_u16_be, h]

theorem reserved_low_bits_zero (t i : Nat)
    (ht : t ∉ [AckMessage.MESSAGE_TYPE, AmpControlMessage.MESSAGE_TYPE,
      AmpStatusMessage.MESSAGE_TYPE, NodeStatusMessage.MESSAGE_TYPE,
      PayloadEPSOutputOverwriteMessage.MESSAGE_TYPE, ResetMessage.MESSAGE_TYPE,
      RocketStateMessage.MESSAGE_TYPE, VLStatusMessage.MESSAGE_TYPE,
      AirBrakesControlMessage.MESSAGE_TYPE]) : reserved_low_bits t i = 0 := by
  simp only [List.mem_cons, List.mem_singleton, List.not_mem_nil, or_false, not_or] at ht
  obtain ⟨h1, h2, h3, h4, h5, h6, h7, h8, h9⟩ := ht
  unfold reserved_low_bits
  rw [if_neg h1, if_neg h2, if_neg h3, if_neg h4, if_neg h5, if_neg h6, if_neg h7, if_neg h8,
    if_neg h9]

/-- Outside the reserved bits means everywhere, for a class that has none. -/
theorem eq_of_reserved_zero (t : Nat) (a b : List Nat)
    (ht : t ∉ [AckMessage.MESSAGE_TYPE, AmpControlMessage.MESSAGE_TYPE,
      AmpStatusMessage.MESSAGE_TYPE, NodeStatusMessage.MESSAGE_TYPE,
      PayloadEPSOutputOverwriteMessage.MESSAGE_TYPE, ResetMessage.MESSAGE_TYPE,
      RocketStateMessage.MESSAGE_TYPE, VLStatusMessage.MESSAGE_TYPE,
      AirBrakesControlMessage.MESSAGE_TYPE])
    (h : ∀ i, byte_at a i >>> reserved_low_bits t i = byte_at b i >>> reserved_low_bits t i)
    (i : Nat) : byte_at a i = byte_at b i := by
  have := h i
  rw [reserved_low_bits_zero t i ht] at this
  exact this

theorem shiftRight_reserved (t i k : Nat)
    (h : reserved_low_bits t i = k) (x y : Nat)
    (hxy : x >>> reserved_low_bits t i = y >>> reserved_low_bits t i) : x >>> k = y >>> k := by
  rw [← h]; exact hxy

theorem to_byte_reserved (s : AmpOutputStatus) : s.to_byte % 2 ^ 5 = 0 := by
  obtain ⟨o, st⟩ := s
  simp only [AmpOutputStatus.to_byte, Nat.zero_or, and_0x03, Nat.shiftLeft_eq, Nat.reducePow]
  cases o <;> simp (disch := omega) only [if_true, if_false, Bool.false_eq_true, or_add_7,
    Nat.zero_or] <;> omega

theorem AckMessage_serialize_reserved (m : AckMessage) (buffer : List Nat)
    (hb : AckMessage.SIZE_BYTES ≤ buffer.length) :
    byte_at (m.serialize buffer) 3 % 2 ^ 4 = 0 := by
  unfold AckMessage.SIZE_BYTES at hb
  have hl : (memset buffer 0 0 4).length = buffer.length := length_memset 4 buffer 0 0
  simp [AckMessage.serialize, AckMessage.SIZE_BYTES, write_u16_be, byte_at_store, hl,
    lt_length_of_le hb]
  simp only [and_0xFFF, and_0xF0, Nat.shiftLeft_eq]
  omega

theorem AmpControlMessage_serialize_reserved (m : AmpControlMessage) (buffer : List Nat)
    (hb : AmpControlMessage.SIZE_BYTES ≤ buffer.length) :
    byte_at (m.serialize buffer) 0 % 2 ^ 4 = 0 := by
  unfold AmpControlMessage.SIZE_BYTES at hb
  obtain ⟨o1, o2, o3, o4⟩ := m
  simp only [AmpControlMessage.serialize, byte_at_store_of_lt _ _ _ _ (show 0 < buffer.length
    by omega), if_pos]
  cases o1 <;> cases o2 <;> cases o3 <;> cases o4 <;> decide

theorem AmpStatusMessage_serialize_reserved (m : AmpStatusMessage) (buffer : List Nat)
    (hb : AmpStatusMessage.SIZE_BYTES ≤ buffer.length) (i : Nat) (h2 : 2 ≤ i) (h5 : i ≤ 5) :
    byte_at (m.serialize buffer) i % 2 ^ 5 = 0 := by
  unfold AmpStatusMessage.SIZE_BYTES at hb
  have hl : (memset buffer 0 0 6).length = buffer.length := length_memset 6 buffer 0 0
  have t1 := to_byte_reserved m.out1
  have t2 := to_byte_reserved m.out2
  have t3 := to_byte_reserved m.out3
  have t4 := to_byte_reserved m.out4
  simp only [Nat.reducePow] at t1 t2 t3 t4 ⊢
  have hi : i = 2 ∨ i = 3 ∨ i = 4 ∨ i = 5 := by omega
  rcases hi with rfl | rfl | rfl | rfl <;>
    simp [AmpStatusMessage.serialize, AmpStatusMessage.SIZE_BYTES, write_u16_be, byte_at_store,
      hl, lt_length_of_le hb] <;> omega

theorem NodeStatusMessage_serialize_reserved (m : NodeStatusMessage) (buffer : List Nat)
    (hb : NodeStatusMessage.SIZE_BYTES ≤ buffer.length) :
    byte_at (m.serialize buffer) 4 % 2 ^ 1 = 0 := by
  unfold NodeStatusMessage.SIZE_BYTES at hb
  simp [NodeStatusMessage.serialize, write_u24_be, byte_at_store, lt_length_of_le hb]
  simp only [and_0x7F, Nat.shiftLeft_eq]
  omega

theorem PayloadEPSOutputOverwriteMessage_serialize_reserved
    (m : PayloadEPSOutputOverwriteMessage) (buffer : List Nat)
    (hb : PayloadEPSOutputOverwriteMessage.SIZE_BYTES ≤ buffer.length) :
    byte_at (m.serialize buffer) 2 % 2 ^ 6 = 0 := by
  unfold PayloadEPSOutputOverwriteMessage.SIZE_BYTES at hb
  simp [PayloadEPSOutputOverwriteMessage.serialize, byte_at_store, lt_length_of_le hb]
  simp only [and_0x03, Nat.shiftLeft_eq]
  omega

theorem ResetMessage_serialize_reserved (m : ResetMessage) (buffer : List Nat)
    (hb : ResetMessage.SIZE_BYTES ≤ buffer.length) :
    byte_at (m.serialize buffer) 1 % 2 ^ 2 = 0 := by
  unfold ResetMessage.SIZE_BYTES at hb
  obtain ⟨n, ra, ib⟩ := m
  simp [ResetMessage.serialize, byte_at_store, lt_length_of_le hb]
  simp only [and_0x0F, Nat.shiftLeft_eq]
  cases ra <;> cases ib <;>
    simp (disch := omega) only [if_true, if_false, Bool.false_eq_true, or_add_3, or_add_4] <;>
    omega

theorem RocketStateMessage_serialize_reserved (m : RocketStateMessage) (buffer : List Nat)
    (hb : RocketStateMessage.SIZE_BYTES ≤ buffer.length) :
    byte_at (m.serialize buffer) 19 % 2 ^ 7 = 0 := by
  unfold RocketStateMessage.SIZE_BYTES at hb
  obtain ⟨v0, v1, al, ts, co⟩ := m
  simp only [RocketStateMessage.serialize]
  rw [byte_at_store_of_lt _ _ _ _ (by simp [write_u32_be, write_u56_be]; omega), if_pos rfl]
  cases co <;> simp

theorem VLStatusMessage_serialize_reserved (m : VLStatusMessage) (buffer : List Nat)
    (hb : VLStatusMessage.SIZE_BYTES ≤ buffer.length) (i : Nat) (h3 : 3 ≤ i) (h4 : i ≤ 4) :
    byte_at (m.serialize buffer) i % 2 ^ 8 = 0 := by
  unfold VLStatusMessage.SIZE_BYTES at hb
  have hi : i = 3 ∨ i = 4 := by omega
  rcases hi with rfl | rfl <;>
    simp [VLStatusMessage.serialize, write_u16_be, byte_at_store, lt_length_of_le hb]

theorem AirBrakesControlMessage_serialize_reserved (m : AirBrakesControlMessage)
    (buffer : List Nat) (hb : AirBrakesControlMessage.SIZE_BYTES ≤ buffer.length) (i : Nat)
    (h2 : 2 ≤ i) (h5 : i ≤ 5) :
    byte_at (m.serialize buffer) i % 2 ^ 8 = 0 := by
  unfold AirBrakesControlMessage.SIZE_BYTES at hb
  simp only [AirBrakesControlMessage.serialize, AirBrakesControlMessage.SIZE_BYTES,
    write_u16_be]
  rw [byte_at_store_of_ne _ _ _ _ (by omega), byte_at_store_of_ne _ _ _ _ (by omega),
    byte_at_memset_of_le _ _ _ _ _ (by omega), if_pos (by omega)]
  rfl

/-! ## Bytes of a frame -/

theorem byte_at_lt_of_mem (l : List Nat) (h : ∀ x ∈ l, x < 256) (i : Nat) :
    byte_at l i < 256 := by
  by_cases hi : i < l.length
  · have : byte_at l i = l[i] := by
      simp [byte_at, List.getD_eq_getElem?_getD, List.getElem?_eq_getElem hi]
    rw [this]
    exact h _ (List.getElem_mem hi)
  · rw [byte_at_of_le l i (by omega)]; decide

/-- The stored CRC of an opening frame: `frame[0] | frame[1] << 8`. -/
theorem stored_crc_eq (lo hi : Nat) (hlo : lo < 256) (hhi : hi < 256) :
    ((lo % 2 ^ 16) ||| ((hi % 2 ^ 16) <<< 8)) % 2 ^ 16 = lo ||| (hi <<< 8) := by
  rw [Nat.mod_eq_of_lt (by omega : lo < 2 ^ 16), Nat.mod_eq_of_lt (by omega : hi < 2 ^ 16),
    Nat.or_comm, Nat.shiftLeft_eq, or_eq_add 8 _ _ (by omega) (by omega)]
  omega

/-! ## A transfer that outgrows the slot buffer -/

theorem long_transfer_succ (id : Nat) (p0 : List Nat) (ps : Nat → List Nat) (ts : Nat → Nat)
    (n : Nat) :
    long_transfer id p0 ps ts (n + 1) = long_transfer id p0 ps ts n ++
      [{ frame_id := id, frame := mkframe (ps n) ⟨false, false, n % 2 == 0⟩,
         timestamp_us := ts (n + 1) }] := by
  simp [long_transfer, List.range_succ]

theorem long_transfer_ids (id : Nat) (p0 : List Nat) (ps : Nat → List Nat) (ts : Nat → Nat)
    (n : Nat) : ∀ r ∈ long_transfer id p0 ps ts n, r.frame_id = id := by
  intro r hr
  simp only [long_transfer, List.mem_cons, List.mem_map, List.mem_range] at hr
  rcases hr with rfl | ⟨j, _, rfl⟩ <;> rfl

/-- The slot after the opening frame and `n` continuation frames that fit: still occupied,
with `5 + 7 * n` bytes. -/
theorem sm_run_long_transfer (id : Nat) (p0 : List Nat) (ps : Nat → List Nat) (ts : Nat → Nat)
    (hp0 : p0.length = 7) (hps : ∀ j, (ps j).length = 7) (sm : StateMachine)
    (hty : sm.type = SlotType.Empty) (n : Nat) (hn : 5 + 7 * n ≤ 256) :
    (sm.run (long_transfer id p0 ps ts n)).1 = List.replicate (n + 1) none
      ∧ (sm.run (long_transfer id p0 ps ts n)).2.type = SlotType.MultiFrame
      ∧ (sm.run (long_transfer id p0 ps ts n)).2.multi_frame.id = id
      ∧ (sm.run (long_transfer id p0 ps ts n)).2.multi_frame.data_len = 5 + 7 * n
      ∧ (sm.run (long_transfer id p0 ps ts n)).2.multi_frame.first_frame_timestamp_us = ts 0
      ∧ (sm.run (long_transfer id p0 ps ts n)).2.multi_frame.data.length
          = sm.multi_frame.data.length := by
  induction n with
  | zero =>
    simp only [long_transfer, List.range_zero, List.map_nil]
    rw [sm_run_cons]
    have ho := sm_open sm (⟨id, mkframe p0 ⟨true, false, false⟩, ts 0⟩ : Rx) p0 hp0 rfl hty
    simp only at ho
    rw [ho]
    simp [StateMachine.run]
  | succ n ih =>
    have ih' := ih (by omega)
    rw [long_transfer_succ, sm_run_append]
    generalize sm.run (long_transfer id p0 ps ts n) = res at ih' ⊢
    obtain ⟨out, s⟩ := res
    obtain ⟨h1, h2, h3, h4, h5, h6⟩ := ih'
    simp only at h1 h2 h3 h4 h5 h6 ⊢
    have hm := sm_middle s
      (⟨id, mkframe (ps n) ⟨false, false, n % 2 == 0⟩, ts (n + 1)⟩ : Rx) (ps n) n (hps n) rfl
      h2 h3 h4 (by omega)
    simp only at hm
    rw [sm_run_cons]
    simp only [hm, StateMachine.run]
    refine ⟨?_, trivial, h3, trivial, h5, ?_⟩
    · rw [h1, List.replicate_succ' (n + 1)]
    · simp only [length_memcpy, h6]

/-- A continuation frame that the slot accepts but that does not fit the buffer. -/
theorem sm_overflow (sm : StateMachine) (id : Nat) (fd : List Nat) (fl ts : Nat)
    (hfl : fl ≠ 0) (hty : sm.type = SlotType.MultiFrame) (hid : sm.multi_frame.id = id)
    (hsot : (TailByte.from_byte (byte_at fd (fl - 1))).start_of_transfer = false)
    (htog : (TailByte.from_byte (byte_at fd (fl - 1))).toggle = sm.expected_toggle_bit)
    (hov : sm.multi_frame.data_len + (fl - 1) > 256) :
    sm.process_frame id fd fl ts = (none, { sm with type := SlotType.Empty }) := by
  rw [sm_process_frame_same sm id fd fl ts hfl _ rfl (by rw [hsot]; rfl) hty hid,
    if_neg (fun h => h htog), hsot, if_neg (by decide), if_pos hov]

/-- The slot run of `long_transfer` with 36 continuation frames: the last one overflows. -/
theorem sm_run_overflow (id : Nat) (p0 : List Nat) (ps : Nat → List Nat) (ts : Nat → Nat)
    (hp0 : p0.length = 7) (hps : ∀ j, (ps j).length = 7) (sm : StateMachine)
    (hty : sm.type = SlotType.Empty) :
    (mkframe (ps 35) ⟨false, false, 35 % 2 == 0⟩).tail.toggle
        = (sm.run (long_transfer id p0 ps ts 35)).2.expected_toggle_bit
      ∧ sm.run (long_transfer id p0 ps ts 36)
        = (List.replicate 37 none,
            { (sm.run (long_transfer id p0 ps ts 35)).2 with type := SlotType.Empty }) := by
  have hr := sm_run_long_transfer id p0 ps ts hp0 hps sm hty 35 (by decide)
  have ht := mkframe_tail (ps 35) ⟨false, false, 35 % 2 == 0⟩ (by rw [hps])
  rw [show long_transfer id p0 ps ts 36 = _ from long_transfer_succ id p0 ps ts 35,
    sm_run_append, sm_run_cons]
  generalize sm.run (long_transfer id p0 ps ts 35) = res at hr ⊢
  obtain ⟨out, s⟩ := res
  obtain ⟨h1, h2, h3, h4, -, -⟩ := hr
  simp only at h1 h2 h3 h4 ⊢
  have htog : (mkframe (ps 35) ⟨false, false, 35 % 2 == 0⟩).tail.toggle
      = s.expected_toggle_bit := by
    unfold Frame.tail
    rw [ht]
    unfold StateMachine.expected_toggle_bit
    rw [h4, expected_toggle 35 (by omega)]
  refine ⟨htog, ?_⟩
  have ho := sm_overflow s id
    (mkframe (ps 35) ⟨false, false, 35 % 2 == 0⟩).data
    (mkframe (ps 35) ⟨false, false, 35 % 2 == 0⟩).len (ts 36)
    (by rw [mkframe_len]; omega) h2 h3 (by rw [ht]) htog
    (by rw [h4, mkframe_len, hps]; omega)
  rw [ho, h1]
  rfl

/-! ## The byte-wise CRC loop is the bitwise division -/

theorem two_pow_add_eq_xor (k m : Nat) (hm : m < 2 ^ k) : 2 ^ k + m = 2 ^ k ^^^ m := by
  apply Nat.eq_of_testBit_eq
  intro i
  rw [Nat.testBit_xor, Nat.testBit_two_pow]
  rcases Nat.lt_trichotomy i k with h | h | h
  · rw [Nat.testBit_two_pow_add_gt h]
    have : decide (k = i) = false := by simp; omega
    rw [this, Bool.false_xor]
  · subst h
    rw [Nat.testBit_two_pow_add_eq, Nat.testBit_lt_two_pow hm]
    simp
  · have h1 : 2 ^ k + m < 2 ^ i := by
      have := Nat.pow_le_pow_right (by decide : 0 < 2) (by omega : k + 1 ≤ i)
      rw [Nat.pow_succ] at this
      omega
    have h2 : m < 2 ^ i := by omega
    have : decide (k = i) = false := by simp; omega
    rw [Nat.testBit_lt_two_pow h1, Nat.testBit_lt_two_pow h2, this]
    rfl

theorem shiftLeft_xor (a b k : Nat) : (a ^^^ b) <<< k = (a <<< k) ^^^ (b <<< k) := by
  apply Nat.eq_of_testBit_eq
  intro i
  simp only [Nat.testBit_shiftLeft, Nat.testBit_xor]
  cases decide (i ≥ k) <;> simp

/-- Bits below the top one pass through a round of the register unchanged, one place up. -/
theorem crc_shift_xor (y m : Nat) (hm : m < 2 ^ 15) :
    crc_shift (y ^^^ m) = crc_shift y ^^^ (2 * m) := by
  have hc : (y ^^^ m) &&& 0x8000 = y &&& 0x8000 := by
    rw [Nat.and_xor_distrib_right, and_0x8000 m]
    have : m / 32768 % 2 * 32768 = 0 := by omega
    rw [this, Nat.xor_zero]
  have hs : (m <<< 1) % 2 ^ 16 = 2 * m := by
    rw [Nat.shiftLeft_eq]; omega
  have h2 : (2 * m) % 2 ^ 16 = 2 * m := by omega
  unfold crc_shift
  rw [hc, shiftLeft_xor]
  split_ifs
  · rw [xor_mod_two_pow, xor_mod_two_pow (y <<< 1), hs, xor_mod_two_pow (y <<< 1) 0x1021,
      Nat.xor_assoc, Nat.xor_assoc, Nat.xor_comm (2 * m)]
  · rw [xor_mod_two_pow, hs]

theorem testBit_15 (r : Nat) (hr : r < 2 ^ 16) : r.testBit 15 = decide (2 ^ 15 ≤ r) := by
  rw [Nat.testBit_to_div_mod]
  congr 1
  apply propext
  constructor <;> intro h <;> omega

/-- A round of the register after the message bit has been xor-ed into its top bit is one
step of the bitwise division. -/
theorem crc_shift_top (r : Nat) (hr : r < 2 ^ 16) (t : Bool) :
    crc_shift (r ^^^ (t.toNat * 2 ^ 15)) = crc16_ccitt_false_step r t := by
  unfold crc16_ccitt_false_step
  simp only [testBit_15 r hr, Nat.shiftLeft_eq]
  cases t
  · simp only [Bool.toNat_false, Nat.zero_mul, Nat.xor_zero]
    rw [crc_shift_eq r hr]
    by_cases h : 2 ^ 15 ≤ r
    · simp only [h, decide_True, if_true]
      have e : 2 * r - 2 ^ 16 = r * 2 ^ 1 % 2 ^ 16 := by omega
      rw [e]; rfl
    · simp only [h, decide_False, if_false]
      have e : 2 * r = r * 2 ^ 1 % 2 ^ 16 := by omega
      rw [e]; rfl
  · simp only [Bool.toNat_true, Nat.one_mul]
    by_cases h : 2 ^ 15 ≤ r
    · obtain ⟨lo, rfl⟩ : ∃ lo, r = 2 ^ 15 + lo := ⟨r - 2 ^ 15, by omega⟩
      have hlo : lo < 2 ^ 15 := by omega
      have hx : (2 ^ 15 + lo) ^^^ 2 ^ 15 = lo := by
        rw [two_pow_add_eq_xor 15 lo hlo, Nat.xor_comm, Nat.xor_cancel_left]
      rw [hx, crc_shift_eq _ (by omega), if_neg (by omega)]
      simp only [h, decide_True]
      have e : 2 * lo = (2 ^ 15 + lo) * 2 ^ 1 % 2 ^ 16 := by omega
      rw [e]; rfl
    · have hx : r ^^^ 2 ^ 15 = 2 ^ 15 + r := by
        rw [Nat.xor_comm, ← two_pow_add_eq_xor 15 r (by omega)]
      rw [hx, crc_shift_eq _ (by omega), if_pos (by omega)]
      simp only [h, decide_False]
      have e : 2 * (2 ^ 15 + r) - 2 ^ 16 = r * 2 ^ 1 % 2 ^ 16 := by omega
      rw [e]; rfl

/-- The bits `bs`, first bit in bit 15 of the register, the next in bit 14, and so on. -/
theorem crc_shift_step (r : Nat) (hr : r < 2 ^ 16) (t : Bool) (m : Nat) (hm : m < 2 ^ 15) :
    crc_shift (r ^^^ (t.toNat * 2 ^ 15 + m)) = crc16_ccitt_false_step r t ^^^ (2 * m) := by
  have e : t.toNat * 2 ^ 15 + m = (t.toNat * 2 ^ 15) ^^^ m := by
    cases t
    · simp
    · simp only [Bool.toNat_true, Nat.one_mul]
      exact two_pow_add_eq_xor 15 m hm
  rw [e, ← Nat.xor_assoc, crc_shift_xor _ _ hm, crc_shift_top r hr]

theorem crc16_ccitt_false_step_lt (r : Nat) (t : Bool) :
    crc16_ccitt_false_step r t < 2 ^ 16 := by
  unfold crc16_ccitt_false_step
  simp only
  split_ifs
  · exact Nat.xor_lt_two_pow (Nat.mod_lt _ (by decide)) (by decide)
  · exact Nat.mod_lt _ (by decide)

/-- With the low `i + 1` bits of a byte still to divide, at the top of the register, a round
of the register divides bit `i`. -/
theorem crc_shift_bit (r b i : Nat) (hr : r < 2 ^ 16) (hi : i < 8) :
    crc_shift (r ^^^ (b % 2 ^ (i + 1) * 2 ^ (15 - i)))
      = crc16_ccitt_false_step r (b.testBit i) ^^^ (b % 2 ^ i * 2 ^ (16 - i)) := by
  have key : ∀ m : Nat, m < 2 ^ 15 →
      b % 2 ^ (i + 1) * 2 ^ (15 - i) = (b.testBit i).toNat * 2 ^ 15 + m →
      2 * m = b % 2 ^ i * 2 ^ (16 - i) →
      crc_shift (r ^^^ (b % 2 ^ (i + 1) * 2 ^ (15 - i)))
        = crc16_ccitt_false_step r (b.testBit i) ^^^ (b % 2 ^ i * 2 ^ (16 - i)) := by
    intro m hm e1 e2
    rw [e1, crc_shift_step r hr _ m hm, e2]
  interval_cases i
  · exact key 0 (by omega) (by rw [Nat.toNat_testBit]; omega) (by omega)
  · exact key (b % 2 * 2 ^ 14) (by omega) (by rw [Nat.toNat_testBit]; omega) (by omega)
  · exact key (b % 4 * 2 ^ 13) (by omega) (by rw [Nat.toNat_testBit]; omega) (by omega)
  · exact key (b % 8 * 2 ^ 12) (by omega) (by rw [Nat.toNat_testBit]; omega) (by omega)
  · exact key (b % 16 * 2 ^ 11) (by omega) (by rw [Nat.toNat_testBit]; omega) (by omega)
  · exact key (b % 32 * 2 ^ 10) (by omega) (by rw [Nat.toNat_testBit]; omega) (by omega)
  · exact key (b % 64 * 2 ^ 9) (by omega) (by rw [Nat.toNat_testBit]; omega) (by omega)
  · exact key (b % 128 * 2 ^ 8) (by omega) (by rw [Nat.toNat_testBit]; omega) (by omega)

/-- The body of the byte loop of `calculate_crc` divides the eight bits of the byte, most
significant first. -/
theorem crc_update_eq (c b : Nat) (hc : c < 2 ^ 16) :
    crc_update c b = (msb_first_bits b).foldl crc16_ccitt_false_step c := by
  have hx : (c ^^^ ((b % 2 ^ 16) <<< 8)) % 2 ^ 16 = c ^^^ (b % 2 ^ (7 + 1) * 2 ^ (15 - 7)) := by
    rw [xor_mod_two_pow, Nat.mod_eq_of_lt hc, Nat.shiftLeft_eq]
    congr 1
    omega
  have hb : msb_first_bits b = [b.testBit 7, b.testBit 6, b.testBit 5, b.testBit 4,
      b.testBit 3, b.testBit 2, b.testBit 1, b.testBit 0] := rfl
  have hl := crc16_ccitt_false_step_lt
  have h0 : ∀ x : Nat, x ^^^ (b % 2 ^ 0 * 2 ^ (16 - 0)) = x := by
    intro x
    have : b % 2 ^ 0 * 2 ^ (16 - 0) = 0 := by omega
    rw [this, Nat.xor_zero]
  unfold crc_update
  simp only [hx, hb, List.foldl_cons, List.foldl_nil]
  have hr : List.range 8 = [0, 1, 2, 3, 4, 5, 6, 7] := rfl
  rw [hr]
  simp only [List.foldl_cons, List.foldl_nil]
  rw [crc_shift_bit c b 7 hc (by omega), crc_shift_bit _ b 6 (hl _ _) (by omega),
    crc_shift_bit _ b 5 (hl _ _) (by omega), crc_shift_bit _ b 4 (hl _ _) (by omega),
    crc_shift_bit _ b 3 (hl _ _) (by omega), crc_shift_bit _ b 2 (hl _ _) (by omega),
    crc_shift_bit _ b 1 (hl _ _) (by omega), crc_shift_bit _ b 0 (hl _ _) (by omega), h0]

theorem crc16_ccitt_false_lt (message : List Nat) : crc16_ccitt_false message < 2 ^ 16 := by
  unfold crc16_ccitt_false
  generalize message.flatMap msb_first_bits = bits
  have : ∀ (bits : List Bool) (r : Nat), r < 2 ^ 16 →
      bits.foldl crc16_ccitt_false_step r < 2 ^ 16 := by
    intro bits
    induction bits with
    | nil => intro r hr; exact hr
    | cons t ts ih => intro r _; exact ih _ (crc16_ccitt_false_step_lt r t)
  exact this bits _ (by decide)

theorem crc16_ccitt_false_append (message : List Nat) (b : Nat) :
    crc16_ccitt_false (message ++ [b])
      = (msb_first_bits b).foldl crc16_ccitt_false_step (crc16_ccitt_false message) := by
  unfold crc16_ccitt_false
  rw [List.flatMap_append, List.foldl_append]
  simp [List.flatMap]

/-- The encoder's `calculate_crc` over `data[0 .. len)` is the bitwise division of those
bytes. -/
theorem calculate_crc_spec (data : List Nat) (len : Nat) :
    CanBusMultiFrameEncoder.calculate_crc data len
      = crc16_ccitt_false ((List.range len).map (byte_at data)) := by
  induction len with
  | zero => rw [calculate_crc_zero]; rfl
  | succ n ih =>
    rw [calculate_crc_succ, List.range_succ, List.map_append, List.map_singleton,
      crc16_ccitt_false_append, ← ih, crc_update_eq _ _ (calculate_crc_lt data n)]

theorem map_byte_at_range (data : List Nat) (len : Nat) (h : len ≤ data.length) :
    (List.range len).map (byte_at data) = data.take len := by
  apply ext_byte_at
  · simp; omega
  · intro i hi
    simp only [List.length_map, List.length_range] at hi
    rw [byte_at_take, if_pos hi]
    simp [byte_at, List.getD_eq_getElem?_getD, hi]

/-! ## A transfer in one slot -/

theorem sm_process_frame_data_length (sm : StateMachine) (id : Nat) (fd : List Nat)
    (fl ts : Nat) :
    (sm.process_frame id fd fl ts).2.multi_frame.data.length = sm.multi_frame.data.length := by
  rcases sm_process_frame_cases sm id fd fl ts with h | h | ⟨-, h⟩ | ⟨-, -, -, -, ty, h⟩ <;>
    rw [h] <;> simp

theorem sm_run_data_length (rx : List Rx) : ∀ sm : StateMachine,
    (sm.run rx).2.multi_frame.data.length = sm.multi_frame.data.length := by
  induction rx with
  | nil => intro sm; rfl
  | cons r rs ih => intro sm; rw [sm_run_cons, ih, sm_process_frame_data_length]

/-- A call that returns a message for a frame without `start_of_transfer` leaves the slot
empty. -/
theorem sm_some_empty (sm : StateMachine) (id : Nat) (fd : List Nat) (fl ts : Nat)
    (x : ReceivedCanBusMessage) (h : (sm.process_frame id fd fl ts).1 = some x)
    (hsot : (TailByte.from_byte (byte_at fd (fl - 1))).start_of_transfer = false) :
    (sm.process_frame id fd fl ts).2.type = SlotType.Empty := by
  have hns : ((TailByte.from_byte (byte_at fd (fl - 1))).start_of_transfer &&
      (TailByte.from_byte (byte_at fd (fl - 1))).end_of_transfer) = false := by
    rw [hsot]; rfl
  by_cases hfl : fl = 0
  · subst hfl
    rw [sm_process_frame_zero] at h
    cases h
  · by_cases hte : sm.type = SlotType.Empty
    · rw [sm_process_frame_empty sm id fd fl ts hfl _ rfl hns hte] at h
      split_ifs at h <;> cases h
    · have hty : sm.type = SlotType.MultiFrame := by
        cases h' : sm.type with
        | Empty => exact absurd h' hte
        | MultiFrame => rfl
      by_cases hid : sm.multi_frame.id = id
      · rw [sm_process_frame_same sm id fd fl ts hfl _ rfl hns hty hid] at h ⊢
        simp only at h ⊢
        split_ifs at h ⊢ <;> first | cases h | rfl
      · rw [sm_process_frame_other sm id fd fl ts hfl _ rfl hns hty hid,
          sm_process_frame_empty _ id fd fl ts hfl _ rfl hns rfl] at h
        split_ifs at h <;> cases h

/-- The results of a transfer before its last frame. -/
theorem is_transfer_before_last (id : Nat) (rx : List Rx) (res : ReceivedCanBusMessage)
    (h : is_transfer id rx res) (sm : StateMachine) (hty : sm.type = SlotType.Empty)
    (hlen : sm.multi_frame.data.length = 256) (p q : List Rx) (hpq : rx = p ++ q)
    (hq : q ≠ []) : (sm.run p).1 = List.replicate p.length none := by
  obtain ⟨hout, -, -⟩ := h.2.2.2 sm hty hlen
  rw [hpq, sm_run_append] at hout
  simp only at hout
  have hlp : (sm.run p).1.length = p.length := sm_run_length p sm
  have hqpos : 0 < q.length := List.length_pos.mpr hq
  have e : List.replicate ((p ++ q).length - 1) (none : Option ReceivedCanBusMessage)
      = List.replicate p.length none ++ List.replicate (q.length - 1) none := by
    rw [← List.replicate_add, List.length_append]
    congr 1
    omega
  rw [e, List.append_assoc] at hout
  exact (List.append_inj hout (by rw [hlp, List.length_replicate])).1

/-- The result of the last frame of a transfer. -/
theorem is_transfer_last (id : Nat) (rx : List Rx) (res : ReceivedCanBusMessage)
    (h : is_transfer id rx res) (sm : StateMachine) (hty : sm.type = SlotType.Empty)
    (hlen : sm.multi_frame.data.length = 256) (p : List Rx) (r : Rx) (hpq : rx = p ++ [r]) :
    ((sm.run p).2.process_frame r.frame_id r.frame.data r.frame.len r.timestamp_us).1
        = some res
      ∧ ((sm.run p).2.process_frame r.frame_id r.frame.data r.frame.len r.timestamp_us).2.type
        = SlotType.Empty := by
  obtain ⟨hout, hfin, -⟩ := h.2.2.2 sm hty hlen
  rw [hpq, sm_run_append, sm_run_cons] at hout hfin
  simp only [StateMachine.run] at hout hfin
  refine ⟨?_, hfin⟩
  have hlp : (sm.run p).1.length = p.length := sm_run_length p sm
  have e : (p ++ [r]).length - 1 = p.length := by simp
  rw [e] at hout
  have := (List.append_inj hout (by rw [hlp, List.length_replicate])).2
  exact (List.cons.inj this).1

/-- The frames of the encoder of a message are a transfer that yields the message. -/
theorem is_transfer_of_encoder (v : CanBusMessage) (hv : v.valid)
    (node_type node_id id : Nat) (hid : v.get_id node_type node_id = some id)
    (mem : List Nat) (hmem : mem.length = CanBusMultiFrameEncoder.MAX_CAN_MESSAGE_SIZE)
    (rx : List Rx) (hrx : rx.map Rx.frame = (CanBusMultiFrameEncoder.new mem v).frames)
    (hids : ∀ r ∈ rx, r.frame_id = id) :
    is_transfer id rx
      { id := id
        crc := CanBusMultiFrameEncoder.calculate_crc v.serialized v.SIZE_BYTES
        message := v } := by
  have h36 := size_le_36 v
  have h1 := get_id_size_pos v node_type node_id id hid
  have hmt := get_id_message_type v node_type node_id id hid
  have hm : v.SIZE_BYTES ≤ mem.length := by
    rw [hmem]; unfold CanBusMultiFrameEncoder.MAX_CAN_MESSAGE_SIZE; omega
  by_cases h7 : v.SIZE_BYTES ≤ 7
  · rw [frames_of_short mem v hm h1 h7] at hrx
    obtain ⟨r, rx', rfl, hr, hrx'⟩ := List.map_eq_cons_iff.mp hrx
    have hnil : rx' = [] := List.map_eq_nil_iff.mp hrx'
    subst hnil
    refine ⟨by simp, hmt, hids, ?_⟩
    intro sm hty _
    have hrid : r.frame_id = id := hids r (by simp)
    have hsl : v.serialized.length ≤ 7 := by rw [serialized_length]; exact h7
    have ht := mkframe_tail v.serialized ⟨true, true, false⟩ hsl
    rw [← hr] at ht
    have hl : r.frame.len = v.SIZE_BYTES + 1 := by rw [hr, mkframe_len, serialized_length]
    have hag : ∀ i, i < v.SIZE_BYTES → byte_at r.frame.data i = byte_at v.serialized i := by
      intro i hi
      rw [hr]
      exact byte_at_mkframe_payload _ _ hsl i (by rw [serialized_length]; exact hi)
    have hstep : sm.process_frame r.frame_id r.frame.data r.frame.len r.timestamp_us
        = (some { id := id
                  crc := CanBusMultiFrameEncoder.calculate_crc v.serialized v.SIZE_BYTES
                  message := v }, sm) := by
      rw [hrid, sm_process_frame_single sm id _ _ _ (by omega) _ ht rfl rfl]
      simp only [Bool.false_eq_true, if_false, hl, Nat.add_sub_cancel,
        decode_serialized v hv node_type node_id id hid _ hag, Option.map_some',
        calculate_crc_eq, calculate_crc_congr _ _ _ hag]
    refine ⟨?_, ?_, ?_⟩
    · rw [sm_run_cons, hstep]; rfl
    · rw [sm_run_cons, hstep]; exact hty
    · intro p q hpq hp hq
      exfalso
      have := congrArg List.length hpq
      simp only [List.length_cons, List.length_nil, List.length_append] at this
      have := List.length_pos.mpr hp
      have := List.length_pos.mpr hq
      omega
  · have h8 : 8 ≤ v.SIZE_BYTES := by omega
    rw [frames_of_long mem v hm h8] at hrx
    have hw8 : 8 ≤ ((CanBusMultiFrameEncoder.calculate_crc v.serialized v.SIZE_BYTES
        &&& 0xFF) % 256 ::
        ((CanBusMultiFrameEncoder.calculate_crc v.serialized v.SIZE_BYTES >>> 8) &&& 0xFF) % 256
          :: v.serialized).length := by
      simp [serialized_length]; omega
    have hw258 : ((CanBusMultiFrameEncoder.calculate_crc v.serialized v.SIZE_BYTES
        &&& 0xFF) % 256 ::
        ((CanBusMultiFrameEncoder.calculate_crc v.serialized v.SIZE_BYTES >>> 8) &&& 0xFF) % 256
          :: v.serialized).length ≤ 258 := by
      simp [serialized_length]; omega
    have hlen2 : 2 ≤ rx.length := by
      have := transfer_frames_length _ hw8
      rw [← hrx, List.length_map] at this
      exact this
    have hne : rx ≠ [] := by
      intro h; rw [h] at hlen2; simp at hlen2
    refine ⟨hne, hmt, hids, ?_⟩
    intro sm hty hlen
    have hout : (sm.run rx).1 = List.replicate (rx.length - 1) none ++
        [some { id := id
                crc := CanBusMultiFrameEncoder.calculate_crc v.serialized v.SIZE_BYTES
                message := v }] := by
      obtain ⟨k, data, hdata, hres⟩ := sm_run_transfer id _ hw8 hw258 sm hty hlen rx hrx hids
      have e2 : v.SIZE_BYTES + 1 + 1 - 2 = v.SIZE_BYTES := by omega
      simp only [List.length_cons, serialized_length, e2, List.drop_succ_cons,
        List.drop_zero, byte_at_cons_zero, byte_at_cons_succ] at hdata hres
      have hcrc : StateMachine.calculate_crc data v.SIZE_BYTES
          = CanBusMultiFrameEncoder.calculate_crc v.serialized v.SIZE_BYTES := by
        rw [calculate_crc_eq]
        exact calculate_crc_congr _ _ _ hdata
      rw [hcrc, crc_bytes _ (calculate_crc_lt _ _), if_pos rfl,
        decode_serialized v hv node_type node_id id hid _ hdata] at hres
      have hk : k = rx.length - 1 := by
        have := congrArg List.length hres
        rw [sm_run_length, List.length_append, List.length_replicate] at this
        simp only [List.length_singleton] at this
        omega
      rw [hres, hk]
      rfl
    have hpre : ∀ p q, rx = p ++ q → p ≠ [] → q ≠ [] →
        (sm.run p).2.type = SlotType.MultiFrame ∧ (sm.run p).2.multi_frame.id = id ∧
        ∀ r, q.head? = some r → r.frame.tail.start_of_transfer = false := by
      intro p q hpq hp hq
      obtain ⟨a, b, c⟩ := sm_transfer_prefix id _ hw8 hw258 sm hty p q hp hq
        (by rw [← hpq]; exact hrx) (fun r hr => hids r (by rw [hpq]; simp [hr]))
      exact ⟨a, b, fun r hr => (c r hr).2⟩
    refine ⟨hout, ?_, fun p q hpq hp hq => ⟨(hpre p q hpq hp hq).1, (hpre p q hpq hp hq).2.1⟩⟩
    obtain ⟨p, rl, hprl⟩ : ∃ p rl, rx = p ++ [rl] :=
      ⟨rx.dropLast, rx.getLast hne, (List.dropLast_append_getLast hne).symm⟩
    have hp : p ≠ [] := by
      intro h
      rw [hprl, h] at hlen2
      simp at hlen2
    have hsot := (hpre p [rl] hprl hp (by simp)).2.2 rl rfl
    have hlp : (sm.run p).1.length = p.length := sm_run_length p sm
    rw [hprl, sm_run_append, sm_run_cons] at hout
    simp only [StateMachine.run] at hout
    have e : (p ++ [rl]).length - 1 = p.length := by simp
    rw [e] at hout
    have hlast := (List.cons.inj
      (List.append_inj hout (by rw [hlp, List.length_replicate])).2).1
    rw [hprl, sm_run_append, sm_run_cons]
    simp only [StateMachine.run]
    exact sm_some_empty _ _ _ _ _ _ hlast hsot

/-! ## Interleaved transfers -/

/-- When a slot is empty the second loop stops at an empty slot. -/
theorem lru_index_empty (d : CanBusMultiFrameDecoder)
    (h : ∃ i, i < CanBusMultiFrameDecoder.Q ∧ (d.slot i).type = SlotType.Empty) :
    d.lru_index < CanBusMultiFrameDecoder.Q ∧ (d.slot d.lru_index).type = SlotType.Empty := by
  obtain ⟨i, hi, hte⟩ := h
  unfold CanBusMultiFrameDecoder.lru_index
  cases hf : (List.range CanBusMultiFrameDecoder.Q).find? (fun i => (d.slot i).is_empty) with
  | none =>
    have := List.find?_eq_none.mp hf i (List.mem_range.mpr hi)
    simp [StateMachine.is_empty, hte] at this
  | some i0 =>
    simp only
    have h1 := List.find?_some (p := fun i => (d.slot i).is_empty) hf
    have h2 := List.mem_range.mp (List.mem_of_find?_eq_some hf)
    refine ⟨h2, ?_⟩
    simpa [StateMachine.is_empty] using h1

/-- With distinct identifiers in the slots, a frame goes to the slot that holds its
identifier. -/
theorem process_frame_route_same (d : CanBusMultiFrameDecoder) (id : Nat) (fd : List Nat)
    (fl ts : Nat) (hmt : (id >>> 18) &&& 0xFF ≠ 255) (hd : d.distinct_ids) (i : Nat)
    (hi : i < CanBusMultiFrameDecoder.Q) (hty : (d.slot i).type = SlotType.MultiFrame)
    (hid : (d.slot i).multi_frame.id = id) :
    d.process_frame id fd fl ts = d.route i id fd fl ts := by
  unfold CanBusMultiFrameDecoder.process_frame
  simp only [hmt, if_false]
  cases hf : (List.range CanBusMultiFrameDecoder.Q).find?
      (fun i => (d.slot i).has_same_id id) with
  | none =>
    have := List.find?_eq_none.mp hf i (List.mem_range.mpr hi)
    simp [StateMachine.has_same_id, hty, hid] at this
  | some i0 =>
    simp only
    have h1 := List.find?_some (p := fun i => (d.slot i).has_same_id id) hf
    have h2 := List.mem_range.mp (List.mem_of_find?_eq_some hf)
    obtain ⟨hty0, hid0⟩ := (has_same_id_iff _ _).mp h1
    by_cases e : i0 = i
    · rw [e]
    · exact absurd (hid0.trans hid.symm) (hd i0 i h2 hi e hty0 hty)

theorem mem_slot (d : CanBusMultiFrameDecoder)
    (hl : d.state_machines.length = CanBusMultiFrameDecoder.Q) (s : StateMachine)
    (hs : s ∈ d.state_machines) : ∃ i, i < CanBusMultiFrameDecoder.Q ∧ d.slot i = s := by
  obtain ⟨i, hi, rfl⟩ := List.mem_iff_getElem.mp hs
  refine ⟨i, by omega, ?_⟩
  unfold CanBusMultiFrameDecoder.slot
  rw [List.getD_eq_getElem _ _ hi]

theorem route_slot (d : CanBusMultiFrameDecoder) (i : Nat) (id : Nat) (fd : List Nat)
    (fl ts : Nat) (hi : i < d.state_machines.length) (k : Nat) :
    (d.route i id fd fl ts).2.slot k
      = if k = i then ((d.slot i).process_frame id fd fl ts).2 else d.slot k := by
  unfold CanBusMultiFrameDecoder.route
  simp only
  rw [slot_set]
  by_cases h : k = i
  · rw [if_pos ⟨h, hi⟩, if_pos h]
  · rw [if_neg (fun c => h c.1), if_neg h]

/-- The identifier in a slot that holds the first frames of a transfer. -/
theorem held_id (id : Nat) (rx : List Rx) (res : ReceivedCanBusMessage)
    (h : is_transfer id rx res) (n : Nat) (h0 : 0 < n) (hn : n < rx.length)
    (sm0 : StateMachine) (hty : sm0.type = SlotType.Empty)
    (hlen : sm0.multi_frame.data.length = 256) :
    (sm0.run (rx.take n)).2.type = SlotType.MultiFrame
      ∧ (sm0.run (rx.take n)).2.multi_frame.id = id := by
  refine (h.2.2.2 sm0 hty hlen).2.2 (rx.take n) (rx.drop n) (List.take_append_drop n rx).symm
    ?_ ?_
  · intro e
    have := congrArg List.length e
    rw [List.length_take] at this
    simp only [List.length_nil] at this
    omega
  · intro e
    have := congrArg List.length e
    rw [List.length_drop] at this
    simp only [List.length_nil] at this
    omega

/-- The transfer an occupied slot holds. -/
theorem tracks_held (d : CanBusMultiFrameDecoder) (k : Nat) (ids : Nat → Nat)
    (rxs : Nat → List Rx) (ress : Nat → ReceivedCanBusMessage) (done : Nat → Nat)
    (hok : ∀ j, j < k → is_transfer (ids j) (rxs j) (ress j))
    (ht : d.tracks k ids rxs done) (i : Nat) (hi : i < CanBusMultiFrameDecoder.Q)
    (hty : (d.slot i).type = SlotType.MultiFrame) :
    ∃ j, j < k ∧ 0 < done j ∧ done j < (rxs j).length ∧ (d.slot i).multi_frame.id = ids j ∧
      ∃ sm0 : StateMachine, sm0.type = SlotType.Empty ∧ sm0.multi_frame.data.length = 256 ∧
        d.slot i = (sm0.run ((rxs j).take (done j))).2 := by
  obtain ⟨j, hj, h0, hn, sm0, hty0, hlen0, hs⟩ := ht.2.2.2.1 i hi hty
  refine ⟨j, hj, h0, hn, ?_, sm0, hty0, hlen0, hs⟩
  rw [hs]
  exact (held_id _ _ _ (hok j hj) _ h0 hn sm0 hty0 hlen0).2

/-- With at most eight transfers, one of them not in flight, a slot is empty. -/
theorem tracks_empty_slot (d : CanBusMultiFrameDecoder) (k : Nat) (ids : Nat → Nat)
    (rxs : Nat → List Rx) (ress : Nat → ReceivedCanBusMessage) (done : Nat → Nat)
    (hk : k ≤ CanBusMultiFrameDecoder.Q)
    (hok : ∀ j, j < k → is_transfer (ids j) (rxs j) (ress j))
    (ht : d.tracks k ids rxs done) (j : Nat) (hj : j < k)
    (hj0 : ¬ (0 < done j ∧ done j < (rxs j).length)) :
    ∃ i, i < CanBusMultiFrameDecoder.Q ∧ (d.slot i).type = SlotType.Empty := by
  by_contra hno
  have hocc : ∀ i, i < CanBusMultiFrameDecoder.Q → (d.slot i).type = SlotType.MultiFrame := by
    intro i hi
    cases h : (d.slot i).type with
    | Empty => exact absurd ⟨i, hi, h⟩ hno
    | MultiFrame => rfl
  have H : ∀ i, ∃ j', i < CanBusMultiFrameDecoder.Q →
      (j' < k ∧ j' ≠ j ∧ (d.slot i).multi_frame.id = ids j') := by
    intro i
    by_cases hi : i < CanBusMultiFrameDecoder.Q
    · obtain ⟨j', hj', h0, hn, hid, -⟩ := tracks_held d k ids rxs ress done hok ht i hi (hocc i hi)
      refine ⟨j', fun _ => ⟨hj', ?_, hid⟩⟩
      intro e
      rw [e] at h0 hn
      exact hj0 ⟨h0, hn⟩
    · exact ⟨0, fun h => absurd h hi⟩
  choose f hf using H
  have hcard := Finset.card_le_card_of_injOn (s := Finset.range CanBusMultiFrameDecoder.Q)
    (t := (Finset.range k).erase j) f
    (by
      intro a ha
      have ha' := Finset.mem_range.mp (Finset.mem_coe.mp ha)
      obtain ⟨h1, h2, -⟩ := hf a ha'
      exact Finset.mem_coe.mpr (Finset.mem_erase.mpr ⟨h2, Finset.mem_range.mpr h1⟩))
    (by
      intro a ha b hb hab
      have ha' := Finset.mem_range.mp (Finset.mem_coe.mp ha)
      have hb' := Finset.mem_range.mp (Finset.mem_coe.mp hb)
      by_contra hne
      have h1 := (hf a ha').2.2
      have h2 := (hf b hb').2.2
      rw [hab] at h1
      exact ht.2.2.1 a b ha' hb' hne (hocc a ha') (hocc b hb') (h1.trans h2.symm))
  rw [Finset.card_range, Finset.card_erase_of_mem (Finset.mem_range.mpr hj),
    Finset.card_range] at hcard
  omega

theorem sm_run_snoc (sm : StateMachine) (p : List Rx) (r : Rx) :
    sm.run (p ++ [r])
      = ((sm.run p).1 ++
          [((sm.run p).2.process_frame r.frame_id r.frame.data r.frame.len r.timestamp_us).1],
         ((sm.run p).2.process_frame r.frame_id r.frame.data r.frame.len r.timestamp_us).2) := by
  rw [sm_run_append, sm_run_cons]
  rfl

theorem take_succ_of_drop (l : List Rx) (n : Nat) (r : Rx) (tl : List Rx)
    (h : l.drop n = r :: tl) :
    n < l.length ∧ l = l.take n ++ r :: tl ∧ l.take (n + 1) = l.take n ++ [r]
      ∧ l.drop (n + 1) = tl ∧ l.length = n + 1 + tl.length := by
  have hlt : n < l.length := by
    by_contra hge
    rw [List.drop_eq_nil_of_le (by omega)] at h
    cases h
  have hsplit : l = l.take n ++ r :: tl := by rw [← h, List.take_append_drop]
  have hd : l.drop (n + 1) = tl := by
    rw [← List.drop_drop 1 n l, h]
    rfl
  have ht : l.take (n + 1) = l.take n ++ [r] := by
    have h1 : l.take (n + 1) ++ l.drop (n + 1) = (l.take n ++ [r]) ++ tl := by
      rw [List.take_append_drop, List.append_assoc]
      exact hsplit
    rw [hd] at h1
    exact List.append_cancel_right h1
  refine ⟨hlt, hsplit, ht, hd, ?_⟩
  have := congrArg List.length hsplit
  rw [List.length_append, List.length_take, List.length_cons] at this
  omega

/-- One call keeps the buffer length of every slot. -/
theorem process_frame_slot_data_length (d : CanBusMultiFrameDecoder) (id : Nat)
    (fd : List Nat) (fl ts : Nat) (i : Nat) :
    ((d.process_frame id fd fl ts).2.slot i).multi_frame.data.length
      = (d.slot i).multi_frame.data.length := by
  rcases process_frame_route d id fd fl ts with h | ⟨i0, h, -⟩
  · rw [h]
  · rw [h]
    unfold CanBusMultiFrameDecoder.route
    simp only
    rw [slot_set]
    split_ifs with hc
    · rw [sm_process_frame_data_length, hc.1]
    · rfl

/-- The first frame of a transfer, received while the decoder is in step. -/
theorem tracks_step_open (d : CanBusMultiFrameDecoder) (k : Nat) (ids : Nat → Nat)
    (rxs : Nat → List Rx) (ress : Nat → ReceivedCanBusMessage) (done : Nat → Nat)
    (hk : k ≤ CanBusMultiFrameDecoder.Q)
    (hdist : ∀ a b, a < k → b < k → a ≠ b → ids a ≠ ids b)
    (hok : ∀ j, j < k → is_transfer (ids j) (rxs j) (ress j))
    (ht : d.tracks k ids rxs done) (j : Nat) (hj : j < k) (r : Rx) (tl : List Rx)
    (hr : (rxs j).drop (done j) = r :: tl) (h0 : done j = 0) :
    (d.process_frame r.frame_id r.frame.data r.frame.len r.timestamp_us).1
        = (if tl = [] then some (ress j) else none)
      ∧ (d.process_frame r.frame_id r.frame.data r.frame.len r.timestamp_us).2.tracks k ids rxs
          (Function.update done j (done j + 1)) := by
  obtain ⟨hne, hmt, hidsj, hrun⟩ := hok j hj
  obtain ⟨hlt, hsplit, htake, -, hlen⟩ := take_succ_of_drop _ _ _ _ hr
  rw [h0] at hsplit htake hlen
  simp only [List.take_zero, List.nil_append] at hsplit htake
  have hrid : r.frame_id = ids j := hidsj r (by rw [hsplit]; simp)
  have hdis' := distinct_ids_step d r.frame_id r.frame.data r.frame.len r.timestamp_us ht.2.2.1
  have hlen' := process_frame_length d r.frame_id r.frame.data r.frame.len r.timestamp_us
  have hdata' := process_frame_slot_data_length d r.frame_id r.frame.data r.frame.len
    r.timestamp_us
  obtain ⟨hlenQ, hdata, hdis, hb, hc⟩ := ht
  have hnone : ∀ s ∈ d.state_machines, s.has_same_id r.frame_id = false := by
    intro s hs
    obtain ⟨i, hi, rfl⟩ := mem_slot d hlenQ s hs
    cases hh : (d.slot i).has_same_id r.frame_id with
    | false => rfl
    | true =>
      exfalso
      obtain ⟨hty, hid⟩ := (has_same_id_iff _ _).mp hh
      obtain ⟨j', hj', h0', -, hid', -⟩ :=
        tracks_held d k ids rxs ress done hok ⟨hlenQ, hdata, hdis, hb, hc⟩ i hi hty
      have hjj : j' = j := by
        by_contra hne'
        exact hdist j' j hj' hj hne' (hid'.symm.trans (hid.trans hrid))
      rw [hjj] at h0'
      omega
  have hempty := tracks_empty_slot d k ids rxs ress done hk hok ⟨hlenQ, hdata, hdis, hb, hc⟩ j
    hj (by omega)
  obtain ⟨hi0, hte0⟩ := lru_index_empty d hempty
  have hP := process_frame_route_lru d r.frame_id r.frame.data r.frame.len r.timestamp_us
    (by rw [hrid]; exact hmt) hnone
  have hi0' : d.lru_index < d.state_machines.length := by rw [hlenQ]; exact hi0
  have hslot := route_slot d d.lru_index r.frame_id r.frame.data r.frame.len r.timestamp_us hi0'
  have hout : (d.route d.lru_index r.frame_id r.frame.data r.frame.len r.timestamp_us).1
      = ((d.slot d.lru_index).process_frame r.frame_id r.frame.data r.frame.len
          r.timestamp_us).1 := rfl
  rw [hP] at hdis' hlen' hdata' ⊢
  rw [hout]
  have hlen0 := hdata _ hi0
  have hrun1 : (d.slot d.lru_index).run [r]
      = ([((d.slot d.lru_index).process_frame r.frame_id r.frame.data r.frame.len
            r.timestamp_us).1],
          ((d.slot d.lru_index).process_frame r.frame_id r.frame.data r.frame.len
            r.timestamp_us).2) := rfl
  -- the slots other than the one that takes the frame
  have hb_other : ∀ i, i < CanBusMultiFrameDecoder.Q → i ≠ d.lru_index →
      (d.slot i).type = SlotType.MultiFrame →
      ∃ j', j' < k ∧ 0 < Function.update done j (done j + 1) j' ∧
        Function.update done j (done j + 1) j' < (rxs j').length ∧
        ∃ sm0 : StateMachine, sm0.type = SlotType.Empty ∧ sm0.multi_frame.data.length = 256 ∧
          d.slot i = (sm0.run ((rxs j').take (Function.update done j (done j + 1) j'))).2 := by
    intro i hi _ hty
    obtain ⟨j', hj', h0', hn', sm0, hty0, hl0, hs⟩ := hb i hi hty
    have hjj : j' ≠ j := by
      intro e; rw [e] at h0'; omega
    refine ⟨j', hj', ?_, ?_, sm0, hty0, hl0, ?_⟩ <;> rw [Function.update_noteq hjj] <;>
      assumption
  have hc_other : ∀ j', j' < k → j' ≠ j → 0 < Function.update done j (done j + 1) j' →
      Function.update done j (done j + 1) j' < (rxs j').length →
      ∃ i, i < CanBusMultiFrameDecoder.Q ∧
        ((d.route d.lru_index r.frame_id r.frame.data r.frame.len r.timestamp_us).2.slot i).type
          = SlotType.MultiFrame ∧
        ((d.route d.lru_index r.frame_id r.frame.data r.frame.len
          r.timestamp_us).2.slot i).multi_frame.id = ids j' := by
    intro j' hj' hjj h1 h2
    rw [Function.update_noteq hjj] at h1 h2
    obtain ⟨i, hi, hty, hid⟩ := hc j' hj' h1 h2
    have hii : i ≠ d.lru_index := by
      intro e; rw [e, hte0] at hty; cases hty
    refine ⟨i, hi, ?_, ?_⟩ <;> rw [hslot, if_neg hii] <;> assumption
  by_cases htl : tl = []
  · subst htl
    obtain ⟨ho, hfin, -⟩ := hrun (d.slot d.lru_index) hte0 hlen0
    rw [hsplit, hrun1] at ho hfin
    simp only [List.length_singleton, Nat.sub_self, List.replicate_zero, List.nil_append,
      List.cons.injEq, and_true] at ho hfin
    refine ⟨by rw [if_pos rfl]; exact ho, hlen'.trans hlenQ, ?_, hdis', ?_, ?_⟩
    · intro i hi; rw [hdata' i]; exact hdata i hi
    · intro i hi hty
      rw [hslot] at hty ⊢
      by_cases hii : i = d.lru_index
      · rw [if_pos hii, hfin] at hty; cases hty
      · rw [if_neg hii] at hty ⊢
        exact hb_other i hi hii hty
    · intro j' hj' h1 h2
      by_cases hjj : j' = j
      · exfalso
        rw [hjj, Function.update_same, h0, hsplit] at h2
        simp at h2
      · exact hc_other j' hj' hjj h1 h2
  · have hpre := (hrun (d.slot d.lru_index) hte0 hlen0).2.2 [r] tl hsplit (by simp) htl
    have hpo := is_transfer_before_last _ _ _ (hok j hj) (d.slot d.lru_index) hte0 hlen0 [r] tl
      hsplit htl
    rw [hrun1] at hpre hpo
    simp only [List.length_singleton, List.replicate_one, List.cons.injEq, and_true] at hpre hpo
    refine ⟨by rw [if_neg htl]; exact hpo, hlen'.trans hlenQ, ?_, hdis', ?_, ?_⟩
    · intro i hi; rw [hdata' i]; exact hdata i hi
    · intro i hi hty
      rw [hslot] at hty ⊢
      by_cases hii : i = d.lru_index
      · rw [if_pos hii]
        refine ⟨j, hj, ?_, ?_, d.slot d.lru_index, hte0, hlen0, ?_⟩
        · rw [Function.update_same]; omega
        · rw [Function.update_same, h0, hlen]
          have := List.length_pos.mpr htl
          omega
        · rw [Function.update_same, h0, htake, hrun1]
      · rw [if_neg hii] at hty ⊢
        exact hb_other i hi hii hty
    · intro j' hj' h1 h2
      by_cases hjj : j' = j
      · rw [hjj]
        refine ⟨d.lru_index, hi0, ?_, ?_⟩ <;> rw [hslot, if_pos rfl]
        · exact hpre.1
        · exact hpre.2
      · exact hc_other j' hj' hjj h1 h2

/-- A later frame of a transfer, received while the decoder is in step. -/
theorem tracks_step_cont (d : CanBusMultiFrameDecoder) (k : Nat) (ids : Nat → Nat)
    (rxs : Nat → List Rx) (ress : Nat → ReceivedCanBusMessage) (done : Nat → Nat)
    (hdist : ∀ a b, a < k → b < k → a ≠ b → ids a ≠ ids b)
    (hok : ∀ j, j < k → is_transfer (ids j) (rxs j) (ress j))
    (ht : d.tracks k ids rxs done) (j : Nat) (hj : j < k) (r : Rx) (tl : List Rx)
    (hr : (rxs j).drop (done j) = r :: tl) (h0 : 0 < done j) :
    (d.process_frame r.frame_id r.frame.data r.frame.len r.timestamp_us).1
        = (if tl = [] then some (ress j) else none)
      ∧ (d.process_frame r.frame_id r.frame.data r.frame.len r.timestamp_us).2.tracks k ids rxs
          (Function.update done j (done j + 1)) := by
  obtain ⟨hne, hmt, hidsj, hrun⟩ := hok j hj
  obtain ⟨hlt, hsplit, htake, -, hlen⟩ := take_succ_of_drop _ _ _ _ hr
  have hrid : r.frame_id = ids j := hidsj r (by rw [hsplit]; simp)
  have hdis' := distinct_ids_step d r.frame_id r.frame.data r.frame.len r.timestamp_us ht.2.2.1
  have hlen' := process_frame_length d r.frame_id r.frame.data r.frame.len r.timestamp_us
  have hdata' := process_frame_slot_data_length d r.frame_id r.frame.data r.frame.len
    r.timestamp_us
  have ht' := ht
  obtain ⟨hlenQ, hdata, hdis, hb, hc⟩ := ht
  obtain ⟨i, hi, hty, hid⟩ := hc j hj h0 hlt
  obtain ⟨j', hj', -, -, hid', sm0, hty0, hl0, hs⟩ :=
    tracks_held d k ids rxs ress done hok ht' i hi hty
  have hjj : j' = j := by
    by_contra hne'
    exact hdist j' j hj' hj hne' (hid'.symm.trans hid)
  subst hjj
  have hP := process_frame_route_same d r.frame_id r.frame.data r.frame.len r.timestamp_us
    (by rw [hrid]; exact hmt) hdis i hi hty (hid.trans hrid.symm)
  have hi' : i < d.state_machines.length := by rw [hlenQ]; exact hi
  have hslot := route_slot d i r.frame_id r.frame.data r.frame.len r.timestamp_us hi'
  have hout : (d.route i r.frame_id r.frame.data r.frame.len r.timestamp_us).1
      = ((d.slot i).process_frame r.frame_id r.frame.data r.frame.len r.timestamp_us).1 := rfl
  rw [hP] at hdis' hlen' hdata' ⊢
  rw [hout]
  have hsnoc := sm_run_snoc sm0 ((rxs j').take (done j')) r
  rw [← hs] at hsnoc
  -- the slots other than the one that takes the frame
  have hb_other : ∀ i', i' < CanBusMultiFrameDecoder.Q → i' ≠ i →
      (d.slot i').type = SlotType.MultiFrame →
      ∃ j, j < k ∧ 0 < Function.update done j' (done j' + 1) j ∧
        Function.update done j' (done j' + 1) j < (rxs j).length ∧
        ∃ sm0 : StateMachine, sm0.type = SlotType.Empty ∧ sm0.multi_frame.data.length = 256 ∧
          d.slot i' = (sm0.run ((rxs j).take (Function.update done j' (done j' + 1) j))).2 := by
    intro i' hi' hii hty'
    obtain ⟨j, hj, h0', hn', hidj, sm1, hty1, hl1, hs1⟩ :=
      tracks_held d k ids rxs ress done hok ht' i' hi' hty'
    have hjj : j ≠ j' := by
      intro e
      rw [e] at hidj
      exact hdis i' i hi' hi hii hty' hty (hidj.trans hid.symm)
    refine ⟨j, hj, ?_, ?_, sm1, hty1, hl1, ?_⟩ <;> rw [Function.update_noteq hjj] <;>
      assumption
  have hc_other : ∀ j, j < k → j ≠ j' → 0 < Function.update done j' (done j' + 1) j →
      Function.update done j' (done j' + 1) j < (rxs j).length →
      ∃ i', i' < CanBusMultiFrameDecoder.Q ∧
        ((d.route i r.frame_id r.frame.data r.frame.len r.timestamp_us).2.slot i').type
          = SlotType.MultiFrame ∧
        ((d.route i r.frame_id r.frame.data r.frame.len
          r.timestamp_us).2.slot i').multi_frame.id = ids j := by
    intro j hj hjj h1 h2
    rw [Function.update_noteq hjj] at h1 h2
    obtain ⟨i', hi', hty', hid''⟩ := hc j hj h1 h2
    have hii : i' ≠ i := by
      intro e
      rw [e] at hid''
      exact hdist j j' hj hj' hjj (hid''.symm.trans hid)
    refine ⟨i', hi', ?_, ?_⟩ <;> rw [hslot, if_neg hii] <;> assumption
  by_cases htl : tl = []
  · subst htl
    obtain ⟨ho, hfin⟩ := is_transfer_last _ _ _ (hok j' hj') sm0 hty0 hl0
      ((rxs j').take (done j')) r hsplit
    rw [← hs] at ho hfin
    refine ⟨by rw [if_pos rfl]; exact ho, hlen'.trans hlenQ, ?_, hdis', ?_, ?_⟩
    · intro i' hi'; rw [hdata' i']; exact hdata i' hi'
    · intro i' hi' hty'
      rw [hslot] at hty' ⊢
      by_cases hii : i' = i
      · rw [if_pos hii, hfin] at hty'; cases hty'
      · rw [if_neg hii] at hty' ⊢
        exact hb_other i' hi' hii hty'
    · intro j hj h1 h2
      by_cases hjj : j = j'
      · exfalso
        rw [hjj, Function.update_same, hlen] at h2
        simp at h2
      · exact hc_other j hj hjj h1 h2
  · have hsplit' : rxs j' = ((rxs j').take (done j') ++ [r]) ++ tl := by
      rw [List.append_assoc]; exact hsplit
    have hpre := (hrun sm0 hty0 hl0).2.2 _ tl hsplit' (by simp) htl
    have hpo := is_transfer_before_last _ _ _ (hok j' hj') sm0 hty0 hl0 _ tl hsplit' htl
    rw [hsnoc] at hpre hpo
    simp only at hpre hpo
    have hnone : ((d.slot i).process_frame r.frame_id r.frame.data r.frame.len
        r.timestamp_us).1 = none := by
      have hl1 : (sm0.run ((rxs j').take (done j'))).1.length
          = ((rxs j').take (done j')).length := sm_run_length _ sm0
      rw [List.length_append, List.length_singleton, List.replicate_succ'] at hpo
      have := (List.append_inj hpo (by rw [hl1, List.length_replicate])).2
      exact (List.cons.inj this).1
    refine ⟨by rw [if_neg htl]; exact hnone, hlen'.trans hlenQ, ?_, hdis', ?_, ?_⟩
    · intro i' hi'; rw [hdata' i']; exact hdata i' hi'
    · intro i' hi' hty'
      rw [hslot] at hty' ⊢
      by_cases hii : i' = i
      · rw [if_pos hii]
        refine ⟨j', hj', ?_, ?_, sm0, hty0, hl0, ?_⟩
        · rw [Function.update_same]; omega
        · rw [Function.update_same, hlen]
          have := List.length_pos.mpr htl
          omega
        · rw [Function.update_same, htake, hsnoc]
      · rw [if_neg hii] at hty' ⊢
        exact hb_other i' hi' hii hty'
    · intro j hj h1 h2
      by_cases hjj : j = j'
      · rw [hjj]
        refine ⟨i, hi, ?_, ?_⟩ <;> rw [hslot, if_pos rfl]
        · exact hpre.1
        · exact hpre.2
      · exact hc_other j hj hjj h1 h2

theorem drop_results (n m : Nat) (x : ReceivedCanBusMessage) (h : m < n) :
    (List.replicate (n - 1) (none : Option ReceivedCanBusMessage) ++ [some x]).drop m
      = (if m + 1 = n then some x else none) ::
          (List.replicate (n - 1) (none : Option ReceivedCanBusMessage) ++ [some x]).drop
            (m + 1) := by
  have hl : m < (List.replicate (n - 1) (none : Option ReceivedCanBusMessage)
      ++ [some x]).length := by
    simp; omega
  rw [List.drop_eq_getElem_cons hl]
  congr 1
  by_cases hm : m + 1 = n
  · rw [if_pos hm, List.getElem_append_right (by simp; omega)]
    simp
  · rw [if_neg hm, List.getElem_append_left (by simp; omega)]
    simp

/-- The results of interleaved transfers, transfer by transfer: while the decoder is in
step, the calls for the remaining frames of transfer `j` return nothing before its last frame
and its message at the last frame. -/
theorem tracks_run (k : Nat) (ids : Nat → Nat) (rxs : Nat → List Rx)
    (ress : Nat → ReceivedCanBusMessage) (hk : k ≤ CanBusMultiFrameDecoder.Q)
    (hdist : ∀ a b, a < k → b < k → a ≠ b → ids a ≠ ids b)
    (hok : ∀ j, j < k → is_transfer (ids j) (rxs j) (ress j)) (tagged : List (Nat × Rx)) :
    ∀ (d : CanBusMultiFrameDecoder) (done : Nat → Nat), d.tracks k ids rxs done →
      (∀ p ∈ tagged, p.1 < k) →
      (∀ j, j < k →
        (tagged.filter (fun p => p.1 == j)).map Prod.snd = (rxs j).drop (done j)) →
      ∀ j, j < k →
        ((tagged.zip (d.run (tagged.map Prod.snd)).1).filter (fun q => q.1.1 == j)).map
            Prod.snd
          = (List.replicate ((rxs j).length - 1) none ++ [some (ress j)]).drop (done j) := by
  induction tagged with
  | nil =>
    intro d done _ _ hH j hj
    have h := hH j hj
    simp only [List.filter_nil, List.map_nil] at h
    have hge : (rxs j).length ≤ done j := by
      by_contra hlt
      have := congrArg List.length h
      rw [List.length_drop] at this
      simp only [List.length_nil] at this
      omega
    have hpos : 0 < (rxs j).length := List.length_pos.mpr (hok j hj).1
    rw [List.drop_eq_nil_of_le (by simp; omega)]
    rfl
  | cons p rest ih =>
    intro d done ht htag hH j hj
    obtain ⟨j0, r⟩ := p
    have hj0 : j0 < k := htag (j0, r) (by simp)
    have hr := hH j0 hj0
    simp only [List.filter_cons, beq_self_eq_true, if_true, List.map_cons] at hr
    have hr' := hr.symm
    obtain ⟨hlt, -, -, hdrop, hlen⟩ := take_succ_of_drop _ _ _ _ hr'
    have hstep : (d.process_frame r.frame_id r.frame.data r.frame.len r.timestamp_us).1
          = (if (rest.filter (fun p => p.1 == j0)).map Prod.snd = [] then some (ress j0)
              else none)
        ∧ (d.process_frame r.frame_id r.frame.data r.frame.len r.timestamp_us).2.tracks k ids
            rxs (Function.update done j0 (done j0 + 1)) := by
      by_cases h0 : done j0 = 0
      · exact tracks_step_open d k ids rxs ress done hk hdist hok ht j0 hj0 r _ hr' h0
      · exact tracks_step_cont d k ids rxs ress done hdist hok ht j0 hj0 r _ hr'
          (by omega)
    obtain ⟨ho, ht'⟩ := hstep
    have hH' : ∀ j, j < k → (rest.filter (fun p => p.1 == j)).map Prod.snd
        = (rxs j).drop (Function.update done j0 (done j0 + 1) j) := by
      intro j' hj'
      by_cases e : j' = j0
      · rw [e, Function.update_same, hdrop]
      · rw [Function.update_noteq e]
        have := hH j' hj'
        have hne : (j0 == j') = false := by
          simp only [beq_eq_false_iff_ne, ne_eq]
          exact fun h => e h.symm
        simp only [List.filter_cons, hne, Bool.false_eq_true, if_false] at this
        exact this
    have hih := ih _ _ ht' (fun p hp => htag p (by simp [hp])) hH' j hj
    simp only [List.map_cons, run_cons, List.zip_cons_cons, List.filter_cons]
    by_cases e : j = j0
    · subst e
      simp only [beq_self_eq_true, if_true, List.map_cons]
      rw [hih, Function.update_same, drop_results _ _ _ hlt, ho]
      congr 1
      by_cases htl : (rest.filter (fun p => p.1 == j)).map Prod.snd = []
      · rw [if_pos htl, if_pos]
        rw [hlen, htl]; rfl
      · rw [if_neg htl, if_neg]
        rw [hlen]
        have := List.length_pos.mpr htl
        omega
    · have hne : (j0 == j) = false := by
        simp only [beq_eq_false_iff_ne, ne_eq]
        exact fun h => e h.symm
      simp only [hne, Bool.false_eq_true, if_false]
      rw [hih, Function.update_noteq e]

/-- A fresh decoder is in step with transfers none of which has begun. -/
theorem tracks_fresh (d : CanBusMultiFrameDecoder) (hd : d.fresh) (k : Nat) (ids : Nat → Nat)
    (rxs : Nat → List Rx) : d.tracks k ids rxs (fun _ => 0) := by
  have hempty : ∀ i, (d.slot i).type = SlotType.Empty := by
    intro i
    rcases slot_mem_or_empty d i with hm | he
    · exact (hd.2 _ hm).1
    · exact he
  refine ⟨hd.1, ?_, distinct_ids_fresh d hd, ?_, ?_⟩
  · intro i hi
    exact (hd.2 _ (slot_of_lt d i (by rw [hd.1]; exact hi))).2
  · intro i _ hty
    rw [hempty i] at hty
    cases hty
  · intro j _ h0
    exact absurd h0 (Nat.lt_irrefl 0)

/-- A transfer alone, received by a fresh decoder. -/
theorem run_is_transfer (id : Nat) (rx : List Rx) (res : ReceivedCanBusMessage)
    (h : is_transfer id rx res) (d : CanBusMultiFrameDecoder) (hd : d.fresh) :
    (d.run rx).1 = List.replicate (rx.length - 1) none ++ [some res] := by
  obtain ⟨s0, rest, rfl, hty, hlen, hrest⟩ := fresh_cons d hd
  rw [run_slot0 id h.2.1 rest hrest rx s0 h.2.2.1 (Or.inl hty)]
  exact (h.2.2.2 s0 hty hlen).1

/-! ## The encoder loop terminates -/

theorem has_next_iff (e : CanBusMultiFrameEncoder) :
    e.has_next = true ↔ e.offset < e.message_len := by
  simp [CanBusMultiFrameEncoder.has_next]

/-- The `offset` after a call of `next()`. -/
theorem next_offset (e : CanBusMultiFrameEncoder) :
    (e.next).2.offset
      = if e.offset = 0 then (if e.message_len ≤ 7 then e.message_len else 5)
        else if e.offset + 7 ≥ e.message_len then e.message_len else e.offset + 7 := by
  unfold CanBusMultiFrameEncoder.next
  simp only
  split_ifs <;> first | rfl | omega

theorem next_message_len (e : CanBusMultiFrameEncoder) :
    (e.next).2.message_len = e.message_len := by
  unfold CanBusMultiFrameEncoder.next
  simp only
  split_ifs <;> rfl

/-- The loop gives the same frames and the same final encoder for every number of iterations
allowed that is at least `message_len - offset`. -/
theorem drain_fuel (f1 : Nat) : ∀ (f2 : Nat) (e : CanBusMultiFrameEncoder),
    e.message_len - e.offset ≤ f1 → e.message_len - e.offset ≤ f2 →
    CanBusMultiFrameEncoder.drain f1 e = CanBusMultiFrameEncoder.drain f2 e := by
  induction f1 with
  | zero =>
    intro f2 e h1 _
    have hn : e.has_next = false := by
      simp only [CanBusMultiFrameEncoder.has_next, decide_eq_false_iff_not]; omega
    rw [drain_done 0 e hn, drain_done f2 e hn]
  | succ n ih =>
    intro f2 e h1 h2
    by_cases hlt : e.offset < e.message_len
    · have hhn : e.has_next = true := (has_next_iff e).2 hlt
      obtain ⟨hm, hp⟩ := next_progress e hlt
      cases f2 with
      | zero => omega
      | succ m =>
        simp only [CanBusMultiFrameEncoder.drain, hhn, if_true]
        rw [ih m e.next.2 (by rw [hm]; omega) (by rw [hm]; omega)]
    · have hn : e.has_next = false := by
        simp only [CanBusMultiFrameEncoder.has_next, decide_eq_false_iff_not]; exact hlt
      rw [drain_done (n + 1) e hn, drain_done f2 e hn]

/-- After the first frame the loop emits one frame for every seven bytes left, rounded up. -/
theorem drain_length_cont (fuel : Nat) : ∀ e : CanBusMultiFrameEncoder, 0 < e.offset →
    e.message_len - e.offset ≤ fuel →
    (CanBusMultiFrameEncoder.drain fuel e).1.length = (e.message_len - e.offset + 6) / 7 := by
  induction fuel with
  | zero =>
    intro e _ h
    simp only [CanBusMultiFrameEncoder.drain, List.length_nil]
    omega
  | succ n ih =>
    intro e h0 h
    by_cases hlt : e.offset < e.message_len
    · have hhn : e.has_next = true := (has_next_iff e).2 hlt
      have ho := next_offset e
      have hm := next_message_len e
      rw [if_neg (by omega)] at ho
      simp only [CanBusMultiFrameEncoder.drain, hhn, if_true, List.length_cons]
      rw [ih e.next.2 (by rw [ho]; split_ifs <;> omega) (by rw [ho, hm]; split_ifs <;> omega),
        ho, hm]
      split_ifs <;> omega
    · have hn : e.has_next = false := by
        simp only [CanBusMultiFrameEncoder.has_next, decide_eq_false_iff_not]; exact hlt
      rw [drain_done (n + 1) e hn, List.length_nil]
      omega

/-- The number of frames of an encoder that has not started. -/
theorem drain_length (fuel : Nat) (e : CanBusMultiFrameEncoder) (h0 : e.offset = 0)
    (h : e.message_len ≤ fuel) :
    (CanBusMultiFrameEncoder.drain fuel e).1.length
      = if e.message_len = 0 then 0 else if e.message_len ≤ 7 then 1
        else 1 + (e.message_len - 5 + 6) / 7 := by
  by_cases hz : e.message_len = 0
  · have hn : e.has_next = false := by
      simp only [CanBusMultiFrameEncoder.has_next, decide_eq_false_iff_not]; omega
    rw [drain_done fuel e hn, if_pos hz, List.length_nil]
  · have hhn : e.has_next = true := (has_next_iff e).2 (by omega)
    have ho := next_offset e
    have hm := next_message_len e
    rw [if_pos h0] at ho
    rw [if_neg hz]
    cases fuel with
    | zero => omega
    | succ n =>
      simp only [CanBusMultiFrameEncoder.drain, hhn, if_true, List.length_cons]
      by_cases h7 : e.message_len ≤ 7
      · rw [if_pos h7] at ho
        have hn : e.next.2.has_next = false := by
          simp only [CanBusMultiFrameEncoder.has_next, decide_eq_false_iff_not]
          rw [ho, hm]; omega
        rw [drain_done n _ hn, if_pos h7, List.length_nil]
      · rw [if_neg h7] at ho
        rw [drain_length_cont n e.next.2 (by rw [ho]; omega) (by rw [ho, hm]; omega), ho, hm,
          if_neg h7]
        omega

/-! ## Call depth of `StateMachine::process_frame` -/

/-- A call that does not reach the line `return process_frame(...)` needs one activation. -/
theorem process_frame_fuel_direct (n : Nat) (sm : StateMachine) (id : Nat) (fd : List Nat)
    (fl ts : Nat)
    (h : fl = 0 ∨ ((TailByte.from_byte (byte_at fd (fl - 1))).start_of_transfer
          && (TailByte.from_byte (byte_at fd (fl - 1))).end_of_transfer) = true
        ∨ sm.type = SlotType.Empty ∨ sm.multi_frame.id = id) :
    StateMachine.process_frame_fuel (n + 1) sm id fd fl ts
      = some (sm.process_frame id fd fl ts) := by
  rw [StateMachine.process_frame]
  simp only [StateMachine.process_frame_fuel]
  by_cases hfl : fl = 0
  · simp [hfl]
  · simp only [hfl, if_false]
    by_cases hs : ((TailByte.from_byte (byte_at fd (fl - 1))).start_of_transfer
        && (TailByte.from_byte (byte_at fd (fl - 1))).end_of_transfer) = true
    · simp only [hs, if_true]
      split_ifs
      · rfl
      · cases decode ((id >>> 18) &&& 0xFF) fd <;> rfl
    · simp only [hs, Bool.false_eq_true, if_false]
      by_cases hty : sm.type = SlotType.Empty
      · simp only [hty, if_true, dite_true]
        split_ifs <;> rfl
      · have hid : sm.multi_frame.id = id := by
          rcases h with h | h | h | h
          · exact absurd h hfl
          · exact absurd h hs
          · exact absurd h hty
          · exact h
        simp only [hty, if_false, dite_false, hid, ne_eq, not_true_eq_false]
        split_ifs <;> try rfl
        all_goals cases decode ((id >>> 18) &&& 0xFF) _ <;> rfl

/-- A call that reaches the line `return process_frame(...)` hands over to the emptied
slot. -/
theorem process_frame_fuel_other (n : Nat) (sm : StateMachine) (id : Nat) (fd : List Nat)
    (fl ts : Nat) (hfl : fl ≠ 0)
    (hns : ((TailByte.from_byte (byte_at fd (fl - 1))).start_of_transfer
      && (TailByte.from_byte (byte_at fd (fl - 1))).end_of_transfer) = false)
    (hty : sm.type = SlotType.MultiFrame) (hid : sm.multi_frame.id ≠ id) :
    StateMachine.process_frame_fuel (n + 1) sm id fd fl ts
      = StateMachine.process_frame_fuel n { sm with type := SlotType.Empty } id fd fl ts := by
  simp only [StateMachine.process_frame_fuel, hfl, if_false, hns, Bool.false_eq_true, hty,
    hid, ne_eq, not_false_eq_true, if_true]
  simp

/-- Two activations are enough for every call. -/
theorem process_frame_fuel_two (n : Nat) (sm : StateMachine) (id : Nat) (fd : List Nat)
    (fl ts : Nat) :
    StateMachine.process_frame_fuel (n + 2) sm id fd fl ts
      = some (sm.process_frame id fd fl ts) := by
  by_cases h : fl = 0 ∨ ((TailByte.from_byte (byte_at fd (fl - 1))).start_of_transfer
          && (TailByte.from_byte (byte_at fd (fl - 1))).end_of_transfer) = true
        ∨ sm.type = SlotType.Empty ∨ sm.multi_frame.id = id
  · exact process_frame_fuel_direct (n + 1) sm id fd fl ts h
  · simp only [not_or] at h
    obtain ⟨hfl, hns, hty, hid⟩ := h
    have hns' : ((TailByte.from_byte (byte_at fd (fl - 1))).start_of_transfer
        && (TailByte.from_byte (byte_at fd (fl - 1))).end_of_transfer) = false := by
      simpa using hns
    have hty' : sm.type = SlotType.MultiFrame := by
      cases hsm : sm.type
      · exact absurd hsm hty
      · rfl
    rw [process_frame_fuel_other (n + 1) sm id fd fl ts hfl hns' hty' hid,
      process_frame_fuel_direct n _ id fd fl ts (Or.inr (Or.inr (Or.inl rfl))),
      sm_process_frame_other sm id fd fl ts hfl _ rfl hns' hty' hid]

/-- Two activations per call are enough for the decoder. -/
theorem decoder_process_frame_fuel (n : Nat) (d : CanBusMultiFrameDecoder) (id : Nat)
    (fd : List Nat) (fl ts : Nat) :
    d.process_frame_fuel (n + 2) id fd fl ts = some (d.process_frame id fd fl ts) := by
  unfold CanBusMultiFrameDecoder.process_frame_fuel CanBusMultiFrameDecoder.process_frame
    CanBusMultiFrameDecoder.route
  simp only [process_frame_fuel_two]
  split_ifs
  · rfl
  · cases (List.range CanBusMultiFrameDecoder.Q).find? (fun i => (d.slot i).has_same_id id) <;>
      rfl

theorem decoder_run_fuel (n : Nat) (rx : List Rx) : ∀ d : CanBusMultiFrameDecoder,
    d.run_fuel (n + 2) rx = some (d.run rx) := by
  induction rx with
  | nil => intro d; rfl
  | cons r rs ih =>
    intro d
    simp only [CanBusMultiFrameDecoder.run_fuel, CanBusMultiFrameDecoder.run,
      decoder_process_frame_fuel, ih]

/-- A run evaluated with two activations per call is the run. -/
theorem run_of_run_fuel (d : CanBusMultiFrameDecoder) (rx : List Rx)
    (x : List (Option ReceivedCanBusMessage) × CanBusMultiFrameDecoder)
    (h : d.run_fuel 2 rx = some x) : d.run rx = x :=
  Option.some.inj ((decoder_run_fuel 0 rx d).symm.trans h)

/-- The results of a run, from the run evaluated with two activations per call. -/
theorem run_results_of_fuel (d : CanBusMultiFrameDecoder) (rx : List Rx)
    (xs : List (Option ReceivedCanBusMessage))
    (h : (d.run_fuel 2 rx).map Prod.fst = some xs) : (d.run rx).1 = xs := by
  rw [decoder_run_fuel 0 rx d] at h
  exact Option.some.inj h

theorem AckMessage_truncation (v : AckMessage) (buffer : List Nat)
    (hb : AckMessage.SIZE_BYTES ≤ buffer.length) :
    AckMessage.deserialize (v.serialize buffer) = v.truncated := by
  unfold AckMessage.SIZE_BYTES at hb
  obtain ⟨x0, x1⟩ := v
  simp [AckMessage.deserialize, AckMessage.serialize, AckMessage.truncated, AckMessage.SIZE_BYTES,
    read_u16_be, write_u16_be, read_u24_be, write_u24_be, read_u32_be, write_u32_be, read_u56_be, write_u56_be, byte_at_store, byte_at_memset, byte_at_memcpy, length_store, length_memset, length_memcpy, lt_length_of_le hb]
  try simp only [Nat.shiftRight_eq_div_pow, and_0x03, and_0x07, and_0x0F, and_0x1F, and_0x3F, and_0x7F, and_0xFF, and_0xFFF, and_0xFFFFFFFF, and_0xF0, and_0x80, and_0x40, and_0x20, and_0x10, and_0x08, and_0x04, Nat.mod_mod]
  try simp only [be16_split, be24_split, be32_split, be56_split]
  all_goals
    ((repeat' apply And.intro) <;>
    (try (split_ifs <;> (try simp only [Bool.not_eq_true] at *) <;> subst_vars)) <;>
    (try simp (disch := omega) only [Nat.shiftLeft_eq, Nat.zero_or, Nat.mod_mod, or_add_1, or_add_2, or_add_3, or_add_4, or_add_5, or_add_6, or_add_7, or_add_8, or_add_10, or_add_12]) <;>
    (try simp only [bne_iff_ne, bne_eq_false_iff_eq, ne_eq]) <;>
    omega)

theorem AckMessage_truncated_eq (v : AckMessage) : v.truncated = v ↔ v.fits_wire := by
  obtain ⟨x0, x1⟩ := v
  simp [AckMessage.truncated, AckMessage.fits_wire, AckMessage.mk.injEq, Nat.mod_eq_iff_lt]

theorem AirBrakesControlMessage_truncation (v : AirBrakesControlMessage) (buffer : List Nat)
    (hb : AirBrakesControlMessage.SIZE_BYTES ≤ buffer.length) :
    AirBrakesControlMessage.deserialize (v.serialize buffer) = v.truncated := by
  unfold AirBrakesControlMessage.SIZE_BYTES at hb
  obtain ⟨x0⟩ := v
  simp [AirBrakesControlMessage.deserialize, AirBrakesControlMessage.serialize, AirBrakesControlMessage.truncated, AirBrakesControlMessage.SIZE_BYTES,
    read_u16_be, write_u16_be, read_u24_be, write_u24_be, read_u32_be, write_u32_be, read_u56_be, write_u56_be, byte_at_store, byte_at_memset, byte_at_memcpy, length_store, length_memset, length_memcpy, lt_length_of_le hb]
  try simp only [Nat.shiftRight_eq_div_pow, and_0x03, and_0x07, and_0x0F, and_0x1F, and_0x3F, and_0x7F, and_0xFF, and_0xFFF, and_0xFFFFFFFF, and_0xF0, and_0x80, and_0x40, and_0x20, and_0x10, and_0x08, and_0x04, Nat.mod_mod]
  try simp only [be16_split, be24_split, be32_split, be56_split]
  all_goals
    ((repeat' apply And.intro) <;>
    (try (split_ifs <;> (try simp only [Bool.not_eq_true] at *) <;> subst_vars)) <;>
    (try simp (disch := omega) only [Nat.shiftLeft_eq, Nat.zero_or, Nat.mod_mod, or_add_1, or_add_2, or_add_3, or_add_4, or_add_5, or_add_6, or_add_7, or_add_8, or_add_10, or_add_12]) <;>
    (try simp only [bne_iff_ne, bne_eq_false_iff_eq, ne_eq]) <;>
    omega)

theorem AirBrakesControlMessage_truncated_eq (v : AirBrakesControlMessage) : v.truncated = v ↔ v.fits_wire := by
  obtain ⟨x0⟩ := v
  simp [AirBrakesControlMessage.truncated, AirBrakesControlMessage.fits_wire, AirBrakesControlMessage.mk.injEq, Nat.mod_eq_iff_lt]

theorem AmpControlMessage_truncation (v : AmpControlMessage) (buffer : List Nat)
    (hb : AmpControlMessage.SIZE_BYTES ≤ buffer.length) :
    AmpControlMessage.deserialize (v.serialize buffer) = v.truncated := by
  unfold AmpControlMessage.SIZE_BYTES at hb
  obtain ⟨x0, x1, x2, x3⟩ := v
  simp [AmpControlMessage.deserialize, AmpControlMessage.serialize, AmpControlMessage.truncated, AmpControlMessage.SIZE_BYTES,
    read_u16_be, write_u16_be, read_u24_be, write_u24_be, read_u32_be, write_u32_be, read_u56_be, write_u56_be, byte_at_store, byte_at_memset, byte_at_memcpy, length_store, length_memset, length_memcpy, lt_length_of_le hb]
  try simp only [Nat.shiftRight_eq_div_pow, and_0x03, and_0x07, and_0x0F, and_0x1F, and_0x3F, and_0x7F, and_0xFF, and_0xFFF, and_0xFFFFFFFF, and_0xF0, and_0x80, and_0x40, and_0x20, and_0x10, and_0x08, and_0x04, Nat.mod_mod]
  try simp only [be16_split, be24_split, be32_split, be56_split]
  all_goals
    ((repeat' apply And.intro) <;>
    (try (split_ifs <;> (try simp only [Bool.not_eq_true] at *) <;> subst_vars)) <;>
    (try simp (disch := omega) only [Nat.shiftLeft_eq, Nat.zero_or, Nat.mod_mod, or_add_1, or_add_2, or_add_3, or_add_4, or_add_5, or_add_6, or_add_7, or_add_8, or_add_10, or_add_12]) <;>
    (try simp only [bne_iff_ne, bne_eq_false_iff_eq, ne_eq]) <;>
    omega)

theorem AmpControlMessage_truncated_eq (v : AmpControlMessage) : v.truncated = v ↔ v.fits_wire := by
  obtain ⟨x0, x1, x2, x3⟩ := v
  simp [AmpControlMessage.truncated, AmpControlMessage.fits_wire, AmpControlMessage.mk.injEq, Nat.mod_eq_iff_lt]

theorem AmpOverwriteMessage_truncation (v : AmpOverwriteMessage) (buffer : List Nat)
    (hb : AmpOverwriteMessage.SIZE_BYTES ≤ buffer.length) :
    AmpOverwriteMessage.deserialize (v.serialize buffer) = v.truncated := by
  unfold AmpOverwriteMessage.SIZE_BYTES at hb
  obtain ⟨x0, x1, x2, x3⟩ := v
  simp [AmpOverwriteMessage.deserialize, AmpOverwriteMessage.serialize, AmpOverwriteMessage.truncated, AmpOverwriteMessage.SIZE_BYTES,
    read_u16_be, write_u16_be, read_u24_be, write_u24_be, read_u32_be, write_u32_be, read_u56_be, write_u56_be, byte_at_store, byte_at_memset, byte_at_memcpy, length_store, length_memset, length_memcpy, lt_length_of_le hb]
  try simp only [Nat.shiftRight_eq_div_pow, and_0x03, and_0x07, and_0x0F, and_0x1F, and_0x3F, and_0x7F, and_0xFF, and_0xFFF, and_0xFFFFFFFF, and_0xF0, and_0x80, and_0x40, and_0x20, and_0x10, and_0x08, and_0x04, Nat.mod_mod]
  try simp only [be16_split, be24_split, be32_split, be56_split]
  all_goals
    ((repeat' apply And.intro) <;>
    (try (split_ifs <;> (try simp only [Bool.not_eq_true] at *) <;> subst_vars)) <;>
    (try simp (disch := omega) only [Nat.shiftLeft_eq, Nat.zero_or, Nat.mod_mod, or_add_1, or_add_2, or_add_3, or_add_4, or_add_5, or_add_6, or_add_7, or_add_8, or_add_10, or_add_12]) <;>
    (try simp only [bne_iff_ne, bne_eq_false_iff_eq, ne_eq]) <;>
    omega)

theorem AmpOverwriteMessage_truncated_eq (v : AmpOverwriteMessage) : v.truncated = v ↔ v.fits_wire := by
  obtain ⟨x0, x1, x2, x3⟩ := v
  simp [AmpOverwriteMessage.truncated, AmpOverwriteMessage.fits_wire, AmpOverwriteMessage.mk.injEq, Nat.mod_eq_iff_lt]

theorem AmpResetOutputMessage_truncation (v : AmpResetOutputMessage) (buffer : List Nat)
    (hb : AmpResetOutputMessage.SIZE_BYTES ≤ buffer.length) :
    AmpResetOutputMessage.deserialize (v.serialize buffer) = v.truncated := by
  unfold AmpResetOutputMessage.SIZE_BYTES at hb
  obtain ⟨x0⟩ := v
  simp [AmpResetOutputMessage.deserialize, AmpResetOutputMessage.serialize, AmpResetOutputMessage.truncated, AmpResetOutputMessage.SIZE_BYTES,
    read_u16_be, write_u16_be, read_u24_be, write_u24_be, read_u32_be, write_u32_be, read_u56_be, write_u56_be, byte_at_store, byte_at_memset, byte_at_memcpy, length_store, length_memset, length_memcpy, lt_length_of_le hb]
  try simp only [Nat.shiftRight_eq_div_pow, and_0x03, and_0x07, and_0x0F, and_0x1F, and_0x3F, and_0x7F, and_0xFF, and_0xFFF, and_0xFFFFFFFF, and_0xF0, and_0x80, and_0x40, and_0x20, and_0x10, and_0x08, and_0x04, Nat.mod_mod]
  try simp only [be16_split, be24_split, be32_split, be56_split]
  all_goals
    ((repeat' apply And.intro) <;>
    (try (split_ifs <;> (try simp only [Bool.not_eq_true] at *) <;> subst_vars)) <;>
    (try simp (disch := omega) only [Nat.shiftLeft_eq, Nat.zero_or, Nat.mod_mod, or_add_1, or_add_2, or_add_3, or_add_4, or_add_5, or_add_6, or_add_7, or_add_8, or_add_10, or_add_12]) <;>
    (try simp only [bne_iff_ne, bne_eq_false_iff_eq, ne_eq]) <;>
    omega)

theorem AmpResetOutputMessage_truncated_eq (v : AmpResetOutputMessage) : v.truncated = v ↔ v.fits_wire := by
  obtain ⟨x0⟩ := v
  simp [AmpResetOutputMessage.truncated, AmpResetOutputMessage.fits_wire, AmpResetOutputMessage.mk.injEq, Nat.mod_eq_iff_lt]

theorem AmpStatusMessage_truncation (v : AmpStatusMessage) (buffer : List Nat)
    (hb : AmpStatusMessage.SIZE_BYTES ≤ buffer.length) :
    AmpStatusMessage.deserialize (v.serialize buffer) = v.truncated := by
  unfold AmpStatusMessage.SIZE_BYTES at hb
  obtain ⟨x0, ⟨x1y0, x1y1⟩, ⟨x2y0, x2y1⟩, ⟨x3y0, x3y1⟩, ⟨x4y0, x4y1⟩⟩ := v
  simp [AmpStatusMessage.deserialize, AmpStatusMessage.serialize, AmpStatusMessage.truncated, AmpOutputStatus.from_byte, AmpOutputStatus.to_byte, AmpOutputStatus.truncated, AmpStatusMessage.SIZE_BYTES,
    read_u16_be, write_u16_be, read_u24_be, write_u24_be, read_u32_be, write_u32_be, read_u56_be, write_u56_be, byte_at_store, byte_at_memset, byte_at_memcpy, length_store, length_memset, length_memcpy, lt_length_of_le hb]
  try simp only [Nat.shiftRight_eq_div_pow, and_0x03, and_0x07, and_0x0F, and_0x1F, and_0x3F, and_0x7F, and_0xFF, and_0xFFF, and_0xFFFFFFFF, and_0xF0, and_0x80, and_0x40, and_0x20, and_0x10, and_0x08, and_0x04, Nat.mod_mod]
  try simp only [be16_split, be24_split, be32_split, be56_split]
  all_goals
    ((repeat' apply And.intro) <;>
    (try (split_ifs <;> (try simp only [Bool.not_eq_true] at *) <;> subst_vars)) <;>
    (try simp (disch := omega) only [Nat.shiftLeft_eq, Nat.zero_or, Nat.mod_mod, or_add_1, or_add_2, or_add_3, or_add_4, or_add_5, or_add_6, or_add_7, or_add_8, or_add_10, or_add_12]) <;>
    (try simp only [bne_iff_ne, bne_eq_false_iff_eq, ne_eq]) <;>
    omega)

theorem AmpStatusMessage_truncated_eq (v : AmpStatusMessage) : v.truncated = v ↔ v.fits_wire := by
  obtain ⟨x0, ⟨x1y0, x1y1⟩, ⟨x2y0, x2y1⟩, ⟨x3y0, x3y1⟩, ⟨x4y0, x4y1⟩⟩ := v
  simp [AmpStatusMessage.truncated, AmpStatusMessage.fits_wire, AmpStatusMessage.mk.injEq, AmpOutputStatus.truncated, AmpOutputStatus.fits_wire, AmpOutputStatus.mk.injEq, Nat.mod_eq_iff_lt]

theorem BaroMeasurementMessage_truncation (v : BaroMeasurementMessage) (buffer : List Nat)
    (hb : BaroMeasurementMessage.SIZE_BYTES ≤ buffer.length) :
    BaroMeasurementMessage.deserialize (v.serialize buffer) = v.truncated := by
  unfold BaroMeasurementMessage.SIZE_BYTES at hb
  obtain ⟨x0, x1, x2⟩ := v
  simp [BaroMeasurementMessage.deserialize, BaroMeasurementMessage.serialize, BaroMeasurementMessage.truncated, BaroMeasurementMessage.SIZE_BYTES,
    read_u16_be, write_u16_be, read_u24_be, write_u24_be, read_u32_be, write_u32_be, read_u56_be, write_u56_be, byte_at_store, byte_at_memset, byte_at_memcpy, length_store, length_memset, length_memcpy, lt_length_of_le hb]
  try simp only [Nat.shiftRight_eq_div_pow, and_0x03, and_0x07, and_0x0F, and_0x1F, and_0x3F, and_0x7F, and_0xFF, and_0xFFF, and_0xFFFFFFFF, and_0xF0, and_0x80, and_0x40, and_0x20, and_0x10, and_0x08, and_0x04, Nat.mod_mod]
  try simp only [be16_split, be24_split, be32_split, be56_split]
  all_goals
    ((repeat' apply And.intro) <;>
    (try (split_ifs <;> (try simp only [Bool.not_eq_true] at *) <;> subst_vars)) <;>
    (try simp (disch := omega) only [Nat.shiftLeft_eq, Nat.zero_or, Nat.mod_mod, or_add_1, or_add_2, or_add_3, or_add_4, or_add_5, or_add_6, or_add_7, or_add_8, or_add_10, or_add_12]) <;>
    (try simp only [bne_iff_ne, bne_eq_false_iff_eq, ne_eq]) <;>
    omega)

theorem BaroMeasurementMessage_truncated_eq (v : BaroMeasurementMessage) : v.truncated = v ↔ v.fits_wire := by
  obtain ⟨x0, x1, x2⟩ := v
  simp [BaroMeasurementMessage.truncated, BaroMeasurementMessage.fits_wire, BaroMeasurementMessage.mk.injEq, Nat.mod_eq_iff_lt]

theorem BrightnessMeasurementMessage_truncation (v : BrightnessMeasurementMessage) (buffer : List Nat)
    (hb : BrightnessMeasurementMessage.SIZE_BYTES ≤ buffer.length) :
    BrightnessMeasurementMessage.deserialize (v.serialize buffer) = v.truncated := by
  unfold BrightnessMeasurementMessage.SIZE_BYTES at hb
  obtain ⟨x0, x1⟩ := v
  simp [BrightnessMeasurementMessage.deserialize, BrightnessMeasurementMessage.serialize, BrightnessMeasurementMessage.truncated, BrightnessMeasurementMessage.SIZE_BYTES,
    read_u16_be, write_u16_be, read_u24_be, write_u24_be, read_u32_be, write_u32_be, read_u56_be, write_u56_be, byte_at_store, byte_at_memset, byte_at_memcpy, length_store, length_memset, length_memcpy, lt_length_of_le hb]
  try simp only [Nat.shiftRight_eq_div_pow, and_0x03, and_0x07, and_0x0F, and_0x1F, and_0x3F, and_0x7F, and_0xFF, and_0xFFF, and_0xFFFFFFFF, and_0xF0, and_0x80, and_0x40, and_0x20, and_0x10, and_0x08, and_0x04, Nat.mod_mod]
  try simp only [be16_split, be24_split, be32_split, be56_split]
  all_goals
    ((repeat' apply And.intro) <;>
    (try (split_ifs <;> (try simp only [Bool.not_eq_true] at *) <;> subst_vars)) <;>
    (try simp (disch := omega) only [Nat.shiftLeft_eq, Nat.zero_or, Nat.mod_mod, or_add_1, or_add_2, or_add_3, or_add_4, or_add_5, or_add_6, or_add_7, or_add_8, or_add_10, or_add_12]) <;>
    (try simp only [bne_iff_ne, bne_eq_false_iff_eq, ne_eq]) <;>
    omega)

theorem BrightnessMeasurementMessage_truncated_eq (v : BrightnessMeasurementMessage) : v.truncated = v ↔ v.fits_wire := by
  obtain ⟨x0, x1⟩ := v
  simp [BrightnessMeasurementMessage.truncated, BrightnessMeasurementMessage.fits_wire, BrightnessMeasurementMessage.mk.injEq, Nat.mod_eq_iff_lt]

theorem DataTransferMessage_truncation (v : DataTransferMessage)
    (hdata : v.data.length = DataTransferMessage.DATA_CAPACITY) (buffer : List Nat)
    (hb : DataTransferMessage.SIZE_BYTES ≤ buffer.length) :
    DataTransferMessage.deserialize (v.serialize buffer) = v.truncated := by
  unfold DataTransferMessage.SIZE_BYTES at hb
  unfold DataTransferMessage.DATA_CAPACITY at hdata
  obtain ⟨data, dl, sq, w1, w2, dt, dn⟩ := v
  simp only at hdata
  have hd : memcpy (List.replicate 32 0) 0
      (DataTransferMessage.serialize ⟨data, dl, sq, w1, w2, dt, dn⟩ buffer) 0 32 = data := by
    apply ext_byte_at
    · simp [hdata]
    · intro i hi
      simp only [length_memcpy, List.length_replicate] at hi
      have h32 : ¬ i = 32 := by omega
      have h33 : ¬ i = 33 := by omega
      have h34 : ¬ i = 34 := by omega
      have h35 : ¬ i = 35 := by omega
      have hi' : i < buffer.length := by omega
      simp [DataTransferMessage.serialize, DataTransferMessage.DATA_CAPACITY, byte_at_store, byte_at_memset, byte_at_memcpy, length_store, length_memset, length_memcpy, lt_length_of_le hb, hi, hi',
        h32, h33, h34, h35]
  simp only [DataTransferMessage.deserialize, DataTransferMessage.DATA_CAPACITY,
    DataTransferMessage.truncated, DataTransferMessage.mk.injEq]
  refine ⟨hd, ?_⟩
  simp [DataTransferMessage.serialize, DataTransferMessage.DATA_CAPACITY, byte_at_store, byte_at_memset, byte_at_memcpy, length_store, length_memset, length_memcpy, lt_length_of_le hb]
  try simp only [Nat.shiftRight_eq_div_pow, and_0x03, and_0x07, and_0x0F, and_0x1F, and_0x3F, and_0x7F, and_0xFF, and_0xFFF, and_0xFFFFFFFF, and_0xF0, and_0x80, and_0x40, and_0x20, and_0x10, and_0x08, and_0x04, Nat.mod_mod]
  try simp only [be16_split, be24_split, be32_split, be56_split]
  all_goals
    ((repeat' apply And.intro) <;>
    (try (split_ifs <;> (try simp only [Bool.not_eq_true] at *) <;> subst_vars)) <;>
    (try simp (disch := omega) only [Nat.shiftLeft_eq, Nat.zero_or, Nat.mod_mod, or_add_1, or_add_2, or_add_3, or_add_4, or_add_5, or_add_6, or_add_7, or_add_8, or_add_10, or_add_12]) <;>
    (try simp only [bne_iff_ne, bne_eq_false_iff_eq, ne_eq]) <;>
    omega)

theorem DataTransferMessage_truncated_eq (v : DataTransferMessage) : v.truncated = v ↔ v.fits_wire := by
  obtain ⟨x0, x1, x2, x3, x4, x5, x6⟩ := v
  simp [DataTransferMessage.truncated, DataTransferMessage.fits_wire, DataTransferMessage.mk.injEq, Nat.mod_eq_iff_lt]

theorem IcarusStatusMessage_truncation (v : IcarusStatusMessage) (buffer : List Nat)
    (hb : IcarusStatusMessage.SIZE_BYTES ≤ buffer.length) :
    IcarusStatusMessage.deserialize (v.serialize buffer) = v.truncated := by
  unfold IcarusStatusMessage.SIZE_BYTES at hb
  obtain ⟨x0, x1, x2⟩ := v
  simp [IcarusStatusMessage.deserialize, IcarusStatusMessage.serialize, IcarusStatusMessage.truncated, IcarusStatusMessage.SIZE_BYTES,
    read_u16_be, write_u16_be, read_u24_be, write_u24_be, read_u32_be, write_u32_be, read_u56_be, write_u56_be, byte_at_store, byte_at_memset, byte_at_memcpy, length_store, length_memset, length_memcpy, lt_length_of_le hb]
  try simp only [Nat.shiftRight_eq_div_pow, and_0x03, and_0x07, and_0x0F, and_0x1F, and_0x3F, and_0x7F, and_0xFF, and_0xFFF, and_0xFFFFFFFF, and_0xF0, and_0x80, and_0x40, and_0x20, and_0x10, and_0x08, and_0x04, Nat.mod_mod]
  try simp only [be16_split, be24_split, be32_split, be56_split]
  all_goals
    ((repeat' apply And.intro) <;>
    (try (split_ifs <;> (try simp only [Bool.not_eq_true] at *) <;> subst_vars)) <;>
    (try simp (disch := omega) only [Nat.shiftLeft_eq, Nat.zero_or, Nat.mod_mod, or_add_1, or_add_2, or_add_3, or_add_4, or_add_5, or_add_6, or_add_7, or_add_8, or_add_10, or_add_12]) <;>
    (try simp only [bne_iff_ne, bne_eq_false_iff_eq, ne_eq]) <;>
    omega)

theorem IcarusStatusMessage_truncated_eq (v : IcarusStatusMessage) : v.truncated = v ↔ v.fits_wire := by
  obtain ⟨x0, x1, x2⟩ := v
  simp [IcarusStatusMessage.truncated, IcarusStatusMessage.fits_wire, IcarusStatusMessage.mk.injEq, Nat.mod_eq_iff_lt]

theorem IMUMeasurementMessage_truncation (v : IMUMeasurementMessage) (buffer : List Nat)
    (hb : IMUMeasurementMessage.SIZE_BYTES ≤ buffer.length) :
    IMUMeasurementMessage.deserialize (v.serialize buffer) = v.truncated := by
  unfold IMUMeasurementMessage.SIZE_BYTES at hb
  obtain ⟨x0, x1, x2, x3, x4, x5, x6⟩ := v
  simp [IMUMeasurementMessage.deserialize, IMUMeasurementMessage.serialize, IMUMeasurementMessage.truncated, IMUMeasurementMessage.SIZE_BYTES,
    read_u16_be, write_u16_be, read_u24_be, write_u24_be, read_u32_be, write_u32_be, read_u56_be, write_u56_be, byte_at_store, byte_at_memset, byte_at_memcpy, length_store, length_memset, length_memcpy, lt_length_of_le hb]
  try simp only [Nat.shiftRight_eq_div_pow, and_0x03, and_0x07, and_0x0F, and_0x1F, and_0x3F, and_0x7F, and_0xFF, and_0xFFF, and_0xFFFFFFFF, and_0xF0, and_0x80, and_0x40, and_0x20, and_0x10, and_0x08, and_0x04, Nat.mod_mod]
  try simp only [be16_split, be24_split, be32_split, be56_split]
  all_goals
    ((repeat' apply And.intro) <;>
    (try (split_ifs <;> (try simp only [Bool.not_eq_true] at *) <;> subst_vars)) <;>
    (try simp (disch := omega) only [Nat.shiftLeft_eq, Nat.zero_or, Nat.mod_mod, or_add_1, or_add_2, or_add_3, or_add_4, or_add_5, or_add_6, or_add_7, or_add_8, or_add_10, or_add_12]) <;>
    (try simp only [bne_iff_ne, bne_eq_false_iff_eq, ne_eq]) <;>
    omega)

theorem IMUMeasurementMessage_truncated_eq (v : IMUMeasurementMessage) : v.truncated = v ↔ v.fits_wire := by
  obtain ⟨x0, x1, x2, x3, x4, x5, x6⟩ := v
  simp [IMUMeasurementMessage.truncated, IMUMeasurementMessage.fits_wire, IMUMeasurementMessage.mk.injEq, Nat.mod_eq_iff_lt]

theorem MagMeasurementMessage_truncation (v : MagMeasurementMessage) (buffer : List Nat)
    (hb : MagMeasurementMessage.SIZE_BYTES ≤ buffer.length) :
    MagMeasurementMessage.deserialize (v.serialize buffer) = v.truncated := by
  unfold MagMeasurementMessage.SIZE_BYTES at hb
  obtain ⟨x0, x1, x2, x3⟩ := v
  simp [MagMeasurementMessage.deserialize, MagMeasurementMessage.serialize, MagMeasurementMessage.truncated, MagMeasurementMessage.SIZE_BYTES,
    read_u16_be, write_u16_be, read_u24_be, write_u24_be, read_u32_be, write_u32_be, read_u56_be, write_u56_be, byte_at_store, byte_at_memset, byte_at_memcpy, length_store, length_memset, length_memcpy, lt_length_of_le hb]
  try simp only [Nat.shiftRight_eq_div_pow, and_0x03, and_0x07, and_0x0F, and_0x1F, and_0x3F, and_0x7F, and_0xFF, and_0xFFF, and_0xFFFFFFFF, and_0xF0, and_0x80, and_0x40, and_0x20, and_0x10, and_0x08, and_0x04, Nat.mod_mod]
  try simp only [be16_split, be24_split, be32_split, be56_split]
  all_goals
    ((repeat' apply And.intro) <;>
    (try (split_ifs <;> (try simp only [Bool.not_eq_true] at *) <;> subst_vars)) <;>
    (try simp (disch := omega) only [Nat.shiftLeft_eq, Nat.zero_or, Nat.mod_mod, or_add_1, or_add_2, or_add_3, or_add_4, or_add_5, or_add_6, or_add_7, or_add_8, or_add_10, or_add_12]) <;>
    (try simp only [bne_iff_ne, bne_eq_false_iff_eq, ne_eq]) <;>
    omega)

theorem MagMeasurementMessage_truncated_eq (v : MagMeasurementMessage) : v.truncated = v ↔ v.fits_wire := by
  obtain ⟨x0, x1, x2, x3⟩ := v
  simp [MagMeasurementMessage.truncated, MagMeasurementMessage.fits_wire, MagMeasurementMessage.mk.injEq, Nat.mod_eq_iff_lt]

theorem NodeStatusMessage_truncation (v : NodeStatusMessage) (buffer : List Nat)
    (hb : NodeStatusMessage.SIZE_BYTES ≤ buffer.length) :
    NodeStatusMessage.deserialize (v.serialize buffer) = v.truncated := by
  unfold NodeStatusMessage.SIZE_BYTES at hb
  obtain ⟨x0, x1, x2, x3⟩ := v
  simp [NodeStatusMessage.deserialize, NodeStatusMessage.serialize, NodeStatusMessage.truncated, NodeStatusMessage.SIZE_BYTES,
    read_u16_be, write_u16_be, read_u24_be, write_u24_be, read_u32_be, write_u32_be, read_u56_be, write_u56_be, byte_at_store, byte_at_memset, byte_at_memcpy, length_store, length_memset, length_memcpy, lt_length_of_le hb]
  try simp only [Nat.shiftRight_eq_div_pow, and_0x03, and_0x07, and_0x0F, and_0x1F, and_0x3F, and_0x7F, and_0xFF, and_0xFFF, and_0xFFFFFFFF, and_0xF0, and_0x80, and_0x40, and_0x20, and_0x10, and_0x08, and_0x04, Nat.mod_mod]
  try simp only [be16_split, be24_split, be32_split, be56_split]
  all_goals
    ((repeat' apply And.intro) <;>
    (try (split_ifs <;> (try simp only [Bool.not_eq_true] at *) <;> subst_vars)) <;>
    (try simp (disch := omega) only [Nat.shiftLeft_eq, Nat.zero_or, Nat.mod_mod, or_add_1, or_add_2, or_add_3, or_add_4, or_add_5, or_add_6, or_add_7, or_add_8, or_add_10, or_add_12]) <;>
    (try simp only [bne_iff_ne, bne_eq_false_iff_eq, ne_eq]) <;>
    omega)

theorem NodeStatusMessage_truncated_eq (v : NodeStatusMessage) : v.truncated = v ↔ v.fits_wire := by
  obtain ⟨x0, x1, x2, x3⟩ := v
  simp [NodeStatusMessage.truncated, NodeStatusMessage.fits_wire, NodeStatusMessage.mk.injEq, Nat.mod_eq_iff_lt]

theorem OzysMeasurementMessage_truncation (v : OzysMeasurementMessage) (buffer : List Nat)
    (hb : OzysMeasurementMessage.SIZE_BYTES ≤ buffer.length) :
    OzysMeasurementMessage.deserialize (v.serialize buffer) = v.truncated := by
  unfold OzysMeasurementMessage.SIZE_BYTES at hb
  obtain ⟨x0, x1, x2, x3⟩ := v
  simp [OzysMeasurementMessage.deserialize, OzysMeasurementMessage.serialize, OzysMeasurementMessage.truncated, OzysMeasurementMessage.SIZE_BYTES,
    read_u16_be, write_u16_be, read_u24_be, write_u24_be, read_u32_be, write_u32_be, read_u56_be, write_u56_be, byte_at_store, byte_at_memset, byte_at_memcpy, length_store, length_memset, length_memcpy, lt_length_of_le hb]
  try simp only [Nat.shiftRight_eq_div_pow, and_0x03, and_0x07, and_0x0F, and_0x1F, and_0x3F, and_0x7F, and_0xFF, and_0xFFF, and_0xFFFFFFFF, and_0xF0, and_0x80, and_0x40, and_0x20, and_0x10, and_0x08, and_0x04, Nat.mod_mod]
  try simp only [be16_split, be24_split, be32_split, be56_split]
  all_goals
    ((repeat' apply And.intro) <;>
    (try (split_ifs <;> (try simp only [Bool.not_eq_true] at *) <;> subst_vars)) <;>
    (try simp (disch := omega) only [Nat.shiftLeft_eq, Nat.zero_or, Nat.mod_mod, or_add_1, or_add_2, or_add_3, or_add_4, or_add_5, or_add_6, or_add_7, or_add_8, or_add_10, or_add_12]) <;>
    (try simp only [bne_iff_ne, bne_eq_false_iff_eq, ne_eq]) <;>
    omega)

theorem OzysMeasurementMessage_truncated_eq (v : OzysMeasurementMessage) : v.truncated = v ↔ v.fits_wire := by
  obtain ⟨x0, x1, x2, x3⟩ := v
  simp [OzysMeasurementMessage.truncated, OzysMeasurementMessage.fits_wire, OzysMeasurementMessage.mk.injEq, Nat.mod_eq_iff_lt]

theorem PayloadEPSOutputOverwriteMessage_truncation (v : PayloadEPSOutputOverwriteMessage) (buffer : List Nat)
    (hb : PayloadEPSOutputOverwriteMessage.SIZE_BYTES ≤ buffer.length) :
    PayloadEPSOutputOverwriteMessage.deserialize (v.serialize buffer) = v.truncated := by
  unfold PayloadEPSOutputOverwriteMessage.SIZE_BYTES at hb
  obtain ⟨x0, x1, x2, x3⟩ := v
  simp [PayloadEPSOutputOverwriteMessage.deserialize, PayloadEPSOutputOverwriteMessage.serialize, PayloadEPSOutputOverwriteMessage.truncated, PayloadEPSOutputOverwriteMessage.SIZE_BYTES,
    read_u16_be, write_u16_be, read_u24_be, write_u24_be, read_u32_be, write_u32_be, read_u56_be, write_u56_be, byte_at_store, byte_at_memset, byte_at_memcpy, length_store, length_memset, length_memcpy, lt_length_of_le hb]
  try simp only [Nat.shiftRight_eq_div_pow, and_0x03, and_0x07, and_0x0F, and_0x1F, and_0x3F, and_0x7F, and_0xFF, and_0xFFF, and_0xFFFFFFFF, and_0xF0, and_0x80, and_0x40, and_0x20, and_0x10, and_0x08, and_0x04, Nat.mod_mod]
  try simp only [be16_split, be24_split, be32_split, be56_split]
  all_goals
    ((repeat' apply And.intro) <;>
    (try (split_ifs <;> (try simp only [Bool.not_eq_true] at *) <;> subst_vars)) <;>
    (try simp (disch := omega) only [Nat.shiftLeft_eq, Nat.zero_or, Nat.mod_mod, or_add_1, or_add_2, or_add_3, or_add_4, or_add_5, or_add_6, or_add_7, or_add_8, or_add_10, or_add_12]) <;>
    (try simp only [bne_iff_ne, bne_eq_false_iff_eq, ne_eq]) <;>
    omega)

theorem PayloadEPSOutputOverwriteMessage_truncated_eq (v : PayloadEPSOutputOverwriteMessage) : v.truncated = v ↔ v.fits_wire := by
  obtain ⟨x0, x1, x2, x3⟩ := v
  simp [PayloadEPSOutputOverwriteMessage.truncated, PayloadEPSOutputOverwriteMessage.fits_wire, PayloadEPSOutputOverwriteMessage.mk.injEq, Nat.mod_eq_iff_lt]

theorem PayloadEPSStatusMessage_truncation (v : PayloadEPSStatusMessage) (buffer : List Nat)
    (hb : PayloadEPSStatusMessage.SIZE_BYTES ≤ buffer.length) :
    PayloadEPSStatusMessage.deserialize (v.serialize buffer) = v.truncated := by
  unfold PayloadEPSStatusMessage.SIZE_BYTES at hb
  obtain ⟨x0, x1, x2, x3, ⟨x4y0, x4y1, x4y2⟩, ⟨x5y0, x5y1, x5y2⟩, ⟨x6y0, x6y1, x6y2⟩⟩ := v
  simp [PayloadEPSStatusMessage.deserialize, PayloadEPSStatusMessage.serialize, PayloadEPSStatusMessage.truncated, PayloadEPSOutputStatus.serialize, PayloadEPSOutputStatus.deserialize, PayloadEPSOutputStatus.truncated, PayloadEPSStatusMessage.SIZE_BYTES,
    read_u16_be, write_u16_be, read_u24_be, write_u24_be, read_u32_be, write_u32_be, read_u56_be, write_u56_be, byte_at_store, byte_at_memset, byte_at_memcpy, length_store, length_memset, length_memcpy, lt_length_of_le hb]
  try simp only [Nat.shiftRight_eq_div_pow, and_0x03, and_0x07, and_0x0F, and_0x1F, and_0x3F, and_0x7F, and_0xFF, and_0xFFF, and_0xFFFFFFFF, and_0xF0, and_0x80, and_0x40, and_0x20, and_0x10, and_0x08, and_0x04, Nat.mod_mod]
  try simp only [be16_split, be24_split, be32_split, be56_split]
  all_goals
    ((repeat' apply And.intro) <;>
    (try (split_ifs <;> (try simp only [Bool.not_eq_true] at *) <;> subst_vars)) <;>
    (try simp (disch := omega) only [Nat.shiftLeft_eq, Nat.zero_or, Nat.mod_mod, or_add_1, or_add_2, or_add_3, or_add_4, or_add_5, or_add_6, or_add_7, or_add_8, or_add_10, or_add_12]) <;>
    (try simp only [bne_iff_ne, bne_eq_false_iff_eq, ne_eq]) <;>
    omega)

theorem PayloadEPSStatusMessage_truncated_eq (v : PayloadEPSStatusMessage) : v.truncated = v ↔ v.fits_wire := by
  obtain ⟨x0, x1, x2, x3, ⟨x4y0, x4y1, x4y2⟩, ⟨x5y0, x5y1, x5y2⟩, ⟨x6y0, x6y1, x6y2⟩⟩ := v
  simp [PayloadEPSStatusMessage.truncated, PayloadEPSStatusMessage.fits_wire, PayloadEPSStatusMessage.mk.injEq, PayloadEPSOutputStatus.truncated, PayloadEPSOutputStatus.fits_wire, PayloadEPSOutputStatus.mk.injEq, Nat.mod_eq_iff_lt]

theorem PreUnixTimeMessage_truncation (v : PreUnixTimeMessage) (buffer : List Nat) :
    PreUnixTimeMessage.deserialize (v.serialize buffer) = v.truncated := rfl

theorem PreUnixTimeMessage_truncated_eq (v : PreUnixTimeMessage) : v.truncated = v ↔ v.fits_wire :=
  ⟨fun _ => trivial, fun _ => rfl⟩

theorem ResetMessage_truncation (v : ResetMessage) (buffer : List Nat)
    (hb : ResetMessage.SIZE_BYTES ≤ buffer.length) :
    ResetMessage.deserialize (v.serialize buffer) = v.truncated := by
  unfold ResetMessage.SIZE_BYTES at hb
  obtain ⟨x0, x1, x2⟩ := v
  simp [ResetMessage.deserialize, ResetMessage.serialize, ResetMessage.truncated, ResetMessage.SIZE_BYTES,
    read_u16_be, write_u16_be, read_u24_be, write_u24_be, read_u32_be, write_u32_be, read_u56_be, write_u56_be, byte_at_store, byte_at_memset, byte_at_memcpy, length_store, length_memset, length_memcpy, lt_length_of_le hb]
  try simp only [Nat.shiftRight_eq_div_pow, and_0x03, and_0x07, and_0x0F, and_0x1F, and_0x3F, and_0x7F, and_0xFF, and_0xFFF, and_0xFFFFFFFF, and_0xF0, and_0x80, and_0x40, and_0x20, and_0x10, and_0x08, and_0x04, Nat.mod_mod]
  try simp only [be16_split, be24_split, be32_split, be56_split]
  all_goals
    ((repeat' apply And.intro) <;>
    (try (split_ifs <;> (try simp only [Bool.not_eq_true] at *) <;> subst_vars)) <;>
    (try simp (disch := omega) only [Nat.shiftLeft_eq, Nat.zero_or, Nat.mod_mod, or_add_1, or_add_2, or_add_3, or_add_4, or_add_5, or_add_6, or_add_7, or_add_8, or_add_10, or_add_12]) <;>
    (try simp only [bne_iff_ne, bne_eq_false_iff_eq, ne_eq]) <;>
    omega)

theorem ResetMessage_truncated_eq (v : ResetMessage) : v.truncated = v ↔ v.fits_wire := by
  obtain ⟨x0, x1, x2⟩ := v
  simp [ResetMessage.truncated, ResetMessage.fits_wire, ResetMessage.mk.injEq, Nat.mod_eq_iff_lt]

theorem RocketStateMessage_truncation (v : RocketStateMessage) (buffer : List Nat)
    (hb : RocketStateMessage.SIZE_BYTES ≤ buffer.length) :
    RocketStateMessage.deserialize (v.serialize buffer) = v.truncated := by
  unfold RocketStateMessage.SIZE_BYTES at hb
  obtain ⟨x0, x1, x2, x3, x4⟩ := v
  simp [RocketStateMessage.deserialize, RocketStateMessage.serialize, RocketStateMessage.truncated, RocketStateMessage.SIZE_BYTES,
    read_u16_be, write_u16_be, read_u24_be, write_u24_be, read_u32_be, write_u32_be, read_u56_be, write_u56_be, byte_at_store, byte_at_memset, byte_at_memcpy, length_store, length_memset, length_memcpy, lt_length_of_le hb]
  try simp only [Nat.shiftRight_eq_div_pow, and_0x03, and_0x07, and_0x0F, and_0x1F, and_0x3F, and_0x7F, and_0xFF, and_0xFFF, and_0xFFFFFFFF, and_0xF0, and_0x80, and_0x40, and_0x20, and_0x10, and_0x08, and_0x04, Nat.mod_mod]
  try simp only [be16_split, be24_split, be32_split, be56_split]
  all_goals
    ((repeat' apply And.intro) <;>
    (try (split_ifs <;> (try simp only [Bool.not_eq_true] at *) <;> subst_vars)) <;>
    (try simp (disch := omega) only [Nat.shiftLeft_eq, Nat.zero_or, Nat.mod_mod, or_add_1, or_add_2, or_add_3, or_add_4, or_add_5, or_add_6, or_add_7, or_add_8, or_add_10, or_add_12]) <;>
    (try simp only [bne_iff_ne, bne_eq_false_iff_eq, ne_eq]) <;>
    omega)

theorem RocketStateMessage_truncated_eq (v : RocketStateMessage) : v.truncated = v ↔ v.fits_wire := by
  obtain ⟨x0, x1, x2, x3, x4⟩ := v
  simp [RocketStateMessage.truncated, RocketStateMessage.fits_wire, RocketStateMessage.mk.injEq, Nat.mod_eq_iff_lt]

theorem UnixTimeMessage_truncation (v : UnixTimeMessage) (buffer : List Nat)
    (hb : UnixTimeMessage.SIZE_BYTES ≤ buffer.length) :
    UnixTimeMessage.deserialize (v.serialize buffer) = v.truncated := by
  unfold UnixTimeMessage.SIZE_BYTES at hb
  obtain ⟨x0⟩ := v
  simp [UnixTimeMessage.deserialize, UnixTimeMessage.serialize, UnixTimeMessage.truncated, UnixTimeMessage.SIZE_BYTES,
    read_u16_be, write_u16_be, read_u24_be, write_u24_be, read_u32_be, write_u32_be, read_u56_be, write_u56_be, byte_at_store, byte_at_memset, byte_at_memcpy, length_store, length_memset, length_memcpy, lt_length_of_le hb]
  try simp only [Nat.shiftRight_eq_div_pow, and_0x03, and_0x07, and_0x0F, and_0x1F, and_0x3F, and_0x7F, and_0xFF, and_0xFFF, and_0xFFFFFFFF, and_0xF0, and_0x80, and_0x40, and_0x20, and_0x10, and_0x08, and_0x04, Nat.mod_mod]
  try simp only [be16_split, be24_split, be32_split, be56_split]
  all_goals
    ((repeat' apply And.intro) <;>
    (try (split_ifs <;> (try simp only [Bool.not_eq_true] at *) <;> subst_vars)) <;>
    (try simp (disch := omega) only [Nat.shiftLeft_eq, Nat.zero_or, Nat.mod_mod, or_add_1, or_add_2, or_add_3, or_add_4, or_add_5, or_add_6, or_add_7, or_add_8, or_add_10, or_add_12]) <;>
    (try simp only [bne_iff_ne, bne_eq_false_iff_eq, ne_eq]) <;>
    omega)

theorem UnixTimeMessage_truncated_eq (v : UnixTimeMessage) : v.truncated = v ↔ v.fits_wire := by
  obtain ⟨x0⟩ := v
  simp [UnixTimeMessage.truncated, UnixTimeMessage.fits_wire, UnixTimeMessage.mk.injEq, Nat.mod_eq_iff_lt]

theorem VLStatusMessage_truncation (v : VLStatusMessage) (buffer : List Nat)
    (hb : VLStatusMessage.SIZE_BYTES ≤ buffer.length) :
    VLStatusMessage.deserialize (v.serialize buffer) = v.truncated := by
  unfold VLStatusMessage.SIZE_BYTES at hb
  obtain ⟨x0, x1⟩ := v
  simp [VLStatusMessage.deserialize, VLStatusMessage.serialize, VLStatusMessage.truncated, VLStatusMessage.SIZE_BYTES,
    read_u16_be, write_u16_be, read_u24_be, write_u24_be, read_u32_be, write_u32_be, read_u56_be, write_u56_be, byte_at_store, byte_at_memset, byte_at_memcpy, length_store, length_memset, length_memcpy, lt_length_of_le hb]
  try simp only [Nat.shiftRight_eq_div_pow, and_0x03, and_0x07, and_0x0F, and_0x1F, and_0x3F, and_0x7F, and_0xFF, and_0xFFF, and_0xFFFFFFFF, and_0xF0, and_0x80, and_0x40, and_0x20, and_0x10, and_0x08, and_0x04, Nat.mod_mod]
  try simp only [be16_split, be24_split, be32_split, be56_split]
  all_goals
    ((repeat' apply And.intro) <;>
    (try (split_ifs <;> (try simp only [Bool.not_eq_true] at *) <;> subst_vars)) <;>
    (try simp (disch := omega) only [Nat.shiftLeft_eq, Nat.zero_or, Nat.mod_mod, or_add_1, or_add_2, or_add_3, or_add_4, or_add_5, or_add_6, or_add_7, or_add_8, or_add_10, or_add_12]) <;>
    (try simp only [bne_iff_ne, bne_eq_false_iff_eq, ne_eq]) <;>
    omega)

theorem VLStatusMessage_truncated_eq (v : VLStatusMessage) : v.truncated = v ↔ v.fits_wire := by
  obtain ⟨x0, x1⟩ := v
  simp [VLStatusMessage.truncated, VLStatusMessage.fits_wire, VLStatusMessage.mk.injEq, Nat.mod_eq_iff_lt]

/-! ## Eviction with every slot occupied -/

/-- For the message type of a variant `decode` returns a message, whatever the buffer. -/
theorem decode_some_of_type (v : CanBusMessage) (message_type : Nat)
    (hv : v.MESSAGE_TYPE = some message_type) (buffer : List Nat) :
    ∃ m, decode message_type buffer = some m := by
  cases v <;> simp only [CanBusMessage.MESSAGE_TYPE, Option.some.injEq] at hv <;>
    first
    | exact absurd hv (by simp)
    | (subst hv; exact ⟨_, rfl⟩)

/-- The message `decode` returns is of the class of the message type. -/
theorem decode_message_type (message_type : Nat) (buffer : List Nat) (m : CanBusMessage)
    (h : decode message_type buffer = some m) : m.MESSAGE_TYPE = some message_type := by
  by_cases h0 : message_type = AckMessage.MESSAGE_TYPE
  · subst h0
    have e : decode AckMessage.MESSAGE_TYPE buffer = some (.Ack (AckMessage.deserialize buffer)) := rfl
    rw [e] at h; cases h; rfl
  by_cases h1 : message_type = AirBrakesControlMessage.MESSAGE_TYPE
  · subst h1
    have e : decode AirBrakesControlMessage.MESSAGE_TYPE buffer = some (.AirBrakesControl (AirBrakesControlMessage.deserialize buffer)) := rfl
    rw [e] at h; cases h; rfl
  by_cases h2 : message_type = AmpControlMessage.MESSAGE_TYPE
  · subst h2
    have e : decode AmpControlMessage.MESSAGE_TYPE buffer = some (.AmpControl (AmpControlMessage.deserialize buffer)) := rfl
    rw [e] at h; cases h; rfl
  by_cases h3 : message_type = AmpOverwriteMessage.MESSAGE_TYPE
  · subst h3
    have e : decode AmpOverwriteMessage.MESSAGE_TYPE buffer = some (.AmpOverwrite (AmpOverwriteMessage.deserialize buffer)) := rfl
    rw [e] at h; cases h; rfl
  by_cases h4 : message_type = AmpResetOutputMessage.MESSAGE_TYPE
  · subst h4
    have e : decode AmpResetOutputMessage.MESSAGE_TYPE buffer = some (.AmpResetOutput (AmpResetOutputMessage.deserialize buffer)) := rfl
    rw [e] at h; cases h; rfl
  by_cases h5 : message_type = AmpStatusMessage.MESSAGE_TYPE
  · subst h5
    have e : decode AmpStatusMessage.MESSAGE_TYPE buffer = some (.AmpStatus (AmpStatusMessage.deserialize buffer)) := rfl
    rw [e] at h; cases h; rfl
  by_cases h6 : message_type = BaroMeasurementMessage.MESSAGE_TYPE
  · subst h6
    have e : decode BaroMeasurementMessage.MESSAGE_TYPE buffer = some (.BaroMeasurement (BaroMeasurementMessage.deserialize buffer)) := rfl
    rw [e] at h; cases h; rfl
  by_cases h7 : message_type = BrightnessMeasurementMessage.MESSAGE_TYPE
  · subst h7
    have e : decode BrightnessMeasurementMessage.MESSAGE_TYPE buffer = some (.BrightnessMeasurement (BrightnessMeasurementMessage.deserialize buffer)) := rfl
    rw [e] at h; cases h; rfl
  by_cases h8 : message_type = DataTransferMessage.MESSAGE_TYPE
  · subst h8
    have e : decode DataTransferMessage.MESSAGE_TYPE buffer = some (.DataTransfer (DataTransferMessage.deserialize buffer)) := rfl
    rw [e] at h; cases h; rfl
  by_cases h9 : message_type = IcarusStatusMessage.MESSAGE_TYPE
  · subst h9
    have e : decode IcarusStatusMessage.MESSAGE_TYPE buffer = some (.IcarusStatus (IcarusStatusMessage.deserialize buffer)) := rfl
    rw [e] at h; cases h; rfl
  by_cases h10 : message_type = IMUMeasurementMessage.MESSAGE_TYPE
  · subst h10
    have e : decode IMUMeasurementMessage.MESSAGE_TYPE buffer = some (.IMUMeasurement (IMUMeasurementMessage.deserialize buffer)) := rfl
    rw [e] at h; cases h; rfl
  by_cases h11 : message_type = MagMeasurementMessage.MESSAGE_TYPE
  · subst h11
    have e : decode MagMeasurementMessage.MESSAGE_TYPE buffer = some (.MagMeasurement (MagMeasurementMessage.deserialize buffer)) := rfl
    rw [e] at h; cases h; rfl
  by_cases h12 : message_type = NodeStatusMessage.MESSAGE_TYPE
  · subst h12
    have e : decode NodeStatusMessage.MESSAGE_TYPE buffer = some (.NodeStatus (NodeStatusMessage.deserialize buffer)) := rfl
    rw [e] at h; cases h; rfl
  by_cases h13 : message_type = OzysMeasurementMessage.MESSAGE_TYPE
  · subst h13
    have e : decode OzysMeasurementMessage.MESSAGE_TYPE buffer = some (.OzysMeasurement (OzysMeasurementMessage.deserialize buffer)) := rfl
    rw [e] at h; cases h; rfl
  by_cases h14 : message_type = PayloadEPSOutputOverwriteMessage.MESSAGE_TYPE
  · subst h14
    have e : decode PayloadEPSOutputOverwriteMessage.MESSAGE_TYPE buffer = some (.PayloadEPSOutputOverwrite (PayloadEPSOutputOverwriteMessage.deserialize buffer)) := rfl
    rw [e] at h; cases h; rfl
  by_cases h15 : message_type = PayloadEPSStatusMessage.MESSAGE_TYPE
  · subst h15
    have e : decode PayloadEPSStatusMessage.MESSAGE_TYPE buffer = some (.PayloadEPSStatus (PayloadEPSStatusMessage.deserialize buffer)) := rfl
    rw [e] at h; cases h; rfl
  by_cases h16 : message_type = PreUnixTimeMessage.MESSAGE_TYPE
  · subst h16
    have e : decode PreUnixTimeMessage.MESSAGE_TYPE buffer = some (.PreUnixTime (PreUnixTimeMessage.deserialize buffer)) := rfl
    rw [e] at h; cases h; rfl
  by_cases h17 : message_type = ResetMessage.MESSAGE_TYPE
  · subst h17
    have e : decode ResetMessage.MESSAGE_TYPE buffer = some (.Reset (ResetMessage.deserialize buffer)) := rfl
    rw [e] at h; cases h; rfl
  by_cases h18 : message_type = RocketStateMessage.MESSAGE_TYPE
  · subst h18
    have e : decode RocketStateMessage.MESSAGE_TYPE buffer = some (.RocketState (RocketStateMessage.deserialize buffer)) := rfl
    rw [e] at h; cases h; rfl
  by_cases h19 : message_type = UnixTimeMessage.MESSAGE_TYPE
  · subst h19
    have e : decode UnixTimeMessage.MESSAGE_TYPE buffer = some (.UnixTime (UnixTimeMessage.deserialize buffer)) := rfl
    rw [e] at h; cases h; rfl
  by_cases h20 : message_type = VLStatusMessage.MESSAGE_TYPE
  · subst h20
    have e : decode VLStatusMessage.MESSAGE_TYPE buffer = some (.VLStatus (VLStatusMessage.deserialize buffer)) := rfl
    rw [e] at h; cases h; rfl
  exfalso
  unfold decode at h
  rw [if_neg h0, if_neg h1, if_neg h2, if_neg h3, if_neg h4, if_neg h5, if_neg h6, if_neg h7,
    if_neg h8, if_neg h9, if_neg h10, if_neg h11, if_neg h12, if_neg h13, if_neg h14, if_neg
    h15, if_neg h16, if_neg h17, if_neg h18, if_neg h19, if_neg h20] at h
  cases h

/-- The slot buffer after an opening frame with `a` payload bytes and a further frame with
`b`: the bytes received, and behind them what the buffer held before. -/
theorem buffer_after_two (old od fd : List Nat) (a b : Nat) (hold : old.length = 256)
    (hab : a + b ≤ 256) (hod : a + 2 ≤ od.length) (hfd : b ≤ fd.length) :
    memcpy (memcpy old 0 od 2 a) a fd 0 b
      = (od.drop 2).take a ++ fd.take b ++ old.drop (a + b) := by
  apply ext_byte_at
  · simp only [length_memcpy, List.length_append, List.length_take, List.length_drop]
    omega
  · intro i hi
    simp only [length_memcpy] at hi
    have hl1 : ((od.drop 2).take a).length = a := by
      rw [List.length_take, List.length_drop]; omega
    have hl2 : (fd.take b).length = b := by rw [List.length_take]; omega
    rw [byte_at_memcpy, byte_at_memcpy, byte_at_append, byte_at_append, List.length_append,
      hl1, hl2, byte_at_take, byte_at_take, byte_at_drop, byte_at_drop, length_memcpy]
    by_cases h1 : i < a
    · rw [if_neg (by omega), if_pos (by omega), if_pos (by omega), if_pos h1, if_pos h1]
      congr 1
    · by_cases h2 : i < a + b
      · rw [if_pos (by omega), if_pos (by omega), if_neg h1, if_pos (by omega)]
        congr 1
        omega
      · rw [if_neg (by omega), if_neg (by omega), if_neg h2]
        congr 1
        omega

/-! ## The toggle bit along a transfer -/

theorem size_t_sub_wrap (d : Nat) (h : d < 5) : size_t_sub d 5 = 2 ^ 64 - 5 + d := by
  unfold size_t_sub SIZE_T_BITS
  omega

theorem beq_zero_congr (a b : Nat) (h : a % 2 = b % 2) : (a % 2 == 0) = (b % 2 == 0) := by
  rw [h]

/-- The slot after a call: empty, or occupied as before with the same identifier, timestamp
and CRC, or opened by this frame. -/
theorem sm_step (sm : StateMachine) (id : Nat) (fd : List Nat) (fl ts : Nat) :
    (sm.process_frame id fd fl ts).2.type = SlotType.Empty
    ∨ (sm.type = SlotType.MultiFrame
        ∧ (sm.process_frame id fd fl ts).2.multi_frame.id = sm.multi_frame.id
        ∧ (sm.process_frame id fd fl ts).2.multi_frame.first_frame_timestamp_us
            = sm.multi_frame.first_frame_timestamp_us
        ∧ (sm.process_frame id fd fl ts).2.multi_frame.crc = sm.multi_frame.crc
        ∧ sm.multi_frame.data_len ≤ (sm.process_frame id fd fl ts).2.multi_frame.data_len)
    ∨ (sm.has_same_id id = false ∧ 4 ≤ fl
        ∧ TailByte.from_byte (byte_at fd (fl - 1)) = ⟨true, false, false⟩
        ∧ (sm.process_frame id fd fl ts).2.type = SlotType.MultiFrame
        ∧ (sm.process_frame id fd fl ts).2.multi_frame.id = id
        ∧ (sm.process_frame id fd fl ts).2.multi_frame.first_frame_timestamp_us = ts
        ∧ (sm.process_frame id fd fl ts).2.multi_frame.crc
            = ((byte_at fd 0 % 2 ^ 16) ||| ((byte_at fd 1 % 2 ^ 16) <<< 8)) % 2 ^ 16) := by
  have hkeep : ∀ s : StateMachine, s = sm →
      s.type = SlotType.Empty ∨ (sm.type = SlotType.MultiFrame
        ∧ s.multi_frame.id = sm.multi_frame.id
        ∧ s.multi_frame.first_frame_timestamp_us = sm.multi_frame.first_frame_timestamp_us
        ∧ s.multi_frame.crc = sm.multi_frame.crc
        ∧ sm.multi_frame.data_len ≤ s.multi_frame.data_len) := by
    intro s hs
    subst hs
    cases h : s.type
    · exact Or.inl rfl
    · exact Or.inr ⟨rfl, rfl, rfl, rfl, Nat.le_refl _⟩
  by_cases hfl : fl = 0
  · subst hfl
    rw [sm_process_frame_zero]
    rcases hkeep sm rfl with h | h
    · exact Or.inl h
    · exact Or.inr (Or.inl h)
  · by_cases hns : ((TailByte.from_byte (byte_at fd (fl - 1))).start_of_transfer &&
        (TailByte.from_byte (byte_at fd (fl - 1))).end_of_transfer) = true
    · simp only [Bool.and_eq_true] at hns
      rw [sm_process_frame_single sm id fd fl ts hfl _ rfl hns.1 hns.2]
      rcases hkeep sm rfl with h | h
      · exact Or.inl h
      · exact Or.inr (Or.inl h)
    · simp only [Bool.not_eq_true] at hns
      by_cases hte : sm.type = SlotType.Empty
      · rw [sm_process_frame_empty sm id fd fl ts hfl _ rfl hns hte]
        split_ifs with h
        · exact Or.inr (Or.inr ⟨has_same_id_of_empty sm id hte, h.2, h.1, rfl, rfl, rfl, rfl⟩)
        · exact Or.inl hte
      · have hty : sm.type = SlotType.MultiFrame := by
          cases h : sm.type with
          | Empty => exact absurd h hte
          | MultiFrame => rfl
        by_cases hid : sm.multi_frame.id = id
        · rw [sm_process_frame_same sm id fd fl ts hfl _ rfl hns hty hid]
          simp only
          split_ifs
          · exact Or.inr (Or.inl ⟨hty, rfl, rfl, rfl, Nat.le_refl _⟩)
          · exact Or.inr (Or.inl ⟨hty, rfl, rfl, rfl, Nat.le_refl _⟩)
          · exact Or.inl rfl
          · exact Or.inl rfl
          · exact Or.inl rfl
          · exact Or.inr (Or.inl ⟨hty, rfl, rfl, rfl, Nat.le_add_right _ _⟩)
        · have hno : sm.has_same_id id = false := by
            cases hsame : sm.has_same_id id
            · rfl
            · exact absurd ((has_same_id_iff sm id).1 hsame).2 hid
          rw [sm_process_frame_other sm id fd fl ts hfl _ rfl hns hty hid,
            sm_process_frame_empty _ id fd fl ts hfl _ rfl hns rfl]
          split_ifs with h
          · exact Or.inr (Or.inr ⟨hno, h.2, h.1, rfl, rfl, rfl, rfl⟩)
          · exact Or.inl rfl

/-- A call leaves the slot buffer as it was from index `data_len` on. -/
theorem sm_buffer_beyond (sm : StateMachine) (id : Nat) (fd : List Nat) (fl ts : Nat) (k : Nat)
    (hk : (sm.process_frame id fd fl ts).2.multi_frame.data_len ≤ k) :
    byte_at (sm.process_frame id fd fl ts).2.multi_frame.data k
      = byte_at sm.multi_frame.data k := by
  rcases sm_process_frame_cases sm id fd fl ts with h | h | ⟨-, h⟩ | ⟨-, -, -, -, ty, h⟩
  · rw [h]
  · rw [h]
  · rw [h] at hk ⊢
    exact byte_at_memcpy_of_ge _ _ _ _ _ _ (by simpa using hk)
  · rw [h] at hk ⊢
    exact byte_at_memcpy_of_ge _ _ _ _ _ _ hk

theorem process_frame_log (d : CanBusMultiFrameDecoder) (id : Nat) (fd : List Nat) (fl ts : Nat)
    (hmt : (id >>> 18) &&& 0xFF = 255) : d.process_frame id fd fl ts = (none, d) := by
  unfold CanBusMultiFrameDecoder.process_frame
  simp only
  rw [if_pos hmt]

/-- A slot of the decoder after a call: empty, or occupied as before with the same
identifier, timestamp and CRC, or opened by this frame. -/
theorem decoder_step (d : CanBusMultiFrameDecoder) (r : Rx) (i : Nat) :
    ((d.process_frame r.frame_id r.frame.data r.frame.len r.timestamp_us).2.slot i).type
        = SlotType.Empty
    ∨ ((d.slot i).type = SlotType.MultiFrame
        ∧ ((d.process_frame r.frame_id r.frame.data r.frame.len r.timestamp_us).2.slot
            i).multi_frame.id = (d.slot i).multi_frame.id
        ∧ ((d.process_frame r.frame_id r.frame.data r.frame.len r.timestamp_us).2.slot
            i).multi_frame.first_frame_timestamp_us
            = (d.slot i).multi_frame.first_frame_timestamp_us
        ∧ ((d.process_frame r.frame_id r.frame.data r.frame.len r.timestamp_us).2.slot
            i).multi_frame.crc = (d.slot i).multi_frame.crc
        ∧ (d.slot i).multi_frame.data_len
            ≤ ((d.process_frame r.frame_id r.frame.data r.frame.len r.timestamp_us).2.slot
                i).multi_frame.data_len)
    ∨ ((d.slot i).has_same_id r.frame_id = false ∧ r.is_opening
        ∧ ((d.process_frame r.frame_id r.frame.data r.frame.len r.timestamp_us).2.slot i).type
            = SlotType.MultiFrame
        ∧ ((d.process_frame r.frame_id r.frame.data r.frame.len r.timestamp_us).2.slot
            i).multi_frame.id = r.frame_id
        ∧ ((d.process_frame r.frame_id r.frame.data r.frame.len r.timestamp_us).2.slot
            i).multi_frame.first_frame_timestamp_us = r.timestamp_us
        ∧ ((d.process_frame r.frame_id r.frame.data r.frame.len r.timestamp_us).2.slot
            i).multi_frame.crc = r.carried_crc) := by
  have hkeep : ∀ d' : CanBusMultiFrameDecoder, d'.slot i = d.slot i →
      (d'.slot i).type = SlotType.Empty ∨ ((d.slot i).type = SlotType.MultiFrame
        ∧ (d'.slot i).multi_frame.id = (d.slot i).multi_frame.id
        ∧ (d'.slot i).multi_frame.first_frame_timestamp_us
            = (d.slot i).multi_frame.first_frame_timestamp_us
        ∧ (d'.slot i).multi_frame.crc = (d.slot i).multi_frame.crc
        ∧ (d.slot i).multi_frame.data_len ≤ (d'.slot i).multi_frame.data_len) := by
    intro d' hs
    rw [hs]
    cases h : (d.slot i).type
    · exact Or.inl rfl
    · exact Or.inr ⟨rfl, rfl, rfl, rfl, Nat.le_refl _⟩
  by_cases hmt : (r.frame_id >>> 18) &&& 0xFF = 255
  · rw [process_frame_log d _ _ _ _ hmt]
    rcases hkeep d rfl with h | h
    · exact Or.inl h
    · exact Or.inr (Or.inl h)
  · rcases process_frame_route d r.frame_id r.frame.data r.frame.len r.timestamp_us with h | h
    · rw [h]
      rcases hkeep d rfl with h | h
      · exact Or.inl h
      · exact Or.inr (Or.inl h)
    · obtain ⟨j, hj, -⟩ := h
      rw [hj]
      have hs : (d.route j r.frame_id r.frame.data r.frame.len r.timestamp_us).2.slot i
          = if i = j ∧ j < d.state_machines.length then
              ((d.slot j).process_frame r.frame_id r.frame.data r.frame.len r.timestamp_us).2
            else d.slot i := by
        unfold CanBusMultiFrameDecoder.route
        exact slot_set _ _ _ _
      by_cases hij : i = j ∧ j < d.state_machines.length
      · rw [hs, if_pos hij]
        obtain ⟨rfl, -⟩ := hij
        rcases sm_step (d.slot i) r.frame_id r.frame.data r.frame.len r.timestamp_us
          with h | h | h
        · exact Or.inl h
        · exact Or.inr (Or.inl h)
        · obtain ⟨h1, h2, h3, h4, h5, h6, h7⟩ := h
          exact Or.inr (Or.inr ⟨h1, ⟨h2, h3, hmt⟩, h4, h5, h6, h7⟩)
      · rcases hkeep (d.route j r.frame_id r.frame.data r.frame.len r.timestamp_us).2
          (by rw [hs, if_neg hij]) with h | h
        · exact Or.inl h
        · exact Or.inr (Or.inl h)

/-- A call leaves every slot buffer as it was from index `data_len` on. -/
theorem decoder_buffer_beyond (d : CanBusMultiFrameDecoder) (id : Nat) (fd : List Nat)
    (fl ts : Nat) (i k : Nat)
    (hk : ((d.process_frame id fd fl ts).2.slot i).multi_frame.data_len ≤ k) :
    byte_at ((d.process_frame id fd fl ts).2.slot i).multi_frame.data k
      = byte_at (d.slot i).multi_frame.data k := by
  rcases process_frame_route d id fd fl ts with h | ⟨j, h, -⟩
  · rw [h]
  · have hs : (d.route j id fd fl ts).2.slot i
        = if i = j ∧ j < d.state_machines.length then
            ((d.slot j).process_frame id fd fl ts).2
          else d.slot i := by
      unfold CanBusMultiFrameDecoder.route
      exact slot_set _ _ _ _
    rw [h, hs] at hk ⊢
    by_cases hij : i = j ∧ j < d.state_machines.length
    · rw [if_pos hij] at hk ⊢
      obtain ⟨rfl, -⟩ := hij
      exact sm_buffer_beyond _ _ _ _ _ _ hk
    · rw [if_neg hij]

theorem run_snoc (d : CanBusMultiFrameDecoder) (p : List Rx) (r : Rx) :
    (d.run (p ++ [r])).2
      = ((d.run p).2.process_frame r.frame_id r.frame.data r.frame.len r.timestamp_us).2 := by
  rw [run_append]
  rfl

/-- Every occupied slot of a decoder reached from a fresh one holds the transfer of an opening
frame received before. -/
theorem opened_by_run (d0 : CanBusMultiFrameDecoder) (hd0 : d0.fresh) (past : List Rx) :
    ∀ i, ((d0.run past).2.slot i).type = SlotType.MultiFrame →
      ∃ p1 o p2, d0.opened_by past i p1 o p2 := by
  induction past using List.reverseRecOn with
  | nil =>
    intro i hi
    exfalso
    have : (d0.slot i).type = SlotType.Empty := by
      rcases slot_mem_or_empty d0 i with h | h
      · exact (hd0.2 _ h).1
      · exact h
    simp only [CanBusMultiFrameDecoder.run] at hi
    rw [this] at hi
    cases hi
  | append_singleton past r ih =>
    intro i hi
    rw [run_snoc] at hi
    rcases decoder_step (d0.run past).2 r i with h | h | h
    · rw [h] at hi; cases hi
    · obtain ⟨hty, hid, hts, hcrc, hdl⟩ := h
      obtain ⟨p1, o, p2, hpast, hopen, hbefore, hsince⟩ := ih i hty
      refine ⟨p1, o, p2 ++ [r], by rw [hpast]; simp, hopen, hbefore, ?_⟩
      intro n hn
      rw [List.length_append, List.length_singleton] at hn
      by_cases hn' : n ≤ p2.length
      · rw [List.take_append_of_le_length hn']
        exact hsince n hn'
      · have hn'' : n = p2.length + 1 := by omega
        have e : List.take n (p2 ++ [r]) = p2 ++ [r] := by
          apply List.take_of_length_le
          rw [List.length_append, List.length_singleton]; omega
        have e' : p1 ++ o :: (p2 ++ [r]) = past ++ [r] := by rw [hpast]; simp
        have hlast := hsince p2.length (Nat.le_refl _)
        rw [List.take_length, ← hpast] at hlast
        rw [e, e', run_snoc]
        refine ⟨hi, hid.trans hlast.2.1, hts.trans hlast.2.2.1, hcrc.trans hlast.2.2.2.1, ?_⟩
        intro k hk
        rw [decoder_buffer_beyond _ _ _ _ _ _ _ hk]
        exact hlast.2.2.2.2 k (Nat.le_trans hdl hk)
    · obtain ⟨hno, hopen, hty, hid, hts, hcrc⟩ := h
      refine ⟨past, r, [], rfl, hopen, hno, ?_⟩
      intro n hn
      simp only [List.length_nil, Nat.le_zero_eq] at hn
      subst hn
      rw [List.take_zero, run_snoc]
      exact ⟨hty, hid, hts, hcrc, fun k hk => decoder_buffer_beyond _ _ _ _ _ _ _ hk⟩

/-! ## The CRC and the payload in terms of the bytes received -/

/-- The CRC the encoder computes over a message is CRC-16/CCITT-FALSE of its serialized
bytes. -/
theorem calculate_crc_serialized (v : CanBusMessage) :
    CanBusMultiFrameEncoder.calculate_crc v.serialized v.SIZE_BYTES
      = crc16_ccitt_false v.serialized := by
  rw [calculate_crc_spec, map_byte_at_range _ _ (by rw [serialized_length]),
    ← serialized_length v, List.take_length]

/-- The CRC the state machine computes over `data[0 .. len)` is CRC-16/CCITT-FALSE of those
bytes. -/
theorem sm_calculate_crc_take (data : List Nat) (len : Nat) (h : len ≤ data.length) :
    StateMachine.calculate_crc data len = crc16_ccitt_false (data.take len) := by
  have e : StateMachine.calculate_crc data len
      = CanBusMultiFrameEncoder.calculate_crc data len := rfl
  rw [e, calculate_crc_spec, map_byte_at_range _ _ h]

/-- A payload of at least `SIZE_BYTES` bytes decodes as the buffer it is the start of. -/
theorem decode_take (v : CanBusMessage) (message_type : Nat)
    (hv : v.MESSAGE_TYPE = some message_type) (buffer : List Nat) (n : Nat)
    (hn : v.SIZE_BYTES ≤ n) :
    decode message_type (buffer.take n) = decode message_type buffer := by
  have hb : ∀ k i, k ≤ n → i < k → byte_at (buffer.take n) i = byte_at buffer i := by
    intro k i hk hi
    rw [byte_at_take, if_pos (by omega)]
  cases v with
  | monostate => exact absurd hv (by simp [CanBusMessage.MESSAGE_TYPE])
  | PreUnixTime m =>
    simp only [CanBusMessage.MESSAGE_TYPE, Option.some.injEq] at hv
    subst hv
    have e1 : decode PreUnixTimeMessage.MESSAGE_TYPE (buffer.take n)
        = some (.PreUnixTime (PreUnixTimeMessage.deserialize (buffer.take n))) := rfl
    have e2 : decode PreUnixTimeMessage.MESSAGE_TYPE buffer
        = some (.PreUnixTime (PreUnixTimeMessage.deserialize buffer)) := rfl
    rw [e1, e2]
  | Ack m =>
    simp only [CanBusMessage.MESSAGE_TYPE, Option.some.injEq] at hv
    subst hv
    have e1 : decode AckMessage.MESSAGE_TYPE (buffer.take n)
        = some (.Ack (AckMessage.deserialize (buffer.take n))) := rfl
    have e2 : decode AckMessage.MESSAGE_TYPE buffer
        = some (.Ack (AckMessage.deserialize buffer)) := rfl
    rw [e1, e2, AckMessage_deserialize_congr (buffer.take n) buffer
      (fun i hi => hb _ i hn hi)]
  | AirBrakesControl m =>
    simp only [CanBusMessage.MESSAGE_TYPE, Option.some.injEq] at hv
    subst hv
    have e1 : decode AirBrakesControlMessage.MESSAGE_TYPE (buffer.take n)
        = some (.AirBrakesControl (AirBrakesControlMessage.deserialize (buffer.take n))) := rfl
    have e2 : decode AirBrakesControlMessage.MESSAGE_TYPE buffer
        = some (.AirBrakesControl (AirBrakesControlMessage.deserialize buffer)) := rfl
    rw [e1, e2, AirBrakesControlMessage_deserialize_congr (buffer.take n) buffer
      (fun i hi => hb _ i hn hi)]
  | AmpControl m =>
    simp only [CanBusMessage.MESSAGE_TYPE, Option.some.injEq] at hv
    subst hv
    have e1 : decode AmpControlMessage.MESSAGE_TYPE (buffer.take n)
        = some (.AmpControl (AmpControlMessage.deserialize (buffer.take n))) := rfl
    have e2 : decode AmpControlMessage.MESSAGE_TYPE buffer
        = some (.AmpControl (AmpControlMessage.deserialize buffer)) := rfl
    rw [e1, e2, AmpControlMessage_deserialize_congr (buffer.take n) buffer
      (fun i hi => hb _ i hn hi)]
  | AmpOverwrite m =>
    simp only [CanBusMessage.MESSAGE_TYPE, Option.some.injEq] at hv
    subst hv
    have e1 : decode AmpOverwriteMessage.MESSAGE_TYPE (buffer.take n)
        = some (.AmpOverwrite (AmpOverwriteMessage.deserialize (buffer.take n))) := rfl
    have e2 : decode AmpOverwriteMessage.MESSAGE_TYPE buffer
        = some (.AmpOverwrite (AmpOverwriteMessage.deserialize buffer)) := rfl
    rw [e1, e2, AmpOverwriteMessage_deserialize_congr (buffer.take n) buffer
      (fun i hi => hb _ i hn hi)]
  | AmpResetOutput m =>
    simp only [CanBusMessage.MESSAGE_TYPE, Option.some.injEq] at hv
    subst hv
    have e1 : decode AmpResetOutputMessage.MESSAGE_TYPE (buffer.take n)
        = some (.AmpResetOutput (AmpResetOutputMessage.deserialize (buffer.take n))) := rfl
    have e2 : decode AmpResetOutputMessage.MESSAGE_TYPE buffer
        = some (.AmpResetOutput (AmpResetOutputMessage.deserialize buffer)) := rfl
    rw [e1, e2, AmpResetOutputMessage_deserialize_congr (buffer.take n) buffer
      (fun i hi => hb _ i hn hi)]
  | AmpStatus m =>
    simp only [CanBusMessage.MESSAGE_TYPE, Option.some.injEq] at hv
    subst hv
    have e1 : decode AmpStatusMessage.MESSAGE_TYPE (buffer.take n)
        = some (.AmpStatus (AmpStatusMessage.deserialize (buffer.take n))) := rfl
    have e2 : decode AmpStatusMessage.MESSAGE_TYPE buffer
        = some (.AmpStatus (AmpStatusMessage.deserialize buffer)) := rfl
    rw [e1, e2, AmpStatusMessage_deserialize_congr (buffer.take n) buffer
      (fun i hi => hb _ i hn hi)]
  | BaroMeasurement m =>
    simp only [CanBusMessage.MESSAGE_TYPE, Option.some.injEq] at hv
    subst hv
    have e1 : decode BaroMeasurementMessage.MESSAGE_TYPE (buffer.take n)
        = some (.BaroMeasurement (BaroMeasurementMessage.deserialize (buffer.take n))) := rfl
    have e2 : decode BaroMeasurementMessage.MESSAGE_TYPE buffer
        = some (.BaroMeasurement (BaroMeasurementMessage.deserialize buffer)) := rfl
    rw [e1, e2, BaroMeasurementMessage_deserialize_congr (buffer.take n) buffer
      (fun i hi => hb _ i hn hi)]
  | BrightnessMeasurement m =>
    simp only [CanBusMessage.MESSAGE_TYPE, Option.some.injEq] at hv
    subst hv
    have e1 : decode BrightnessMeasurementMessage.MESSAGE_TYPE (buffer.take n)
        = some (.BrightnessMeasurement (BrightnessMeasurementMessage.deserialize (buffer.take n))) := rfl
    have e2 : decode BrightnessMeasurementMessage.MESSAGE_TYPE buffer
        = some (.BrightnessMeasurement (BrightnessMeasurementMessage.deserialize buffer)) := rfl
    rw [e1, e2, BrightnessMeasurementMessage_deserialize_congr (buffer.take n) buffer
      (fun i hi => hb _ i hn hi)]
  | DataTransfer m =>
    simp only [CanBusMessage.MESSAGE_TYPE, Option.some.injEq] at hv
    subst hv
    have e1 : decode DataTransferMessage.MESSAGE_TYPE (buffer.take n)
        = some (.DataTransfer (DataTransferMessage.deserialize (buffer.take n))) := rfl
    have e2 : decode DataTransferMessage.MESSAGE_TYPE buffer
        = some (.DataTransfer (DataTransferMessage.deserialize buffer)) := rfl
    rw [e1, e2, DataTransferMessage_deserialize_congr (buffer.take n) buffer
      (fun i hi => hb _ i hn hi)]
  | IcarusStatus m =>
    simp only [CanBusMessage.MESSAGE_TYPE, Option.some.injEq] at hv
    subst hv
    have e1 : decode IcarusStatusMessage.MESSAGE_TYPE (buffer.take n)
        = some (.IcarusStatus (IcarusStatusMessage.deserialize (buffer.take n))) := rfl
    have e2 : decode IcarusStatusMessage.MESSAGE_TYPE buffer
        = some (.IcarusStatus (IcarusStatusMessage.deserialize buffer)) := rfl
    rw [e1, e2, IcarusStatusMessage_deserialize_congr (buffer.take n) buffer
      (fun i hi => hb _ i hn hi)]
  | IMUMeasurement m =>
    simp only [CanBusMessage.MESSAGE_TYPE, Option.some.injEq] at hv
    subst hv
    have e1 : decode IMUMeasurementMessage.MESSAGE_TYPE (buffer.take n)
        = some (.IMUMeasurement (IMUMeasurementMessage.deserialize (buffer.take n))) := rfl
    have e2 : decode IMUMeasurementMessage.MESSAGE_TYPE buffer
        = some (.IMUMeasurement (IMUMeasurementMessage.deserialize buffer)) := rfl
    rw [e1, e2, IMUMeasurementMessage_deserialize_congr (buffer.take n) buffer
      (fun i hi => hb _ i hn hi)]
  | MagMeasurement m =>
    simp only [CanBusMessage.MESSAGE_TYPE, Option.some.injEq] at hv
    subst hv
    have e1 : decode MagMeasurementMessage.MESSAGE_TYPE (buffer.take n)
        = some (.MagMeasurement (MagMeasurementMessage.deserialize (buffer.take n))) := rfl
    have e2 : decode MagMeasurementMessage.MESSAGE_TYPE buffer
        = some (.MagMeasurement (MagMeasurementMessage.deserialize buffer)) := rfl
    rw [e1, e2, MagMeasurementMessage_deserialize_congr (buffer.take n) buffer
      (fun i hi => hb _ i hn hi)]
  | NodeStatus m =>
    simp only [CanBusMessage.MESSAGE_TYPE, Option.some.injEq] at hv
    subst hv
    have e1 : decode NodeStatusMessage.MESSAGE_TYPE (buffer.take n)
        = some (.NodeStatus (NodeStatusMessage.deserialize (buffer.take n))) := rfl
    have e2 : decode NodeStatusMessage.MESSAGE_TYPE buffer
        = some (.NodeStatus (NodeStatusMessage.deserialize buffer)) := rfl
    rw [e1, e2, NodeStatusMessage_deserialize_congr (buffer.take n) buffer
      (fun i hi => hb _ i hn hi)]
  | OzysMeasurement m =>
    simp only [CanBusMessage.MESSAGE_TYPE, Option.some.injEq] at hv
    subst hv
    have e1 : decode OzysMeasurementMessage.MESSAGE_TYPE (buffer.take n)
        = some (.OzysMeasurement (OzysMeasurementMessage.deserialize (buffer.take n))) := rfl
    have e2 : decode OzysMeasurementMessage.MESSAGE_TYPE buffer
        = some (.OzysMeasurement (OzysMeasurementMessage.deserialize buffer)) := rfl
    rw [e1, e2, OzysMeasurementMessage_deserialize_congr (buffer.take n) buffer
      (fun i hi => hb _ i hn hi)]
  | PayloadEPSOutputOverwrite m =>
    simp only [CanBusMessage.MESSAGE_TYPE, Option.some.injEq] at hv
    subst hv
    have e1 : decode PayloadEPSOutputOverwriteMessage.MESSAGE_TYPE (buffer.take n)
        = some (.PayloadEPSOutputOverwrite (PayloadEPSOutputOverwriteMessage.deserialize (buffer.take n))) := rfl
    have e2 : decode PayloadEPSOutputOverwriteMessage.MESSAGE_TYPE buffer
        = some (.PayloadEPSOutputOverwrite (PayloadEPSOutputOverwriteMessage.deserialize buffer)) := rfl
    rw [e1, e2, PayloadEPSOutputOverwriteMessage_deserialize_congr (buffer.take n) buffer
      (fun i hi => hb _ i hn hi)]
  | PayloadEPSStatus m =>
    simp only [CanBusMessage.MESSAGE_TYPE, Option.some.injEq] at hv
    subst hv
    have e1 : decode PayloadEPSStatusMessage.MESSAGE_TYPE (buffer.take n)
        = some (.PayloadEPSStatus (PayloadEPSStatusMessage.deserialize (buffer.take n))) := rfl
    have e2 : decode PayloadEPSStatusMessage.MESSAGE_TYPE buffer
        = some (.PayloadEPSStatus (PayloadEPSStatusMessage.deserialize buffer)) := rfl
    rw [e1, e2, PayloadEPSStatusMessage_deserialize_congr (buffer.take n) buffer
      (fun i hi => hb _ i hn hi)]
  | Reset m =>
    simp only [CanBusMessage.MESSAGE_TYPE, Option.some.injEq] at hv
    subst hv
    have e1 : decode ResetMessage.MESSAGE_TYPE (buffer.take n)
        = some (.Reset (ResetMessage.deserialize (buffer.take n))) := rfl
    have e2 : decode ResetMessage.MESSAGE_TYPE buffer
        = some (.Reset (ResetMessage.deserialize buffer)) := rfl
    rw [e1, e2, ResetMessage_deserialize_congr (buffer.take n) buffer
      (fun i hi => hb _ i hn hi)]
  | RocketState m =>
    simp only [CanBusMessage.MESSAGE_TYPE, Option.some.injEq] at hv
    subst hv
    have e1 : decode RocketStateMessage.MESSAGE_TYPE (buffer.take n)
        = some (.RocketState (RocketStateMessage.deserialize (buffer.take n))) := rfl
    have e2 : decode RocketStateMessage.MESSAGE_TYPE buffer
        = some (.RocketState (RocketStateMessage.deserialize buffer)) := rfl
    rw [e1, e2, RocketStateMessage_deserialize_congr (buffer.take n) buffer
      (fun i hi => hb _ i hn hi)]
  | UnixTime m =>
    simp only [CanBusMessage.MESSAGE_TYPE, Option.some.injEq] at hv
    subst hv
    have e1 : decode UnixTimeMessage.MESSAGE_TYPE (buffer.take n)
        = some (.UnixTime (UnixTimeMessage.deserialize (buffer.take n))) := rfl
    have e2 : decode UnixTimeMessage.MESSAGE_TYPE buffer
        = some (.UnixTime (UnixTimeMessage.deserialize buffer)) := rfl
    rw [e1, e2, UnixTimeMessage_deserialize_congr (buffer.take n) buffer
      (fun i hi => hb _ i hn hi)]
  | VLStatus m =>
    simp only [CanBusMessage.MESSAGE_TYPE, Option.some.injEq] at hv
    subst hv
    have e1 : decode VLStatusMessage.MESSAGE_TYPE (buffer.take n)
        = some (.VLStatus (VLStatusMessage.deserialize (buffer.take n))) := rfl
    have e2 : decode VLStatusMessage.MESSAGE_TYPE buffer
        = some (.VLStatus (VLStatusMessage.deserialize buffer)) := rfl
    rw [e1, e2, VLStatusMessage_deserialize_congr (buffer.take n) buffer
      (fun i hi => hb _ i hn hi)]

/-- The frames of a message that has an identifier, received in order by a fresh decoder:
the call for the last frame returns the message with the CRC the encoder computed. -/
theorem encode_decode_fresh (v : CanBusMessage) (hv : v.valid)
    (node_type node_id id : Nat) (hid : v.get_id node_type node_id = some id)
    (mem : List Nat) (hmem : mem.length = CanBusMultiFrameEncoder.MAX_CAN_MESSAGE_SIZE)
    (d : CanBusMultiFrameDecoder) (hd : d.fresh) (rx : List Rx)
    (hrx : rx.map Rx.frame = (CanBusMultiFrameEncoder.new mem v).frames)
    (hids : ∀ r ∈ rx, r.frame_id = id) :
    (d.run rx).1.getLast?
      = some (some { id := id
                     crc := CanBusMultiFrameEncoder.calculate_crc v.serialized v.SIZE_BYTES
                     message := v }) := by
  have h36 := size_le_36 v
  have h1 := get_id_size_pos v node_type node_id id hid
  have hmt := get_id_message_type v node_type node_id id hid
  have hm : v.SIZE_BYTES ≤ mem.length := by
    rw [hmem]; unfold CanBusMultiFrameEncoder.MAX_CAN_MESSAGE_SIZE; omega
  obtain ⟨s0, rest, rfl, hty, hlen, hrest⟩ := fresh_cons d hd
  rw [run_slot0 id hmt rest hrest rx s0 hids (Or.inl hty)]
  by_cases h7 : v.SIZE_BYTES ≤ 7
  · rw [frames_of_short mem v hm h1 h7] at hrx
    obtain ⟨r, rx', rfl, hr, hrx'⟩ := List.map_eq_cons_iff.mp hrx
    have hnil : rx' = [] := List.map_eq_nil_iff.mp hrx'
    subst hnil
    have hrid : r.frame_id = id := hids r (by simp)
    have hsl : v.serialized.length ≤ 7 := by rw [serialized_length]; exact h7
    have ht := mkframe_tail v.serialized ⟨true, true, false⟩ hsl
    rw [← hr] at ht
    have hl : r.frame.len = v.SIZE_BYTES + 1 := by rw [hr, mkframe_len, serialized_length]
    have hag : ∀ i, i < v.SIZE_BYTES → byte_at r.frame.data i = byte_at v.serialized i := by
      intro i hi
      rw [hr]
      exact byte_at_mkframe_payload _ _ hsl i (by rw [serialized_length]; exact hi)
    simp only [StateMachine.run, hrid]
    rw [sm_process_frame_single s0 id _ _ _ (by omega) _ ht rfl rfl]
    simp only [Bool.false_eq_true, if_false, hl, Nat.add_sub_cancel,
      decode_serialized v hv node_type node_id id hid _ hag, Option.map_some',
      List.getLast?_singleton, calculate_crc_eq, calculate_crc_congr _ _ _ hag]
  · exact sm_roundtrip_long v hv node_type node_id id hid (by omega) mem hm s0 hty hlen rx hrx
      hids

/-- The classes without `get_id`: `monostate` and `PreUnixTimeMessage`. -/
theorem get_id_eq_none (v : CanBusMessage) (node_type node_id : Nat) :
    v.get_id node_type node_id = none ↔ v = .monostate ∨ v = .PreUnixTime {} := by
  cases v <;> simp [CanBusMessage.get_id]

/-! # Claims -/

set_option maxRecDepth 100000 in
/-- C1 (refuted for `PreUnixTime` as stated). The claim speaks of every message class. The
class `PreUnixTimeMessage` has `SIZE_BYTES = 0`: the encoder of a `PreUnixTime` message has
`has_next()` false from the start, the loop `while (has_next()) next()` emits no frame, so no
call reaches the decoder and there is no call for a last frame that returns the message,
whatever identifier and timestamp the frames would be given. -/
theorem C1_pre_unix_time_counterexample :
    (CanBusMessage.PreUnixTime {}).valid
      ∧ (CanBusMultiFrameEncoder.new (List.replicate 64 0) (.PreUnixTime {})).has_next = false
      ∧ (CanBusMultiFrameEncoder.new (List.replicate 64 0) (.PreUnixTime {})).frames = []
      ∧ (∀ id timestamp_us : Nat,
          (CanBusMultiFrameDecoder.zeroed.run
            ((CanBusMultiFrameEncoder.new (List.replicate 64 0) (.PreUnixTime {})).frames.map
              (fun f => { frame_id := id, frame := f, timestamp_us := timestamp_us }))).1 = [])
      ∧ ¬ ((CanBusMultiFrameDecoder.zeroed.run
            ((CanBusMultiFrameEncoder.new (List.replicate 64 0) (.PreUnixTime {})).frames.map
              (fun f => { frame_id := 0x0020A014, frame := f, timestamp_us := 1000 }))).1.getLast?
          = some (some { id := 0x0020A014
                         crc := crc16_ccitt_false (CanBusMessage.PreUnixTime {}).serialized
                         message := .PreUnixTime {} })) := by
  have hf : (CanBusMultiFrameEncoder.new (List.replicate 64 0) (.PreUnixTime {})).frames = [] := by
    decide
  refine ⟨trivial, by decide, hf, ?_, ?_⟩
  · intro id timestamp_us
    rw [hf]
    rfl
  · rw [hf]
    intro h
    cases h

/-- C1 (amended). Encode/decode round trip for every message class that has an identifier,
that is every class but `PreUnixTimeMessage` (and the empty variant): for a message `v` of
such a class with fields in their declared ranges and identifier `id` (from `get_id`), the
frames the encoder of `v` emits while `has_next()` is true, received in order with that
identifier at any timestamps by a fresh decoder, make the call for the last frame return
`Some(id, crc, v)` with `crc` the CRC-16/CCITT-FALSE of the serialized bytes of `v`. -/
theorem C1_encode_decode_roundtrip (v : CanBusMessage) (hv : v.valid)
    (node_type node_id id : Nat) (hid : v.get_id node_type node_id = some id)
    (mem : List Nat) (hmem : mem.length = CanBusMultiFrameEncoder.MAX_CAN_MESSAGE_SIZE)
    (d : CanBusMultiFrameDecoder) (hd : d.fresh) (rx : List Rx)
    (hrx : rx.map Rx.frame = (CanBusMultiFrameEncoder.new mem v).frames)
    (hids : ∀ r ∈ rx, r.frame_id = id) :
    (d.run rx).1.getLast?
        = some (some { id := id
                       crc := crc16_ccitt_false v.serialized
                       message := v })
      ∧ (∀ w : CanBusMessage, ∀ nt ni : Nat,
          w.get_id nt ni = none ↔ w = .monostate ∨ w = .PreUnixTime {}) := by
  refine ⟨?_, get_id_eq_none⟩
  rw [← calculate_crc_serialized]
  exact encode_decode_fresh v hv node_type node_id id hid mem hmem d hd rx hrx hids

set_option maxRecDepth 100000 in
/-- C1 on PayloadEPSStatus with `battery1_mv = 7400`, id for node type 10 and node id 20, a
zeroed encoder buffer and a zeroed decoder: the call for the last of the three frames returns
the message with the CRC `0xB011`. -/
theorem C1_encode_decode_roundtrip_witness :
    (CanBusMultiFrameDecoder.zeroed.run
        ((CanBusMultiFrameEncoder.new (List.replicate 64 0)
            (.PayloadEPSStatus ⟨7400, 0, 0, 0, ⟨0, false, 0⟩, ⟨0, false, 0⟩, ⟨0, false, 0⟩⟩)).frames.map
          (fun f => { frame_id := 0x1488A014, frame := f, timestamp_us := 1000 }))).1.getLast?
        = some (some { id := 0x1488A014
                       crc := 0xB011
                       message := .PayloadEPSStatus
                         ⟨7400, 0, 0, 0, ⟨0, false, 0⟩, ⟨0, false, 0⟩, ⟨0, false, 0⟩⟩ })
      ∧ (CanBusMessage.PayloadEPSStatus
          ⟨7400, 0, 0, 0, ⟨0, false, 0⟩, ⟨0, false, 0⟩, ⟨0, false, 0⟩⟩).serialized
        = [0x1C, 0xE8, 0, 0, 0, 0, 0, 0, 0, 0, 0, 0, 0, 0]
      ∧ crc16_ccitt_false [0x1C, 0xE8, 0, 0, 0, 0, 0, 0, 0, 0, 0, 0, 0, 0] = 0xB011 :=
  have hs : (CanBusMessage.PayloadEPSStatus
      ⟨7400, 0, 0, 0, ⟨0, false, 0⟩, ⟨0, false, 0⟩, ⟨0, false, 0⟩⟩).serialized
        = [0x1C, 0xE8, 0, 0, 0, 0, 0, 0, 0, 0, 0, 0, 0, 0] := by decide
  have hc : crc16_ccitt_false [0x1C, 0xE8, 0, 0, 0, 0, 0, 0, 0, 0, 0, 0, 0, 0] = 0xB011 := by
    decide
  ⟨(C1_encode_decode_roundtrip
      (.PayloadEPSStatus ⟨7400, 0, 0, 0, ⟨0, false, 0⟩, ⟨0, false, 0⟩, ⟨0, false, 0⟩⟩)
      (by decide) 10 20 0x1488A014 (by decide) (List.replicate 64 0) (by decide)
      CanBusMultiFrameDecoder.zeroed zeroed_fresh _ (by simp [Function.comp_def])
      (by simp)).1.trans (by rw [hs, hc]),
    hs, hc⟩

/-- C2. Serialize/deserialize round trip: for each of the twenty message classes and every
value whose fields lie in their declared bit widths and enumeration ranges,
`deserialize(serialize(v)) == v`, on any buffer of at least `SIZE_BYTES` cells. -/
theorem C2_deserialize_serialize :
    (∀ (v : AckMessage) (buffer : List Nat), v.valid → AckMessage.SIZE_BYTES ≤ buffer.length →
      AckMessage.deserialize (v.serialize buffer) = v) ∧
    (∀ (v : AirBrakesControlMessage) (buffer : List Nat), v.valid → AirBrakesControlMessage.SIZE_BYTES ≤ buffer.length →
      AirBrakesControlMessage.deserialize (v.serialize buffer) = v) ∧
    (∀ (v : AmpControlMessage) (buffer : List Nat), AmpControlMessage.SIZE_BYTES ≤ buffer.length →
      AmpControlMessage.deserialize (v.serialize buffer) = v) ∧
    (∀ (v : AmpOverwriteMessage) (buffer : List Nat), v.valid → AmpOverwriteMessage.SIZE_BYTES ≤ buffer.length →
      AmpOverwriteMessage.deserialize (v.serialize buffer) = v) ∧
    (∀ (v : AmpResetOutputMessage) (buffer : List Nat), v.valid → AmpResetOutputMessage.SIZE_BYTES ≤ buffer.length →
      AmpResetOutputMessage.deserialize (v.serialize buffer) = v) ∧
    (∀ (v : AmpStatusMessage) (buffer : List Nat), v.valid → AmpStatusMessage.SIZE_BYTES ≤ buffer.length →
      AmpStatusMessage.deserialize (v.serialize buffer) = v) ∧
    (∀ (v : BaroMeasurementMessage) (buffer : List Nat), v.valid → BaroMeasurementMessage.SIZE_BYTES ≤ buffer.length →
      BaroMeasurementMessage.deserialize (v.serialize buffer) = v) ∧
    (∀ (v : BrightnessMeasurementMessage) (buffer : List Nat), v.valid → BrightnessMeasurementMessage.SIZE_BYTES ≤ buffer.length →
      BrightnessMeasurementMessage.deserialize (v.serialize buffer) = v) ∧
    (∀ (v : DataTransferMessage) (buffer : List Nat), v.valid → DataTransferMessage.SIZE_BYTES ≤ buffer.length →
      DataTransferMessage.deserialize (v.serialize buffer) = v) ∧
    (∀ (v : IcarusStatusMessage) (buffer : List Nat), v.valid → IcarusStatusMessage.SIZE_BYTES ≤ buffer.length →
      IcarusStatusMessage.deserialize (v.serialize buffer) = v) ∧
    (∀ (v : IMUMeasurementMessage) (buffer : List Nat), v.valid → IMUMeasurementMessage.SIZE_BYTES ≤ buffer.length →
      IMUMeasurementMessage.deserialize (v.serialize buffer) = v) ∧
    (∀ (v : MagMeasurementMessage) (buffer : List Nat), v.valid → MagMeasurementMessage.SIZE_BYTES ≤ buffer.length →
      MagMeasurementMessage.deserialize (v.serialize buffer) = v) ∧
    (∀ (v : NodeStatusMessage) (buffer : List Nat), v.valid → NodeStatusMessage.SIZE_BYTES ≤ buffer.length →
      NodeStatusMessage.deserialize (v.serialize buffer) = v) ∧
    (∀ (v : OzysMeasurementMessage) (buffer : List Nat), v.valid → OzysMeasurementMessage.SIZE_BYTES ≤ buffer.length →
      OzysMeasurementMessage.deserialize (v.serialize buffer) = v) ∧
    (∀ (v : PayloadEPSOutputOverwriteMessage) (buffer : List Nat), v.valid → PayloadEPSOutputOverwriteMessage.SIZE_BYTES ≤ buffer.length →
      PayloadEPSOutputOverwriteMessage.deserialize (v.serialize buffer) = v) ∧
    (∀ (v : PayloadEPSStatusMessage) (buffer : List Nat), v.valid → PayloadEPSStatusMessage.SIZE_BYTES ≤ buffer.length →
      PayloadEPSStatusMessage.deserialize (v.serialize buffer) = v) ∧
    (∀ (v : ResetMessage) (buffer : List Nat), v.valid → ResetMessage.SIZE_BYTES ≤ buffer.length →
      ResetMessage.deserialize (v.serialize buffer) = v) ∧
    (∀ (v : RocketStateMessage) (buffer : List Nat), v.valid → RocketStateMessage.SIZE_BYTES ≤ buffer.length →
      RocketStateMessage.deserialize (v.serialize buffer) = v) ∧
    (∀ (v : UnixTimeMessage) (buffer : List Nat), v.valid → UnixTimeMessage.SIZE_BYTES ≤ buffer.length →
      UnixTimeMessage.deserialize (v.serialize buffer) = v) ∧
    (∀ (v : VLStatusMessage) (buffer : List Nat), v.valid → VLStatusMessage.SIZE_BYTES ≤ buffer.length →
      VLStatusMessage.deserialize (v.serialize buffer) = v) :=
  ⟨fun v buffer hv hb => AckMessage_roundtrip v hv buffer hb,
   fun v buffer hv hb => AirBrakesControlMessage_roundtrip v hv buffer hb,
   fun v buffer hb => AmpControlMessage_roundtrip v buffer hb,
   fun v buffer hv hb => AmpOverwriteMessage_roundtrip v hv buffer hb,
   fun v buffer hv hb => AmpResetOutputMessage_roundtrip v hv buffer hb,
   fun v buffer hv hb => AmpStatusMessage_roundtrip v hv buffer hb,
   fun v buffer hv hb => BaroMeasurementMessage_roundtrip v hv buffer hb,
   fun v buffer hv hb => BrightnessMeasurementMessage_roundtrip v hv buffer hb,
   fun v buffer hv hb => DataTransferMessage_roundtrip v hv buffer hb,
   fun v buffer hv hb => IcarusStatusMessage_roundtrip v hv buffer hb,
   fun v buffer hv hb => IMUMeasurementMessage_roundtrip v hv buffer hb,
   fun v buffer hv hb => MagMeasurementMessage_roundtrip v hv buffer hb,
   fun v buffer hv hb => NodeStatusMessage_roundtrip v hv buffer hb,
   fun v buffer hv hb => OzysMeasurementMessage_roundtrip v hv buffer hb,
   fun v buffer hv hb => PayloadEPSOutputOverwriteMessage_roundtrip v hv buffer hb,
   fun v buffer hv hb => PayloadEPSStatusMessage_roundtrip v hv buffer hb,
   fun v buffer hv hb => ResetMessage_roundtrip v hv buffer hb,
   fun v buffer hv hb => RocketStateMessage_roundtrip v hv buffer hb,
   fun v buffer hv hb => UnixTimeMessage_roundtrip v hv buffer hb,
   fun v buffer hv hb => VLStatusMessage_roundtrip v hv buffer hb⟩

/-- C2, at one value of each class on a zeroed buffer of `SIZE_BYTES` cells. -/
theorem C2_deserialize_serialize_witness :
    AckMessage.deserialize ((⟨0x1234, 0x0AB⟩ : AckMessage).serialize (List.replicate 4 0))
      = ⟨0x1234, 0x0AB⟩ ∧
    AirBrakesControlMessage.deserialize ((⟨500⟩ : AirBrakesControlMessage).serialize (List.replicate 6 0))
      = ⟨500⟩ ∧
    AmpControlMessage.deserialize ((⟨true, false, true, false⟩ : AmpControlMessage).serialize (List.replicate 1 0))
      = ⟨true, false, true, false⟩ ∧
    AmpOverwriteMessage.deserialize ((⟨0, 1, 2, 1⟩ : AmpOverwriteMessage).serialize (List.replicate 1 0))
      = ⟨0, 1, 2, 1⟩ ∧
    AmpResetOutputMessage.deserialize ((⟨3⟩ : AmpResetOutputMessage).serialize (List.replicate 1 0))
      = ⟨3⟩ ∧
    AmpStatusMessage.deserialize ((⟨12000, ⟨true, 1⟩, ⟨false, 2⟩, ⟨false, 0⟩, ⟨true, 2⟩⟩ : AmpStatusMessage).serialize (List.replicate 6 0))
      = ⟨12000, ⟨true, 1⟩, ⟨false, 2⟩, ⟨false, 0⟩, ⟨true, 2⟩⟩ ∧
    BaroMeasurementMessage.deserialize ((⟨0x47C5E680, 253, 1234567⟩ : BaroMeasurementMessage).serialize (List.replicate 13 0))
      = ⟨0x47C5E680, 253, 1234567⟩ ∧
    BrightnessMeasurementMessage.deserialize ((⟨0x42C80000, 7654321⟩ : BrightnessMeasurementMessage).serialize (List.replicate 11 0))
      = ⟨0x42C80000, 7654321⟩ ∧
    DataTransferMessage.deserialize ((⟨List.replicate 32 7, 32, 5, true, false, 1, 0xABC⟩ : DataTransferMessage).serialize (List.replicate 36 0))
      = ⟨List.replicate 32 7, 32, 5, true, false, 1, 0xABC⟩ ∧
    IcarusStatusMessage.deserialize ((⟨500, 251, 120⟩ : IcarusStatusMessage).serialize (List.replicate 6 0))
      = ⟨500, 251, 120⟩ ∧
    IMUMeasurementMessage.deserialize ((⟨1, 2, 3, 4, 5, 6, 99⟩ : IMUMeasurementMessage).serialize (List.replicate 31 0))
      = ⟨1, 2, 3, 4, 5, 6, 99⟩ ∧
    MagMeasurementMessage.deserialize ((⟨1, 2, 3, 99⟩ : MagMeasurementMessage).serialize (List.replicate 19 0))
      = ⟨1, 2, 3, 99⟩ ∧
    NodeStatusMessage.deserialize ((⟨10, 0, 2, 0⟩ : NodeStatusMessage).serialize (List.replicate 5 0))
      = ⟨10, 0, 2, 0⟩ ∧
    OzysMeasurementMessage.deserialize ((⟨1, 2, 3, 4⟩ : OzysMeasurementMessage).serialize (List.replicate 16 0))
      = ⟨1, 2, 3, 4⟩ ∧
    PayloadEPSOutputOverwriteMessage.deserialize ((⟨1, 2, 0, 0xABC⟩ : PayloadEPSOutputOverwriteMessage).serialize (List.replicate 3 0))
      = ⟨1, 2, 0, 0xABC⟩ ∧
    PayloadEPSStatusMessage.deserialize ((⟨7400, 0, 0, 0, ⟨0, false, 0⟩, ⟨0, false, 0⟩, ⟨0, false, 0⟩⟩ : PayloadEPSStatusMessage).serialize (List.replicate 14 0))
      = ⟨7400, 0, 0, 0, ⟨0, false, 0⟩, ⟨0, false, 0⟩, ⟨0, false, 0⟩⟩ ∧
    ResetMessage.deserialize ((⟨0xABC, true, false⟩ : ResetMessage).serialize (List.replicate 2 0))
      = ⟨0xABC, true, false⟩ ∧
    RocketStateMessage.deserialize ((⟨1, 2, 3, 99, true⟩ : RocketStateMessage).serialize (List.replicate 20 0))
      = ⟨1, 2, 3, 99, true⟩ ∧
    UnixTimeMessage.deserialize ((⟨1700000000000000⟩ : UnixTimeMessage).serialize (List.replicate 7 0))
      = ⟨1700000000000000⟩ ∧
    VLStatusMessage.deserialize ((⟨3, 7400⟩ : VLStatusMessage).serialize (List.replicate 5 0))
      = ⟨3, 7400⟩ :=
  ⟨C2_deserialize_serialize.1 _ _ (by decide) (by decide),
   C2_deserialize_serialize.2.1 _ _ (by decide) (by decide),
   C2_deserialize_serialize.2.2.1 _ _ (by decide),
   C2_deserialize_serialize.2.2.2.1 _ _ (by decide) (by decide),
   C2_deserialize_serialize.2.2.2.2.1 _ _ (by decide) (by decide),
   C2_deserialize_serialize.2.2.2.2.2.1 _ _ (by decide) (by decide),
   C2_deserialize_serialize.2.2.2.2.2.2.1 _ _ (by decide) (by decide),
   C2_deserialize_serialize.2.2.2.2.2.2.2.1 _ _ (by decide) (by decide),
   C2_deserialize_serialize.2.2.2.2.2.2.2.2.1 _ _ (by decide) (by decide),
   C2_deserialize_serialize.2.2.2.2.2.2.2.2.2.1 _ _ (by decide) (by decide),
   C2_deserialize_serialize.2.2.2.2.2.2.2.2.2.2.1 _ _ (by decide) (by decide),
   C2_deserialize_serialize.2.2.2.2.2.2.2.2.2.2.2.1 _ _ (by decide) (by decide),
   C2_deserialize_serialize.2.2.2.2.2.2.2.2.2.2.2.2.1 _ _ (by decide) (by decide),
   C2_deserialize_serialize.2.2.2.2.2.2.2.2.2.2.2.2.2.1 _ _ (by decide) (by decide),
   C2_deserialize_serialize.2.2.2.2.2.2.2.2.2.2.2.2.2.2.1 _ _ (by decide) (by decide),
   C2_deserialize_serialize.2.2.2.2.2.2.2.2.2.2.2.2.2.2.2.1 _ _ (by decide) (by decide),
   C2_deserialize_serialize.2.2.2.2.2.2.2.2.2.2.2.2.2.2.2.2.1 _ _ (by decide) (by decide),
   C2_deserialize_serialize.2.2.2.2.2.2.2.2.2.2.2.2.2.2.2.2.2.1 _ _ (by decide) (by decide),
   C2_deserialize_serialize.2.2.2.2.2.2.2.2.2.2.2.2.2.2.2.2.2.2.1 _ _ (by decide) (by decide),
   C2_deserialize_serialize.2.2.2.2.2.2.2.2.2.2.2.2.2.2.2.2.2.2.2 _ _ (by decide) (by decide)⟩

/-- C3. Identifier composition: `CanBusExtendedId::create` returns a 32-bit value whose bits
31..29 are zero and whose fields are the arguments masked to their widths (3, 8, 6 and 12
bits); for arguments in range the fields are the arguments themselves. -/
theorem C3_create_fields (priority message_type node_type node_id : Nat) :
    CanBusExtendedId.create priority message_type node_type node_id < 2 ^ 32 ∧
    CanBusExtendedId.create priority message_type node_type node_id >>> 29 = 0 ∧
    (CanBusExtendedId.create priority message_type node_type node_id >>> 26) &&& 7
      = priority &&& 0x07 ∧
    (CanBusExtendedId.create priority message_type node_type node_id >>> 18) &&& 0xFF
      = message_type &&& 0xFF ∧
    (CanBusExtendedId.create priority message_type node_type node_id >>> 12) &&& 0x3F
      = node_type &&& 0x3F ∧
    CanBusExtendedId.create priority message_type node_type node_id &&& 0xFFF
      = node_id &&& 0xFFF ∧
    (priority < 8 → message_type < 256 → node_type < 64 → node_id < 4096 →
      (CanBusExtendedId.create priority message_type node_type node_id >>> 26) &&& 7
        = priority ∧
      (CanBusExtendedId.create priority message_type node_type node_id >>> 18) &&& 0xFF
        = message_type ∧
      (CanBusExtendedId.create priority message_type node_type node_id >>> 12) &&& 0x3F
        = node_type ∧
      CanBusExtendedId.create priority message_type node_type node_id &&& 0xFFF = node_id) := by
  simp only [create_eq, Nat.shiftRight_eq_div_pow, and_0xFF, and_0x07, and_0x3F, and_0xFFF]
  omega

/-- C3, at priority 5, message type 32, node type 10, node id 20. -/
theorem C3_create_fields_witness :
    (CanBusExtendedId.create 5 32 10 20 >>> 26) &&& 7 = 5 ∧
    (CanBusExtendedId.create 5 32 10 20 >>> 18) &&& 0xFF = 32 ∧
    (CanBusExtendedId.create 5 32 10 20 >>> 12) &&& 0x3F = 10 ∧
    CanBusExtendedId.create 5 32 10 20 &&& 0xFFF = 20 :=
  (C3_create_fields 5 32 10 20).2.2.2.2.2.2 (by decide) (by decide) (by decide) (by decide)

/-- C4. Serialized length: on a buffer of at least `SIZE_BYTES` cells, `serialize` of any
value of any class leaves the buffer as the `SIZE_BYTES` serialized bytes, which do not depend
on what the buffer held, followed by the cells from index `SIZE_BYTES` on unchanged: every
cell below `SIZE_BYTES` is assigned and none beyond is touched. -/
theorem C4_serialize_writes_size_bytes (v : CanBusMessage) (buffer : List Nat)
    (hb : v.SIZE_BYTES ≤ buffer.length) :
    (CanBusMultiFrameEncoder.visit v buffer).1 = v.SIZE_BYTES ∧
    v.serialized.length = v.SIZE_BYTES ∧
    (CanBusMultiFrameEncoder.visit v buffer).2 = v.serialized ++ buffer.drop v.SIZE_BYTES :=
  ⟨visit_fst_eq v buffer, serialized_length v, visit_eq v buffer hb⟩

/-- C4, for the VLStatus message `{Armed, 7400 mV}` on a buffer of eight cells holding 0xEE. -/
theorem C4_serialize_writes_size_bytes_witness :
    (CanBusMultiFrameEncoder.visit (.VLStatus ⟨2, 7400⟩) (List.replicate 8 0xEE)).2
      = [2, 0x1C, 0xE8, 0, 0, 0xEE, 0xEE, 0xEE] :=
  (C4_serialize_writes_size_bytes (.VLStatus ⟨2, 7400⟩) (List.replicate 8 0xEE)
    (by decide)).2.2.trans (by decide)

/-- C5. Wire identifier and catalog: for every class that has `get_id`,
`get_id(node_type, node_id) == CanBusExtendedId::create(PRIORITY, MESSAGE_TYPE, node_type,
node_id)`, and `(MESSAGE_TYPE, PRIORITY, SIZE_BYTES)` are the catalog entries. -/
theorem C5_get_id_catalog (node_type node_id : Nat) :
    ((∀ m : ResetMessage, m.get_id node_type node_id
        = CanBusExtendedId.create ResetMessage.PRIORITY ResetMessage.MESSAGE_TYPE node_type node_id) ∧
      ResetMessage.MESSAGE_TYPE = 0 ∧ ResetMessage.PRIORITY = 0 ∧ ResetMessage.SIZE_BYTES = 2) ∧
    ((∀ m : UnixTimeMessage, m.get_id node_type node_id
        = CanBusExtendedId.create UnixTimeMessage.PRIORITY UnixTimeMessage.MESSAGE_TYPE node_type node_id) ∧
      UnixTimeMessage.MESSAGE_TYPE = 7 ∧ UnixTimeMessage.PRIORITY = 1 ∧ UnixTimeMessage.SIZE_BYTES = 7) ∧
    ((∀ m : DataTransferMessage, m.get_id node_type node_id
        = CanBusExtendedId.create DataTransferMessage.PRIORITY DataTransferMessage.MESSAGE_TYPE node_type node_id) ∧
      DataTransferMessage.MESSAGE_TYPE = 16 ∧ DataTransferMessage.PRIORITY = 6 ∧ DataTransferMessage.SIZE_BYTES = 36) ∧
    ((∀ m : NodeStatusMessage, m.get_id node_type node_id
        = CanBusExtendedId.create NodeStatusMessage.PRIORITY NodeStatusMessage.MESSAGE_TYPE node_type node_id) ∧
      NodeStatusMessage.MESSAGE_TYPE = 32 ∧ NodeStatusMessage.PRIORITY = 5 ∧ NodeStatusMessage.SIZE_BYTES = 5) ∧
    ((∀ m : AmpStatusMessage, m.get_id node_type node_id
        = CanBusExtendedId.create AmpStatusMessage.PRIORITY AmpStatusMessage.MESSAGE_TYPE node_type node_id) ∧
      AmpStatusMessage.MESSAGE_TYPE = 33 ∧ AmpStatusMessage.PRIORITY = 5 ∧ AmpStatusMessage.SIZE_BYTES = 6) ∧
    ((∀ m : PayloadEPSStatusMessage, m.get_id node_type node_id
        = CanBusExtendedId.create PayloadEPSStatusMessage.PRIORITY PayloadEPSStatusMessage.MESSAGE_TYPE node_type node_id) ∧
      PayloadEPSStatusMessage.MESSAGE_TYPE = 34 ∧ PayloadEPSStatusMessage.PRIORITY = 5 ∧ PayloadEPSStatusMessage.SIZE_BYTES = 14) ∧
    ((∀ m : VLStatusMessage, m.get_id node_type node_id
        = CanBusExtendedId.create VLStatusMessage.PRIORITY VLStatusMessage.MESSAGE_TYPE node_type node_id) ∧
      VLStatusMessage.MESSAGE_TYPE = 36 ∧ VLStatusMessage.PRIORITY = 2 ∧ VLStatusMessage.SIZE_BYTES = 5) ∧
    ((∀ m : AmpControlMessage, m.get_id node_type node_id
        = CanBusExtendedId.create AmpControlMessage.PRIORITY AmpControlMessage.MESSAGE_TYPE node_type node_id) ∧
      AmpControlMessage.MESSAGE_TYPE = 64 ∧ AmpControlMessage.PRIORITY = 2 ∧ AmpControlMessage.SIZE_BYTES = 1) ∧
    ((∀ m : PayloadEPSOutputOverwriteMessage, m.get_id node_type node_id
        = CanBusExtendedId.create PayloadEPSOutputOverwriteMessage.PRIORITY PayloadEPSOutputOverwriteMessage.MESSAGE_TYPE node_type node_id) ∧
      PayloadEPSOutputOverwriteMessage.MESSAGE_TYPE = 65 ∧ PayloadEPSOutputOverwriteMessage.PRIORITY = 2 ∧ PayloadEPSOutputOverwriteMessage.SIZE_BYTES = 3) ∧
    ((∀ m : AckMessage, m.get_id node_type node_id
        = CanBusExtendedId.create AckMessage.PRIORITY AckMessage.MESSAGE_TYPE node_type node_id) ∧
      AckMessage.MESSAGE_TYPE = 66 ∧ AckMessage.PRIORITY = 4 ∧ AckMessage.SIZE_BYTES = 4) ∧
    ((∀ m : AmpOverwriteMessage, m.get_id node_type node_id
        = CanBusExtendedId.create AmpOverwriteMessage.PRIORITY AmpOverwriteMessage.MESSAGE_TYPE node_type node_id) ∧
      AmpOverwriteMessage.MESSAGE_TYPE = 67 ∧ AmpOverwriteMessage.PRIORITY = 2 ∧ AmpOverwriteMessage.SIZE_BYTES = 1) ∧
    ((∀ m : AmpResetOutputMessage, m.get_id node_type node_id
        = CanBusExtendedId.create AmpResetOutputMessage.PRIORITY AmpResetOutputMessage.MESSAGE_TYPE node_type node_id) ∧
      AmpResetOutputMessage.MESSAGE_TYPE = 68 ∧ AmpResetOutputMessage.PRIORITY = 2 ∧ AmpResetOutputMessage.SIZE_BYTES = 1) ∧
    ((∀ m : AirBrakesControlMessage, m.get_id node_type node_id
        = CanBusExtendedId.create AirBrakesControlMessage.PRIORITY AirBrakesControlMessage.MESSAGE_TYPE node_type node_id) ∧
      AirBrakesControlMessage.MESSAGE_TYPE = 69 ∧ AirBrakesControlMessage.PRIORITY = 2 ∧ AirBrakesControlMessage.SIZE_BYTES = 6) ∧
    ((∀ m : BaroMeasurementMessage, m.get_id node_type node_id
        = CanBusExtendedId.create BaroMeasurementMessage.PRIORITY BaroMeasurementMessage.MESSAGE_TYPE node_type node_id) ∧
      BaroMeasurementMessage.MESSAGE_TYPE = 128 ∧ BaroMeasurementMessage.PRIORITY = 3 ∧ BaroMeasurementMessage.SIZE_BYTES = 13) ∧
    ((∀ m : IMUMeasurementMessage, m.get_id node_type node_id
        = CanBusExtendedId.create IMUMeasurementMessage.PRIORITY IMUMeasurementMessage.MESSAGE_TYPE node_type node_id) ∧
      IMUMeasurementMessage.MESSAGE_TYPE = 129 ∧ IMUMeasurementMessage.PRIORITY = 3 ∧ IMUMeasurementMessage.SIZE_BYTES = 31) ∧
    ((∀ m : BrightnessMeasurementMessage, m.get_id node_type node_id
        = CanBusExtendedId.create BrightnessMeasurementMessage.PRIORITY BrightnessMeasurementMessage.MESSAGE_TYPE node_type node_id) ∧
      BrightnessMeasurementMessage.MESSAGE_TYPE = 130 ∧ BrightnessMeasurementMessage.PRIORITY = 5 ∧ BrightnessMeasurementMessage.SIZE_BYTES = 11) ∧
    ((∀ m : RocketStateMessage, m.get_id node_type node_id
        = CanBusExtendedId.create RocketStateMessage.PRIORITY RocketStateMessage.MESSAGE_TYPE node_type node_id) ∧
      RocketStateMessage.MESSAGE_TYPE = 131 ∧ RocketStateMessage.PRIORITY = 3 ∧ RocketStateMessage.SIZE_BYTES = 20) ∧
    ((∀ m : MagMeasurementMessage, m.get_id node_type node_id
        = CanBusExtendedId.create MagMeasurementMessage.PRIORITY MagMeasurementMessage.MESSAGE_TYPE node_type node_id) ∧
      MagMeasurementMessage.MESSAGE_TYPE = 132 ∧ MagMeasurementMessage.PRIORITY = 3 ∧ MagMeasurementMessage.SIZE_BYTES = 19) ∧
    ((∀ m : OzysMeasurementMessage, m.get_id node_type node_id
        = CanBusExtendedId.create OzysMeasurementMessage.PRIORITY OzysMeasurementMessage.MESSAGE_TYPE node_type node_id) ∧
      OzysMeasurementMessage.MESSAGE_TYPE = 133 ∧ OzysMeasurementMessage.PRIORITY = 5 ∧ OzysMeasurementMessage.SIZE_BYTES = 16) ∧
    ((∀ m : IcarusStatusMessage, m.get_id node_type node_id
        = CanBusExtendedId.create IcarusStatusMessage.PRIORITY IcarusStatusMessage.MESSAGE_TYPE node_type node_id) ∧
      IcarusStatusMessage.MESSAGE_TYPE = 160 ∧ IcarusStatusMessage.PRIORITY = 5 ∧ IcarusStatusMessage.SIZE_BYTES = 6) := by
  refine ⟨?_, ?_, ?_, ?_, ?_, ?_, ?_, ?_, ?_, ?_, ?_, ?_, ?_, ?_, ?_, ?_, ?_, ?_, ?_, ?_⟩ <;> exact ⟨fun _ => rfl, rfl, rfl, rfl⟩

/-- C6. CRC detection: for a message of at least eight bytes, take the frames of its encoder
and flip any one bit of the concatenation of their non-tail bytes (the two CRC bytes, then
the body; bit `p` with `p < 8 * (SIZE_BYTES + 2)`). Fed in order with one identifier into a
fresh decoder, one call per frame, every `process_frame` call returns none. -/
theorem C6_crc_detection (v : CanBusMessage) (h8 : 8 ≤ v.SIZE_BYTES)
    (mem : List Nat) (hmem : mem.length = CanBusMultiFrameEncoder.MAX_CAN_MESSAGE_SIZE)
    (p : Nat) (hp : p < 8 * (v.SIZE_BYTES + 2))
    (d : CanBusMultiFrameDecoder) (hd : d.fresh) (id : Nat) (rx : List Rx)
    (hrx : rx.map Rx.frame = flip_transfer_bit (CanBusMultiFrameEncoder.new mem v).frames p)
    (hids : ∀ r ∈ rx, r.frame_id = id) :
    (d.run rx).1.length = (CanBusMultiFrameEncoder.new mem v).frames.length ∧
      ∀ x ∈ (d.run rx).1, x = none := by
  have h36 := size_le_36 v
  have hm : v.SIZE_BYTES ≤ mem.length := by
    rw [hmem]; unfold CanBusMultiFrameEncoder.MAX_CAN_MESSAGE_SIZE; omega
  constructor
  · rw [run_length, ← List.length_map rx Rx.frame, hrx, length_flip_transfer_bit]
  · by_cases hmt : (id >>> 18) &&& 0xFF = 255
    · exact run_log id hmt rx d hids
    · obtain ⟨s0, rest, rfl, hty, hlen, hrest⟩ := fresh_cons d hd
      rw [run_slot0 id hmt rest hrest rx s0 hids (Or.inl hty)]
      rw [frames_of_long mem v hm h8, ← serialized_length v] at hrx
      exact sm_run_flipped id v.serialized (by rw [serialized_length]; exact h8)
        (by rw [serialized_length]; omega) p (by rw [serialized_length]; exact hp)
        s0 hty hlen rx hrx hids

set_option maxRecDepth 100000 in
/-- C6 on PayloadEPSStatus with `battery1_mv = 7400`: bit 3 of the second body byte flipped
(`0xE8` becomes `0xE0`), and all three calls return none. -/
theorem C6_crc_detection_witness :
    (CanBusMultiFrameDecoder.zeroed.run
        [⟨0x1488A014, ⟨[0x11, 0xB0, 0x1C, 0xE0, 0, 0, 0, 0x80], 8⟩, 1000⟩,
         ⟨0x1488A014, ⟨[0, 0, 0, 0, 0, 0, 0, 0x20], 8⟩, 1001⟩,
         ⟨0x1488A014, ⟨[0, 0, 0x40, 0, 0, 0, 0, 0], 3⟩, 1002⟩]).1.length = 3
    ∧ ∀ x ∈ (CanBusMultiFrameDecoder.zeroed.run
        [⟨0x1488A014, ⟨[0x11, 0xB0, 0x1C, 0xE0, 0, 0, 0, 0x80], 8⟩, 1000⟩,
         ⟨0x1488A014, ⟨[0, 0, 0, 0, 0, 0, 0, 0x20], 8⟩, 1001⟩,
         ⟨0x1488A014, ⟨[0, 0, 0x40, 0, 0, 0, 0, 0], 3⟩, 1002⟩]).1, x = none :=
  (fun h => ⟨h.1.trans (by decide), h.2⟩)
    (C6_crc_detection
      (.PayloadEPSStatus ⟨7400, 0, 0, 0, ⟨0, false, 0⟩, ⟨0, false, 0⟩, ⟨0, false, 0⟩⟩)
      (by decide) (List.replicate 64 0) (by decide) 27 (by decide)
      CanBusMultiFrameDecoder.zeroed zeroed_fresh 0x1488A014
      [⟨0x1488A014, ⟨[0x11, 0xB0, 0x1C, 0xE0, 0, 0, 0, 0x80], 8⟩, 1000⟩,
       ⟨0x1488A014, ⟨[0, 0, 0, 0, 0, 0, 0, 0x20], 8⟩, 1001⟩,
       ⟨0x1488A014, ⟨[0, 0, 0x40, 0, 0, 0, 0, 0], 3⟩, 1002⟩]
      (by decide) (by decide))

/-- C7. LRU eviction. A fresh decoder receives eight valid opening frames `first :: others`
with pairwise distinct ids and strictly increasing timestamps: every call returns none and
slot `k` holds the `k`-th transfer. A ninth opening frame with a new id then returns none,
takes slot 0, the slot of `first` (the smallest timestamp); slots 1..7 are unchanged, so the
other seven transfers stay in flight, and no slot holds the id of `first` any more. Second and
later frames of the evicted id fed afterwards return none on every call. -/
theorem C7_lru_eviction (d : CanBusMultiFrameDecoder) (hd : d.fresh)
    (first : Rx) (others : List Rx) (ninth : Rx) (conts : List Rx)
    (hlen : (first :: others).length = CanBusMultiFrameDecoder.Q)
    (hopen : ∀ r ∈ first :: others, r.is_opening ∧ r.frame.len ≤ 8)
    (hids : ((first :: others).map Rx.frame_id).Nodup)
    (hts : ((first :: others).map Rx.timestamp_us).Pairwise (fun a b => a < b))
    (h9 : ninth.is_opening ∧ ninth.frame.len ≤ 8)
    (hnew : ninth.frame_id ∉ (first :: others).map Rx.frame_id)
    (hconts : ∀ r ∈ conts, r.frame_id = first.frame_id ∧ r.is_continuation) :
    (∀ x ∈ (d.run (first :: others)).1, x = none) ∧
    (∀ k r, (first :: others)[k]? = some r →
      ((d.run (first :: others)).2.slot k).in_flight_for r) ∧
    ((d.run (first :: others)).2.process_frame ninth.frame_id ninth.frame.data ninth.frame.len
      ninth.timestamp_us).1 = none ∧
    (((d.run (first :: others)).2.process_frame ninth.frame_id ninth.frame.data ninth.frame.len
      ninth.timestamp_us).2.slot 0).in_flight_for ninth ∧
    (∀ k, 1 ≤ k → k < CanBusMultiFrameDecoder.Q →
      ((d.run (first :: others)).2.process_frame ninth.frame_id ninth.frame.data
        ninth.frame.len ninth.timestamp_us).2.slot k = (d.run (first :: others)).2.slot k) ∧
    (∀ k, k < CanBusMultiFrameDecoder.Q →
      (((d.run (first :: others)).2.process_frame ninth.frame_id ninth.frame.data
        ninth.frame.len ninth.timestamp_us).2.slot k).has_same_id first.frame_id = false) ∧
    (∀ x ∈ (((d.run (first :: others)).2.process_frame ninth.frame_id ninth.frame.data
        ninth.frame.len ninth.timestamp_us).2.run conts).1, x = none) := by
  obtain ⟨l⟩ := d
  obtain ⟨hl, hall⟩ := hd
  simp only at hl hall
  obtain ⟨occ', hF, hrun⟩ := run_opens (first :: others) [] l (by simp)
    (fun s hs => (hall s hs).1) (by simpa using hl) (by rw [hlen, hl])
    (fun r hr => (hopen r hr).1) hids (by simp)
  have hdrop : l.drop (first :: others).length = [] := by
    rw [List.drop_eq_nil_iff, hlen, hl]
  rw [hdrop] at hrun
  simp only [List.nil_append, List.append_nil] at hrun
  have hlen' : occ'.length = CanBusMultiFrameDecoder.Q := by rw [hF.length_eq, hlen]
  have hmem := forall₂_mem_left hF
  rw [hrun]
  simp only
  cases hF with
  | cons h0 hF' =>
    rename_i a0 tl
    have hmem' := forall₂_mem_left hF'
    simp only [List.map_cons, List.nodup_cons, List.pairwise_cons, List.mem_map, not_exists,
      not_and, List.mem_cons, not_or] at hids hts hnew
    have hty : ∀ s ∈ a0 :: tl, s.type = SlotType.MultiFrame ∧ s.multi_frame.id ≠ ninth.frame_id := by
      intro s hs
      obtain ⟨r, hr, hR⟩ := hmem s hs
      refine ⟨hR.1, ?_⟩
      rw [hR.2.1]
      simp only [List.mem_cons] at hr
      rcases hr with hr | hr
      · rw [hr]; exact fun h => hnew.1 h.symm
      · exact fun h => hnew.2 r hr h
    have htsl : ∀ s ∈ tl, a0.multi_frame.first_frame_timestamp_us
        < s.multi_frame.first_frame_timestamp_us := by
      intro s hs
      obtain ⟨r, hr, hR⟩ := hmem' s hs
      rw [h0.2.2, hR.2.2]
      exact hts.1 _ ⟨r, hr, rfl⟩
    obtain ⟨h94, h9t, h9mt⟩ := h9.1
    have hev := process_frame_evict a0 tl ninth.frame_id ninth.frame.data ninth.frame.len
      ninth.timestamp_us hlen' hty htsl h9mt h94 h9t
    rw [hev]
    have hgone : ∀ s ∈
        ({ type := SlotType.MultiFrame
           multi_frame :=
             { id := ninth.frame_id
               first_frame_timestamp_us := ninth.timestamp_us
               crc := ((byte_at ninth.frame.data 0 % 2 ^ 16)
                 ||| ((byte_at ninth.frame.data 1 % 2 ^ 16) <<< 8)) % 2 ^ 16
               data := memcpy a0.multi_frame.data 0 ninth.frame.data 2 (ninth.frame.len - 3)
               data_len := ninth.frame.len - 3 } } :: tl : List StateMachine),
        s.has_same_id first.frame_id = false := by
      intro s hs
      simp only [List.mem_cons] at hs
      rcases hs with hs | hs
      · rw [hs]
        simp only [StateMachine.has_same_id, Bool.and_eq_false_imp, beq_eq_false_iff_ne]
        exact fun _ h => hnew.1 h
      · obtain ⟨r, hr, hR⟩ := hmem' s hs
        simp only [StateMachine.has_same_id, hR.2.1, Bool.and_eq_false_imp,
          beq_eq_false_iff_ne]
        exact fun _ h => hids.1 r hr h
    refine ⟨?_, ?_, rfl, ⟨rfl, rfl, rfl⟩, ?_, ?_, ?_⟩
    · intro x hx
      exact (List.mem_replicate.mp hx).2
    · exact forall₂_slot (List.Forall₂.cons h0 hF')
    · intro k hk1 _
      obtain ⟨k', rfl⟩ : ∃ k', k = k' + 1 := ⟨k - 1, by omega⟩
      rfl
    · intro k _
      rcases slot_mem_or_empty _ k with hm | he
      · exact hgone _ hm
      · exact has_same_id_of_empty _ _ he
    · exact run_stray first.frame_id conts _ hgone hconts

set_option maxRecDepth 100000 in
/-- C7 at the ids and timestamps of the test `LRUDiscard`: eight opening frames with ids
`create(1, 34, 1, i)` at times `1000 + i`, a ninth with id `create(1, 34, 1, 100)` at time
2000, then the second and the third frame of the transfer of id `create(1, 34, 1, 0)`. -/
theorem C7_lru_eviction_witness :
    ((CanBusMultiFrameDecoder.zeroed.run
        [⟨CanBusExtendedId.create 1 34 1 0, ⟨[0x11, 0xB0, 0x1C, 0xE8, 0, 0, 0, 0x80], 8⟩, 1000⟩,
         ⟨CanBusExtendedId.create 1 34 1 1, ⟨[0x11, 0xB0, 0x1C, 0xE8, 0, 0, 0, 0x80], 8⟩, 1001⟩,
         ⟨CanBusExtendedId.create 1 34 1 2, ⟨[0x11, 0xB0, 0x1C, 0xE8, 0, 0, 0, 0x80], 8⟩, 1002⟩,
         ⟨CanBusExtendedId.create 1 34 1 3, ⟨[0x11, 0xB0, 0x1C, 0xE8, 0, 0, 0, 0x80], 8⟩, 1003⟩,
         ⟨CanBusExtendedId.create 1 34 1 4, ⟨[0x11, 0xB0, 0x1C, 0xE8, 0, 0, 0, 0x80], 8⟩, 1004⟩,
         ⟨CanBusExtendedId.create 1 34 1 5, ⟨[0x11, 0xB0, 0x1C, 0xE8, 0, 0, 0, 0x80], 8⟩, 1005⟩,
         ⟨CanBusExtendedId.create 1 34 1 6, ⟨[0x11, 0xB0, 0x1C, 0xE8, 0, 0, 0, 0x80], 8⟩, 1006⟩,
         ⟨CanBusExtendedId.create 1 34 1 7, ⟨[0x11, 0xB0, 0x1C, 0xE8, 0, 0, 0, 0x80], 8⟩,
           1007⟩]).2.process_frame
        (CanBusExtendedId.create 1 34 1 100) [0x11, 0xB0, 0x1C, 0xE8, 0, 0, 0, 0x80] 8 2000).1
      = none
    ∧ ∀ x ∈ (((CanBusMultiFrameDecoder.zeroed.run
        [⟨CanBusExtendedId.create 1 34 1 0, ⟨[0x11, 0xB0, 0x1C, 0xE8, 0, 0, 0, 0x80], 8⟩, 1000⟩,
         ⟨CanBusExtendedId.create 1 34 1 1, ⟨[0x11, 0xB0, 0x1C, 0xE8, 0, 0, 0, 0x80], 8⟩, 1001⟩,
         ⟨CanBusExtendedId.create 1 34 1 2, ⟨[0x11, 0xB0, 0x1C, 0xE8, 0, 0, 0, 0x80], 8⟩, 1002⟩,
         ⟨CanBusExtendedId.create 1 34 1 3, ⟨[0x11, 0xB0, 0x1C, 0xE8, 0, 0, 0, 0x80], 8⟩, 1003⟩,
         ⟨CanBusExtendedId.create 1 34 1 4, ⟨[0x11, 0xB0, 0x1C, 0xE8, 0, 0, 0, 0x80], 8⟩, 1004⟩,
         ⟨CanBusExtendedId.create 1 34 1 5, ⟨[0x11, 0xB0, 0x1C, 0xE8, 0, 0, 0, 0x80], 8⟩, 1005⟩,
         ⟨CanBusExtendedId.create 1 34 1 6, ⟨[0x11, 0xB0, 0x1C, 0xE8, 0, 0, 0, 0x80], 8⟩, 1006⟩,
         ⟨CanBusExtendedId.create 1 34 1 7, ⟨[0x11, 0xB0, 0x1C, 0xE8, 0, 0, 0, 0x80], 8⟩,
           1007⟩]).2.process_frame
        (CanBusExtendedId.create 1 34 1 100) [0x11, 0xB0, 0x1C, 0xE8, 0, 0, 0, 0x80] 8
          2000).2.run
        [⟨CanBusExtendedId.create 1 34 1 0, ⟨[0, 0, 0, 0, 0, 0, 0, 0x20], 8⟩, 3000⟩,
         ⟨CanBusExtendedId.create 1 34 1 0, ⟨[0, 0, 0x40, 0, 0, 0, 0, 0], 3⟩, 3001⟩]).1,
        x = none :=
  (fun h => ⟨h.2.2.1, h.2.2.2.2.2.2⟩)
    (C7_lru_eviction CanBusMultiFrameDecoder.zeroed zeroed_fresh
      ⟨CanBusExtendedId.create 1 34 1 0, ⟨[0x11, 0xB0, 0x1C, 0xE8, 0, 0, 0, 0x80], 8⟩, 1000⟩
      [⟨CanBusExtendedId.create 1 34 1 1, ⟨[0x11, 0xB0, 0x1C, 0xE8, 0, 0, 0, 0x80], 8⟩, 1001⟩,
       ⟨CanBusExtendedId.create 1 34 1 2, ⟨[0x11, 0xB0, 0x1C, 0xE8, 0, 0, 0, 0x80], 8⟩, 1002⟩,
       ⟨CanBusExtendedId.create 1 34 1 3, ⟨[0x11, 0xB0, 0x1C, 0xE8, 0, 0, 0, 0x80], 8⟩, 1003⟩,
       ⟨CanBusExtendedId.create 1 34 1 4, ⟨[0x11, 0xB0, 0x1C, 0xE8, 0, 0, 0, 0x80], 8⟩, 1004⟩,
       ⟨CanBusExtendedId.create 1 34 1 5, ⟨[0x11, 0xB0, 0x1C, 0xE8, 0, 0, 0, 0x80], 8⟩, 1005⟩,
       ⟨CanBusExtendedId.create 1 34 1 6, ⟨[0x11, 0xB0, 0x1C, 0xE8, 0, 0, 0, 0x80], 8⟩, 1006⟩,
       ⟨CanBusExtendedId.create 1 34 1 7, ⟨[0x11, 0xB0, 0x1C, 0xE8, 0, 0, 0, 0x80], 8⟩, 1007⟩]
      ⟨CanBusExtendedId.create 1 34 1 100, ⟨[0x11, 0xB0, 0x1C, 0xE8, 0, 0, 0, 0x80], 8⟩, 2000⟩
      [⟨CanBusExtendedId.create 1 34 1 0, ⟨[0, 0, 0, 0, 0, 0, 0, 0x20], 8⟩, 3000⟩,
       ⟨CanBusExtendedId.create 1 34 1 0, ⟨[0, 0, 0x40, 0, 0, 0, 0, 0], 3⟩, 3001⟩]
      (by decide) (by decide) (by decide) (by decide) (by decide) (by decide) (by decide))

/-- C8. Toggle policing. First part: in a decoder whose slot `i` is the first that holds a
multi-frame transfer in flight for id `X`, a frame with id `X` that is not SOT+EOT and whose
toggle bit differs from the toggle the slot expects returns none and leaves the decoder
(every slot: id, timestamp, stored CRC, buffer, `data_len`, occupancy) as it was. Second part:
when such a frame is injected into a multi-frame transfer of a message `v` after at least its
opening frame and before the frame `nxt` that is due, the decoder after the injected frame
is the decoder before it, and the remaining frames still complete the transfer: the call for
the last frame returns `v`. -/
theorem C8_toggle_policing :
    (∀ (d : CanBusMultiFrameDecoder) (X i : Nat) (frame_data : List Nat)
        (frame_len timestamp_us : Nat),
      i < CanBusMultiFrameDecoder.Q → (d.slot i).has_same_id X = true →
      (∀ j, j < i → (d.slot j).has_same_id X = false) →
      ¬ ((Frame.tail ⟨frame_data, frame_len⟩).start_of_transfer = true
          ∧ (Frame.tail ⟨frame_data, frame_len⟩).end_of_transfer = true) →
      (Frame.tail ⟨frame_data, frame_len⟩).toggle ≠ (d.slot i).expected_toggle_bit →
      d.process_frame X frame_data frame_len timestamp_us = (none, d)) ∧
    (∀ (v : CanBusMessage) (node_type node_id id : Nat) (mem : List Nat)
        (d : CanBusMultiFrameDecoder) (pre : List Rx) (nxt : Rx) (post : List Rx) (bad : Rx),
      v.valid → v.get_id node_type node_id = some id → 8 ≤ v.SIZE_BYTES →
      mem.length = CanBusMultiFrameEncoder.MAX_CAN_MESSAGE_SIZE → d.fresh →
      pre ≠ [] →
      (pre ++ nxt :: post).map Rx.frame = (CanBusMultiFrameEncoder.new mem v).frames →
      (∀ r ∈ pre ++ nxt :: post, r.frame_id = id) →
      bad.frame_id = id →
      ¬ (bad.frame.tail.start_of_transfer = true ∧ bad.frame.tail.end_of_transfer = true) →
      bad.frame.tail.toggle ≠ nxt.frame.tail.toggle →
      (d.run pre).2.process_frame bad.frame_id bad.frame.data bad.frame.len bad.timestamp_us
          = (none, (d.run pre).2)
        ∧ (d.run (pre ++ bad :: nxt :: post)).1.getLast?
          = some (some { id := id
                         crc := CanBusMultiFrameEncoder.calculate_crc v.serialized v.SIZE_BYTES
                         message := v })) := by
  constructor
  · intro d X i fd fl ts hi hsame hfirst hns htog
    exact process_frame_wrong_toggle d X i hi hsame hfirst fd fl ts
      (by
        unfold Frame.tail at hns
        cases h1 : (TailByte.from_byte (byte_at fd (fl - 1))).start_of_transfer <;>
          cases h2 : (TailByte.from_byte (byte_at fd (fl - 1))).end_of_transfer <;>
          simp_all)
      htog
  · intro v node_type node_id id mem d pre nxt post bad hv hid h8 hmem hd hpre hrx hids hbid
      hns htog
    have h36 := size_le_36 v
    have hmt := get_id_message_type v node_type node_id id hid
    have hm : v.SIZE_BYTES ≤ mem.length := by
      rw [hmem]; unfold CanBusMultiFrameEncoder.MAX_CAN_MESSAGE_SIZE; omega
    obtain ⟨s0, rest, rfl, hty, hlen, hrest⟩ := fresh_cons d hd
    have hidsP : ∀ r ∈ pre, r.frame_id = id := fun r hr => hids r (by simp [hr])
    have hP := run_slot0 id hmt rest hrest pre s0 hidsP (Or.inl hty)
    have hrx' := hrx
    rw [frames_of_long mem v hm h8] at hrx'
    obtain ⟨hty1, hid1, hnx⟩ := sm_transfer_prefix id _ (by simp [serialized_length]; omega)
      (by simp [serialized_length]; omega) s0 hty pre (nxt :: post) hpre
      (List.cons_ne_nil _ _) hrx' hidsP
    obtain ⟨htg, -⟩ := hnx nxt rfl
    have hns' : ((TailByte.from_byte (byte_at bad.frame.data (bad.frame.len - 1))).start_of_transfer
        && (TailByte.from_byte (byte_at bad.frame.data (bad.frame.len - 1))).end_of_transfer)
          = false := by
      unfold Frame.tail at hns
      cases h1 : (TailByte.from_byte (byte_at bad.frame.data (bad.frame.len - 1))).start_of_transfer <;>
        cases h2 : (TailByte.from_byte (byte_at bad.frame.data (bad.frame.len - 1))).end_of_transfer <;>
        simp_all
    have htog' : (TailByte.from_byte (byte_at bad.frame.data (bad.frame.len - 1))).toggle
        ≠ (s0.run pre).2.expected_toggle_bit := by
      rw [← htg]; exact htog
    have hbad := sm_wrong_toggle (s0.run pre).2 id bad.frame.data bad.frame.len bad.timestamp_us
      hty1 hid1 hns' htog'
    constructor
    · rw [hP, hbid]
      exact process_frame_wrong_toggle ⟨(s0.run pre).2 :: rest⟩ id 0 (by decide)
        ((has_same_id_iff _ _).mpr ⟨hty1, hid1⟩) (fun j hj => absurd hj (Nat.not_lt_zero j))
        _ _ _ hns' htog'
    · have hidsL : ∀ r ∈ pre ++ bad :: nxt :: post, r.frame_id = id := by
        intro r hr
        simp only [List.mem_append, List.mem_cons] at hr
        rcases hr with hr | hr | hr | hr
        · exact hids r (by simp [hr])
        · rw [hr]; exact hbid
        · rw [hr]; exact hids nxt (by simp)
        · exact hids r (by simp [hr])
      rw [run_slot0 id hmt rest hrest _ s0 hidsL (Or.inl hty)]
      have hbase := sm_roundtrip_long v hv node_type node_id id hid h8 mem hm s0 hty hlen _ hrx
        hids
      rw [sm_run_append, sm_run_cons] at hbase
      rw [sm_run_append, sm_run_cons, hbid, hbad, sm_run_cons]
      simp only [List.getLast?_append_cons, List.getLast?_cons_cons] at hbase ⊢
      exact hbase

set_option maxRecDepth 100000 in
/-- C8 at concrete inputs. First part: slot 0 holds the transfer of id `0x1488A014` with five
bytes received, so it expects toggle 1; a frame with tail `0x00` is dropped. Second part: the
three frames of PayloadEPSStatus with `battery1_mv = 7400`, with a frame of tail `0x00`
injected after the first. -/
theorem C8_toggle_policing_witness :
    CanBusMultiFrameDecoder.process_frame
        { state_machines :=
            { type := SlotType.MultiFrame
              multi_frame := { id := 0x1488A014, first_frame_timestamp_us := 1000, crc := 0xB011,
                               data := List.replicate 256 0, data_len := 5 } }
              :: List.replicate 7
                { type := SlotType.Empty
                  multi_frame := { id := 0, first_frame_timestamp_us := 0, crc := 0,
                                   data := List.replicate 256 0, data_len := 0 } } }
        0x1488A014 [1, 2, 3, 4, 5, 6, 7, 0x00] 8 2000
      = (none,
        { state_machines :=
            { type := SlotType.MultiFrame
              multi_frame := { id := 0x1488A014, first_frame_timestamp_us := 1000, crc := 0xB011,
                               data := List.replicate 256 0, data_len := 5 } }
              :: List.replicate 7
                { type := SlotType.Empty
                  multi_frame := { id := 0, first_frame_timestamp_us := 0, crc := 0,
                                   data := List.replicate 256 0, data_len := 0 } } })
    ∧ (CanBusMultiFrameDecoder.zeroed.run
          ([⟨0x1488A014, ⟨[0x11, 0xB0, 0x1C, 0xE8, 0, 0, 0, 0x80], 8⟩, 1000⟩]
            ++ ⟨0x1488A014, ⟨[0xAA, 0xBB, 0xCC, 0, 0, 0, 0, 0x00], 8⟩, 1001⟩
              :: ⟨0x1488A014, ⟨[0, 0, 0, 0, 0, 0, 0, 0x20], 8⟩, 1002⟩
              :: [⟨0x1488A014, ⟨[0, 0, 0x40, 0, 0, 0, 0, 0], 3⟩, 1003⟩])).1.getLast?
        = some (some { id := 0x1488A014
                       crc := CanBusMultiFrameEncoder.calculate_crc
                         (CanBusMessage.PayloadEPSStatus
                           ⟨7400, 0, 0, 0, ⟨0, false, 0⟩, ⟨0, false, 0⟩, ⟨0, false, 0⟩⟩).serialized
                         (CanBusMessage.PayloadEPSStatus
                           ⟨7400, 0, 0, 0, ⟨0, false, 0⟩, ⟨0, false, 0⟩, ⟨0, false, 0⟩⟩).SIZE_BYTES
                       message := .PayloadEPSStatus
                         ⟨7400, 0, 0, 0, ⟨0, false, 0⟩, ⟨0, false, 0⟩, ⟨0, false, 0⟩⟩ }) :=
  ⟨C8_toggle_policing.1 _ 0x1488A014 0 [1, 2, 3, 4, 5, 6, 7, 0x00] 8 2000 (by decide) (by decide)
      (fun j hj => absurd hj (Nat.not_lt_zero j)) (by decide) (by decide),
   (C8_toggle_policing.2
      (.PayloadEPSStatus ⟨7400, 0, 0, 0, ⟨0, false, 0⟩, ⟨0, false, 0⟩, ⟨0, false, 0⟩⟩)
      10 20 0x1488A014 (List.replicate 64 0) CanBusMultiFrameDecoder.zeroed
      [⟨0x1488A014, ⟨[0x11, 0xB0, 0x1C, 0xE8, 0, 0, 0, 0x80], 8⟩, 1000⟩]
      ⟨0x1488A014, ⟨[0, 0, 0, 0, 0, 0, 0, 0x20], 8⟩, 1002⟩
      [⟨0x1488A014, ⟨[0, 0, 0x40, 0, 0, 0, 0, 0], 3⟩, 1003⟩]
      ⟨0x1488A014, ⟨[0xAA, 0xBB, 0xCC, 0, 0, 0, 0, 0x00], 8⟩, 1001⟩
      (by decide) (by decide) (by decide) (by decide) zeroed_fresh (by decide) (by decide)
      (by decide) rfl (by decide) (by decide)).2⟩

set_option maxRecDepth 100000 in
/-- C9 (as stated, refuted). For PayloadEPSStatus with `battery1_mv = 7400` and every other
field zero the frames are not `[crc_lo, crc_hi, 0x1C, 0xE8, 0, 0, 0, 0xA0]`, bytes 5..12 with
tail `0x20`, bytes 12..14 with tail `0x60`: the toggle bit is clear in the first and in the
third tail byte. -/
theorem C9_s2_frames_counterexample :
    ((CanBusMultiFrameEncoder.new (List.replicate 64 0)
        (.PayloadEPSStatus ⟨7400, 0, 0, 0, ⟨0, false, 0⟩, ⟨0, false, 0⟩, ⟨0, false, 0⟩⟩)).frames.map
      (fun f => f.data.take f.len))
      ≠ [[(CanBusMultiFrameEncoder.new (List.replicate 64 0)
            (.PayloadEPSStatus
              ⟨7400, 0, 0, 0, ⟨0, false, 0⟩, ⟨0, false, 0⟩, ⟨0, false, 0⟩⟩)).get_crc &&& 0xFF,
          ((CanBusMultiFrameEncoder.new (List.replicate 64 0)
            (.PayloadEPSStatus
              ⟨7400, 0, 0, 0, ⟨0, false, 0⟩, ⟨0, false, 0⟩, ⟨0, false, 0⟩⟩)).get_crc >>> 8)
            &&& 0xFF,
          0x1C, 0xE8, 0x00, 0x00, 0x00, 0xA0],
         ((CanBusMessage.PayloadEPSStatus
            ⟨7400, 0, 0, 0, ⟨0, false, 0⟩, ⟨0, false, 0⟩, ⟨0, false, 0⟩⟩).serialized.drop 5).take 7
           ++ [0x20],
         ((CanBusMessage.PayloadEPSStatus
            ⟨7400, 0, 0, 0, ⟨0, false, 0⟩, ⟨0, false, 0⟩, ⟨0, false, 0⟩⟩).serialized.drop 12).take 2
           ++ [0x60]] := by
  decide

set_option maxRecDepth 100000 in
/-- C9 (amended). For PayloadEPSStatus with `battery1_mv = 7400` and every other field zero
the encoder emits exactly three frames: `[crc_lo, crc_hi, 0x1C, 0xE8, 0, 0, 0, 0x80]`, then
serialized bytes 5..12 with tail `0x20`, then serialized bytes 12..14 with tail `0x40`. -/
theorem C9_s2_frames (mem : List Nat)
    (hmem : mem.length = CanBusMultiFrameEncoder.MAX_CAN_MESSAGE_SIZE) :
    ((CanBusMultiFrameEncoder.new mem
        (.PayloadEPSStatus ⟨7400, 0, 0, 0, ⟨0, false, 0⟩, ⟨0, false, 0⟩, ⟨0, false, 0⟩⟩)).frames.map
      (fun f => f.data.take f.len))
      = [[(CanBusMultiFrameEncoder.new mem
            (.PayloadEPSStatus
              ⟨7400, 0, 0, 0, ⟨0, false, 0⟩, ⟨0, false, 0⟩, ⟨0, false, 0⟩⟩)).get_crc &&& 0xFF,
          ((CanBusMultiFrameEncoder.new mem
            (.PayloadEPSStatus
              ⟨7400, 0, 0, 0, ⟨0, false, 0⟩, ⟨0, false, 0⟩, ⟨0, false, 0⟩⟩)).get_crc >>> 8)
            &&& 0xFF,
          0x1C, 0xE8, 0x00, 0x00, 0x00, 0x80],
         ((CanBusMessage.PayloadEPSStatus
            ⟨7400, 0, 0, 0, ⟨0, false, 0⟩, ⟨0, false, 0⟩, ⟨0, false, 0⟩⟩).serialized.drop 5).take 7
           ++ [0x20],
         ((CanBusMessage.PayloadEPSStatus
            ⟨7400, 0, 0, 0, ⟨0, false, 0⟩, ⟨0, false, 0⟩, ⟨0, false, 0⟩⟩).serialized.drop 12).take 2
           ++ [0x40]] := by
  have hm : (CanBusMessage.PayloadEPSStatus
      ⟨7400, 0, 0, 0, ⟨0, false, 0⟩, ⟨0, false, 0⟩, ⟨0, false, 0⟩⟩).SIZE_BYTES ≤ mem.length := by
    rw [hmem]; decide
  rw [frames_of_long mem _ hm (by decide), CanBusMultiFrameEncoder.get_crc, new_crc mem _ hm]
  decide

set_option maxRecDepth 100000 in
/-- C9 (amended), on a zeroed encoder buffer, with the bytes written out. -/
theorem C9_s2_frames_witness :
    ((CanBusMultiFrameEncoder.new (List.replicate 64 0)
        (.PayloadEPSStatus ⟨7400, 0, 0, 0, ⟨0, false, 0⟩, ⟨0, false, 0⟩, ⟨0, false, 0⟩⟩)).frames.map
      (fun f => f.data.take f.len))
      = [[0x11, 0xB0, 0x1C, 0xE8, 0x00, 0x00, 0x00, 0x80],
         [0x00, 0x00, 0x00, 0x00, 0x00, 0x00, 0x00, 0x20],
         [0x00, 0x00, 0x40]] :=
  (C9_s2_frames (List.replicate 64 0) (by decide)).trans (by decide)

/-- C10. Single-frame transfer: for a message whose `SIZE_BYTES` is between 1 and 7, the first
`next()` of a new encoder returns a frame of length `SIZE_BYTES + 1` whose first `SIZE_BYTES`
bytes are the serialized message and whose last byte is `0xC0`, which is the tail byte
`SOT = 1, EOT = 1, toggle = 0`; afterwards `has_next()` is false and the toggle of the encoder
is still false. -/
theorem C10_single_frame (v : CanBusMessage) (mem : List Nat)
    (hmem : mem.length = CanBusMultiFrameEncoder.MAX_CAN_MESSAGE_SIZE)
    (h1 : 1 ≤ v.SIZE_BYTES) (h7 : v.SIZE_BYTES ≤ 7) :
    ((CanBusMultiFrameEncoder.new mem v).next).1.len = v.SIZE_BYTES + 1
      ∧ ((CanBusMultiFrameEncoder.new mem v).next).1.data.take v.SIZE_BYTES = v.serialized
      ∧ byte_at ((CanBusMultiFrameEncoder.new mem v).next).1.data v.SIZE_BYTES = 0xC0
      ∧ TailByte.from_byte 0xC0 = ⟨true, true, false⟩
      ∧ ((CanBusMultiFrameEncoder.new mem v).next).2.has_next = false
      ∧ ((CanBusMultiFrameEncoder.new mem v).next).2.toggle = false := by
  have hm : v.SIZE_BYTES ≤ mem.length := by
    rw [hmem]; unfold CanBusMultiFrameEncoder.MAX_CAN_MESSAGE_SIZE; omega
  have hsl : v.serialized.length ≤ 7 := by rw [serialized_length]; exact h7
  rw [next_single _ rfl (by rw [new_message_len]; exact h7)
    (by rw [new_message_len, new_serialized_message mem v hm]; simp [serialized_length]),
    new_message_len, take_serialized_message mem v hm]
  refine ⟨by rw [mkframe_len, serialized_length], ?_, ?_, by decide, ?_, rfl⟩
  · apply ext_byte_at
    · rw [List.length_take, mkframe_data_length, serialized_length]; omega
    · intro i hi
      rw [List.length_take, mkframe_data_length] at hi
      rw [byte_at_take, byte_at_mkframe _ _ hsl, serialized_length, if_pos (by omega),
        if_pos (by omega)]
  · rw [byte_at_mkframe _ _ hsl, serialized_length, if_neg (Nat.lt_irrefl _), if_pos rfl]
    rfl
  · simp [CanBusMultiFrameEncoder.has_next]

set_option maxRecDepth 100000 in
/-- C10 at `NodeStatus{uptime_s = 10, Healthy, Maintenance, custom_status_raw = 0}`: the frame is
`[0x00, 0x00, 0x0A, 0x20, 0x00, 0xC0]`. -/
theorem C10_single_frame_witness :
    (((CanBusMultiFrameEncoder.new (List.replicate 64 0)
          (.NodeStatus ⟨10, NodeHealth.Healthy, NodeMode.Maintenance, 0⟩)).next).1.len = 5 + 1
      ∧ ((CanBusMultiFrameEncoder.new (List.replicate 64 0)
          (.NodeStatus ⟨10, NodeHealth.Healthy, NodeMode.Maintenance, 0⟩)).next).1.data.take 5
          = [0x00, 0x00, 0x0A, 0x20, 0x00]
      ∧ byte_at ((CanBusMultiFrameEncoder.new (List.replicate 64 0)
          (.NodeStatus ⟨10, NodeHealth.Healthy, NodeMode.Maintenance, 0⟩)).next).1.data 5 = 0xC0
      ∧ TailByte.from_byte 0xC0 = ⟨true, true, false⟩
      ∧ ((CanBusMultiFrameEncoder.new (List.replicate 64 0)
          (.NodeStatus ⟨10, NodeHealth.Healthy, NodeMode.Maintenance, 0⟩)).next).2.has_next = false
      ∧ ((CanBusMultiFrameEncoder.new (List.replicate 64 0)
          (.NodeStatus ⟨10, NodeHealth.Healthy, NodeMode.Maintenance, 0⟩)).next).2.toggle = false)
    ∧ ((CanBusMultiFrameEncoder.new (List.replicate 64 0)
          (.NodeStatus ⟨10, NodeHealth.Healthy, NodeMode.Maintenance, 0⟩)).next).1.data.take 6
        = [0x00, 0x00, 0x0A, 0x20, 0x00, 0xC0] :=
  ⟨C10_single_frame (.NodeStatus ⟨10, NodeHealth.Healthy, NodeMode.Maintenance, 0⟩)
    (List.replicate 64 0) (by decide) (by decide) (by decide), by decide⟩

/-- C11. Multi-frame layout: for a message with `SIZE_BYTES = L >= 8` the loop
`while (has_next()) next()` ends, and the frames it emits are `first :: rest` where `first` has
length 8 and carries in bytes 0..1 the CRC-16/CCITT-FALSE of the serialized message, low byte
first; bytes 2..6 of `first` followed by the non-tail bytes of the frames of `rest` are exactly
the `L` serialized bytes; every frame has length between 2 and 8, and every frame except the
last has length 8. -/
theorem C11_multi_frame_layout (v : CanBusMessage) (h8 : 8 ≤ v.SIZE_BYTES)
    (mem : List Nat) (hmem : mem.length = CanBusMultiFrameEncoder.MAX_CAN_MESSAGE_SIZE) :
    (CanBusMultiFrameEncoder.drain (CanBusMultiFrameEncoder.new mem v).message_len
        (CanBusMultiFrameEncoder.new mem v)).2.has_next = false ∧
    (∃ (first : Frame) (rest : List Frame),
      (CanBusMultiFrameEncoder.new mem v).frames = first :: rest ∧
      first.len = 8 ∧
      byte_at first.data 0 = crc16_ccitt_false v.serialized % 256 ∧
      byte_at first.data 1 = crc16_ccitt_false v.serialized / 256 ∧
      crc16_ccitt_false v.serialized < 2 ^ 16 ∧
      (first.data.take 7).drop 2 ++ (rest.map Frame.payload).flatten = v.serialized ∧
      v.serialized.length = v.SIZE_BYTES) ∧
    (∀ f ∈ (CanBusMultiFrameEncoder.new mem v).frames, 2 ≤ f.len ∧ f.len ≤ 8) ∧
    (∀ (k : Nat) (f : Frame), (CanBusMultiFrameEncoder.new mem v).frames[k]? = some f →
      k + 1 < (CanBusMultiFrameEncoder.new mem v).frames.length → f.len = 8) := by
  have h36 := size_le_36 v
  have hsl := serialized_length v
  have hm : v.SIZE_BYTES ≤ mem.length := by
    rw [hmem]; unfold CanBusMultiFrameEncoder.MAX_CAN_MESSAGE_SIZE; omega
  have hc := calculate_crc_lt v.serialized v.SIZE_BYTES
  have hfr := frames_of_long mem v hm h8
  have hlo : (CanBusMultiFrameEncoder.calculate_crc v.serialized v.SIZE_BYTES &&& 0xFF) % 256
      = CanBusMultiFrameEncoder.calculate_crc v.serialized v.SIZE_BYTES % 256 := by
    rw [and_0xFF, Nat.mod_mod]
  have hhi : ((CanBusMultiFrameEncoder.calculate_crc v.serialized v.SIZE_BYTES >>> 8) &&& 0xFF)
      % 256 = CanBusMultiFrameEncoder.calculate_crc v.serialized v.SIZE_BYTES / 256 := by
    rw [and_0xFF, Nat.mod_mod, Nat.shiftRight_eq_div_pow]
    have e : (2 : Nat) ^ 8 = 256 := by decide
    rw [e]
    omega
  rw [hlo, hhi] at hfr
  rw [calculate_crc_serialized] at hfr hc
  generalize crc16_ccitt_false v.serialized = c at hfr hc ⊢
  have hw : 8 ≤ (c % 256 :: c / 256 :: v.serialized).length := by
    simp only [List.length_cons]; omega
  refine ⟨drain_finishes _ _ (Nat.sub_le _ _), ?_, ?_, ?_⟩
  · rw [hfr]
    have hlt : ((c % 256 :: c / 256 :: v.serialized).take 7).length = 7 := by
      rw [List.length_take]; omega
    have hpay := payload_mkframe ((c % 256 :: c / 256 :: v.serialized).take 7)
      ⟨true, false, false⟩ (by omega)
    unfold Frame.payload at hpay
    rw [mkframe_len, hlt, Nat.add_sub_cancel] at hpay
    unfold transfer_frames cont_frames
    refine ⟨_, _, rfl, by rw [mkframe_len, hlt], ?_, ?_, hc, ?_, hsl⟩
    · rw [byte_at_mkframe _ _ (by omega), if_pos (by omega), byte_at_take, if_pos (by omega)]
      rfl
    · rw [byte_at_mkframe _ _ (by omega), if_pos (by omega), byte_at_take, if_pos (by omega)]
      rfl
    · rw [hpay, cont_frames_payload _ _ _ (Nat.le_refl _)]
      simp only [List.take_succ_cons, List.drop_succ_cons, List.drop_zero]
      exact List.take_append_drop 5 v.serialized
  · intro f hf
    rw [hfr] at hf
    obtain ⟨k, hk⟩ := List.getElem?_of_mem hf
    obtain ⟨h2, h8', -, -⟩ := transfer_frames_shape _ hw k f hk
    exact ⟨h2, h8'⟩
  · intro k f hf hk
    rw [hfr] at hf hk
    exact (transfer_frames_shape _ hw k f hf).2.2.1 hk

set_option maxRecDepth 100000 in
/-- C11 on PayloadEPSStatus with `battery1_mv = 7400` and a zeroed encoder buffer: the 14
serialized bytes `1C E8 00 ..` have the CRC-16 `0xB011`, the three frames have lengths 8, 8
and 3, and the first frame starts with the bytes `0x11`, `0xB0` of the CRC. -/
theorem C11_multi_frame_layout_witness :
    (CanBusMultiFrameEncoder.drain
        (CanBusMultiFrameEncoder.new (List.replicate 64 0)
          (.PayloadEPSStatus
            ⟨7400, 0, 0, 0, ⟨0, false, 0⟩, ⟨0, false, 0⟩, ⟨0, false, 0⟩⟩)).message_len
        (CanBusMultiFrameEncoder.new (List.replicate 64 0)
          (.PayloadEPSStatus
            ⟨7400, 0, 0, 0, ⟨0, false, 0⟩, ⟨0, false, 0⟩, ⟨0, false, 0⟩⟩))).2.has_next = false
    ∧ (∃ (first : Frame) (rest : List Frame),
        (CanBusMultiFrameEncoder.new (List.replicate 64 0)
          (.PayloadEPSStatus
            ⟨7400, 0, 0, 0, ⟨0, false, 0⟩, ⟨0, false, 0⟩, ⟨0, false, 0⟩⟩)).frames
          = first :: rest
        ∧ first.len = 8
        ∧ byte_at first.data 0 = 0x11
        ∧ byte_at first.data 1 = 0xB0
        ∧ (first.data.take 7).drop 2 ++ (rest.map Frame.payload).flatten
            = [0x1C, 0xE8, 0, 0, 0, 0, 0, 0, 0, 0, 0, 0, 0, 0])
    ∧ crc16_ccitt_false [0x1C, 0xE8, 0, 0, 0, 0, 0, 0, 0, 0, 0, 0, 0, 0] = 0xB011
    ∧ ((CanBusMultiFrameEncoder.new (List.replicate 64 0)
          (.PayloadEPSStatus
            ⟨7400, 0, 0, 0, ⟨0, false, 0⟩, ⟨0, false, 0⟩, ⟨0, false, 0⟩⟩)).frames.map
        Frame.len) = [8, 8, 3]
    ∧ ∀ f ∈ (CanBusMultiFrameEncoder.new (List.replicate 64 0)
          (.PayloadEPSStatus
            ⟨7400, 0, 0, 0, ⟨0, false, 0⟩, ⟨0, false, 0⟩, ⟨0, false, 0⟩⟩)).frames,
        2 ≤ f.len ∧ f.len ≤ 8 := by
  have hs : (CanBusMessage.PayloadEPSStatus
      ⟨7400, 0, 0, 0, ⟨0, false, 0⟩, ⟨0, false, 0⟩, ⟨0, false, 0⟩⟩).serialized
        = [0x1C, 0xE8, 0, 0, 0, 0, 0, 0, 0, 0, 0, 0, 0, 0] := by decide
  have hc : crc16_ccitt_false [0x1C, 0xE8, 0, 0, 0, 0, 0, 0, 0, 0, 0, 0, 0, 0] = 0xB011 := by
    decide
  have h := C11_multi_frame_layout
    (.PayloadEPSStatus ⟨7400, 0, 0, 0, ⟨0, false, 0⟩, ⟨0, false, 0⟩, ⟨0, false, 0⟩⟩)
    (by decide) (List.replicate 64 0) (by decide)
  obtain ⟨h1, ⟨first, rest, hfr, hl, h0, hb1, -, hcat, -⟩, h3, -⟩ := h
  rw [hs, hc] at h0 hb1
  rw [hs] at hcat
  exact ⟨h1, ⟨first, rest, hfr, hl, h0, hb1, hcat⟩, hc, by decide, h3⟩

/-- C12. Tail bytes of a multi-frame transfer: for a message of at least eight bytes the
encoder emits at least two frames, and the tail byte of the `k`-th frame (`k = 0, 1, 2, ...`)
has the toggle bit equal to (`k` is odd), `start_of_transfer` exactly on frame 0,
`end_of_transfer` exactly on the last frame, and its low 5 bits zero. -/
theorem C12_tail_bytes (v : CanBusMessage) (h8 : 8 ≤ v.SIZE_BYTES)
    (mem : List Nat) (hmem : mem.length = CanBusMultiFrameEncoder.MAX_CAN_MESSAGE_SIZE)
    (k : Nat) (f : Frame) (hf : (CanBusMultiFrameEncoder.new mem v).frames[k]? = some f) :
    2 ≤ (CanBusMultiFrameEncoder.new mem v).frames.length ∧
    f.tail.toggle = decide (k % 2 = 1) ∧
    f.tail.start_of_transfer = decide (k = 0) ∧
    f.tail.end_of_transfer = decide (k + 1 = (CanBusMultiFrameEncoder.new mem v).frames.length) ∧
    byte_at f.data (f.len - 1) &&& 0x1F = 0 := by
  have h36 := size_le_36 v
  have hsl := serialized_length v
  have hm : v.SIZE_BYTES ≤ mem.length := by
    rw [hmem]; unfold CanBusMultiFrameEncoder.MAX_CAN_MESSAGE_SIZE; omega
  have hw : 8 ≤ ((CanBusMultiFrameEncoder.calculate_crc v.serialized v.SIZE_BYTES &&& 0xFF) % 256
      :: ((CanBusMultiFrameEncoder.calculate_crc v.serialized v.SIZE_BYTES >>> 8) &&& 0xFF) % 256
      :: v.serialized).length := by
    simp only [List.length_cons]; omega
  rw [frames_of_long mem v hm h8] at hf ⊢
  obtain ⟨-, -, -, htail⟩ := transfer_frames_shape _ hw k f hf
  unfold Frame.tail
  rw [htail, from_byte_to_byte, to_byte_low_bits]
  exact ⟨transfer_frames_length _ hw, rfl, rfl, rfl, rfl⟩

set_option maxRecDepth 100000 in
/-- C12 on the second of the three frames of PayloadEPSStatus with `battery1_mv = 7400`: its
tail byte `0x20` has the toggle bit only. -/
theorem C12_tail_bytes_witness :
    2 ≤ (CanBusMultiFrameEncoder.new (List.replicate 64 0)
          (.PayloadEPSStatus
            ⟨7400, 0, 0, 0, ⟨0, false, 0⟩, ⟨0, false, 0⟩, ⟨0, false, 0⟩⟩)).frames.length
    ∧ (Frame.tail ⟨[0, 0, 0, 0, 0, 0, 0, 0x20], 8⟩).toggle = true
    ∧ (Frame.tail ⟨[0, 0, 0, 0, 0, 0, 0, 0x20], 8⟩).start_of_transfer = false
    ∧ (Frame.tail ⟨[0, 0, 0, 0, 0, 0, 0, 0x20], 8⟩).end_of_transfer = false
    ∧ byte_at [0, 0, 0, 0, 0, 0, 0, 0x20] (8 - 1) &&& 0x1F = 0 :=
  (fun h => ⟨h.1, h.2.1.trans (by decide), h.2.2.1.trans (by decide),
      h.2.2.2.1.trans (by decide), h.2.2.2.2⟩)
    (C12_tail_bytes
      (.PayloadEPSStatus ⟨7400, 0, 0, 0, ⟨0, false, 0⟩, ⟨0, false, 0⟩, ⟨0, false, 0⟩⟩)
      (by decide) (List.replicate 64 0) (by decide) 1 ⟨[0, 0, 0, 0, 0, 0, 0, 0x20], 8⟩
      (by decide))

/-- C13. Log channel: for every decoder state, every frame content, length and timestamp, and
every id with `(id >> 18) & 0xFF == 255`, `CanBusMultiFrameDecoder::process_frame` returns none
and the decoder (all of its slots) is as it was. -/
theorem C13_log_channel_ignored (d : CanBusMultiFrameDecoder) (frame_id : Nat)
    (frame_data : List Nat) (frame_len timestamp_us : Nat)
    (h : (frame_id >>> 18) &&& 0xFF = 255) :
    d.process_frame frame_id frame_data frame_len timestamp_us = (none, d) := by
  unfold CanBusMultiFrameDecoder.process_frame
  exact if_pos h

/-- C13 on a decoder with a transfer in flight in slot 0, for the id `0x1BFCA014` (priority 6,
message type 255, node type 10, node id 20) and an opening frame. -/
theorem C13_log_channel_ignored_witness :
    CanBusMultiFrameDecoder.process_frame
        { state_machines :=
            { type := SlotType.MultiFrame
              multi_frame := { id := 0x1488A014, first_frame_timestamp_us := 1000, crc := 0xB011,
                               data := List.replicate 256 0, data_len := 5 } }
              :: List.replicate 7
                { type := SlotType.Empty
                  multi_frame := { id := 0, first_frame_timestamp_us := 0, crc := 0,
                                   data := List.replicate 256 0, data_len := 0 } } }
        0x1BFCA014 [0x11, 0xB0, 0x1C, 0xE8, 0, 0, 0, 0x80] 8 2000
      = (none,
        { state_machines :=
            { type := SlotType.MultiFrame
              multi_frame := { id := 0x1488A014, first_frame_timestamp_us := 1000, crc := 0xB011,
                               data := List.replicate 256 0, data_len := 5 } }
              :: List.replicate 7
                { type := SlotType.Empty
                  multi_frame := { id := 0, first_frame_timestamp_us := 0, crc := 0,
                                   data := List.replicate 256 0, data_len := 0 } } }) :=
  C13_log_channel_ignored _ 0x1BFCA014 [0x11, 0xB0, 0x1C, 0xE8, 0, 0, 0, 0x80] 8 2000
    (by decide)

/-- C14 (holds for a payload of at least `SIZE_BYTES` bytes; the code departs from it on a
shorter one). Single-frame case: for every decoder state and every frame of length at least 1
whose tail has SOT and EOT both set, the decoder (every slot, also one that holds a transfer in
flight for the same id, also the LRU slot) is left as it was; with the toggle bit set the result
is none; with an unknown message type the result is none. With the payload
`frame[0 .. len-1)` at least as long as `SIZE_BYTES` of the message type the result is
`Some(id, CRC-16(frame[0 .. len-1)), decode(type, frame[0 .. len-1)))`, the CRC being
CRC-16/CCITT-FALSE. In every case the code calls `decode` on the whole frame buffer with no
length check, so for a shorter payload the message is built from the tail byte and from the
cells after the frame as well. -/
theorem C14_single_frame_case (d : CanBusMultiFrameDecoder) (frame_id : Nat)
    (frame_data : List Nat) (frame_len timestamp_us : Nat) (hlen : 1 ≤ frame_len)
    (hfd : frame_len ≤ frame_data.length)
    (hs : (Frame.tail ⟨frame_data, frame_len⟩).start_of_transfer = true)
    (he : (Frame.tail ⟨frame_data, frame_len⟩).end_of_transfer = true) :
    (d.process_frame frame_id frame_data frame_len timestamp_us).2 = d ∧
    ((Frame.tail ⟨frame_data, frame_len⟩).toggle = true →
      (d.process_frame frame_id frame_data frame_len timestamp_us).1 = none) ∧
    ((Frame.tail ⟨frame_data, frame_len⟩).toggle = false →
      (decode ((frame_id >>> 18) &&& 0xFF) (Frame.payload ⟨frame_data, frame_len⟩) = none →
        (d.process_frame frame_id frame_data frame_len timestamp_us).1 = none) ∧
      (∀ v : CanBusMessage, v.MESSAGE_TYPE = some ((frame_id >>> 18) &&& 0xFF) →
        v.SIZE_BYTES ≤ frame_len - 1 →
        (∃ m, decode ((frame_id >>> 18) &&& 0xFF) (Frame.payload ⟨frame_data, frame_len⟩)
            = some m) ∧
        (d.process_frame frame_id frame_data frame_len timestamp_us).1
          = (decode ((frame_id >>> 18) &&& 0xFF) (Frame.payload ⟨frame_data, frame_len⟩)).map
              (fun m => { id := frame_id
                          crc := crc16_ccitt_false (Frame.payload ⟨frame_data, frame_len⟩)
                          message := m })) ∧
      (∀ m, decode ((frame_id >>> 18) &&& 0xFF) frame_data = some m →
        (d.process_frame frame_id frame_data frame_len timestamp_us).1
          = some { id := frame_id
                   crc := crc16_ccitt_false (Frame.payload ⟨frame_data, frame_len⟩)
                   message := m })) := by
  unfold Frame.tail at hs he ⊢
  unfold Frame.payload
  simp only at hs he ⊢
  rw [process_frame_single d frame_id frame_data frame_len timestamp_us (by omega) hs he]
  have hcrc := sm_calculate_crc_take frame_data (frame_len - 1) (by omega)
  refine ⟨rfl, ?_, ?_⟩
  · intro ht
    simp only [ht, if_true]
  · intro ht
    simp only [ht, Bool.false_eq_true, if_false, hcrc]
    refine ⟨?_, ?_, ?_⟩
    · intro hn
      cases hdec : decode ((frame_id >>> 18) &&& 0xFF) frame_data with
      | none => rfl
      | some m =>
        obtain ⟨m', hm'⟩ := decode_some_of_type m _ (decode_message_type _ _ _ hdec)
          (frame_data.take (frame_len - 1))
        rw [hm'] at hn
        cases hn
    · intro v hv hsz
      rw [decode_take v _ hv frame_data (frame_len - 1) hsz]
      exact ⟨decode_some_of_type v _ hv frame_data, rfl⟩
    · intro m hm
      rw [hm]
      rfl

set_option maxRecDepth 100000 in
/-- C14 at three frames of the id `0x1480A014` (message type 32, `NodeStatus`, 5 bytes)
received by a zeroed decoder. The full frame `[00 00 0A 20 00 C0]` (5 payload bytes) returns
`NodeStatus{10, Healthy, Maintenance, 0}` with the CRC-16 `0xD02B` of its payload. The frame
`[00 00 0A C0]` of length 4 has the 3 payload bytes `00 00 0A` (CRC-16 `0x6DD6`); the code
returns `NodeStatus` with `health = 3`, taken from the tail byte `0xC0`, and with
`custom_status_raw = 127` or `0` according to the cell that follows the frame in the buffer
(`0xFF` or `0x00`): two results for one and the same frame. -/
theorem C14_single_frame_case_witness :
    (CanBusMultiFrameDecoder.zeroed.process_frame 0x1480A014
        [0x00, 0x00, 0x0A, 0x20, 0x00, 0xC0, 0, 0] 6 2000).1
      = some ⟨0x1480A014, 0xD02B,
          .NodeStatus ⟨10, NodeHealth.Healthy, NodeMode.Maintenance, 0⟩⟩
    ∧ Frame.payload ⟨[0x00, 0x00, 0x0A, 0x20, 0x00, 0xC0, 0, 0], 6⟩ = [0x00, 0x00, 0x0A, 0x20, 0x00]
    ∧ NodeStatusMessage.SIZE_BYTES = 5
    ∧ Frame.payload ⟨[0x00, 0x00, 0x0A, 0xC0, 0xFF, 0, 0, 0], 4⟩ = [0x00, 0x00, 0x0A]
    ∧ Frame.payload ⟨[0x00, 0x00, 0x0A, 0xC0, 0x00, 0, 0, 0], 4⟩ = [0x00, 0x00, 0x0A]
    ∧ [0x00, 0x00, 0x0A, 0xC0, 0xFF, 0, 0, 0].take 4 = [0x00, 0x00, 0x0A, 0xC0, 0x00, 0, 0, 0].take 4
    ∧ (CanBusMultiFrameDecoder.zeroed.process_frame 0x1480A014
        [0x00, 0x00, 0x0A, 0xC0, 0xFF, 0, 0, 0] 4 2000).1
      = some ⟨0x1480A014, 0x6DD6, .NodeStatus ⟨10, 3, 0, 127⟩⟩
    ∧ (CanBusMultiFrameDecoder.zeroed.process_frame 0x1480A014
        [0x00, 0x00, 0x0A, 0xC0, 0x00, 0, 0, 0] 4 2000).1
      = some ⟨0x1480A014, 0x6DD6, .NodeStatus ⟨10, 3, 0, 0⟩⟩
    ∧ (CanBusMultiFrameDecoder.zeroed.process_frame 0x1480A014
        [0x00, 0x00, 0x0A, 0xC0, 0xFF, 0, 0, 0] 4 2000).2 = CanBusMultiFrameDecoder.zeroed := by
  have hfull := C14_single_frame_case CanBusMultiFrameDecoder.zeroed 0x1480A014
    [0x00, 0x00, 0x0A, 0x20, 0x00, 0xC0, 0, 0] 6 2000 (by decide) (by decide) (by decide)
    (by decide)
  have ha := C14_single_frame_case CanBusMultiFrameDecoder.zeroed 0x1480A014
    [0x00, 0x00, 0x0A, 0xC0, 0xFF, 0, 0, 0] 4 2000 (by decide) (by decide) (by decide)
    (by decide)
  have hb := C14_single_frame_case CanBusMultiFrameDecoder.zeroed 0x1480A014
    [0x00, 0x00, 0x0A, 0xC0, 0x00, 0, 0, 0] 4 2000 (by decide) (by decide) (by decide)
    (by decide)
  have hp6 : Frame.payload ⟨[0x00, 0x00, 0x0A, 0x20, 0x00, 0xC0, 0, 0], 6⟩
      = [0x00, 0x00, 0x0A, 0x20, 0x00] := by decide
  have hpa : Frame.payload ⟨[0x00, 0x00, 0x0A, 0xC0, 0xFF, 0, 0, 0], 4⟩ = [0x00, 0x00, 0x0A] := by
    decide
  have hpb : Frame.payload ⟨[0x00, 0x00, 0x0A, 0xC0, 0x00, 0, 0, 0], 4⟩ = [0x00, 0x00, 0x0A] := by
    decide
  have hc5 : crc16_ccitt_false [0x00, 0x00, 0x0A, 0x20, 0x00] = 0xD02B := by decide
  have hc3 : crc16_ccitt_false [0x00, 0x00, 0x0A] = 0x6DD6 := by decide
  have hd5 : decode ((0x1480A014 >>> 18) &&& 0xFF) [0x00, 0x00, 0x0A, 0x20, 0x00]
      = some (.NodeStatus ⟨10, NodeHealth.Healthy, NodeMode.Maintenance, 0⟩) := by decide
  have hda : decode ((0x1480A014 >>> 18) &&& 0xFF) [0x00, 0x00, 0x0A, 0xC0, 0xFF, 0, 0, 0]
      = some (.NodeStatus ⟨10, 3, 0, 127⟩) := by decide
  have hdb : decode ((0x1480A014 >>> 18) &&& 0xFF) [0x00, 0x00, 0x0A, 0xC0, 0x00, 0, 0, 0]
      = some (.NodeStatus ⟨10, 3, 0, 0⟩) := by decide
  have h1 := ((hfull.2.2 (by decide)).2.1
    (.NodeStatus ⟨0, 0, 0, 0⟩) (by decide) (by decide)).2
  rw [hp6, hd5, hc5] at h1
  have h2 := (ha.2.2 (by decide)).2.2 _ hda
  rw [hpa, hc3] at h2
  have h3 := (hb.2.2 (by decide)).2.2 _ hdb
  rw [hpb, hc3] at h3
  exact ⟨h1, hp6, rfl, hpa, hpb, by decide, h2, h3, ha.1⟩

/-- C15. End of transfer: an occupied slot accepts a continuation frame of its id with EOT
(expected toggle, no SOT, the bytes fit in 256). The slot is empty afterwards and holds the
accumulated buffer. When the CRC-16 of the accumulated buffer differs from the CRC stored from
the opening frame the result is none; when they agree the result is `Some(id, crc, decoded)` if
`decode` knows the message type and none if it does not. -/
theorem C15_end_of_transfer (sm : StateMachine) (frame_id : Nat) (frame_data : List Nat)
    (frame_len timestamp_us : Nat) (hlen : 1 ≤ frame_len)
    (hty : sm.type = SlotType.MultiFrame) (hid : sm.multi_frame.id = frame_id)
    (hs : (Frame.tail ⟨frame_data, frame_len⟩).start_of_transfer = false)
    (he : (Frame.tail ⟨frame_data, frame_len⟩).end_of_transfer = true)
    (htog : (Frame.tail ⟨frame_data, frame_len⟩).toggle = sm.expected_toggle_bit)
    (hfit : sm.multi_frame.data_len + (frame_len - 1) ≤ 256) :
    (sm.process_frame frame_id frame_data frame_len timestamp_us).2
        = { type := SlotType.Empty
            multi_frame :=
              { sm.multi_frame with
                data := memcpy sm.multi_frame.data sm.multi_frame.data_len frame_data 0
                  (frame_len - 1)
                data_len := sm.multi_frame.data_len + (frame_len - 1) } } ∧
    (StateMachine.calculate_crc
          (memcpy sm.multi_frame.data sm.multi_frame.data_len frame_data 0 (frame_len - 1))
          (sm.multi_frame.data_len + (frame_len - 1)) ≠ sm.multi_frame.crc →
      (sm.process_frame frame_id frame_data frame_len timestamp_us).1 = none) ∧
    (StateMachine.calculate_crc
          (memcpy sm.multi_frame.data sm.multi_frame.data_len frame_data 0 (frame_len - 1))
          (sm.multi_frame.data_len + (frame_len - 1)) = sm.multi_frame.crc →
      (∀ m, decode ((frame_id >>> 18) &&& 0xFF)
            (memcpy sm.multi_frame.data sm.multi_frame.data_len frame_data 0 (frame_len - 1))
          = some m →
        (sm.process_frame frame_id frame_data frame_len timestamp_us).1
          = some { id := frame_id
                   crc := StateMachine.calculate_crc
                     (memcpy sm.multi_frame.data sm.multi_frame.data_len frame_data 0
                       (frame_len - 1))
                     (sm.multi_frame.data_len + (frame_len - 1))
                   message := m }) ∧
      (decode ((frame_id >>> 18) &&& 0xFF)
            (memcpy sm.multi_frame.data sm.multi_frame.data_len frame_data 0 (frame_len - 1))
          = none →
        (sm.process_frame frame_id frame_data frame_len timestamp_us).1 = none)) := by
  unfold Frame.tail at hs he htog
  simp only at hs he htog
  have hns : ((TailByte.from_byte (byte_at frame_data (frame_len - 1))).start_of_transfer
      && (TailByte.from_byte (byte_at frame_data (frame_len - 1))).end_of_transfer) = false := by
    rw [hs]; rfl
  have htog' : ¬ ((TailByte.from_byte (byte_at frame_data (frame_len - 1))).toggle
      ≠ ((size_t_sub sm.multi_frame.data_len 5 / 7) % 2 == 0)) := fun h => h htog
  rw [sm_process_frame_same sm frame_id frame_data frame_len timestamp_us (by omega) _ rfl hns
    hty hid, if_neg htog', hs, if_neg (by decide), if_neg (by omega)]
  simp only [he, if_true]
  by_cases hc : StateMachine.calculate_crc
      (memcpy sm.multi_frame.data sm.multi_frame.data_len frame_data 0 (frame_len - 1))
      (sm.multi_frame.data_len + (frame_len - 1)) = sm.multi_frame.crc
  · rw [if_neg (fun h => h hc)]
    refine ⟨rfl, fun h => absurd hc h, fun _ => ⟨?_, ?_⟩⟩
    · intro m hm
      simp only [hm, Option.map_some']
    · intro hn
      simp only [hn, Option.map_none']
  · rw [if_pos hc]
    exact ⟨rfl, fun _ => rfl, fun h => absurd h hc⟩

set_option maxRecDepth 100000 in
/-- C15 on the last frame `[0x00, 0x00, 0x40]` of the transfer of PayloadEPSStatus with
`battery1_mv = 7400`, received by the slot that holds the first twelve bytes and the CRC
`0xB011`: the slot is emptied and the message is returned. -/
theorem C15_end_of_transfer_witness :
    (StateMachine.process_frame
        { type := SlotType.MultiFrame
          multi_frame := { id := 0x1488A014, first_frame_timestamp_us := 1000, crc := 0xB011,
                           data := 0x1C :: 0xE8 :: List.replicate 254 0, data_len := 12 } }
        0x1488A014 [0x00, 0x00, 0x40, 0, 0, 0, 0, 0] 3 1002).2.type = SlotType.Empty
    ∧ (StateMachine.process_frame
        { type := SlotType.MultiFrame
          multi_frame := { id := 0x1488A014, first_frame_timestamp_us := 1000, crc := 0xB011,
                           data := 0x1C :: 0xE8 :: List.replicate 254 0, data_len := 12 } }
        0x1488A014 [0x00, 0x00, 0x40, 0, 0, 0, 0, 0] 3 1002).1
      = some { id := 0x1488A014
               crc := StateMachine.calculate_crc
                 (memcpy (0x1C :: 0xE8 :: List.replicate 254 0) 12
                   [0x00, 0x00, 0x40, 0, 0, 0, 0, 0] 0 (3 - 1)) (12 + (3 - 1))
               message := .PayloadEPSStatus
                 ⟨7400, 0, 0, 0, ⟨0, false, 0⟩, ⟨0, false, 0⟩, ⟨0, false, 0⟩⟩ } :=
  (fun h => ⟨(congrArg StateMachine.type h.1).trans rfl,
      (h.2.2 (by decide)).1 _ (by decide)⟩)
    (C15_end_of_transfer
      { type := SlotType.MultiFrame
        multi_frame := { id := 0x1488A014, first_frame_timestamp_us := 1000, crc := 0xB011,
                         data := 0x1C :: 0xE8 :: List.replicate 254 0, data_len := 12 } }
      0x1488A014 [0x00, 0x00, 0x40, 0, 0, 0, 0, 0] 3 1002
      (by decide) rfl rfl (by decide) (by decide) (by decide) (by decide))

/-- C16. One slot per identifier: in every decoder state reached from a fresh decoder by any
sequence of `process_frame` calls for frames of at most 8 bytes (the length of a CAN frame)
the decoder still has its eight slots, and no two occupied slots hold the same identifier; each
slot still has its buffer of 256 cells and, when occupied, between 1 and 256 bytes in it. -/
theorem C16_one_slot_per_id (d : CanBusMultiFrameDecoder) (hd : d.fresh) (rx : List Rx)
    (hrx : ∀ r ∈ rx, r.frame.len ≤ 8) :
    (d.run rx).2.state_machines.length = CanBusMultiFrameDecoder.Q ∧
    (∀ i j, i < CanBusMultiFrameDecoder.Q → j < CanBusMultiFrameDecoder.Q → i ≠ j →
      ((d.run rx).2.slot i).type = SlotType.MultiFrame →
      ((d.run rx).2.slot j).type = SlotType.MultiFrame →
      ((d.run rx).2.slot i).multi_frame.id ≠ ((d.run rx).2.slot j).multi_frame.id) ∧
    (d.run rx).2.lengths_ok :=
  ⟨(run_state_length rx d).trans hd.1, distinct_ids_run rx d (distinct_ids_fresh d hd),
    lengths_ok_run rx d (lengths_ok_fresh d hd) hrx⟩

set_option maxRecDepth 100000 in
/-- C16 on a zeroed decoder after two opening frames with different ids and a second opening
frame for the first id: slot 0 holds the first id, slot 1 the second, and no other slot is
occupied. -/
theorem C16_one_slot_per_id_witness :
    ((CanBusMultiFrameDecoder.zeroed.run
        [⟨0x1488A014, ⟨[0x11, 0xB0, 0x1C, 0xE8, 0, 0, 0, 0x80], 8⟩, 1000⟩,
         ⟨0x1488A015, ⟨[0x11, 0xB0, 0x1C, 0xE8, 0, 0, 0, 0x80], 8⟩, 1001⟩,
         ⟨0x1488A014, ⟨[0x11, 0xB0, 0x1C, 0xE8, 0, 0, 0, 0x80], 8⟩,
           1002⟩]).2.state_machines.map
        (fun sm => (sm.type, sm.multi_frame.id)))
      = [(SlotType.MultiFrame, 0x1488A014), (SlotType.MultiFrame, 0x1488A015),
         (SlotType.Empty, 0), (SlotType.Empty, 0), (SlotType.Empty, 0), (SlotType.Empty, 0),
         (SlotType.Empty, 0), (SlotType.Empty, 0)]
    ∧ (CanBusMultiFrameDecoder.zeroed.run
        [⟨0x1488A014, ⟨[0x11, 0xB0, 0x1C, 0xE8, 0, 0, 0, 0x80], 8⟩, 1000⟩,
         ⟨0x1488A015, ⟨[0x11, 0xB0, 0x1C, 0xE8, 0, 0, 0, 0x80], 8⟩, 1001⟩,
         ⟨0x1488A014, ⟨[0x11, 0xB0, 0x1C, 0xE8, 0, 0, 0, 0x80], 8⟩,
           1002⟩]).2.state_machines.length = 8
    ∧ (((CanBusMultiFrameDecoder.zeroed.run
        [⟨0x1488A014, ⟨[0x11, 0xB0, 0x1C, 0xE8, 0, 0, 0, 0x80], 8⟩, 1000⟩,
         ⟨0x1488A015, ⟨[0x11, 0xB0, 0x1C, 0xE8, 0, 0, 0, 0x80], 8⟩, 1001⟩,
         ⟨0x1488A014, ⟨[0x11, 0xB0, 0x1C, 0xE8, 0, 0, 0, 0x80], 8⟩, 1002⟩]).2.slot 0).type
          = SlotType.MultiFrame →
      ((CanBusMultiFrameDecoder.zeroed.run
        [⟨0x1488A014, ⟨[0x11, 0xB0, 0x1C, 0xE8, 0, 0, 0, 0x80], 8⟩, 1000⟩,
         ⟨0x1488A015, ⟨[0x11, 0xB0, 0x1C, 0xE8, 0, 0, 0, 0x80], 8⟩, 1001⟩,
         ⟨0x1488A014, ⟨[0x11, 0xB0, 0x1C, 0xE8, 0, 0, 0, 0x80], 8⟩, 1002⟩]).2.slot 1).type
          = SlotType.MultiFrame →
      ((CanBusMultiFrameDecoder.zeroed.run
        [⟨0x1488A014, ⟨[0x11, 0xB0, 0x1C, 0xE8, 0, 0, 0, 0x80], 8⟩, 1000⟩,
         ⟨0x1488A015, ⟨[0x11, 0xB0, 0x1C, 0xE8, 0, 0, 0, 0x80], 8⟩, 1001⟩,
         ⟨0x1488A014, ⟨[0x11, 0xB0, 0x1C, 0xE8, 0, 0, 0, 0x80], 8⟩,
           1002⟩]).2.slot 0).multi_frame.id
        ≠ ((CanBusMultiFrameDecoder.zeroed.run
        [⟨0x1488A014, ⟨[0x11, 0xB0, 0x1C, 0xE8, 0, 0, 0, 0x80], 8⟩, 1000⟩,
         ⟨0x1488A015, ⟨[0x11, 0xB0, 0x1C, 0xE8, 0, 0, 0, 0x80], 8⟩, 1001⟩,
         ⟨0x1488A014, ⟨[0x11, 0xB0, 0x1C, 0xE8, 0, 0, 0, 0x80], 8⟩,
           1002⟩]).2.slot 1).multi_frame.id) := by
  have e := decoder_run_fuel 0
    [⟨0x1488A014, ⟨[0x11, 0xB0, 0x1C, 0xE8, 0, 0, 0, 0x80], 8⟩, 1000⟩,
     ⟨0x1488A015, ⟨[0x11, 0xB0, 0x1C, 0xE8, 0, 0, 0, 0x80], 8⟩, 1001⟩,
     ⟨0x1488A014, ⟨[0x11, 0xB0, 0x1C, 0xE8, 0, 0, 0, 0x80], 8⟩, 1002⟩]
    CanBusMultiFrameDecoder.zeroed
  have hs : (CanBusMultiFrameDecoder.zeroed.run_fuel 2
      [⟨0x1488A014, ⟨[0x11, 0xB0, 0x1C, 0xE8, 0, 0, 0, 0x80], 8⟩, 1000⟩,
       ⟨0x1488A015, ⟨[0x11, 0xB0, 0x1C, 0xE8, 0, 0, 0, 0x80], 8⟩, 1001⟩,
       ⟨0x1488A014, ⟨[0x11, 0xB0, 0x1C, 0xE8, 0, 0, 0, 0x80], 8⟩, 1002⟩]).map
        (fun p => p.2.state_machines.map (fun sm => (sm.type, sm.multi_frame.id)))
      = some [(SlotType.MultiFrame, 0x1488A014), (SlotType.MultiFrame, 0x1488A015),
         (SlotType.Empty, 0), (SlotType.Empty, 0), (SlotType.Empty, 0), (SlotType.Empty, 0),
         (SlotType.Empty, 0), (SlotType.Empty, 0)] := by decide
  rw [e] at hs
  have h := C16_one_slot_per_id CanBusMultiFrameDecoder.zeroed zeroed_fresh
    [⟨0x1488A014, ⟨[0x11, 0xB0, 0x1C, 0xE8, 0, 0, 0, 0x80], 8⟩, 1000⟩,
     ⟨0x1488A015, ⟨[0x11, 0xB0, 0x1C, 0xE8, 0, 0, 0, 0x80], 8⟩, 1001⟩,
     ⟨0x1488A014, ⟨[0x11, 0xB0, 0x1C, 0xE8, 0, 0, 0, 0x80], 8⟩, 1002⟩]
    (by decide)
  exact ⟨Option.some.inj hs, h.1, h.2.1 0 1 (by decide) (by decide) (by decide)⟩

/-- C17. Slot length bounds: in every decoder state reached from a fresh decoder by
`process_frame` calls whose frames have length at most 8, each of the eight slots has its
buffer of 256 cells and, when occupied, `1 <= data_len <= 256`; and the `memcpy` into the slot
buffer that a further call for a frame of at most 8 bytes executes in any slot writes the
cells `dst_offset .. dst_offset + count` with `dst_offset + count <= 256`. -/
theorem C17_slot_length_bounds (d : CanBusMultiFrameDecoder) (hd : d.fresh) (rx : List Rx)
    (hrx : ∀ r ∈ rx, r.frame.len ≤ 8) :
    (d.run rx).2.state_machines.length = CanBusMultiFrameDecoder.Q ∧
    (∀ i, i < CanBusMultiFrameDecoder.Q →
      ((d.run rx).2.slot i).multi_frame.data.length = 256 ∧
      (((d.run rx).2.slot i).type = SlotType.MultiFrame →
        1 ≤ ((d.run rx).2.slot i).multi_frame.data_len ∧
        ((d.run rx).2.slot i).multi_frame.data_len ≤ 256)) ∧
    (∀ i, i < CanBusMultiFrameDecoder.Q →
      ∀ (frame_id : Nat) (frame_data : List Nat) (frame_len timestamp_us : Nat),
      frame_len ≤ 8 → ∀ o s n,
      ((d.run rx).2.slot i).memcpy_call frame_id frame_data frame_len = some (o, s, n) →
      o + n ≤ 256 ∧
      (((d.run rx).2.slot i).process_frame frame_id frame_data frame_len
          timestamp_us).2.multi_frame.data
        = memcpy ((d.run rx).2.slot i).multi_frame.data o frame_data s n) := by
  have hlen : (d.run rx).2.state_machines.length = CanBusMultiFrameDecoder.Q :=
    (run_state_length rx d).trans hd.1
  have hok := lengths_ok_run rx d (lengths_ok_fresh d hd) hrx
  refine ⟨hlen, ?_, ?_⟩
  · intro i hi
    exact hok _ (slot_of_lt _ i (by rw [hlen]; exact hi))
  · intro i _ frame_id frame_data frame_len timestamp_us hfl o s n h
    refine ⟨(memcpy_call_bound _ frame_id frame_data frame_len hfl o s n h).1, ?_⟩
    rw [memcpy_call_data, h]

/-- C17 on a zeroed decoder after the first two frames of the transfer of PayloadEPSStatus
with `battery1_mv = 7400`: eight slots, and slot 0 has 256 cells and, if occupied, between 1
and 256 bytes. -/
theorem C17_slot_length_bounds_witness :
    (CanBusMultiFrameDecoder.zeroed.run
        [⟨0x1488A014, ⟨[0x11, 0xB0, 0x1C, 0xE8, 0, 0, 0, 0x80], 8⟩, 1000⟩,
         ⟨0x1488A014, ⟨[0, 0, 0, 0, 0, 0, 0, 0x20], 8⟩, 1001⟩]).2.state_machines.length = 8
    ∧ ((CanBusMultiFrameDecoder.zeroed.run
        [⟨0x1488A014, ⟨[0x11, 0xB0, 0x1C, 0xE8, 0, 0, 0, 0x80], 8⟩, 1000⟩,
         ⟨0x1488A014, ⟨[0, 0, 0, 0, 0, 0, 0, 0x20], 8⟩,
           1001⟩]).2.slot 0).multi_frame.data.length = 256
    ∧ (((CanBusMultiFrameDecoder.zeroed.run
        [⟨0x1488A014, ⟨[0x11, 0xB0, 0x1C, 0xE8, 0, 0, 0, 0x80], 8⟩, 1000⟩,
         ⟨0x1488A014, ⟨[0, 0, 0, 0, 0, 0, 0, 0x20], 8⟩, 1001⟩]).2.slot 0).type
          = SlotType.MultiFrame →
      1 ≤ ((CanBusMultiFrameDecoder.zeroed.run
        [⟨0x1488A014, ⟨[0x11, 0xB0, 0x1C, 0xE8, 0, 0, 0, 0x80], 8⟩, 1000⟩,
         ⟨0x1488A014, ⟨[0, 0, 0, 0, 0, 0, 0, 0x20], 8⟩, 1001⟩]).2.slot 0).multi_frame.data_len
      ∧ ((CanBusMultiFrameDecoder.zeroed.run
        [⟨0x1488A014, ⟨[0x11, 0xB0, 0x1C, 0xE8, 0, 0, 0, 0x80], 8⟩, 1000⟩,
         ⟨0x1488A014, ⟨[0, 0, 0, 0, 0, 0, 0, 0x20], 8⟩, 1001⟩]).2.slot 0).multi_frame.data_len
        ≤ 256) :=
  (fun h => ⟨h.1, (h.2.1 0 (by decide)).1, (h.2.1 0 (by decide)).2⟩)
    (C17_slot_length_bounds CanBusMultiFrameDecoder.zeroed zeroed_fresh
      [⟨0x1488A014, ⟨[0x11, 0xB0, 0x1C, 0xE8, 0, 0, 0, 0x80], 8⟩, 1000⟩,
       ⟨0x1488A014, ⟨[0, 0, 0, 0, 0, 0, 0, 0x20], 8⟩, 1001⟩]
      (by decide))

set_option maxRecDepth 100000 in
/-- C18 (refuted at a concrete input). A fresh decoder receives a frame of length 1 whose only
byte is the tail `0xC0`, with the id `0x1480A014` (message type 32, NodeStatus, 5 bytes). Two
buffers that agree on every index below `frame_len` and differ at index 2 give different
results: the result is built from bytes at indices 1..4, outside the received frame. -/
theorem C18_reads_past_frame :
    (CanBusMultiFrameDecoder.zeroed.process_frame 0x1480A014 [0xC0, 0x00, 0x0A, 0x20, 0x00] 1
        1000).1
      = some { id := 0x1480A014
               crc := StateMachine.calculate_crc [0xC0, 0x00, 0x0A, 0x20, 0x00] 0
               message := .NodeStatus ⟨0xC0000A, NodeHealth.Healthy, NodeMode.Maintenance, 0⟩ }
    ∧ (CanBusMultiFrameDecoder.zeroed.process_frame 0x1480A014 [0xC0, 0x00, 0x0B, 0x20, 0x00] 1
        1000).1
      = some { id := 0x1480A014
               crc := StateMachine.calculate_crc [0xC0, 0x00, 0x0B, 0x20, 0x00] 0
               message := .NodeStatus ⟨0xC0000B, NodeHealth.Healthy, NodeMode.Maintenance, 0⟩ }
    ∧ (CanBusMultiFrameDecoder.zeroed.process_frame 0x1480A014 [0xC0, 0x00, 0x0A, 0x20, 0x00] 1
        1000).1
      ≠ (CanBusMultiFrameDecoder.zeroed.process_frame 0x1480A014
          [0xC0, 0x00, 0x0B, 0x20, 0x00] 1 1000).1 := by
  have hd1 : decode ((0x1480A014 >>> 18) &&& 0xFF) [0xC0, 0x00, 0x0A, 0x20, 0x00]
      = some (.NodeStatus ⟨0xC0000A, NodeHealth.Healthy, NodeMode.Maintenance, 0⟩) := by
    decide
  have hd2 : decode ((0x1480A014 >>> 18) &&& 0xFF) [0xC0, 0x00, 0x0B, 0x20, 0x00]
      = some (.NodeStatus ⟨0xC0000B, NodeHealth.Healthy, NodeMode.Maintenance, 0⟩) := by
    decide
  have ht1 : (TailByte.from_byte (byte_at [0xC0, 0x00, 0x0A, 0x20, 0x00] (1 - 1))).toggle
      = false := by decide
  have ht2 : (TailByte.from_byte (byte_at [0xC0, 0x00, 0x0B, 0x20, 0x00] (1 - 1))).toggle
      = false := by decide
  rw [process_frame_single _ 0x1480A014 [0xC0, 0x00, 0x0A, 0x20, 0x00] 1 1000 (by decide)
      (by decide) (by decide),
    process_frame_single _ 0x1480A014 [0xC0, 0x00, 0x0B, 0x20, 0x00] 1 1000 (by decide)
      (by decide) (by decide)]
  simp only [ht1, ht2, hd1, hd2, Bool.false_eq_true, if_false, Option.map_some']
  refine ⟨trivial, trivial, ?_⟩
  intro h
  have hm := congrArg (fun o : Option ReceivedCanBusMessage => o.map (fun r => r.message)) h
  simp only [Option.map_some', Option.some.injEq, CanBusMessage.NodeStatus.injEq,
    NodeStatusMessage.mk.injEq] at hm
  exact absurd hm.1 (by decide)

set_option maxRecDepth 100000 in
/-- C19 (as stated, refuted). A slot holds the transfer of id `0x1488A014` with five bytes
received, so it expects toggle 1. A frame of that id with tail `0x00` (wrong toggle) and a
frame with tail `0xA0` (SOT set) both yield no message, and neither leaves the slot empty. -/
theorem C19_violation_counterexample :
    ¬ ((StateMachine.process_frame
          { type := SlotType.MultiFrame
            multi_frame := { id := 0x1488A014, first_frame_timestamp_us := 1000, crc := 0xB011,
                             data := List.replicate 256 0, data_len := 5 } }
          0x1488A014 [1, 2, 3, 4, 5, 6, 7, 0x00] 8 2000).2.type = SlotType.Empty)
    ∧ ¬ ((StateMachine.process_frame
          { type := SlotType.MultiFrame
            multi_frame := { id := 0x1488A014, first_frame_timestamp_us := 1000, crc := 0xB011,
                             data := List.replicate 256 0, data_len := 5 } }
          0x1488A014 [1, 2, 3, 4, 5, 6, 7, 0xA0] 8 2000).2.type = SlotType.Empty) := by
  rw [sm_violation _ 0x1488A014 [1, 2, 3, 4, 5, 6, 7, 0x00] 8 2000 rfl rfl (by decide)
      (Or.inl (by decide)),
    sm_violation _ 0x1488A014 [1, 2, 3, 4, 5, 6, 7, 0xA0] 8 2000 rfl rfl (by decide)
      (Or.inr (by decide))]
  decide

/-- C19 (amended). For an occupied slot and a frame with the same id that is not a
single-frame transfer, a toggle-bit violation or an unexpected `start_of_transfer` yields no
message and leaves the slot as it was: still occupied, with the same id, timestamp, stored CRC,
buffer and `data_len`. -/
theorem C19_violation_keeps_slot (sm : StateMachine) (frame_id : Nat) (frame_data : List Nat)
    (frame_len timestamp_us : Nat)
    (hty : sm.type = SlotType.MultiFrame) (hid : sm.multi_frame.id = frame_id)
    (hns : ¬ ((Frame.tail ⟨frame_data, frame_len⟩).start_of_transfer = true
      ∧ (Frame.tail ⟨frame_data, frame_len⟩).end_of_transfer = true))
    (hv : (Frame.tail ⟨frame_data, frame_len⟩).toggle ≠ sm.expected_toggle_bit
      ∨ (Frame.tail ⟨frame_data, frame_len⟩).start_of_transfer = true) :
    sm.process_frame frame_id frame_data frame_len timestamp_us = (none, sm) ∧
      (sm.process_frame frame_id frame_data frame_len timestamp_us).2.type
        = SlotType.MultiFrame := by
  unfold Frame.tail at hns hv
  simp only at hns hv
  have hns' : ((TailByte.from_byte (byte_at frame_data (frame_len - 1))).start_of_transfer
      && (TailByte.from_byte (byte_at frame_data (frame_len - 1))).end_of_transfer) = false := by
    cases h1 : (TailByte.from_byte (byte_at frame_data (frame_len - 1))).start_of_transfer <;>
      cases h2 : (TailByte.from_byte (byte_at frame_data (frame_len - 1))).end_of_transfer <;>
      simp_all
  rw [sm_violation sm frame_id frame_data frame_len timestamp_us hty hid hns' hv]
  exact ⟨rfl, hty⟩

set_option maxRecDepth 100000 in
/-- C19 (amended) on the slot and the two frames of the counterexample. -/
theorem C19_violation_keeps_slot_witness :
    StateMachine.process_frame
        { type := SlotType.MultiFrame
          multi_frame := { id := 0x1488A014, first_frame_timestamp_us := 1000, crc := 0xB011,
                           data := List.replicate 256 0, data_len := 5 } }
        0x1488A014 [1, 2, 3, 4, 5, 6, 7, 0x00] 8 2000
      = (none,
          { type := SlotType.MultiFrame
            multi_frame := { id := 0x1488A014, first_frame_timestamp_us := 1000, crc := 0xB011,
                             data := List.replicate 256 0, data_len := 5 } })
    ∧ StateMachine.process_frame
        { type := SlotType.MultiFrame
          multi_frame := { id := 0x1488A014, first_frame_timestamp_us := 1000, crc := 0xB011,
                           data := List.replicate 256 0, data_len := 5 } }
        0x1488A014 [1, 2, 3, 4, 5, 6, 7, 0xA0] 8 2000
      = (none,
          { type := SlotType.MultiFrame
            multi_frame := { id := 0x1488A014, first_frame_timestamp_us := 1000, crc := 0xB011,
                             data := List.replicate 256 0, data_len := 5 } }) :=
  ⟨(C19_violation_keeps_slot _ 0x1488A014 [1, 2, 3, 4, 5, 6, 7, 0x00] 8 2000 rfl rfl
      (by decide) (Or.inl (by decide))).1,
   (C19_violation_keeps_slot _ 0x1488A014 [1, 2, 3, 4, 5, 6, 7, 0xA0] 8 2000 rfl rfl
      (by decide) (Or.inr (by decide))).1⟩

/-- C20. Dispatch: `decode(message_type, buffer)` returns Some exactly when `message_type` is
one of the 21 catalog types and none for every other value; for each catalog type the variant
is the class whose `MESSAGE_TYPE` is that type, holding that class's `deserialize(buffer)`. -/
theorem C20_decode_dispatch (message_type : Nat) (buffer : List Nat) :
    ((decode message_type buffer).isSome = true ↔
      message_type ∈ [0, 7, 8, 16, 32, 33, 34, 36, 64, 65, 66, 67, 68, 69, 128, 129, 130, 131,
        132, 133, 160]) ∧
    (decode message_type buffer = none ↔
      message_type ∉ [0, 7, 8, 16, 32, 33, 34, 36, 64, 65, 66, 67, 68, 69, 128, 129, 130, 131,
        132, 133, 160]) ∧
    (ResetMessage.MESSAGE_TYPE = 0 ∧
      decode 0 buffer = some (.Reset (ResetMessage.deserialize buffer))) ∧
    (UnixTimeMessage.MESSAGE_TYPE = 7 ∧
      decode 7 buffer = some (.UnixTime (UnixTimeMessage.deserialize buffer))) ∧
    (PreUnixTimeMessage.MESSAGE_TYPE = 8 ∧
      decode 8 buffer = some (.PreUnixTime (PreUnixTimeMessage.deserialize buffer))) ∧
    (DataTransferMessage.MESSAGE_TYPE = 16 ∧
      decode 16 buffer = some (.DataTransfer (DataTransferMessage.deserialize buffer))) ∧
    (NodeStatusMessage.MESSAGE_TYPE = 32 ∧
      decode 32 buffer = some (.NodeStatus (NodeStatusMessage.deserialize buffer))) ∧
    (AmpStatusMessage.MESSAGE_TYPE = 33 ∧
      decode 33 buffer = some (.AmpStatus (AmpStatusMessage.deserialize buffer))) ∧
    (PayloadEPSStatusMessage.MESSAGE_TYPE = 34 ∧
      decode 34 buffer
        = some (.PayloadEPSStatus (PayloadEPSStatusMessage.deserialize buffer))) ∧
    (VLStatusMessage.MESSAGE_TYPE = 36 ∧
      decode 36 buffer = some (.VLStatus (VLStatusMessage.deserialize buffer))) ∧
    (AmpControlMessage.MESSAGE_TYPE = 64 ∧
      decode 64 buffer = some (.AmpControl (AmpControlMessage.deserialize buffer))) ∧
    (PayloadEPSOutputOverwriteMessage.MESSAGE_TYPE = 65 ∧
      decode 65 buffer
        = some (.PayloadEPSOutputOverwrite
            (PayloadEPSOutputOverwriteMessage.deserialize buffer))) ∧
    (AckMessage.MESSAGE_TYPE = 66 ∧
      decode 66 buffer = some (.Ack (AckMessage.deserialize buffer))) ∧
    (AmpOverwriteMessage.MESSAGE_TYPE = 67 ∧
      decode 67 buffer = some (.AmpOverwrite (AmpOverwriteMessage.deserialize buffer))) ∧
    (AmpResetOutputMessage.MESSAGE_TYPE = 68 ∧
      decode 68 buffer = some (.AmpResetOutput (AmpResetOutputMessage.deserialize buffer))) ∧
    (AirBrakesControlMessage.MESSAGE_TYPE = 69 ∧
      decode 69 buffer
        = some (.AirBrakesControl (AirBrakesControlMessage.deserialize buffer))) ∧
    (BaroMeasurementMessage.MESSAGE_TYPE = 128 ∧
      decode 128 buffer
        = some (.BaroMeasurement (BaroMeasurementMessage.deserialize buffer))) ∧
    (IMUMeasurementMessage.MESSAGE_TYPE = 129 ∧
      decode 129 buffer = some (.IMUMeasurement (IMUMeasurementMessage.deserialize buffer))) ∧
    (BrightnessMeasurementMessage.MESSAGE_TYPE = 130 ∧
      decode 130 buffer
        = some (.BrightnessMeasurement (BrightnessMeasurementMessage.deserialize buffer))) ∧
    (RocketStateMessage.MESSAGE_TYPE = 131 ∧
      decode 131 buffer = some (.RocketState (RocketStateMessage.deserialize buffer))) ∧
    (MagMeasurementMessage.MESSAGE_TYPE = 132 ∧
      decode 132 buffer = some (.MagMeasurement (MagMeasurementMessage.deserialize buffer))) ∧
    (OzysMeasurementMessage.MESSAGE_TYPE = 133 ∧
      decode 133 buffer
        = some (.OzysMeasurement (OzysMeasurementMessage.deserialize buffer))) ∧
    (IcarusStatusMessage.MESSAGE_TYPE = 160 ∧
      decode 160 buffer = some (.IcarusStatus (IcarusStatusMessage.deserialize buffer))) := by
  have hin : message_type ∈ [0, 7, 8, 16, 32, 33, 34, 36, 64, 65, 66, 67, 68, 69, 128, 129, 130,
      131, 132, 133, 160] → (decode message_type buffer).isSome = true := by
    intro h
    simp only [List.mem_cons, List.mem_singleton, List.not_mem_nil, or_false] at h
    rcases h with h | h | h | h | h | h | h | h | h | h | h | h | h | h | h | h | h | h | h
      | h | h <;> rw [h] <;> rfl
  have hout : message_type ∉ [0, 7, 8, 16, 32, 33, 34, 36, 64, 65, 66, 67, 68, 69, 128, 129,
      130, 131, 132, 133, 160] → decode message_type buffer = none := by
    intro h
    simp only [List.mem_cons, List.mem_singleton, List.not_mem_nil, or_false, not_or] at h
    obtain ⟨h0, h7, h8, h16, h32, h33, h34, h36, h64, h65, h66, h67, h68, h69, h128, h129, h130, h131, h132, h133, h160⟩ := h
    have e66 : message_type ≠ AckMessage.MESSAGE_TYPE := h66
    have e69 : message_type ≠ AirBrakesControlMessage.MESSAGE_TYPE := h69
    have e64 : message_type ≠ AmpControlMessage.MESSAGE_TYPE := h64
    have e67 : message_type ≠ AmpOverwriteMessage.MESSAGE_TYPE := h67
    have e68 : message_type ≠ AmpResetOutputMessage.MESSAGE_TYPE := h68
    have e33 : message_type ≠ AmpStatusMessage.MESSAGE_TYPE := h33
    have e128 : message_type ≠ BaroMeasurementMessage.MESSAGE_TYPE := h128
    have e130 : message_type ≠ BrightnessMeasurementMessage.MESSAGE_TYPE := h130
    have e16 : message_type ≠ DataTransferMessage.MESSAGE_TYPE := h16
    have e160 : message_type ≠ IcarusStatusMessage.MESSAGE_TYPE := h160
    have e129 : message_type ≠ IMUMeasurementMessage.MESSAGE_TYPE := h129
    have e132 : message_type ≠ MagMeasurementMessage.MESSAGE_TYPE := h132
    have e32 : message_type ≠ NodeStatusMessage.MESSAGE_TYPE := h32
    have e133 : message_type ≠ OzysMeasurementMessage.MESSAGE_TYPE := h133
    have e65 : message_type ≠ PayloadEPSOutputOverwriteMessage.MESSAGE_TYPE := h65
    have e34 : message_type ≠ PayloadEPSStatusMessage.MESSAGE_TYPE := h34
    have e8 : message_type ≠ PreUnixTimeMessage.MESSAGE_TYPE := h8
    have e0 : message_type ≠ ResetMessage.MESSAGE_TYPE := h0
    have e131 : message_type ≠ RocketStateMessage.MESSAGE_TYPE := h131
    have e7 : message_type ≠ UnixTimeMessage.MESSAGE_TYPE := h7
    have e36 : message_type ≠ VLStatusMessage.MESSAGE_TYPE := h36
    unfold decode
    rw [if_neg e66, if_neg e69, if_neg e64, if_neg e67, if_neg e68, if_neg e33, if_neg
      e128, if_neg e130, if_neg e16, if_neg e160, if_neg e129, if_neg e132, if_neg e32,
      if_neg e133, if_neg e65, if_neg e34, if_neg e8, if_neg e0, if_neg e131, if_neg e7,
      if_neg e36]
  refine ⟨⟨?_, hin⟩, ⟨?_, hout⟩, ⟨rfl, rfl⟩, ⟨rfl, rfl⟩, ⟨rfl, rfl⟩, ⟨rfl, rfl⟩, ⟨rfl, rfl⟩,
    ⟨rfl, rfl⟩, ⟨rfl, rfl⟩, ⟨rfl, rfl⟩, ⟨rfl, rfl⟩, ⟨rfl, rfl⟩, ⟨rfl, rfl⟩, ⟨rfl, rfl⟩,
    ⟨rfl, rfl⟩, ⟨rfl, rfl⟩, ⟨rfl, rfl⟩, ⟨rfl, rfl⟩, ⟨rfl, rfl⟩, ⟨rfl, rfl⟩, ⟨rfl, rfl⟩,
    ⟨rfl, rfl⟩, ⟨rfl, rfl⟩⟩
  · intro hs
    by_contra hn
    rw [hout hn] at hs
    cases hs
  · intro hn hm
    have := hin hm
    rw [hn] at this
    cases this

/-- C21. Reserved bits are ignored on input: for every message type, two buffers that agree
in every bit outside the reserved bits of that class (the bits counted by
`reserved_low_bits`: Ack byte 3 bits 3..0, AmpControl byte 0 bits 3..0, AmpStatus bytes 2..5
bits 4..0, NodeStatus byte 4 bit 0, PayloadEPSOutputOverwrite byte 2 bits 5..0, Reset byte 1
bits 1..0, RocketState byte 19 bits 6..0, VLStatus bytes 3..4, AirBrakesControl bytes 2..5)
decode to the same value, that is, the `deserialize` of the class gives the same message on
both. -/
theorem C21_reserved_bits_ignored (message_type : Nat) (a b : List Nat)
    (h : ∀ i, byte_at a i >>> reserved_low_bits message_type i
          = byte_at b i >>> reserved_low_bits message_type i) :
    decode message_type a = decode message_type b := by
  apply decode_congr
  · intro e
    subst e
    exact AckMessage_deserialize_reserved a b
      (fun i hi => shiftRight_reserved _ i 0
        (by unfold reserved_low_bits; rw [if_pos rfl, if_neg (by omega)]) _ _ (h i))
      (shiftRight_reserved AckMessage.MESSAGE_TYPE 3 4 rfl _ _ (h 3))
  · intro e
    subst e
    exact AirBrakesControlMessage_deserialize_reserved a b
      (fun i hi => shiftRight_reserved _ i 0
        (by simp [reserved_low_bits, AckMessage.MESSAGE_TYPE, AmpControlMessage.MESSAGE_TYPE,
          AmpStatusMessage.MESSAGE_TYPE, NodeStatusMessage.MESSAGE_TYPE,
          PayloadEPSOutputOverwriteMessage.MESSAGE_TYPE, ResetMessage.MESSAGE_TYPE,
          RocketStateMessage.MESSAGE_TYPE, VLStatusMessage.MESSAGE_TYPE,
          AirBrakesControlMessage.MESSAGE_TYPE]; omega) _ _ (h i))
  · intro e
    subst e
    exact AmpControlMessage_deserialize_reserved a b
      (shiftRight_reserved AmpControlMessage.MESSAGE_TYPE 0 4 rfl _ _ (h 0))
  · intro e
    exact AmpOverwriteMessage_deserialize_congr a b
      (fun i _ => eq_of_reserved_zero _ a b (by rw [e]; decide) h i)
  · intro e
    exact AmpResetOutputMessage_deserialize_congr a b
      (fun i _ => eq_of_reserved_zero _ a b (by rw [e]; decide) h i)
  · intro e
    subst e
    exact AmpStatusMessage_deserialize_reserved a b
      (fun i hi => shiftRight_reserved _ i 0
        (by simp [reserved_low_bits, AckMessage.MESSAGE_TYPE, AmpControlMessage.MESSAGE_TYPE,
          AmpStatusMessage.MESSAGE_TYPE]; omega) _ _ (h i))
      (fun i h2 h5 => shiftRight_reserved _ i 5
        (by simp [reserved_low_bits, AckMessage.MESSAGE_TYPE, AmpControlMessage.MESSAGE_TYPE,
          AmpStatusMessage.MESSAGE_TYPE]; omega) _ _ (h i))
  · intro e
    exact BaroMeasurementMessage_deserialize_congr a b
      (fun i _ => eq_of_reserved_zero _ a b (by rw [e]; decide) h i)
  · intro e
    exact BrightnessMeasurementMessage_deserialize_congr a b
      (fun i _ => eq_of_reserved_zero _ a b (by rw [e]; decide) h i)
  · intro e
    exact DataTransferMessage_deserialize_congr a b
      (fun i _ => eq_of_reserved_zero _ a b (by rw [e]; decide) h i)
  · intro e
    exact IcarusStatusMessage_deserialize_congr a b
      (fun i _ => eq_of_reserved_zero _ a b (by rw [e]; decide) h i)
  · intro e
    exact IMUMeasurementMessage_deserialize_congr a b
      (fun i _ => eq_of_reserved_zero _ a b (by rw [e]; decide) h i)
  · intro e
    exact MagMeasurementMessage_deserialize_congr a b
      (fun i _ => eq_of_reserved_zero _ a b (by rw [e]; decide) h i)
  · intro e
    subst e
    exact NodeStatusMessage_deserialize_reserved a b
      (fun i hi => shiftRight_reserved _ i 0
        (by simp [reserved_low_bits, AckMessage.MESSAGE_TYPE, AmpControlMessage.MESSAGE_TYPE,
          AmpStatusMessage.MESSAGE_TYPE, NodeStatusMessage.MESSAGE_TYPE]; omega) _ _ (h i))
      (shiftRight_reserved NodeStatusMessage.MESSAGE_TYPE 4 1 rfl _ _ (h 4))
  · intro e
    exact OzysMeasurementMessage_deserialize_congr a b
      (fun i _ => eq_of_reserved_zero _ a b (by rw [e]; decide) h i)
  · intro e
    subst e
    exact PayloadEPSOutputOverwriteMessage_deserialize_reserved a b
      (fun i hi => shiftRight_reserved _ i 0
        (by simp [reserved_low_bits, AckMessage.MESSAGE_TYPE, AmpControlMessage.MESSAGE_TYPE,
          AmpStatusMessage.MESSAGE_TYPE, NodeStatusMessage.MESSAGE_TYPE,
          PayloadEPSOutputOverwriteMessage.MESSAGE_TYPE]; omega) _ _ (h i))
      (shiftRight_reserved PayloadEPSOutputOverwriteMessage.MESSAGE_TYPE 2 6 rfl _ _ (h 2))
  · intro e
    exact PayloadEPSStatusMessage_deserialize_congr a b
      (fun i _ => eq_of_reserved_zero _ a b (by rw [e]; decide) h i)
  · intro e
    subst e
    exact ResetMessage_deserialize_reserved a b
      (shiftRight_reserved ResetMessage.MESSAGE_TYPE 0 0 rfl _ _ (h 0))
      (shiftRight_reserved ResetMessage.MESSAGE_TYPE 1 2 rfl _ _ (h 1))
  · intro e
    subst e
    exact RocketStateMessage_deserialize_reserved a b
      (fun i hi => shiftRight_reserved _ i 0
        (by simp [reserved_low_bits, AckMessage.MESSAGE_TYPE, AmpControlMessage.MESSAGE_TYPE,
          AmpStatusMessage.MESSAGE_TYPE, NodeStatusMessage.MESSAGE_TYPE,
          PayloadEPSOutputOverwriteMessage.MESSAGE_TYPE, ResetMessage.MESSAGE_TYPE,
          RocketStateMessage.MESSAGE_TYPE]; omega) _ _ (h i))
      (shiftRight_reserved RocketStateMessage.MESSAGE_TYPE 19 7 rfl _ _ (h 19))
  · intro e
    exact UnixTimeMessage_deserialize_congr a b
      (fun i _ => eq_of_reserved_zero _ a b (by rw [e]; decide) h i)
  · intro e
    subst e
    exact VLStatusMessage_deserialize_reserved a b
      (fun i hi => shiftRight_reserved _ i 0
        (by simp [reserved_low_bits, AckMessage.MESSAGE_TYPE, AmpControlMessage.MESSAGE_TYPE,
          AmpStatusMessage.MESSAGE_TYPE, NodeStatusMessage.MESSAGE_TYPE,
          PayloadEPSOutputOverwriteMessage.MESSAGE_TYPE, ResetMessage.MESSAGE_TYPE,
          RocketStateMessage.MESSAGE_TYPE, VLStatusMessage.MESSAGE_TYPE]; omega) _ _ (h i))

/-- C21 at `Ack`: `[0x12, 0x34, 0x0A, 0xB0]` and `[0x12, 0x34, 0x0A, 0xBF]` differ in bits
3..0 of byte 3 only and both decode to `{crc = 0x1234, node_id = 0x0AB}`. -/
theorem C21_reserved_bits_ignored_witness :
    decode 66 [0x12, 0x34, 0x0A, 0xB0] = decode 66 [0x12, 0x34, 0x0A, 0xBF]
      ∧ decode 66 [0x12, 0x34, 0x0A, 0xBF] = some (.Ack ⟨0x1234, 0x0AB⟩)
      ∧ [0x12, 0x34, 0x0A, 0xB0] ≠ [0x12, 0x34, 0x0A, 0xBF] :=
  ⟨C21_reserved_bits_ignored 66 [0x12, 0x34, 0x0A, 0xB0] [0x12, 0x34, 0x0A, 0xBF]
      (fun i => by
        by_cases hi : i < 4
        · interval_cases i <;> decide
        · rw [byte_at_of_le _ i (by simp; omega), byte_at_of_le _ i (by simp; omega)]),
    by decide, by decide⟩

/-- C22. Reserved bits are zero on output: for every message class and every field value, in
range or not, `serialize` (into a buffer of at least `SIZE_BYTES` bytes, whatever it held)
leaves zero in every reserved bit of the class, the bits counted by `reserved_low_bits`: Ack
byte 3 bits 3..0, AmpControl byte 0 bits 3..0, AmpStatus bytes 2..5 bits 4..0, NodeStatus
byte 4 bit 0, PayloadEPSOutputOverwrite byte 2 bits 5..0, Reset byte 1 bits 1..0, RocketState
byte 19 bits 6..0, VLStatus bytes 3..4, AirBrakesControl bytes 2..5. -/
theorem C22_reserved_bits_zero (v : CanBusMessage) (message_type : Nat)
    (hv : v.MESSAGE_TYPE = some message_type) (buffer : List Nat)
    (hb : v.SIZE_BYTES ≤ buffer.length) (i : Nat) :
    byte_at (CanBusMultiFrameEncoder.visit v buffer).2 i
      % 2 ^ reserved_low_bits message_type i = 0 := by
  have hz : ∀ x t : Nat,
      t ∉ [AckMessage.MESSAGE_TYPE, AmpControlMessage.MESSAGE_TYPE,
        AmpStatusMessage.MESSAGE_TYPE, NodeStatusMessage.MESSAGE_TYPE,
        PayloadEPSOutputOverwriteMessage.MESSAGE_TYPE, ResetMessage.MESSAGE_TYPE,
        RocketStateMessage.MESSAGE_TYPE, VLStatusMessage.MESSAGE_TYPE,
        AirBrakesControlMessage.MESSAGE_TYPE] → x % 2 ^ reserved_low_bits t i = 0 := by
    intro x t ht
    rw [reserved_low_bits_zero t i ht, Nat.pow_zero, Nat.mod_one]
  cases v with
  | monostate => cases hv
  | Ack m =>
    cases hv
    simp only [CanBusMessage.SIZE_BYTES, CanBusMultiFrameEncoder.visit] at hb ⊢
    by_cases h : i = 3
    · subst h; exact AckMessage_serialize_reserved m buffer hb
    · have e : reserved_low_bits AckMessage.MESSAGE_TYPE i = 0 := by
        unfold reserved_low_bits; rw [if_pos rfl, if_neg h]
      rw [e, Nat.pow_zero, Nat.mod_one]
  | AirBrakesControl m =>
    cases hv
    simp only [CanBusMessage.SIZE_BYTES, CanBusMultiFrameEncoder.visit] at hb ⊢
    by_cases h : 2 ≤ i ∧ i ≤ 5
    · have e : reserved_low_bits AirBrakesControlMessage.MESSAGE_TYPE i = 8 := by
        unfold reserved_low_bits
        rw [if_neg (by decide), if_neg (by decide), if_neg (by decide), if_neg (by decide),
          if_neg (by decide), if_neg (by decide), if_neg (by decide), if_neg (by decide),
          if_pos rfl, if_pos h]
      rw [e]; exact AirBrakesControlMessage_serialize_reserved m buffer hb i h.1 h.2
    · have e : reserved_low_bits AirBrakesControlMessage.MESSAGE_TYPE i = 0 := by
        unfold reserved_low_bits
        rw [if_neg (by decide), if_neg (by decide), if_neg (by decide), if_neg (by decide),
          if_neg (by decide), if_neg (by decide), if_neg (by decide), if_neg (by decide),
          if_pos rfl, if_neg h]
      rw [e, Nat.pow_zero, Nat.mod_one]
  | AmpControl m =>
    cases hv
    simp only [CanBusMessage.SIZE_BYTES, CanBusMultiFrameEncoder.visit] at hb ⊢
    by_cases h : i = 0
    · subst h; exact AmpControlMessage_serialize_reserved m buffer hb
    · have e : reserved_low_bits AmpControlMessage.MESSAGE_TYPE i = 0 := by
        unfold reserved_low_bits; rw [if_neg (by decide), if_pos rfl, if_neg h]
      rw [e, Nat.pow_zero, Nat.mod_one]
  | AmpOverwrite m => cases hv; exact hz _ _ (by decide)
  | AmpResetOutput m => cases hv; exact hz _ _ (by decide)
  | AmpStatus m =>
    cases hv
    simp only [CanBusMessage.SIZE_BYTES, CanBusMultiFrameEncoder.visit] at hb ⊢
    by_cases h : 2 ≤ i ∧ i ≤ 5
    · have e : reserved_low_bits AmpStatusMessage.MESSAGE_TYPE i = 5 := by
        unfold reserved_low_bits
        rw [if_neg (by decide), if_neg (by decide), if_pos rfl, if_pos h]
      rw [e]; exact AmpStatusMessage_serialize_reserved m buffer hb i h.1 h.2
    · have e : reserved_low_bits AmpStatusMessage.MESSAGE_TYPE i = 0 := by
        unfold reserved_low_bits
        rw [if_neg (by decide), if_neg (by decide), if_pos rfl, if_neg h]
      rw [e, Nat.pow_zero, Nat.mod_one]
  | BaroMeasurement m => cases hv; exact hz _ _ (by decide)
  | BrightnessMeasurement m => cases hv; exact hz _ _ (by decide)
  | DataTransfer m => cases hv; exact hz _ _ (by decide)
  | IcarusStatus m => cases hv; exact hz _ _ (by decide)
  | IMUMeasurement m => cases hv; exact hz _ _ (by decide)
  | MagMeasurement m => cases hv; exact hz _ _ (by decide)
  | NodeStatus m =>
    cases hv
    simp only [CanBusMessage.SIZE_BYTES, CanBusMultiFrameEncoder.visit] at hb ⊢
    by_cases h : i = 4
    · subst h; exact NodeStatusMessage_serialize_reserved m buffer hb
    · have e : reserved_low_bits NodeStatusMessage.MESSAGE_TYPE i = 0 := by
        unfold reserved_low_bits
        rw [if_neg (by decide), if_neg (by decide), if_neg (by decide), if_pos rfl, if_neg h]
      rw [e, Nat.pow_zero, Nat.mod_one]
  | OzysMeasurement m => cases hv; exact hz _ _ (by decide)
  | PayloadEPSOutputOverwrite m =>
    cases hv
    simp only [CanBusMessage.SIZE_BYTES, CanBusMultiFrameEncoder.visit] at hb ⊢
    by_cases h : i = 2
    · subst h; exact PayloadEPSOutputOverwriteMessage_serialize_reserved m buffer hb
    · have e : reserved_low_bits PayloadEPSOutputOverwriteMessage.MESSAGE_TYPE i = 0 := by
        unfold reserved_low_bits
        rw [if_neg (by decide), if_neg (by decide), if_neg (by decide), if_neg (by decide),
          if_pos rfl, if_neg h]
      rw [e, Nat.pow_zero, Nat.mod_one]
  | PayloadEPSStatus m => cases hv; exact hz _ _ (by decide)
  | PreUnixTime m => cases hv; exact hz _ _ (by decide)
  | Reset m =>
    cases hv
    simp only [CanBusMessage.SIZE_BYTES, CanBusMultiFrameEncoder.visit] at hb ⊢
    by_cases h : i = 1
    · subst h; exact ResetMessage_serialize_reserved m buffer hb
    · have e : reserved_low_bits ResetMessage.MESSAGE_TYPE i = 0 := by
        unfold reserved_low_bits
        rw [if_neg (by decide), if_neg (by decide), if_neg (by decide), if_neg (by decide),
          if_neg (by decide), if_pos rfl, if_neg h]
      rw [e, Nat.pow_zero, Nat.mod_one]
  | RocketState m =>
    cases hv
    simp only [CanBusMessage.SIZE_BYTES, CanBusMultiFrameEncoder.visit] at hb ⊢
    by_cases h : i = 19
    · subst h; exact RocketStateMessage_serialize_reserved m buffer hb
    · have e : reserved_low_bits RocketStateMessage.MESSAGE_TYPE i = 0 := by
        unfold reserved_low_bits
        rw [if_neg (by decide), if_neg (by decide), if_neg (by decide), if_neg (by decide),
          if_neg (by decide), if_neg (by decide), if_pos rfl, if_neg h]
      rw [e, Nat.pow_zero, Nat.mod_one]
  | UnixTime m => cases hv; exact hz _ _ (by decide)
  | VLStatus m =>
    cases hv
    simp only [CanBusMessage.SIZE_BYTES, CanBusMultiFrameEncoder.visit] at hb ⊢
    by_cases h : 3 ≤ i ∧ i ≤ 4
    · have e : reserved_low_bits VLStatusMessage.MESSAGE_TYPE i = 8 := by
        unfold reserved_low_bits
        rw [if_neg (by decide), if_neg (by decide), if_neg (by decide), if_neg (by decide),
          if_neg (by decide), if_neg (by decide), if_neg (by decide), if_pos rfl, if_pos h]
      rw [e]; exact VLStatusMessage_serialize_reserved m buffer hb i h.1 h.2
    · have e : reserved_low_bits VLStatusMessage.MESSAGE_TYPE i = 0 := by
        unfold reserved_low_bits
        rw [if_neg (by decide), if_neg (by decide), if_neg (by decide), if_neg (by decide),
          if_neg (by decide), if_neg (by decide), if_neg (by decide), if_pos rfl, if_neg h]
      rw [e, Nat.pow_zero, Nat.mod_one]

set_option maxRecDepth 100000 in
/-- C22 at a `Reset` whose `node_id` `0xFFFF` does not fit its 12 bits, serialized over two
`0xFF` bytes: the bytes are `[0xFF, 0xFC]`, bits 1..0 of byte 1 are zero. -/
theorem C22_reserved_bits_zero_witness :
    ResetMessage.serialize ⟨0xFFFF, true, true⟩ [0xFF, 0xFF] = [0xFF, 0xFC]
      ∧ reserved_low_bits 0 1 = 2
      ∧ byte_at (CanBusMultiFrameEncoder.visit (.Reset ⟨0xFFFF, true, true⟩) [0xFF, 0xFF]).2 1
          % 2 ^ reserved_low_bits 0 1 = 0 :=
  ⟨by decide, by decide,
    C22_reserved_bits_zero (.Reset ⟨0xFFFF, true, true⟩) 0 rfl [0xFF, 0xFF] (by decide) 1⟩

set_option maxRecDepth 100000 in
/-- C23. The two `calculate_crc` functions, the encoder's and the state machine's, return the
same value for every buffer and length, and that value is CRC-16/CCITT-FALSE of the bytes
`data[0 .. len)`: the register of the bitwise division by the polynomial `0x1021`, most
significant bit first, started at `0xFFFF`, with no reflection and no final xor.  The empty
input gives `0xFFFF` and the ASCII bytes of "123456789" give `0x29B1`. -/
theorem C23_crc16_ccitt_false (data : List Nat) (len : Nat) (hlen : len ≤ data.length) :
    CanBusMultiFrameEncoder.calculate_crc data len = StateMachine.calculate_crc data len
      ∧ CanBusMultiFrameEncoder.calculate_crc data len = crc16_ccitt_false (data.take len)
      ∧ StateMachine.calculate_crc data len = crc16_ccitt_false (data.take len)
      ∧ CanBusMultiFrameEncoder.calculate_crc data len < 2 ^ 16
      ∧ crc16_ccitt_false [] = 0xFFFF
      ∧ crc16_ccitt_false [0x31, 0x32, 0x33, 0x34, 0x35, 0x36, 0x37, 0x38, 0x39] = 0x29B1 := by
  have h := calculate_crc_spec data len
  rw [map_byte_at_range data len hlen] at h
  exact ⟨rfl, h, h, calculate_crc_lt data len, rfl, by decide⟩

set_option maxRecDepth 100000 in
/-- C23 at the nine bytes of "123456789" followed by two more bytes that are not read: both
functions return `0x29B1`; and at length 0: both return `0xFFFF`. -/
theorem C23_crc16_ccitt_false_witness :
    (CanBusMultiFrameEncoder.calculate_crc
        [0x31, 0x32, 0x33, 0x34, 0x35, 0x36, 0x37, 0x38, 0x39, 0xAA, 0xBB] 9 = 0x29B1
      ∧ StateMachine.calculate_crc
        [0x31, 0x32, 0x33, 0x34, 0x35, 0x36, 0x37, 0x38, 0x39, 0xAA, 0xBB] 9 = 0x29B1)
      ∧ CanBusMultiFrameEncoder.calculate_crc [] 0 = 0xFFFF
      ∧ StateMachine.calculate_crc [] 0 = 0xFFFF :=
  have h := C23_crc16_ccitt_false
    [0x31, 0x32, 0x33, 0x34, 0x35, 0x36, 0x37, 0x38, 0x39, 0xAA, 0xBB] 9 (by decide)
  have h0 := C23_crc16_ccitt_false [] 0 (Nat.le_refl 0)
  ⟨⟨h.2.1.trans h.2.2.2.2.2, h.2.2.1.trans h.2.2.2.2.2⟩,
    h0.2.1.trans h0.2.2.2.2.1, h0.2.2.1.trans h0.2.2.2.2.1⟩

/-- C24. Big-endian integer I/O: for each width `N` in 16, 24, 32, 56, 64, `write_uN_be` at
an offset changes exactly the `N / 8` bytes from that offset on, which become the low `N` bits
of the value with the most significant byte first (byte `k` is
`value / 2 ^ (8 * (N / 8 - 1 - k)) % 256`), so the value read back is `value % 2 ^ N`; and
writing what `read_uN_be` returns for a buffer of `N / 8` bytes gives that buffer back. -/
theorem C24_be_integer_io :
    (∀ n v k, k < n → byte_at (be_bytes n v) k = (v / 2 ^ (8 * (n - 1 - k))) % 256)
      ∧ (∀ n v, (be_bytes n v).length = n)
      ∧ (∀ (buffer : List Nat) (off v : Nat), off + 2 ≤ buffer.length →
          write_u16_be buffer off v
              = buffer.take off ++ be_bytes 2 v ++ buffer.drop (off + 2)
            ∧ read_u16_be (write_u16_be buffer off v) off = v % 2 ^ 16)
      ∧ (∀ (buffer : List Nat) (off v : Nat), off + 3 ≤ buffer.length →
          write_u24_be buffer off v
              = buffer.take off ++ be_bytes 3 v ++ buffer.drop (off + 3)
            ∧ read_u24_be (write_u24_be buffer off v) off = v % 2 ^ 24)
      ∧ (∀ (buffer : List Nat) (off v : Nat), off + 4 ≤ buffer.length →
          write_u32_be buffer off v
              = buffer.take off ++ be_bytes 4 v ++ buffer.drop (off + 4)
            ∧ read_u32_be (write_u32_be buffer off v) off = v % 2 ^ 32)
      ∧ (∀ (buffer : List Nat) (off v : Nat), off + 7 ≤ buffer.length →
          write_u56_be buffer off v
              = buffer.take off ++ be_bytes 7 v ++ buffer.drop (off + 7)
            ∧ read_u56_be (write_u56_be buffer off v) off = v % 2 ^ 56)
      ∧ (∀ (buffer : List Nat) (off v : Nat), off + 8 ≤ buffer.length →
          write_u64_be buffer off v
              = buffer.take off ++ be_bytes 8 v ++ buffer.drop (off + 8)
            ∧ read_u64_be (write_u64_be buffer off v) off = v % 2 ^ 64)
      ∧ (∀ b : List Nat, b.length = 2 → (∀ x ∈ b, x < 256) →
          write_u16_be b 0 (read_u16_be b 0) = b)
      ∧ (∀ b : List Nat, b.length = 3 → (∀ x ∈ b, x < 256) →
          write_u24_be b 0 (read_u24_be b 0) = b)
      ∧ (∀ b : List Nat, b.length = 4 → (∀ x ∈ b, x < 256) →
          write_u32_be b 0 (read_u32_be b 0) = b)
      ∧ (∀ b : List Nat, b.length = 7 → (∀ x ∈ b, x < 256) →
          write_u56_be b 0 (read_u56_be b 0) = b)
      ∧ (∀ b : List Nat, b.length = 8 → (∀ x ∈ b, x < 256) →
          write_u64_be b 0 (read_u64_be b 0) = b) :=
  ⟨byte_at_be_bytes, length_be_bytes,
    fun buffer off v h => ⟨write_u16_be_eq buffer off v h, read_write_u16_be buffer off v h⟩,
    fun buffer off v h => ⟨write_u24_be_eq buffer off v h, read_write_u24_be buffer off v h⟩,
    fun buffer off v h => ⟨write_u32_be_eq buffer off v h, read_write_u32_be buffer off v h⟩,
    fun buffer off v h => ⟨write_u56_be_eq buffer off v h, read_write_u56_be buffer off v h⟩,
    fun buffer off v h => ⟨write_u64_be_eq buffer off v h, read_write_u64_be buffer off v h⟩,
    write_read_u16_be, write_read_u24_be, write_read_u32_be, write_read_u56_be,
    write_read_u64_be⟩

/-- C24 at the 64-bit value `0x0102030405060708` written at offset 1 of ten `0xEE` bytes, and at
the bytes `0x01 .. 0x08` read and written back. -/
theorem C24_be_integer_io_witness :
    (write_u16_be (List.replicate 10 0xEE) 1 0x0102030405060708
          = [0xEE, 0x07, 0x08, 0xEE, 0xEE, 0xEE, 0xEE, 0xEE, 0xEE, 0xEE]
        ∧ read_u16_be (write_u16_be (List.replicate 10 0xEE) 1 0x0102030405060708) 1
          = 0x0708)
      ∧ (write_u24_be (List.replicate 10 0xEE) 1 0x0102030405060708
          = [0xEE, 0x06, 0x07, 0x08, 0xEE, 0xEE, 0xEE, 0xEE, 0xEE, 0xEE]
        ∧ read_u24_be (write_u24_be (List.replicate 10 0xEE) 1 0x0102030405060708) 1
          = 0x060708)
      ∧ (write_u32_be (List.replicate 10 0xEE) 1 0x0102030405060708
          = [0xEE, 0x05, 0x06, 0x07, 0x08, 0xEE, 0xEE, 0xEE, 0xEE, 0xEE]
        ∧ read_u32_be (write_u32_be (List.replicate 10 0xEE) 1 0x0102030405060708) 1
          = 0x05060708)
      ∧ (write_u56_be (List.replicate 10 0xEE) 1 0x0102030405060708
          = [0xEE, 0x02, 0x03, 0x04, 0x05, 0x06, 0x07, 0x08, 0xEE, 0xEE]
        ∧ read_u56_be (write_u56_be (List.replicate 10 0xEE) 1 0x0102030405060708) 1
          = 0x02030405060708)
      ∧ (write_u64_be (List.replicate 10 0xEE) 1 0x0102030405060708
          = [0xEE, 0x01, 0x02, 0x03, 0x04, 0x05, 0x06, 0x07, 0x08, 0xEE]
        ∧ read_u64_be (write_u64_be (List.replicate 10 0xEE) 1 0x0102030405060708) 1
          = 0x0102030405060708)
      ∧ write_u16_be [1, 2] 0 (read_u16_be [1, 2] 0) = [1, 2]
      ∧ write_u24_be [1, 2, 3] 0 (read_u24_be [1, 2, 3] 0) = [1, 2, 3]
      ∧ write_u32_be [1, 2, 3, 4] 0 (read_u32_be [1, 2, 3, 4] 0) = [1, 2, 3, 4]
      ∧ write_u56_be [1, 2, 3, 4, 5, 6, 7] 0 (read_u56_be [1, 2, 3, 4, 5, 6, 7] 0)
          = [1, 2, 3, 4, 5, 6, 7]
      ∧ write_u64_be [1, 2, 3, 4, 5, 6, 7, 8] 0 (read_u64_be [1, 2, 3, 4, 5, 6, 7, 8] 0)
          = [1, 2, 3, 4, 5, 6, 7, 8] :=
  ⟨(C24_be_integer_io.2.2.1 (List.replicate 10 0xEE) 1 0x0102030405060708
      (by decide)).imp (fun h => h.trans (by decide)) (fun h => h.trans (by decide)),
    (C24_be_integer_io.2.2.2.1 (List.replicate 10 0xEE) 1 0x0102030405060708
      (by decide)).imp (fun h => h.trans (by decide)) (fun h => h.trans (by decide)),
    (C24_be_integer_io.2.2.2.2.1 (List.replicate 10 0xEE) 1 0x0102030405060708
      (by decide)).imp (fun h => h.trans (by decide)) (fun h => h.trans (by decide)),
    (C24_be_integer_io.2.2.2.2.2.1 (List.replicate 10 0xEE) 1 0x0102030405060708
      (by decide)).imp (fun h => h.trans (by decide)) (fun h => h.trans (by decide)),
    (C24_be_integer_io.2.2.2.2.2.2.1 (List.replicate 10 0xEE) 1 0x0102030405060708
      (by decide)).imp (fun h => h.trans (by decide)) (fun h => h.trans (by decide)),
    C24_be_integer_io.2.2.2.2.2.2.2.1 [1, 2] rfl (by decide),
    C24_be_integer_io.2.2.2.2.2.2.2.2.1 [1, 2, 3] rfl (by decide),
    C24_be_integer_io.2.2.2.2.2.2.2.2.2.1 [1, 2, 3, 4] rfl (by decide),
    C24_be_integer_io.2.2.2.2.2.2.2.2.2.2.1 [1, 2, 3, 4, 5, 6, 7] rfl (by decide),
    C24_be_integer_io.2.2.2.2.2.2.2.2.2.2.2 [1, 2, 3, 4, 5, 6, 7, 8] rfl (by decide)⟩

/-- C25. Opening a slot: a frame of at most 259 bytes (a CAN frame has at most 8; 259 is the
longest frame whose `frame_len - 3` bytes fit the 256-byte slot buffer) that is not a
single-frame transfer (`SOT` and `EOT` both set) and reaches an empty slot always yields no
message.  If its tail has `SOT = 1`, `EOT = 0`, `toggle = 0` and `frame_len >= 4`, the slot
becomes occupied with the frame's identifier, `first_frame_timestamp_us = timestamp_us`,
`crc = frame[0] | frame[1] << 8`, `data_len = frame_len - 3` and
`buffer[0 .. data_len) = frame[2 .. frame_len - 1)`, the rest of the buffer unchanged; any
other such frame, one of length zero included, leaves the slot as it was, empty. -/
theorem C25_open_slot (sm : StateMachine) (frame_id : Nat) (frame_data : List Nat)
    (frame_len timestamp_us : Nat)
    (hty : sm.type = SlotType.Empty) (hbuf : sm.multi_frame.data.length = 256)
    (hbytes : ∀ x ∈ frame_data, x < 256)
    (hfl259 : frame_len ≤ 259)
    (hns : frame_len = 0 ∨
      ((TailByte.from_byte (byte_at frame_data (frame_len - 1))).start_of_transfer &&
        (TailByte.from_byte (byte_at frame_data (frame_len - 1))).end_of_transfer) = false) :
    (sm.process_frame frame_id frame_data frame_len timestamp_us).1 = none
      ∧ (TailByte.from_byte (byte_at frame_data (frame_len - 1)) = ⟨true, false, false⟩ ∧
            4 ≤ frame_len →
          (sm.process_frame frame_id frame_data frame_len timestamp_us).2.type
              = SlotType.MultiFrame
            ∧ (sm.process_frame frame_id frame_data frame_len timestamp_us).2.multi_frame.id
              = frame_id
            ∧ (sm.process_frame frame_id frame_data frame_len
                timestamp_us).2.multi_frame.first_frame_timestamp_us = timestamp_us
            ∧ (sm.process_frame frame_id frame_data frame_len timestamp_us).2.multi_frame.crc
              = byte_at frame_data 0 ||| (byte_at frame_data 1 <<< 8)
            ∧ (sm.process_frame frame_id frame_data frame_len
                timestamp_us).2.multi_frame.data_len = frame_len - 3
            ∧ (sm.process_frame frame_id frame_data frame_len
                timestamp_us).2.multi_frame.data_len ≤ 256
            ∧ (sm.process_frame frame_id frame_data frame_len
                timestamp_us).2.multi_frame.data.length = 256
            ∧ (∀ i, i < frame_len - 3 →
                byte_at (sm.process_frame frame_id frame_data frame_len
                  timestamp_us).2.multi_frame.data i = byte_at frame_data (2 + i))
            ∧ (∀ i, frame_len - 3 ≤ i →
                byte_at (sm.process_frame frame_id frame_data frame_len
                  timestamp_us).2.multi_frame.data i = byte_at sm.multi_frame.data i))
      ∧ (¬ (TailByte.from_byte (byte_at frame_data (frame_len - 1)) = ⟨true, false, false⟩ ∧
            4 ≤ frame_len) →
          (sm.process_frame frame_id frame_data frame_len timestamp_us).2 = sm) := by
  by_cases hfl : frame_len = 0
  · subst hfl
    rw [sm_process_frame_zero]
    exact ⟨rfl, fun h => absurd h.2 (by omega), fun _ => rfl⟩
  · have hns' := hns.resolve_left hfl
    rw [sm_process_frame_empty sm frame_id frame_data frame_len timestamp_us hfl _ rfl hns' hty]
    by_cases hc : TailByte.from_byte (byte_at frame_data (frame_len - 1)) = ⟨true, false, false⟩
        ∧ 4 ≤ frame_len
    · rw [if_pos hc]
      refine ⟨rfl, fun _ => ⟨rfl, rfl, rfl, ?_, rfl, ?_, ?_, ?_, ?_⟩, fun h => absurd hc h⟩
      · exact stored_crc_eq _ _ (byte_at_lt_of_mem _ hbytes 0) (byte_at_lt_of_mem _ hbytes 1)
      · simp only []
        omega
      · simp only [length_memcpy, hbuf]
      · intro i hi
        simp only []
        rw [byte_at_memcpy, if_pos ⟨Nat.zero_le _, by omega, by omega⟩, Nat.sub_zero]
      · intro i hi
        simp only []
        rw [byte_at_memcpy_of_ge _ _ _ _ _ _ (by omega)]
    · rw [if_neg hc]
      exact ⟨rfl, fun h => absurd h hc, fun _ => rfl⟩

set_option maxRecDepth 100000 in
/-- C25 at an empty zeroed slot and the opening frame `[0x34, 0x12, 1, 2, 3, 4, 5, 0x80]` of
identifier `0x1488A014` at time 1000: the slot is occupied with `crc = 0x1234`,
`data_len = 5` and the bytes `1 .. 5`; the same frame with the toggle bit set (`0xA0`) leaves
the slot empty. -/
theorem C25_open_slot_witness :
    ((StateMachine.process_frame
          { type := SlotType.Empty
            multi_frame := { id := 0, first_frame_timestamp_us := 0, crc := 0,
                             data := List.replicate 256 0, data_len := 0 } }
          0x1488A014 [0x34, 0x12, 1, 2, 3, 4, 5, 0x80] 8 1000).1 = none
      ∧ (StateMachine.process_frame
          { type := SlotType.Empty
            multi_frame := { id := 0, first_frame_timestamp_us := 0, crc := 0,
                             data := List.replicate 256 0, data_len := 0 } }
          0x1488A014 [0x34, 0x12, 1, 2, 3, 4, 5, 0x80] 8 1000).2.type = SlotType.MultiFrame
      ∧ (StateMachine.process_frame
          { type := SlotType.Empty
            multi_frame := { id := 0, first_frame_timestamp_us := 0, crc := 0,
                             data := List.replicate 256 0, data_len := 0 } }
          0x1488A014 [0x34, 0x12, 1, 2, 3, 4, 5, 0x80] 8 1000).2.multi_frame.crc = 0x1234
      ∧ (StateMachine.process_frame
          { type := SlotType.Empty
            multi_frame := { id := 0, first_frame_timestamp_us := 0, crc := 0,
                             data := List.replicate 256 0, data_len := 0 } }
          0x1488A014 [0x34, 0x12, 1, 2, 3, 4, 5, 0x80] 8 1000).2.multi_frame.data_len = 5
      ∧ byte_at (StateMachine.process_frame
          { type := SlotType.Empty
            multi_frame := { id := 0, first_frame_timestamp_us := 0, crc := 0,
                             data := List.replicate 256 0, data_len := 0 } }
          0x1488A014 [0x34, 0x12, 1, 2, 3, 4, 5, 0x80] 8 1000).2.multi_frame.data 4 = 5)
      ∧ StateMachine.process_frame
          { type := SlotType.Empty
            multi_frame := { id := 0, first_frame_timestamp_us := 0, crc := 0,
                             data := List.replicate 256 0, data_len := 0 } }
          0x1488A014 [0x34, 0x12, 1, 2, 3, 4, 5, 0xA0] 8 1000
        = (none,
          { type := SlotType.Empty
            multi_frame := { id := 0, first_frame_timestamp_us := 0, crc := 0,
                             data := List.replicate 256 0, data_len := 0 } }) :=
  have h1 := C25_open_slot
    { type := SlotType.Empty
      multi_frame := { id := 0, first_frame_timestamp_us := 0, crc := 0,
                       data := List.replicate 256 0, data_len := 0 } }
    0x1488A014 [0x34, 0x12, 1, 2, 3, 4, 5, 0x80] 8 1000 rfl (by decide) (by decide)
    (by decide) (Or.inr (by decide))
  have h2 := C25_open_slot
    { type := SlotType.Empty
      multi_frame := { id := 0, first_frame_timestamp_us := 0, crc := 0,
                       data := List.replicate 256 0, data_len := 0 } }
    0x1488A014 [0x34, 0x12, 1, 2, 3, 4, 5, 0xA0] 8 1000 rfl (by decide) (by decide)
    (by decide) (Or.inr (by decide))
  have o := h1.2.1 ⟨by decide, by decide⟩
  ⟨⟨h1.1, o.1, o.2.2.2.1.trans (by decide), o.2.2.2.2.1,
      (o.2.2.2.2.2.2.2.1 4 (by decide)).trans (by decide)⟩,
    Prod.ext h2.1 (h2.2.2 (by decide))⟩

/-- C26. Overflow of the slot buffer: when a continuation frame with the identifier of the
slot, the expected toggle and `SOT = 0` would make the accumulated length exceed 256
(`data_len + frame_len - 1 > 256`), `process_frame` returns no message and the slot becomes
empty, its buffer and every other field untouched.  The state is reachable: from a fresh
decoder, an opening frame followed by 35 full continuation frames without `EOT` leaves slot 0
occupied with `5 + 35 * 7 = 250` bytes and no message returned, and the 36th such frame
(`250 + 7 = 257 > 256`), which has the expected toggle, gets no message either and empties
the slot without writing to it. -/
theorem C26_overflow (sm : StateMachine) (frame_id : Nat) (frame_data : List Nat)
    (frame_len timestamp_us : Nat) (hfl : frame_len ≠ 0)
    (hty : sm.type = SlotType.MultiFrame) (hid : sm.multi_frame.id = frame_id)
    (hsot : (TailByte.from_byte (byte_at frame_data (frame_len - 1))).start_of_transfer = false)
    (htog : (TailByte.from_byte (byte_at frame_data (frame_len - 1))).toggle
      = sm.expected_toggle_bit)
    (hov : sm.multi_frame.data_len + (frame_len - 1) > 256) :
    sm.process_frame frame_id frame_data frame_len timestamp_us
        = (none, { sm with type := SlotType.Empty })
      ∧ ∀ (d : CanBusMultiFrameDecoder) (id : Nat) (p0 : List Nat) (ps : Nat → List Nat)
          (ts : Nat → Nat), d.fresh → (id >>> 18) &&& 0xFF ≠ 255 → p0.length = 7 →
          (∀ j, (ps j).length = 7) →
          (d.run (long_transfer id p0 ps ts 35)).1 = List.replicate 36 none
            ∧ ((d.run (long_transfer id p0 ps ts 35)).2.slot 0).type = SlotType.MultiFrame
            ∧ ((d.run (long_transfer id p0 ps ts 35)).2.slot 0).multi_frame.id = id
            ∧ ((d.run (long_transfer id p0 ps ts 35)).2.slot 0).multi_frame.data_len = 250
            ∧ (mkframe (ps 35) ⟨false, false, 35 % 2 == 0⟩).len = 8
            ∧ (mkframe (ps 35) ⟨false, false, 35 % 2 == 0⟩).tail.start_of_transfer = false
            ∧ (mkframe (ps 35) ⟨false, false, 35 % 2 == 0⟩).tail.end_of_transfer = false
            ∧ (mkframe (ps 35) ⟨false, false, 35 % 2 == 0⟩).tail.toggle
                = ((d.run (long_transfer id p0 ps ts 35)).2.slot 0).expected_toggle_bit
            ∧ (d.run (long_transfer id p0 ps ts 36)).1 = List.replicate 37 none
            ∧ (d.run (long_transfer id p0 ps ts 36)).2.slot 0
                = { (d.run (long_transfer id p0 ps ts 35)).2.slot 0 with
                    type := SlotType.Empty } := by
  refine ⟨sm_overflow sm frame_id frame_data frame_len timestamp_us hfl hty hid hsot htog hov,
    ?_⟩
  intro d id p0 ps ts hd hmt hp0 hps
  obtain ⟨s0, rest, rfl, hty0, -, hrest⟩ := fresh_cons d hd
  rw [run_slot0 id hmt rest hrest _ s0 (long_transfer_ids id p0 ps ts 35) (Or.inl hty0),
    run_slot0 id hmt rest hrest _ s0 (long_transfer_ids id p0 ps ts 36) (Or.inl hty0)]
  simp only [slot_zero]
  obtain ⟨h1, h2, h3, h4, -, -⟩ :=
    sm_run_long_transfer id p0 ps ts hp0 hps s0 hty0 35 (by omega)
  obtain ⟨htog', hrun⟩ := sm_run_overflow id p0 ps ts hp0 hps s0 hty0
  have ht := mkframe_tail (ps 35) ⟨false, false, 35 % 2 == 0⟩ (by rw [hps])
  refine ⟨h1, h2, h3, h4, by rw [mkframe_len, hps], ?_, ?_, htog', by rw [hrun], by rw [hrun]⟩
  · unfold Frame.tail; rw [ht]
  · unfold Frame.tail; rw [ht]

set_option maxRecDepth 100000 in
/-- C26 at a slot that holds 250 bytes of the transfer `0x1488A014` and the continuation frame
`[1, 2, 3, 4, 5, 6, 7, 0x00]`, and at the zeroed decoder with frames that carry zeros. -/
theorem C26_overflow_witness :
    StateMachine.process_frame
        { type := SlotType.MultiFrame
          multi_frame := { id := 0x1488A014, first_frame_timestamp_us := 1000, crc := 0xB011,
                           data := List.replicate 256 0, data_len := 250 } }
        0x1488A014 [1, 2, 3, 4, 5, 6, 7, 0x00] 8 2000
      = (none,
          { type := SlotType.Empty
            multi_frame := { id := 0x1488A014, first_frame_timestamp_us := 1000, crc := 0xB011,
                             data := List.replicate 256 0, data_len := 250 } })
      ∧ ((CanBusMultiFrameDecoder.zeroed.run
            (long_transfer 0x1488A014 (List.replicate 7 0) (fun _ => List.replicate 7 0)
              (fun j => 1000 + j) 35)).2.slot 0).multi_frame.data_len = 250
      ∧ (CanBusMultiFrameDecoder.zeroed.run
            (long_transfer 0x1488A014 (List.replicate 7 0) (fun _ => List.replicate 7 0)
              (fun j => 1000 + j) 36)).1 = List.replicate 37 none
      ∧ ((CanBusMultiFrameDecoder.zeroed.run
            (long_transfer 0x1488A014 (List.replicate 7 0) (fun _ => List.replicate 7 0)
              (fun j => 1000 + j) 36)).2.slot 0).type = SlotType.Empty :=
  have h := C26_overflow
    { type := SlotType.MultiFrame
      multi_frame := { id := 0x1488A014, first_frame_timestamp_us := 1000, crc := 0xB011,
                       data := List.replicate 256 0, data_len := 250 } }
    0x1488A014 [1, 2, 3, 4, 5, 6, 7, 0x00] 8 2000 (by decide) rfl rfl (by decide) (by decide)
    (by decide)
  have r := h.2 CanBusMultiFrameDecoder.zeroed 0x1488A014 (List.replicate 7 0)
    (fun _ => List.replicate 7 0) (fun j => 1000 + j) zeroed_fresh (by decide) (by decide)
    (fun _ => List.length_replicate 7 0)
  ⟨h.1, r.2.2.2.1, r.2.2.2.2.2.2.2.2.1, by rw [r.2.2.2.2.2.2.2.2.2]⟩

/-- C27. Interleaved transfers: take `k <= 8` messages with fields in range and pairwise
distinct identifiers, the frames of the encoder of each (`rxs j`, with the identifier of
message `j` and any timestamps), and any interleaving `tagged` of these frames that keeps the
frames of every message in order (each frame is tagged with the index of its message, and the
frames tagged `j` are exactly `rxs j`).  A fresh decoder that receives the interleaved frames
returns one result per frame, and the results of the frames of message `j`, in order, are
nothing for every frame but the last and `Some(id, crc, message j)` for the last: exactly
what a fresh decoder returns for the frames of message `j` alone. -/
theorem C27_interleaved_transfers (k : Nat) (hk : k ≤ CanBusMultiFrameDecoder.Q)
    (msgs : Nat → CanBusMessage) (node_types node_ids ids : Nat → Nat)
    (mems : Nat → List Nat) (rxs : Nat → List Rx)
    (hvalid : ∀ j, j < k → (msgs j).valid)
    (hid : ∀ j, j < k → (msgs j).get_id (node_types j) (node_ids j) = some (ids j))
    (hdist : ∀ a b, a < k → b < k → a ≠ b → ids a ≠ ids b)
    (hmem : ∀ j, j < k → (mems j).length = CanBusMultiFrameEncoder.MAX_CAN_MESSAGE_SIZE)
    (hframes : ∀ j, j < k →
      (rxs j).map Rx.frame = (CanBusMultiFrameEncoder.new (mems j) (msgs j)).frames)
    (hrxid : ∀ j, j < k → ∀ r ∈ rxs j, r.frame_id = ids j)
    (tagged : List (Nat × Rx)) (htag : ∀ p ∈ tagged, p.1 < k)
    (horder : ∀ j, j < k → (tagged.filter (fun p => p.1 == j)).map Prod.snd = rxs j)
    (d : CanBusMultiFrameDecoder) (hd : d.fresh) :
    (d.run (tagged.map Prod.snd)).1.length = tagged.length
      ∧ ∀ j, j < k →
        ((tagged.zip (d.run (tagged.map Prod.snd)).1).filter (fun q => q.1.1 == j)).map
            Prod.snd
          = List.replicate ((rxs j).length - 1) none ++
              [some { id := ids j
                      crc := CanBusMultiFrameEncoder.calculate_crc (msgs j).serialized
                        (msgs j).SIZE_BYTES
                      message := msgs j }]
        ∧ ∀ d0 : CanBusMultiFrameDecoder, d0.fresh →
          ((tagged.zip (d.run (tagged.map Prod.snd)).1).filter (fun q => q.1.1 == j)).map
              Prod.snd
            = (d0.run (rxs j)).1 := by
  have hok : ∀ j, j < k → is_transfer (ids j) (rxs j)
      { id := ids j
        crc := CanBusMultiFrameEncoder.calculate_crc (msgs j).serialized (msgs j).SIZE_BYTES
        message := msgs j } :=
    fun j hj => is_transfer_of_encoder (msgs j) (hvalid j hj) (node_types j) (node_ids j)
      (ids j) (hid j hj) (mems j) (hmem j hj) (rxs j) (hframes j hj) (hrxid j hj)
  have hrun := tracks_run k ids rxs _ hk hdist hok tagged d (fun _ => 0)
    (tracks_fresh d hd k ids rxs) htag (fun j hj => by rw [horder j hj]; rfl)
  refine ⟨by rw [run_length, List.length_map], fun j hj => ?_⟩
  have h := hrun j hj
  rw [List.drop_zero] at h
  refine ⟨h, fun d0 hd0 => ?_⟩
  rw [h, run_is_transfer _ _ _ (hok j hj) d0 hd0]

set_option maxRecDepth 100000 in
/-- C27 at two messages: a `BaroMeasurement` of node (10, 20), three frames, and a `Reset` of
node (10, 21), one frame, which arrives between the first and the second frame of the other;
the zeroed decoder returns the `Reset` at the second call and the `BaroMeasurement` at the
fourth. -/
theorem C27_interleaved_transfers_witness :
    (CanBusMultiFrameDecoder.zeroed.run
        [⟨0x0E00A014, ⟨[9, 175, 0, 1, 139, 205, 9, 128], 8⟩, 1000⟩,
         ⟨0xA015, ⟨[171, 200, 192, 0, 0, 0, 0, 0], 3⟩, 1001⟩,
         ⟨0x0E00A014, ⟨[196, 0, 0, 0, 0, 15, 66, 32], 8⟩, 1002⟩,
         ⟨0x0E00A014, ⟨[64, 64, 0, 0, 0, 0, 0, 0], 2⟩, 1003⟩]).1
      = [none,
         some ⟨0xA015, 33999, .Reset ⟨0xABC, true, false⟩⟩,
         none,
         some ⟨0x0E00A014, 0xAF09, .BaroMeasurement ⟨101325, 2500, 1000000⟩⟩] := by
  have h := C27_interleaved_transfers 2 (by decide)
    (fun j => if j = 0 then .BaroMeasurement ⟨101325, 2500, 1000000⟩
      else .Reset ⟨0xABC, true, false⟩)
    (fun _ => 10) (fun j => 20 + j) (fun j => if j = 0 then 0x0E00A014 else 0xA015)
    (fun _ => List.replicate 64 0)
    (fun j => if j = 0 then
        [⟨0x0E00A014, ⟨[9, 175, 0, 1, 139, 205, 9, 128], 8⟩, 1000⟩,
         ⟨0x0E00A014, ⟨[196, 0, 0, 0, 0, 15, 66, 32], 8⟩, 1002⟩,
         ⟨0x0E00A014, ⟨[64, 64, 0, 0, 0, 0, 0, 0], 2⟩, 1003⟩]
      else [⟨0xA015, ⟨[171, 200, 192, 0, 0, 0, 0, 0], 3⟩, 1001⟩])
    (by
      intro j hj
      interval_cases j
      · exact (by decide : (CanBusMessage.BaroMeasurement ⟨101325, 2500, 1000000⟩).valid)
      · exact (by decide : (CanBusMessage.Reset ⟨0xABC, true, false⟩).valid))
    (by intro j hj; interval_cases j <;> decide)
    (by intro a b ha hb; interval_cases a <;> interval_cases b <;> decide)
    (by intro j hj; interval_cases j <;> decide)
    (by intro j hj; interval_cases j <;> decide)
    (by intro j hj; interval_cases j <;> decide)
    [(0, ⟨0x0E00A014, ⟨[9, 175, 0, 1, 139, 205, 9, 128], 8⟩, 1000⟩),
     (1, ⟨0xA015, ⟨[171, 200, 192, 0, 0, 0, 0, 0], 3⟩, 1001⟩),
     (0, ⟨0x0E00A014, ⟨[196, 0, 0, 0, 0, 15, 66, 32], 8⟩, 1002⟩),
     (0, ⟨0x0E00A014, ⟨[64, 64, 0, 0, 0, 0, 0, 0], 2⟩, 1003⟩)]
    (by decide)
    (by intro j hj; interval_cases j <;> decide)
    CanBusMultiFrameDecoder.zeroed zeroed_fresh
  obtain ⟨hl, hp⟩ := h
  have h0 := (hp 0 (by decide)).1
  have h1 := (hp 1 (by decide)).1
  simp only [List.map_cons, List.map_nil] at hl h0 h1 ⊢
  generalize (CanBusMultiFrameDecoder.zeroed.run _).1 = out at hl h0 h1 ⊢
  rcases out with _ | ⟨o0, _ | ⟨o1, _ | ⟨o2, _ | ⟨o3, _ | ⟨o4, t⟩⟩⟩⟩⟩ <;>
    simp only [List.length_cons, List.length_nil] at hl <;> try omega
  simp [List.zip, List.filter] at h0 h1
  obtain ⟨e0, e2, e3⟩ := h0
  subst e0 e2 e3 h1
  rfl

/-- C28. Layout of `Reset`: for every message with `node_id < 4096`, `serialize` stores
bits 11..4 of `node_id` in byte 0 and
`(node_id bits 3..0) << 4 | reset_all << 3 | into_bootloader << 2` in byte 1, whose bits 1..0
are zero, and writes no other byte; `{node_id = 0xABC, reset_all = true, into_bootloader =
false}` serializes to `[0xAB, 0xC8]`, and the encoder emits for it the single frame
`[0xAB, 0xC8, 0xC0]`. -/
theorem C28_reset_layout (m : ResetMessage) (hn : m.node_id < 4096) (buffer mem : List Nat)
    (hb : ResetMessage.SIZE_BYTES ≤ buffer.length)
    (hmem : mem.length = CanBusMultiFrameEncoder.MAX_CAN_MESSAGE_SIZE) :
    byte_at (m.serialize buffer) 0 = m.node_id >>> 4
      ∧ byte_at (m.serialize buffer) 1
          = ((m.node_id &&& 0x0F) <<< 4) ||| (m.reset_all.toNat <<< 3)
              ||| (m.into_bootloader.toNat <<< 2)
      ∧ byte_at (m.serialize buffer) 1 &&& 0x03 = 0
      ∧ (m.serialize buffer).length = buffer.length
      ∧ (∀ i, ResetMessage.SIZE_BYTES ≤ i → byte_at (m.serialize buffer) i = byte_at buffer i)
      ∧ (CanBusMessage.Reset ⟨0xABC, true, false⟩).serialized = [0xAB, 0xC8]
      ∧ (CanBusMultiFrameEncoder.new mem (.Reset ⟨0xABC, true, false⟩)).frames
          = [{ data := [0xAB, 0xC8, 0xC0, 0, 0, 0, 0, 0], len := 3 }] := by
  unfold ResetMessage.SIZE_BYTES at hb
  have hm : (CanBusMessage.Reset ⟨0xABC, true, false⟩).SIZE_BYTES ≤ mem.length := by
    rw [hmem]; decide
  obtain ⟨n, ra, ib⟩ := m
  simp only at hn
  refine ⟨?_, ?_, ?_, ?_, ?_, by decide, ?_⟩
  · simp [ResetMessage.serialize, byte_at_store, lt_length_of_le hb]
    simp only [and_0xFF, Nat.shiftRight_eq_div_pow]
    omega
  · simp [ResetMessage.serialize, byte_at_store, lt_length_of_le hb]
    simp only [and_0x0F, Nat.shiftLeft_eq]
    cases ra <;> cases ib <;>
      simp (disch := omega) only [Bool.toNat_true, Bool.toNat_false, if_true, if_false,
        Bool.false_eq_true, Nat.zero_mul, Nat.or_zero, Nat.one_mul, or_add_3, or_add_4] <;>
      omega
  · simp [ResetMessage.serialize, byte_at_store, lt_length_of_le hb]
    simp only [and_0x0F, and_0x03, Nat.shiftLeft_eq]
    cases ra <;> cases ib <;>
      simp (disch := omega) only [if_true, if_false, Bool.false_eq_true, or_add_3, or_add_4] <;>
      omega
  · simp only [ResetMessage.serialize, length_store]
  · intro i hi
    unfold ResetMessage.SIZE_BYTES at hi
    simp only [ResetMessage.serialize]
    rw [byte_at_store_of_ne _ _ _ _ (by omega), byte_at_store_of_ne _ _ _ _ (by omega)]
  · rw [frames_of_short mem _ hm (by decide) (by decide)]
    decide

set_option maxRecDepth 100000 in
/-- C28 at `{node_id = 0xABC, reset_all = true, into_bootloader = false}` on a zeroed
two-byte buffer. -/
theorem C28_reset_layout_witness :
    (ResetMessage.serialize ⟨0xABC, true, false⟩ (List.replicate 2 0) = [0xAB, 0xC8])
      ∧ (byte_at (ResetMessage.serialize ⟨0xABC, true, false⟩ (List.replicate 2 0)) 0
            = 0xABC >>> 4
        ∧ byte_at (ResetMessage.serialize ⟨0xABC, true, false⟩ (List.replicate 2 0)) 1
            = ((0xABC &&& 0x0F) <<< 4) ||| (true.toNat <<< 3) ||| (false.toNat <<< 2)
        ∧ byte_at (ResetMessage.serialize ⟨0xABC, true, false⟩ (List.replicate 2 0)) 1
            &&& 0x03 = 0
        ∧ (ResetMessage.serialize ⟨0xABC, true, false⟩ (List.replicate 2 0)).length
            = (List.replicate 2 0).length
        ∧ (∀ i, ResetMessage.SIZE_BYTES ≤ i →
            byte_at (ResetMessage.serialize ⟨0xABC, true, false⟩ (List.replicate 2 0)) i
              = byte_at (List.replicate 2 0) i)
        ∧ (CanBusMessage.Reset ⟨0xABC, true, false⟩).serialized = [0xAB, 0xC8]
        ∧ (CanBusMultiFrameEncoder.new (List.replicate 64 0)
              (.Reset ⟨0xABC, true, false⟩)).frames
            = [{ data := [0xAB, 0xC8, 0xC0, 0, 0, 0, 0, 0], len := 3 }]) :=
  ⟨by decide, C28_reset_layout ⟨0xABC, true, false⟩ (by decide) (List.replicate 2 0)
    (List.replicate 64 0) (by decide) (by decide)⟩

/-- C29. Layout of `Ack`: for every message with `node_id < 4096` (and a 16-bit `crc`),
`serialize` stores `crc` big-endian in bytes 0..1 and `node_id << 4` big-endian in bytes 2..3,
so the low four bits of byte 3 are zero, and writes no other byte; `{crc = 0x1234, node_id =
0x0AB}` serializes to `[0x12, 0x34, 0x0A, 0xB0]`. -/
theorem C29_ack_layout (m : AckMessage) (hn : m.node_id < 4096) (hc : m.crc < 2 ^ 16)
    (buffer : List Nat) (hb : AckMessage.SIZE_BYTES ≤ buffer.length) :
    byte_at (m.serialize buffer) 0 = m.crc >>> 8
      ∧ byte_at (m.serialize buffer) 1 = m.crc &&& 0xFF
      ∧ byte_at (m.serialize buffer) 2 = (m.node_id <<< 4) >>> 8
      ∧ byte_at (m.serialize buffer) 3 = (m.node_id <<< 4) &&& 0xFF
      ∧ byte_at (m.serialize buffer) 3 &&& 0x0F = 0
      ∧ (m.serialize buffer).length = buffer.length
      ∧ (∀ i, AckMessage.SIZE_BYTES ≤ i → byte_at (m.serialize buffer) i = byte_at buffer i)
      ∧ (CanBusMessage.Ack ⟨0x1234, 0x0AB⟩).serialized = [0x12, 0x34, 0x0A, 0xB0] := by
  unfold AckMessage.SIZE_BYTES at hb
  obtain ⟨c, n⟩ := m
  simp only [Nat.reducePow] at hn hc
  have hl : (memset buffer 0 0 4).length = buffer.length := length_memset 4 buffer 0 0
  refine ⟨?_, ?_, ?_, ?_, ?_, ?_, ?_, by decide⟩
  · simp [AckMessage.serialize, AckMessage.SIZE_BYTES, write_u16_be, byte_at_store, hl,
      lt_length_of_le hb]
    simp only [and_0xFF, and_0xFFF, and_0xF0, and_0x0F, Nat.shiftRight_eq_div_pow, Nat.shiftLeft_eq]
    omega
  · simp [AckMessage.serialize, AckMessage.SIZE_BYTES, write_u16_be, byte_at_store, hl,
      lt_length_of_le hb]
    simp only [and_0xFF, and_0xFFF, and_0xF0, and_0x0F, Nat.shiftRight_eq_div_pow, Nat.shiftLeft_eq]
    omega
  · simp [AckMessage.serialize, AckMessage.SIZE_BYTES, write_u16_be, byte_at_store, hl,
      lt_length_of_le hb]
    simp only [and_0xFF, and_0xFFF, and_0xF0, and_0x0F, Nat.shiftRight_eq_div_pow, Nat.shiftLeft_eq]
    omega
  · simp [AckMessage.serialize, AckMessage.SIZE_BYTES, write_u16_be, byte_at_store, hl,
      lt_length_of_le hb]
    simp only [and_0xFF, and_0xFFF, and_0xF0, and_0x0F, Nat.shiftRight_eq_div_pow, Nat.shiftLeft_eq]
    omega
  · simp [AckMessage.serialize, AckMessage.SIZE_BYTES, write_u16_be, byte_at_store, hl,
      lt_length_of_le hb]
    simp only [and_0xFF, and_0xFFF, and_0xF0, and_0x0F, Nat.shiftRight_eq_div_pow, Nat.shiftLeft_eq]
    omega
  · simp only [AckMessage.serialize, AckMessage.SIZE_BYTES, write_u16_be, length_store, hl]
  · intro i hi
    unfold AckMessage.SIZE_BYTES at hi
    simp only [AckMessage.serialize, AckMessage.SIZE_BYTES, write_u16_be]
    rw [byte_at_store_of_ne _ _ _ _ (by omega), byte_at_store_of_ne _ _ _ _ (by omega),
      byte_at_store_of_ne _ _ _ _ (by omega), byte_at_store_of_ne _ _ _ _ (by omega),
      byte_at_memset_of_ge _ _ _ _ _ (by omega)]

set_option maxRecDepth 100000 in
/-- C29 at `{crc = 0x1234, node_id = 0x0AB}` on a zeroed four-byte buffer. -/
theorem C29_ack_layout_witness :
    (AckMessage.serialize ⟨0x1234, 0x0AB⟩ (List.replicate 4 0) = [0x12, 0x34, 0x0A, 0xB0])
      ∧ (byte_at (AckMessage.serialize ⟨0x1234, 0x0AB⟩ (List.replicate 4 0)) 0 = 0x1234 >>> 8
        ∧ byte_at (AckMessage.serialize ⟨0x1234, 0x0AB⟩ (List.replicate 4 0)) 1
            = 0x1234 &&& 0xFF
        ∧ byte_at (AckMessage.serialize ⟨0x1234, 0x0AB⟩ (List.replicate 4 0)) 2
            = (0x0AB <<< 4) >>> 8
        ∧ byte_at (AckMessage.serialize ⟨0x1234, 0x0AB⟩ (List.replicate 4 0)) 3
            = (0x0AB <<< 4) &&& 0xFF
        ∧ byte_at (AckMessage.serialize ⟨0x1234, 0x0AB⟩ (List.replicate 4 0)) 3 &&& 0x0F = 0
        ∧ (AckMessage.serialize ⟨0x1234, 0x0AB⟩ (List.replicate 4 0)).length
            = (List.replicate 4 0).length
        ∧ (∀ i, AckMessage.SIZE_BYTES ≤ i →
            byte_at (AckMessage.serialize ⟨0x1234, 0x0AB⟩ (List.replicate 4 0)) i
              = byte_at (List.replicate 4 0) i)
        ∧ (CanBusMessage.Ack ⟨0x1234, 0x0AB⟩).serialized = [0x12, 0x34, 0x0A, 0xB0]) :=
  ⟨by decide, C29_ack_layout ⟨0x1234, 0x0AB⟩ (by decide) (by decide) (List.replicate 4 0)
    (by decide)⟩

/-- C30. Layout of `NodeStatus`: for every message with `uptime_s < 2^24` and
`custom_status_raw < 2^11` (health and mode being enumerators, 0..3), `serialize` stores
`uptime_s` big-endian in bytes 0..2, `health << 6 | mode << 4 | custom_status_raw bits 10..7`
in byte 3 and `(custom_status_raw bits 6..0) << 1` in byte 4, whose bit 0 is zero, and writes
no other byte; `{uptime_s = 10, Healthy, Maintenance, 0}` serializes to
`[0x00, 0x00, 0x0A, 0x20, 0x00]`. -/
theorem C30_node_status_layout (m : NodeStatusMessage) (hu : m.uptime_s < 2 ^ 24)
    (hc : m.custom_status_raw < 2 ^ 11) (hh : m.health ≤ NodeHealth.Critical)
    (hm : m.mode ≤ NodeMode.Offline) (buffer : List Nat)
    (hb : NodeStatusMessage.SIZE_BYTES ≤ buffer.length) :
    byte_at (m.serialize buffer) 0 = m.uptime_s >>> 16
      ∧ byte_at (m.serialize buffer) 1 = (m.uptime_s >>> 8) &&& 0xFF
      ∧ byte_at (m.serialize buffer) 2 = m.uptime_s &&& 0xFF
      ∧ byte_at (m.serialize buffer) 3
          = (m.health <<< 6) ||| (m.mode <<< 4) ||| (m.custom_status_raw >>> 7)
      ∧ byte_at (m.serialize buffer) 4 = (m.custom_status_raw &&& 0x7F) <<< 1
      ∧ byte_at (m.serialize buffer) 4 &&& 0x01 = 0
      ∧ (m.serialize buffer).length = buffer.length
      ∧ (∀ i, NodeStatusMessage.SIZE_BYTES ≤ i →
          byte_at (m.serialize buffer) i = byte_at buffer i)
      ∧ (CanBusMessage.NodeStatus ⟨10, NodeHealth.Healthy, NodeMode.Maintenance, 0⟩).serialized
          = [0x00, 0x00, 0x0A, 0x20, 0x00] := by
  unfold NodeStatusMessage.SIZE_BYTES at hb
  obtain ⟨u, h, md, c⟩ := m
  simp only [Nat.reducePow, NodeHealth.Critical, NodeMode.Offline] at hu hc hh hm
  refine ⟨?_, ?_, ?_, ?_, ?_, ?_, ?_, ?_, by decide⟩
  · simp [NodeStatusMessage.serialize, write_u24_be, byte_at_store, lt_length_of_le hb]
    simp only [and_0xFF, and_0x03, and_0x0F, and_0x7F, Nat.shiftRight_eq_div_pow, Nat.shiftLeft_eq]
    omega
  · simp [NodeStatusMessage.serialize, write_u24_be, byte_at_store, lt_length_of_le hb]
    simp only [and_0xFF, and_0x03, and_0x0F, and_0x7F, Nat.shiftRight_eq_div_pow, Nat.shiftLeft_eq]
    omega
  · simp [NodeStatusMessage.serialize, write_u24_be, byte_at_store, lt_length_of_le hb]
    simp only [and_0xFF, and_0x03, and_0x0F, and_0x7F, Nat.shiftRight_eq_div_pow, Nat.shiftLeft_eq]
    omega
  · simp [NodeStatusMessage.serialize, write_u24_be, byte_at_store, lt_length_of_le hb]
    simp only [and_0xFF, and_0x03, and_0x0F, and_0x7F, Nat.shiftRight_eq_div_pow, Nat.shiftLeft_eq]
    simp (disch := omega) only [or_add_4, or_add_6, Nat.mod_mod]
    omega
  · simp [NodeStatusMessage.serialize, write_u24_be, byte_at_store, lt_length_of_le hb]
    simp only [and_0xFF, and_0x03, and_0x0F, and_0x7F, Nat.shiftRight_eq_div_pow, Nat.shiftLeft_eq]
    omega
  · simp [NodeStatusMessage.serialize, write_u24_be, byte_at_store, lt_length_of_le hb]
    simp only [and_0xFF, and_0x03, and_0x0F, and_0x7F, Nat.shiftRight_eq_div_pow, Nat.shiftLeft_eq]
    omega
  · simp only [NodeStatusMessage.serialize, write_u24_be, length_store]
  · intro i hi
    unfold NodeStatusMessage.SIZE_BYTES at hi
    simp only [NodeStatusMessage.serialize, write_u24_be]
    rw [byte_at_store_of_ne _ _ _ _ (by omega), byte_at_store_of_ne _ _ _ _ (by omega),
      byte_at_store_of_ne _ _ _ _ (by omega), byte_at_store_of_ne _ _ _ _ (by omega),
      byte_at_store_of_ne _ _ _ _ (by omega)]

set_option maxRecDepth 100000 in
/-- C30 at `{uptime_s = 10, Healthy, Maintenance, custom_status_raw = 0}` on a zeroed
five-byte buffer. -/
theorem C30_node_status_layout_witness :
    (NodeStatusMessage.serialize ⟨10, NodeHealth.Healthy, NodeMode.Maintenance, 0⟩
        (List.replicate 5 0) = [0x00, 0x00, 0x0A, 0x20, 0x00])
      ∧ (byte_at (NodeStatusMessage.serialize ⟨10, NodeHealth.Healthy, NodeMode.Maintenance, 0⟩
            (List.replicate 5 0)) 0 = 10 >>> 16
        ∧ byte_at (NodeStatusMessage.serialize ⟨10, NodeHealth.Healthy, NodeMode.Maintenance, 0⟩
            (List.replicate 5 0)) 1 = (10 >>> 8) &&& 0xFF
        ∧ byte_at (NodeStatusMessage.serialize ⟨10, NodeHealth.Healthy, NodeMode.Maintenance, 0⟩
            (List.replicate 5 0)) 2 = 10 &&& 0xFF
        ∧ byte_at (NodeStatusMessage.serialize ⟨10, NodeHealth.Healthy, NodeMode.Maintenance, 0⟩
            (List.replicate 5 0)) 3
            = (NodeHealth.Healthy <<< 6) ||| (NodeMode.Maintenance <<< 4) ||| (0 >>> 7)
        ∧ byte_at (NodeStatusMessage.serialize ⟨10, NodeHealth.Healthy, NodeMode.Maintenance, 0⟩
            (List.replicate 5 0)) 4 = (0 &&& 0x7F) <<< 1
        ∧ byte_at (NodeStatusMessage.serialize ⟨10, NodeHealth.Healthy, NodeMode.Maintenance, 0⟩
            (List.replicate 5 0)) 4 &&& 0x01 = 0
        ∧ (NodeStatusMessage.serialize ⟨10, NodeHealth.Healthy, NodeMode.Maintenance, 0⟩
            (List.replicate 5 0)).length = (List.replicate 5 0).length
        ∧ (∀ i, NodeStatusMessage.SIZE_BYTES ≤ i →
            byte_at (NodeStatusMessage.serialize
              ⟨10, NodeHealth.Healthy, NodeMode.Maintenance, 0⟩ (List.replicate 5 0)) i
              = byte_at (List.replicate 5 0) i)
        ∧ (CanBusMessage.NodeStatus
              ⟨10, NodeHealth.Healthy, NodeMode.Maintenance, 0⟩).serialized
            = [0x00, 0x00, 0x0A, 0x20, 0x00]) :=
  ⟨by decide, C30_node_status_layout ⟨10, NodeHealth.Healthy, NodeMode.Maintenance, 0⟩
    (by decide) (by decide) (by decide) (by decide) (List.replicate 5 0) (by decide)⟩

/-- C31. Layout of `PayloadEPSOutputOverwrite`: for every message with `node_id < 4096` (the
three outputs being two-bit values), `serialize` stores
`out_3v3 << 6 | out_5v << 4 | out_9v << 2 | node_id bits 11..10` in byte 0, bits 9..2 of
`node_id` in byte 1 and `(node_id bits 1..0) << 6` in byte 2, whose low six bits are zero, and
writes no other byte. -/
theorem C31_payload_eps_output_overwrite_layout (m : PayloadEPSOutputOverwriteMessage)
    (hn : m.node_id < 4096) (h3 : m.out_3v3 < 4) (h5 : m.out_5v < 4) (h9 : m.out_9v < 4)
    (buffer : List Nat) (hb : PayloadEPSOutputOverwriteMessage.SIZE_BYTES ≤ buffer.length) :
    byte_at (m.serialize buffer) 0
        = (m.out_3v3 <<< 6) ||| (m.out_5v <<< 4) ||| (m.out_9v <<< 2) ||| (m.node_id >>> 10)
      ∧ byte_at (m.serialize buffer) 1 = (m.node_id >>> 2) &&& 0xFF
      ∧ byte_at (m.serialize buffer) 2 = (m.node_id &&& 0x03) <<< 6
      ∧ byte_at (m.serialize buffer) 2 &&& 0x3F = 0
      ∧ (m.serialize buffer).length = buffer.length
      ∧ (∀ i, PayloadEPSOutputOverwriteMessage.SIZE_BYTES ≤ i →
          byte_at (m.serialize buffer) i = byte_at buffer i) := by
  unfold PayloadEPSOutputOverwriteMessage.SIZE_BYTES at hb
  obtain ⟨o3, o5, o9, n⟩ := m
  simp only at hn h3 h5 h9
  refine ⟨?_, ?_, ?_, ?_, ?_, ?_⟩
  · simp [PayloadEPSOutputOverwriteMessage.serialize, byte_at_store, lt_length_of_le hb]
    simp only [and_0xFF, and_0x03, Nat.shiftRight_eq_div_pow, Nat.shiftLeft_eq]
    simp (disch := omega) only [or_add_2, or_add_4, or_add_6, Nat.mod_mod]
    omega
  · simp [PayloadEPSOutputOverwriteMessage.serialize, byte_at_store, lt_length_of_le hb]
    simp only [and_0xFF]
    omega
  · simp [PayloadEPSOutputOverwriteMessage.serialize, byte_at_store, lt_length_of_le hb]
    simp only [and_0xFF, and_0x03, Nat.shiftRight_eq_div_pow, Nat.shiftLeft_eq]
    omega
  · simp [PayloadEPSOutputOverwriteMessage.serialize, byte_at_store, lt_length_of_le hb]
    simp only [and_0xFF, and_0x03, and_0x3F, Nat.shiftRight_eq_div_pow, Nat.shiftLeft_eq]
    omega
  · simp only [PayloadEPSOutputOverwriteMessage.serialize, length_store]
  · intro i hi
    unfold PayloadEPSOutputOverwriteMessage.SIZE_BYTES at hi
    simp only [PayloadEPSOutputOverwriteMessage.serialize]
    rw [byte_at_store_of_ne _ _ _ _ (by omega), byte_at_store_of_ne _ _ _ _ (by omega),
      byte_at_store_of_ne _ _ _ _ (by omega)]

set_option maxRecDepth 100000 in
/-- C31 at `{ForceEnabled, ForceDisabled, NoOverwrite, node_id = 0xABD}` written over three
`0xFF` bytes: the bytes are `[0x62, 0xAF, 0x40]`. -/
theorem C31_payload_eps_output_overwrite_layout_witness :
    (PayloadEPSOutputOverwriteMessage.serialize
        ⟨PowerOutputOverwrite.ForceEnabled, PowerOutputOverwrite.ForceDisabled,
          PowerOutputOverwrite.NoOverwrite, 0xABD⟩ [0xFF, 0xFF, 0xFF] = [0x62, 0xAF, 0x40])
      ∧ (byte_at (PayloadEPSOutputOverwriteMessage.serialize
            ⟨PowerOutputOverwrite.ForceEnabled, PowerOutputOverwrite.ForceDisabled,
              PowerOutputOverwrite.NoOverwrite, 0xABD⟩ [0xFF, 0xFF, 0xFF]) 0
            = (PowerOutputOverwrite.ForceEnabled <<< 6)
                ||| (PowerOutputOverwrite.ForceDisabled <<< 4)
                ||| (PowerOutputOverwrite.NoOverwrite <<< 2) ||| (0xABD >>> 10)
        ∧ byte_at (PayloadEPSOutputOverwriteMessage.serialize
            ⟨PowerOutputOverwrite.ForceEnabled, PowerOutputOverwrite.ForceDisabled,
              PowerOutputOverwrite.NoOverwrite, 0xABD⟩ [0xFF, 0xFF, 0xFF]) 1
            = (0xABD >>> 2) &&& 0xFF
        ∧ byte_at (PayloadEPSOutputOverwriteMessage.serialize
            ⟨PowerOutputOverwrite.ForceEnabled, PowerOutputOverwrite.ForceDisabled,
              PowerOutputOverwrite.NoOverwrite, 0xABD⟩ [0xFF, 0xFF, 0xFF]) 2
            = (0xABD &&& 0x03) <<< 6
        ∧ byte_at (PayloadEPSOutputOverwriteMessage.serialize
            ⟨PowerOutputOverwrite.ForceEnabled, PowerOutputOverwrite.ForceDisabled,
              PowerOutputOverwrite.NoOverwrite, 0xABD⟩ [0xFF, 0xFF, 0xFF]) 2 &&& 0x3F = 0
        ∧ (PayloadEPSOutputOverwriteMessage.serialize
            ⟨PowerOutputOverwrite.ForceEnabled, PowerOutputOverwrite.ForceDisabled,
              PowerOutputOverwrite.NoOverwrite, 0xABD⟩ [0xFF, 0xFF, 0xFF]).length
            = [0xFF, 0xFF, 0xFF].length
        ∧ (∀ i, PayloadEPSOutputOverwriteMessage.SIZE_BYTES ≤ i →
            byte_at (PayloadEPSOutputOverwriteMessage.serialize
              ⟨PowerOutputOverwrite.ForceEnabled, PowerOutputOverwrite.ForceDisabled,
                PowerOutputOverwrite.NoOverwrite, 0xABD⟩ [0xFF, 0xFF, 0xFF]) i
              = byte_at [0xFF, 0xFF, 0xFF] i)) :=
  ⟨by decide, C31_payload_eps_output_overwrite_layout
    ⟨PowerOutputOverwrite.ForceEnabled, PowerOutputOverwrite.ForceDisabled,
      PowerOutputOverwrite.NoOverwrite, 0xABD⟩ (by decide) (by decide) (by decide) (by decide)
    [0xFF, 0xFF, 0xFF] (by decide)⟩

/-- C32. Layout of `DataTransfer`: for every message with `destination_node_id < 4096` (the
array `data` having its 32 cells, `data_len` and `sequence_number` being bytes and `data_type`
a two-bit value), `serialize` stores `data` in bytes 0..31, `data_len` in byte 32,
`sequence_number` in byte 33,
`start_of_transfer << 7 | end_of_transfer << 6 | data_type << 4 | destination_node_id bits
11..8` in byte 34 and bits 7..0 of `destination_node_id` in byte 35, and writes no other
byte. -/
theorem C32_data_transfer_layout (m : DataTransferMessage)
    (hn : m.destination_node_id < 4096)
    (hdata : m.data.length = DataTransferMessage.DATA_CAPACITY)
    (hl : m.data_len < 256) (hs : m.sequence_number < 256) (ht : m.data_type < 4)
    (buffer : List Nat) (hb : DataTransferMessage.SIZE_BYTES ≤ buffer.length) :
    (m.serialize buffer).take 32 = m.data
      ∧ (∀ i, i < 32 → byte_at (m.serialize buffer) i = byte_at m.data i)
      ∧ byte_at (m.serialize buffer) 32 = m.data_len
      ∧ byte_at (m.serialize buffer) 33 = m.sequence_number
      ∧ byte_at (m.serialize buffer) 34
          = (m.start_of_transfer.toNat <<< 7) ||| (m.end_of_transfer.toNat <<< 6)
              ||| (m.data_type <<< 4) ||| (m.destination_node_id >>> 8)
      ∧ byte_at (m.serialize buffer) 35 = m.destination_node_id &&& 0xFF
      ∧ (m.serialize buffer).length = buffer.length
      ∧ (∀ i, DataTransferMessage.SIZE_BYTES ≤ i →
          byte_at (m.serialize buffer) i = byte_at buffer i) := by
  unfold DataTransferMessage.SIZE_BYTES at hb
  unfold DataTransferMessage.DATA_CAPACITY at hdata
  obtain ⟨data, dl, sq, w1, w2, dt, dn⟩ := m
  simp only at hn hdata hl hs ht
  have hbytes : ∀ i, i < 32 →
      byte_at (DataTransferMessage.serialize ⟨data, dl, sq, w1, w2, dt, dn⟩ buffer) i
        = byte_at data i := by
    intro i hi
    have hi' : i < buffer.length := by omega
    simp only [DataTransferMessage.serialize, DataTransferMessage.DATA_CAPACITY]
    rw [byte_at_store_of_ne _ _ _ _ (by omega), byte_at_store_of_ne _ _ _ _ (by omega),
      byte_at_store_of_ne _ _ _ _ (by omega), byte_at_store_of_ne _ _ _ _ (by omega)]
    simp [byte_at_memcpy, hi, hi']
  have hlen : (DataTransferMessage.serialize ⟨data, dl, sq, w1, w2, dt, dn⟩ buffer).length
      = buffer.length := by
    simp only [DataTransferMessage.serialize, length_store, length_memcpy]
  refine ⟨?_, hbytes, ?_, ?_, ?_, ?_, hlen, ?_⟩
  · apply ext_byte_at
    · rw [List.length_take, hlen, hdata]; omega
    · intro i hi
      rw [List.length_take, hlen] at hi
      rw [byte_at_take, if_pos (by omega)]
      exact hbytes i (by omega)
  · simp [DataTransferMessage.serialize, byte_at_store, lt_length_of_le hb]
    omega
  · simp [DataTransferMessage.serialize, byte_at_store, lt_length_of_le hb]
    omega
  · simp [DataTransferMessage.serialize, byte_at_store, lt_length_of_le hb]
    simp only [and_0x03, and_0x0F, Nat.shiftRight_eq_div_pow, Nat.shiftLeft_eq]
    cases w1 <;> cases w2 <;>
      simp (disch := omega) only [Bool.toNat_true, Bool.toNat_false, if_true, if_false,
        Bool.false_eq_true, Nat.zero_mul, Nat.zero_or, Nat.or_zero, Nat.one_mul, Nat.mod_mod,
        or_add_4, or_add_6, or_add_7] <;>
      omega
  · simp [DataTransferMessage.serialize, byte_at_store, lt_length_of_le hb]
    simp only [and_0xFF]
    omega
  · intro i hi
    unfold DataTransferMessage.SIZE_BYTES at hi
    simp only [DataTransferMessage.serialize, DataTransferMessage.DATA_CAPACITY]
    rw [byte_at_store_of_ne _ _ _ _ (by omega), byte_at_store_of_ne _ _ _ _ (by omega),
      byte_at_store_of_ne _ _ _ _ (by omega), byte_at_store_of_ne _ _ _ _ (by omega),
      byte_at_memcpy_of_ge _ _ _ _ _ _ (by omega)]

set_option maxRecDepth 100000 in
/-- C32 at `{data = 1..32, data_len = 32, sequence_number = 7, start_of_transfer = true,
end_of_transfer = false, Data, destination_node_id = 0xABC}` written over 36 `0xEE` bytes: the
bytes are `1..32, 0x20, 0x07, 0x9A, 0xBC`. -/
theorem C32_data_transfer_layout_witness :
    (DataTransferMessage.serialize ⟨List.range' 1 32, 32, 7, true, false, DataType.Data, 0xABC⟩
        (List.replicate 36 0xEE) = List.range' 1 32 ++ [0x20, 0x07, 0x9A, 0xBC])
      ∧ (DataTransferMessage.serialize
            ⟨List.range' 1 32, 32, 7, true, false, DataType.Data, 0xABC⟩
            (List.replicate 36 0xEE)).take 32 = List.range' 1 32
      ∧ byte_at (DataTransferMessage.serialize
            ⟨List.range' 1 32, 32, 7, true, false, DataType.Data, 0xABC⟩
            (List.replicate 36 0xEE)) 34
          = (true.toNat <<< 7) ||| (false.toNat <<< 6) ||| (DataType.Data <<< 4)
              ||| (0xABC >>> 8)
      ∧ byte_at (DataTransferMessage.serialize
            ⟨List.range' 1 32, 32, 7, true, false, DataType.Data, 0xABC⟩
            (List.replicate 36 0xEE)) 35 = 0xABC &&& 0xFF :=
  have h := C32_data_transfer_layout
    ⟨List.range' 1 32, 32, 7, true, false, DataType.Data, 0xABC⟩ (by decide) (by decide)
    (by decide) (by decide) (by decide) (List.replicate 36 0xEE) (by decide)
  ⟨by decide, h.1, h.2.2.2.2.1, h.2.2.2.2.2.1⟩

/-- C33. The encoder is a finite generator. `has_next()` is true exactly when
`offset < message_len`. A call of `next()` made while `has_next()` is true leaves
`message_len` as it is, strictly increases `offset` and keeps `offset <= message_len`. So the
loop `while (has_next()) next()` stops: run with any bound of at least `message_len - offset`
iterations it ends with `has_next()` false, and it gives the same frames for every such bound.
An encoder that has not started (`offset = 0`) yields no frame for `message_len = 0`, exactly 1
frame for `message_len` in 1..7 and exactly `1 + ceil((message_len - 5) / 7)` frames for
`message_len >= 8`; so does the encoder of every message with `message_len = SIZE_BYTES`:
3 frames for the 14 bytes of `PayloadEPSStatus`, 6 for the 36 bytes of `DataTransfer`. -/
theorem C33_encoder_terminates :
    (∀ e : CanBusMultiFrameEncoder, e.has_next = true ↔ e.offset < e.message_len)
      ∧ (∀ e : CanBusMultiFrameEncoder, e.has_next = true →
          e.offset < e.next.2.offset ∧ e.next.2.offset ≤ e.message_len
            ∧ e.next.2.message_len = e.message_len)
      ∧ (∀ (e : CanBusMultiFrameEncoder) (fuel : Nat), e.message_len - e.offset ≤ fuel →
          (CanBusMultiFrameEncoder.drain fuel e).2.has_next = false
            ∧ CanBusMultiFrameEncoder.drain fuel e
                = CanBusMultiFrameEncoder.drain (e.message_len - e.offset) e)
      ∧ (∀ e : CanBusMultiFrameEncoder, e.offset = 0 →
          e.frames.length
            = if e.message_len = 0 then 0 else if e.message_len ≤ 7 then 1
              else 1 + (e.message_len - 5 + 6) / 7)
      ∧ (∀ (mem : List Nat) (v : CanBusMessage),
          (CanBusMultiFrameEncoder.new mem v).frames.length
            = if v.SIZE_BYTES = 0 then 0 else if v.SIZE_BYTES ≤ 7 then 1
              else 1 + (v.SIZE_BYTES - 5 + 6) / 7)
      ∧ (∀ (mem : List Nat) (m : PayloadEPSStatusMessage),
          (CanBusMultiFrameEncoder.new mem (.PayloadEPSStatus m)).frames.length = 3)
      ∧ (∀ (mem : List Nat) (m : DataTransferMessage),
          (CanBusMultiFrameEncoder.new mem (.DataTransfer m)).frames.length = 6) := by
  have hnew : ∀ (mem : List Nat) (v : CanBusMessage),
      (CanBusMultiFrameEncoder.new mem v).frames.length
        = if v.SIZE_BYTES = 0 then 0 else if v.SIZE_BYTES ≤ 7 then 1
          else 1 + (v.SIZE_BYTES - 5 + 6) / 7 := by
    intro mem v
    have h := drain_length (CanBusMultiFrameEncoder.new mem v).message_len
      (CanBusMultiFrameEncoder.new mem v) rfl (Nat.le_refl _)
    unfold CanBusMultiFrameEncoder.frames
    rw [new_message_len] at h ⊢
    exact h
  refine ⟨has_next_iff, ?_, ?_, ?_, hnew, ?_, ?_⟩
  · intro e he
    have hlt := (has_next_iff e).1 he
    have ho := next_offset e
    refine ⟨?_, ?_, next_message_len e⟩ <;> rw [ho] <;> split_ifs <;> omega
  · intro e fuel hf
    exact ⟨drain_finishes fuel e hf, drain_fuel fuel _ e hf (Nat.le_refl _)⟩
  · intro e h0
    exact drain_length e.message_len e h0 (Nat.le_refl _)
  · intro mem m
    rw [hnew, show (CanBusMessage.PayloadEPSStatus m).SIZE_BYTES = 14 from rfl]
    decide
  · intro mem m
    rw [hnew, show (CanBusMessage.DataTransfer m).SIZE_BYTES = 36 from rfl]
    decide

set_option maxRecDepth 100000 in
/-- C33 at the encoder of `PayloadEPSStatus` with `battery1_mv = 7400` on a zeroed buffer:
`has_next()` is true at the start, the first `next()` moves `offset` from 0 to 5, and the loop
yields 3 frames. -/
theorem C33_encoder_terminates_witness :
    ((CanBusMultiFrameEncoder.new (List.replicate 64 0)
        (.PayloadEPSStatus ⟨7400, 0, 0, 0, ⟨0, false, 0⟩, ⟨0, false, 0⟩, ⟨0, false, 0⟩⟩)).has_next
          = true
        ↔ (CanBusMultiFrameEncoder.new (List.replicate 64 0)
            (.PayloadEPSStatus ⟨7400, 0, 0, 0, ⟨0, false, 0⟩, ⟨0, false, 0⟩,
              ⟨0, false, 0⟩⟩)).offset
          < (CanBusMultiFrameEncoder.new (List.replicate 64 0)
            (.PayloadEPSStatus ⟨7400, 0, 0, 0, ⟨0, false, 0⟩, ⟨0, false, 0⟩,
              ⟨0, false, 0⟩⟩)).message_len)
      ∧ (CanBusMultiFrameEncoder.new (List.replicate 64 0)
          (.PayloadEPSStatus ⟨7400, 0, 0, 0, ⟨0, false, 0⟩, ⟨0, false, 0⟩,
            ⟨0, false, 0⟩⟩)).next.2.offset = 5
      ∧ (CanBusMultiFrameEncoder.new (List.replicate 64 0)
          (.PayloadEPSStatus ⟨7400, 0, 0, 0, ⟨0, false, 0⟩, ⟨0, false, 0⟩,
            ⟨0, false, 0⟩⟩)).frames.length = 3 :=
  ⟨C33_encoder_terminates.1 _, by decide, C33_encoder_terminates.2.2.2.2.2.1 _ _⟩

/-- C34. Identifier mismatch: `StateMachine::process_frame` called on an occupied slot with a
frame of length at least 1 that is not a single-frame transfer and whose identifier differs
from the slot's sets the slot empty and calls itself once on the same frame: the call returns
what the call on the emptied slot returns (the same result, none, and the same slot
afterwards). One activation does not suffice for it, the call on the emptied slot needs no
further one, and two activations suffice for every call whatever the slot and the frame: the
recursion depth is at most 1 and the method terminates on every input. -/
theorem C34_id_mismatch_recursion (sm : StateMachine) (frame_id : Nat) (frame_data : List Nat)
    (frame_len timestamp_us : Nat) (hfl : frame_len ≠ 0)
    (hns : ((TailByte.from_byte (byte_at frame_data (frame_len - 1))).start_of_transfer
      && (TailByte.from_byte (byte_at frame_data (frame_len - 1))).end_of_transfer) = false)
    (hty : sm.type = SlotType.MultiFrame) (hid : sm.multi_frame.id ≠ frame_id) :
    sm.process_frame frame_id frame_data frame_len timestamp_us
        = StateMachine.process_frame { sm with type := SlotType.Empty } frame_id frame_data
            frame_len timestamp_us
      ∧ (sm.process_frame frame_id frame_data frame_len timestamp_us).1 = none
      ∧ StateMachine.process_frame_fuel 1 sm frame_id frame_data frame_len timestamp_us = none
      ∧ StateMachine.process_frame_fuel 1 { sm with type := SlotType.Empty } frame_id
            frame_data frame_len timestamp_us
          = some (StateMachine.process_frame { sm with type := SlotType.Empty } frame_id
              frame_data frame_len timestamp_us)
      ∧ StateMachine.process_frame_fuel 2 sm frame_id frame_data frame_len timestamp_us
          = some (sm.process_frame frame_id frame_data frame_len timestamp_us)
      ∧ ∀ (fuel : Nat) (sm' : StateMachine) (id : Nat) (fd : List Nat) (fl ts : Nat),
          StateMachine.process_frame_fuel (fuel + 2) sm' id fd fl ts
            = some (sm'.process_frame id fd fl ts) := by
  have h1 := sm_process_frame_other sm frame_id frame_data frame_len timestamp_us hfl _ rfl
    hns hty hid
  refine ⟨h1, ?_, ?_, ?_, process_frame_fuel_two 0 sm _ _ _ _,
    fun fuel sm' id fd fl ts => process_frame_fuel_two fuel sm' id fd fl ts⟩
  · rw [h1, sm_process_frame_empty _ frame_id frame_data frame_len timestamp_us hfl _ rfl hns
      rfl]
    split_ifs <;> rfl
  · rw [process_frame_fuel_other 0 sm _ _ _ _ hfl hns hty hid]
    rfl
  · exact process_frame_fuel_direct 0 _ _ _ _ _ (Or.inr (Or.inr (Or.inl rfl)))

set_option maxRecDepth 100000 in
/-- C34 at a slot that holds five bytes of the transfer `0x1488A014` and the opening frame
`[9, 175, 0, 1, 139, 205, 9, 0x80]` of the transfer `0x0E00A014`: one activation does not
suffice, and the call returns none and leaves the slot opened for the new transfer, as it
does on the emptied slot. -/
theorem C34_id_mismatch_recursion_witness :
    StateMachine.process_frame_fuel 1
        { type := SlotType.MultiFrame
          multi_frame := { id := 0x1488A014, first_frame_timestamp_us := 1000, crc := 0xB011,
                           data := List.replicate 256 0, data_len := 5 } }
        0x0E00A014 [9, 175, 0, 1, 139, 205, 9, 0x80] 8 2000 = none
      ∧ StateMachine.process_frame
          { type := SlotType.MultiFrame
            multi_frame := { id := 0x1488A014, first_frame_timestamp_us := 1000, crc := 0xB011,
                             data := List.replicate 256 0, data_len := 5 } }
          0x0E00A014 [9, 175, 0, 1, 139, 205, 9, 0x80] 8 2000
        = (none,
            { type := SlotType.MultiFrame
              multi_frame := { id := 0x0E00A014, first_frame_timestamp_us := 2000,
                               crc := 0xAF09,
                               data := [0, 1, 139, 205, 9] ++ List.replicate 251 0,
                               data_len := 5 } })
      ∧ StateMachine.process_frame
          { type := SlotType.MultiFrame
            multi_frame := { id := 0x1488A014, first_frame_timestamp_us := 1000, crc := 0xB011,
                             data := List.replicate 256 0, data_len := 5 } }
          0x0E00A014 [9, 175, 0, 1, 139, 205, 9, 0x80] 8 2000
        = StateMachine.process_frame
          { type := SlotType.Empty
            multi_frame := { id := 0x1488A014, first_frame_timestamp_us := 1000, crc := 0xB011,
                             data := List.replicate 256 0, data_len := 5 } }
          0x0E00A014 [9, 175, 0, 1, 139, 205, 9, 0x80] 8 2000 :=
  have h := C34_id_mismatch_recursion
    { type := SlotType.MultiFrame
      multi_frame := { id := 0x1488A014, first_frame_timestamp_us := 1000, crc := 0xB011,
                       data := List.replicate 256 0, data_len := 5 } }
    0x0E00A014 [9, 175, 0, 1, 139, 205, 9, 0x80] 8 2000 (by decide) (by decide) rfl (by decide)
  ⟨h.2.2.1, Option.some.inj (h.2.2.2.2.1.symm.trans (by decide)), h.1⟩

/-- C35. Messages of no bytes. For a `PreUnixTime` message (`SIZE_BYTES = 0`) and for the
`monostate` variant, whatever the encoder's storage held: `has_next()` is false right after
construction, so the loop `while (has_next()) next()` emits no frame, for any bound on its
iterations, and a decoder fed the frames of that loop makes no call and returns no message.
A call of `next()` made all the same returns the frame of length 1 whose byte is `0xC0`, and
a decoder that receives this frame with an identifier of message type 8 returns
`Some(id, 0xFFFF, PreUnixTime)` and changes no slot. -/
theorem C35_zero_length_messages (mem : List Nat) (d : CanBusMultiFrameDecoder)
    (frame_id timestamp_us : Nat)
    (hid : (frame_id >>> 18) &&& 0xFF = PreUnixTimeMessage.MESSAGE_TYPE) :
    (CanBusMessage.PreUnixTime {}).SIZE_BYTES = 0
      ∧ CanBusMessage.monostate.SIZE_BYTES = 0
      ∧ (CanBusMultiFrameEncoder.new mem (.PreUnixTime {})).has_next = false
      ∧ (CanBusMultiFrameEncoder.new mem .monostate).has_next = false
      ∧ (∀ fuel, (CanBusMultiFrameEncoder.drain fuel
            (CanBusMultiFrameEncoder.new mem (.PreUnixTime {}))).1 = [])
      ∧ (∀ fuel, (CanBusMultiFrameEncoder.drain fuel
            (CanBusMultiFrameEncoder.new mem .monostate)).1 = [])
      ∧ (∀ rx : List Rx,
          rx.map Rx.frame = (CanBusMultiFrameEncoder.new mem (.PreUnixTime {})).frames
            ∨ rx.map Rx.frame = (CanBusMultiFrameEncoder.new mem .monostate).frames →
          d.run rx = ([], d))
      ∧ (CanBusMultiFrameEncoder.new mem (.PreUnixTime {})).next.1
          = { data := [0xC0, 0, 0, 0, 0, 0, 0, 0], len := 1 }
      ∧ (CanBusMultiFrameEncoder.new mem .monostate).next.1
          = { data := [0xC0, 0, 0, 0, 0, 0, 0, 0], len := 1 }
      ∧ d.process_frame frame_id [0xC0, 0, 0, 0, 0, 0, 0, 0] 1 timestamp_us
          = (some { id := frame_id, crc := 0xFFFF, message := .PreUnixTime {} }, d) := by
  have hp : (CanBusMultiFrameEncoder.new mem (.PreUnixTime {})).has_next = false := rfl
  have hm : (CanBusMultiFrameEncoder.new mem .monostate).has_next = false := rfl
  have hfp : (CanBusMultiFrameEncoder.new mem (.PreUnixTime {})).frames = [] := by
    unfold CanBusMultiFrameEncoder.frames
    rw [drain_done _ _ hp]
  have hfm : (CanBusMultiFrameEncoder.new mem .monostate).frames = [] := by
    unfold CanBusMultiFrameEncoder.frames
    rw [drain_done _ _ hm]
  refine ⟨rfl, rfl, hp, hm, fun fuel => by rw [drain_done fuel _ hp],
    fun fuel => by rw [drain_done fuel _ hm], ?_, rfl, rfl, ?_⟩
  · intro rx hrx
    rw [hfp, hfm, or_self] at hrx
    rw [List.map_eq_nil_iff.mp hrx]
    rfl
  · rw [process_frame_single d frame_id _ 1 timestamp_us (by decide) (by decide) (by decide),
      hid]
    rfl

set_option maxRecDepth 100000 in
/-- C35 on a zeroed encoder buffer and a zeroed decoder, for the identifier `0x0020A014`
(message type 8, node type 10, node id 20). -/
theorem C35_zero_length_messages_witness :
    (CanBusMultiFrameEncoder.new (List.replicate 64 0) (.PreUnixTime {})).has_next = false
      ∧ (CanBusMultiFrameEncoder.new (List.replicate 64 0) .monostate).has_next = false
      ∧ (CanBusMultiFrameEncoder.new (List.replicate 64 0) (.PreUnixTime {})).frames = []
      ∧ (CanBusMultiFrameEncoder.new (List.replicate 64 0) (.PreUnixTime {})).next.1
          = { data := [0xC0, 0, 0, 0, 0, 0, 0, 0], len := 1 }
      ∧ CanBusMultiFrameDecoder.zeroed.process_frame 0x0020A014 [0xC0, 0, 0, 0, 0, 0, 0, 0] 1
          1000
        = (some { id := 0x0020A014, crc := 0xFFFF, message := .PreUnixTime {} },
            CanBusMultiFrameDecoder.zeroed) :=
  have h := C35_zero_length_messages (List.replicate 64 0) CanBusMultiFrameDecoder.zeroed
    0x0020A014 1000 (by decide)
  ⟨h.2.2.1, h.2.2.2.1, by decide, h.2.2.2.2.2.2.2.1, h.2.2.2.2.2.2.2.2.2⟩

/-- C36. Silent truncation: for every message class, every value of its fields (in range or
not) and every buffer of at least `SIZE_BYTES` cells, `serialize` does not fail and
`deserialize(serialize(v))` is `v` with each field reduced to its wire width (`truncated`:
`timestamp_us` mod 2^56, `uptime_s` mod 2^24, `custom_status_raw` mod 2^11, node identifiers
mod 2^12, `current_ma` mod 2^13, two-bit enumerations mod 4); so the round trip returns `v`
exactly when every field lies within its width (`fits_wire`), and fails exactly when some
field exceeds it. -/
theorem C36_silent_truncation :
    (∀ (v : AckMessage) (buffer : List Nat), AckMessage.SIZE_BYTES ≤ buffer.length →
      AckMessage.deserialize (v.serialize buffer) = v.truncated
        ∧ (AckMessage.deserialize (v.serialize buffer) = v ↔ v.fits_wire)) ∧
    (∀ (v : AirBrakesControlMessage) (buffer : List Nat), AirBrakesControlMessage.SIZE_BYTES ≤ buffer.length →
      AirBrakesControlMessage.deserialize (v.serialize buffer) = v.truncated
        ∧ (AirBrakesControlMessage.deserialize (v.serialize buffer) = v ↔ v.fits_wire)) ∧
    (∀ (v : AmpControlMessage) (buffer : List Nat), AmpControlMessage.SIZE_BYTES ≤ buffer.length →
      AmpControlMessage.deserialize (v.serialize buffer) = v.truncated
        ∧ (AmpControlMessage.deserialize (v.serialize buffer) = v ↔ v.fits_wire)) ∧
    (∀ (v : AmpOverwriteMessage) (buffer : List Nat), AmpOverwriteMessage.SIZE_BYTES ≤ buffer.length →
      AmpOverwriteMessage.deserialize (v.serialize buffer) = v.truncated
        ∧ (AmpOverwriteMessage.deserialize (v.serialize buffer) = v ↔ v.fits_wire)) ∧
    (∀ (v : AmpResetOutputMessage) (buffer : List Nat), AmpResetOutputMessage.SIZE_BYTES ≤ buffer.length →
      AmpResetOutputMessage.deserialize (v.serialize buffer) = v.truncated
        ∧ (AmpResetOutputMessage.deserialize (v.serialize buffer) = v ↔ v.fits_wire)) ∧
    (∀ (v : AmpStatusMessage) (buffer : List Nat), AmpStatusMessage.SIZE_BYTES ≤ buffer.length →
      AmpStatusMessage.deserialize (v.serialize buffer) = v.truncated
        ∧ (AmpStatusMessage.deserialize (v.serialize buffer) = v ↔ v.fits_wire)) ∧
    (∀ (v : BaroMeasurementMessage) (buffer : List Nat), BaroMeasurementMessage.SIZE_BYTES ≤ buffer.length →
      BaroMeasurementMessage.deserialize (v.serialize buffer) = v.truncated
        ∧ (BaroMeasurementMessage.deserialize (v.serialize buffer) = v ↔ v.fits_wire)) ∧
    (∀ (v : BrightnessMeasurementMessage) (buffer : List Nat), BrightnessMeasurementMessage.SIZE_BYTES ≤ buffer.length →
      BrightnessMeasurementMessage.deserialize (v.serialize buffer) = v.truncated
        ∧ (BrightnessMeasurementMessage.deserialize (v.serialize buffer) = v ↔ v.fits_wire)) ∧
    (∀ (v : DataTransferMessage) (buffer : List Nat),
      v.data.length = DataTransferMessage.DATA_CAPACITY → DataTransferMessage.SIZE_BYTES ≤ buffer.length →
      DataTransferMessage.deserialize (v.serialize buffer) = v.truncated
        ∧ (DataTransferMessage.deserialize (v.serialize buffer) = v ↔ v.fits_wire)) ∧
    (∀ (v : IcarusStatusMessage) (buffer : List Nat), IcarusStatusMessage.SIZE_BYTES ≤ buffer.length →
      IcarusStatusMessage.deserialize (v.serialize buffer) = v.truncated
        ∧ (IcarusStatusMessage.deserialize (v.serialize buffer) = v ↔ v.fits_wire)) ∧
    (∀ (v : IMUMeasurementMessage) (buffer : List Nat), IMUMeasurementMessage.SIZE_BYTES ≤ buffer.length →
      IMUMeasurementMessage.deserialize (v.serialize buffer) = v.truncated
        ∧ (IMUMeasurementMessage.deserialize (v.serialize buffer) = v ↔ v.fits_wire)) ∧
    (∀ (v : MagMeasurementMessage) (buffer : List Nat), MagMeasurementMessage.SIZE_BYTES ≤ buffer.length →
      MagMeasurementMessage.deserialize (v.serialize buffer) = v.truncated
        ∧ (MagMeasurementMessage.deserialize (v.serialize buffer) = v ↔ v.fits_wire)) ∧
    (∀ (v : NodeStatusMessage) (buffer : List Nat), NodeStatusMessage.SIZE_BYTES ≤ buffer.length →
      NodeStatusMessage.deserialize (v.serialize buffer) = v.truncated
        ∧ (NodeStatusMessage.deserialize (v.serialize buffer) = v ↔ v.fits_wire)) ∧
    (∀ (v : OzysMeasurementMessage) (buffer : List Nat), OzysMeasurementMessage.SIZE_BYTES ≤ buffer.length →
      OzysMeasurementMessage.deserialize (v.serialize buffer) = v.truncated
        ∧ (OzysMeasurementMessage.deserialize (v.serialize buffer) = v ↔ v.fits_wire)) ∧
    (∀ (v : PayloadEPSOutputOverwriteMessage) (buffer : List Nat), PayloadEPSOutputOverwriteMessage.SIZE_BYTES ≤ buffer.length →
      PayloadEPSOutputOverwriteMessage.deserialize (v.serialize buffer) = v.truncated
        ∧ (PayloadEPSOutputOverwriteMessage.deserialize (v.serialize buffer) = v ↔ v.fits_wire)) ∧
    (∀ (v : PayloadEPSStatusMessage) (buffer : List Nat), PayloadEPSStatusMessage.SIZE_BYTES ≤ buffer.length →
      PayloadEPSStatusMessage.deserialize (v.serialize buffer) = v.truncated
        ∧ (PayloadEPSStatusMessage.deserialize (v.serialize buffer) = v ↔ v.fits_wire)) ∧
    (∀ (v : PreUnixTimeMessage) (buffer : List Nat), PreUnixTimeMessage.SIZE_BYTES ≤ buffer.length →
      PreUnixTimeMessage.deserialize (v.serialize buffer) = v.truncated
        ∧ (PreUnixTimeMessage.deserialize (v.serialize buffer) = v ↔ v.fits_wire)) ∧
    (∀ (v : ResetMessage) (buffer : List Nat), ResetMessage.SIZE_BYTES ≤ buffer.length →
      ResetMessage.deserialize (v.serialize buffer) = v.truncated
        ∧ (ResetMessage.deserialize (v.serialize buffer) = v ↔ v.fits_wire)) ∧
    (∀ (v : RocketStateMessage) (buffer : List Nat), RocketStateMessage.SIZE_BYTES ≤ buffer.length →
      RocketStateMessage.deserialize (v.serialize buffer) = v.truncated
        ∧ (RocketStateMessage.deserialize (v.serialize buffer) = v ↔ v.fits_wire)) ∧
    (∀ (v : UnixTimeMessage) (buffer : List Nat), UnixTimeMessage.SIZE_BYTES ≤ buffer.length →
      UnixTimeMessage.deserialize (v.serialize buffer) = v.truncated
        ∧ (UnixTimeMessage.deserialize (v.serialize buffer) = v ↔ v.fits_wire)) ∧
    (∀ (v : VLStatusMessage) (buffer : List Nat), VLStatusMessage.SIZE_BYTES ≤ buffer.length →
      VLStatusMessage.deserialize (v.serialize buffer) = v.truncated
        ∧ (VLStatusMessage.deserialize (v.serialize buffer) = v ↔ v.fits_wire)) :=
  ⟨fun v buffer hb => ⟨AckMessage_truncation v buffer hb,
      by rw [AckMessage_truncation v buffer hb]; exact AckMessage_truncated_eq v⟩,
   fun v buffer hb => ⟨AirBrakesControlMessage_truncation v buffer hb,
      by rw [AirBrakesControlMessage_truncation v buffer hb]; exact AirBrakesControlMessage_truncated_eq v⟩,
   fun v buffer hb => ⟨AmpControlMessage_truncation v buffer hb,
      by rw [AmpControlMessage_truncation v buffer hb]; exact AmpControlMessage_truncated_eq v⟩,
   fun v buffer hb => ⟨AmpOverwriteMessage_truncation v buffer hb,
      by rw [AmpOverwriteMessage_truncation v buffer hb]; exact AmpOverwriteMessage_truncated_eq v⟩,
   fun v buffer hb => ⟨AmpResetOutputMessage_truncation v buffer hb,
      by rw [AmpResetOutputMessage_truncation v buffer hb]; exact AmpResetOutputMessage_truncated_eq v⟩,
   fun v buffer hb => ⟨AmpStatusMessage_truncation v buffer hb,
      by rw [AmpStatusMessage_truncation v buffer hb]; exact AmpStatusMessage_truncated_eq v⟩,
   fun v buffer hb => ⟨BaroMeasurementMessage_truncation v buffer hb,
      by rw [BaroMeasurementMessage_truncation v buffer hb]; exact BaroMeasurementMessage_truncated_eq v⟩,
   fun v buffer hb => ⟨BrightnessMeasurementMessage_truncation v buffer hb,
      by rw [BrightnessMeasurementMessage_truncation v buffer hb]; exact BrightnessMeasurementMessage_truncated_eq v⟩,
   fun v buffer hd hb => ⟨DataTransferMessage_truncation v hd buffer hb,
      by rw [DataTransferMessage_truncation v hd buffer hb]; exact DataTransferMessage_truncated_eq v⟩,
   fun v buffer hb => ⟨IcarusStatusMessage_truncation v buffer hb,
      by rw [IcarusStatusMessage_truncation v buffer hb]; exact IcarusStatusMessage_truncated_eq v⟩,
   fun v buffer hb => ⟨IMUMeasurementMessage_truncation v buffer hb,
      by rw [IMUMeasurementMessage_truncation v buffer hb]; exact IMUMeasurementMessage_truncated_eq v⟩,
   fun v buffer hb => ⟨MagMeasurementMessage_truncation v buffer hb,
      by rw [MagMeasurementMessage_truncation v buffer hb]; exact MagMeasurementMessage_truncated_eq v⟩,
   fun v buffer hb => ⟨NodeStatusMessage_truncation v buffer hb,
      by rw [NodeStatusMessage_truncation v buffer hb]; exact NodeStatusMessage_truncated_eq v⟩,
   fun v buffer hb => ⟨OzysMeasurementMessage_truncation v buffer hb,
      by rw [OzysMeasurementMessage_truncation v buffer hb]; exact OzysMeasurementMessage_truncated_eq v⟩,
   fun v buffer hb => ⟨PayloadEPSOutputOverwriteMessage_truncation v buffer hb,
      by rw [PayloadEPSOutputOverwriteMessage_truncation v buffer hb]; exact PayloadEPSOutputOverwriteMessage_truncated_eq v⟩,
   fun v buffer hb => ⟨PayloadEPSStatusMessage_truncation v buffer hb,
      by rw [PayloadEPSStatusMessage_truncation v buffer hb]; exact PayloadEPSStatusMessage_truncated_eq v⟩,
   fun v buffer _ => ⟨PreUnixTimeMessage_truncation v buffer,
      by rw [PreUnixTimeMessage_truncation v buffer]; exact PreUnixTimeMessage_truncated_eq v⟩,
   fun v buffer hb => ⟨ResetMessage_truncation v buffer hb,
      by rw [ResetMessage_truncation v buffer hb]; exact ResetMessage_truncated_eq v⟩,
   fun v buffer hb => ⟨RocketStateMessage_truncation v buffer hb,
      by rw [RocketStateMessage_truncation v buffer hb]; exact RocketStateMessage_truncated_eq v⟩,
   fun v buffer hb => ⟨UnixTimeMessage_truncation v buffer hb,
      by rw [UnixTimeMessage_truncation v buffer hb]; exact UnixTimeMessage_truncated_eq v⟩,
   fun v buffer hb => ⟨VLStatusMessage_truncation v buffer hb,
      by rw [VLStatusMessage_truncation v buffer hb]; exact VLStatusMessage_truncated_eq v⟩⟩

set_option maxRecDepth 100000 in
/-- C36 at a `UnixTime` with `timestamp_us = 2^56 + 5` and an `Ack` with `node_id = 0x1ABC`:
the values read back are 5 and `0xABC`. -/
theorem C36_silent_truncation_witness :
    UnixTimeMessage.deserialize
        ((⟨2 ^ 56 + 5⟩ : UnixTimeMessage).serialize (List.replicate 7 0)) = ⟨5⟩
      ∧ AckMessage.deserialize
          ((⟨0x1234, 0x1ABC⟩ : AckMessage).serialize (List.replicate 4 0)) = ⟨0x1234, 0xABC⟩ :=
  ⟨((C36_silent_truncation.2.2.2.2.2.2.2.2.2.2.2.2.2.2.2.2.2.2.2.1 ⟨2 ^ 56 + 5⟩
      (List.replicate 7 0) (by decide)).1).trans (by decide),
   ((C36_silent_truncation.1 ⟨0x1234, 0x1ABC⟩ (List.replicate 4 0) (by decide)).1).trans
      (by decide)⟩

set_option maxRecDepth 100000 in
/-- C38. No length check on reassembly.

Two frames (the hypotheses): a fresh decoder, whatever its slot buffers hold (`old` the 256
cells of slot 0), receives an opening frame `o` and a final frame `f` of one identifier outside
the log channel: `o` with `SOT` only and at least four bytes, `f` with `EOT`, without `SOT`,
with the expected toggle and at least its tail byte. The payload
`o.payload.drop 2 ++ f.payload` has `n = (o.len - 3) + (f.len - 1)` bytes. When its CRC-16 is
the CRC carried little-endian in the first two bytes of `o`, the second call decodes the
buffer `payload ++ old.drop n`: the `n` bytes received followed by what the slot held
before, whatever `SIZE_BYTES` of the message type is; for every catalog message type the
result is Some, also when `n < SIZE_BYTES`.

Any number of frames: an occupied slot that accepts a final frame of its identifier (`EOT`,
no `SOT`, expected toggle, within 256 bytes) whose accumulated `n` bytes have the stored CRC
returns Some for every catalog message type, decoded from a buffer that from index `n` on is
the slot buffer as it was; and in every decoder reached from a fresh one the buffer of an
occupied slot is, from index `data_len` on, as it was before the opening frame of its
transfer (`opened_by`).

The returned message so depends on what the slot held: after a `BaroMeasurement` transfer of
another identifier the two frames `[0xD6, 0x6D, 0, 0, 10, 0x80]` and `[0x60]` of the 5-byte
`NodeStatus` (three payload bytes) yield health, mode and custom status taken from bytes 3..4
of that earlier transfer, different ones after a different earlier transfer, and zeros on a
zeroed decoder. -/
theorem C38_short_transfer_decoded (d : CanBusMultiFrameDecoder) (hd : d.fresh) (id : Nat)
    (hmt : (id >>> 18) &&& 0xFF ≠ 255) (o f : Rx) (hoid : o.frame_id = id)
    (hfid : f.frame_id = id)
    (hot : o.frame.tail = ⟨true, false, false⟩) (hol : 4 ≤ o.frame.len)
    (hod : o.frame.len ≤ o.frame.data.length)
    (hft : f.frame.tail = ⟨false, true, (size_t_sub (o.frame.len - 3) 5 / 7) % 2 == 0⟩)
    (hfl : 1 ≤ f.frame.len) (hfd : f.frame.len ≤ f.frame.data.length)
    (h256 : (o.frame.len - 3) + (f.frame.len - 1) ≤ 256)
    (hcrc : StateMachine.calculate_crc (o.frame.payload.drop 2 ++ f.frame.payload)
        ((o.frame.len - 3) + (f.frame.len - 1))
      = ((byte_at o.frame.data 0 % 2 ^ 16) ||| ((byte_at o.frame.data 1 % 2 ^ 16) <<< 8))
          % 2 ^ 16) :
    (d.run [o, f]).1
        = [none,
           (decode ((id >>> 18) &&& 0xFF)
              (o.frame.payload.drop 2 ++ f.frame.payload
                ++ (d.slot 0).multi_frame.data.drop
                    ((o.frame.len - 3) + (f.frame.len - 1)))).map
             (fun m =>
               { id := id
                 crc := StateMachine.calculate_crc (o.frame.payload.drop 2 ++ f.frame.payload)
                   ((o.frame.len - 3) + (f.frame.len - 1))
                 message := m })]
      ∧ (∀ v : CanBusMessage, v.MESSAGE_TYPE = some ((id >>> 18) &&& 0xFF) →
          ∃ m, decode ((id >>> 18) &&& 0xFF)
                (o.frame.payload.drop 2 ++ f.frame.payload
                  ++ (d.slot 0).multi_frame.data.drop
                      ((o.frame.len - 3) + (f.frame.len - 1))) = some m
            ∧ (d.run [o, f]).1
                = [none,
                   some { id := id
                          crc := StateMachine.calculate_crc
                            (o.frame.payload.drop 2 ++ f.frame.payload)
                            ((o.frame.len - 3) + (f.frame.len - 1))
                          message := m }])
      ∧ (∀ (sm : StateMachine) (id' : Nat) (fd : List Nat) (fl ts : Nat),
          sm.type = SlotType.MultiFrame → sm.multi_frame.id = id' → 1 ≤ fl →
          TailByte.from_byte (byte_at fd (fl - 1)) = ⟨false, true, sm.expected_toggle_bit⟩ →
          sm.multi_frame.data_len + (fl - 1) ≤ 256 →
          StateMachine.calculate_crc
              (memcpy sm.multi_frame.data sm.multi_frame.data_len fd 0 (fl - 1))
              (sm.multi_frame.data_len + (fl - 1)) = sm.multi_frame.crc →
          ∀ v : CanBusMessage, v.MESSAGE_TYPE = some ((id' >>> 18) &&& 0xFF) →
            ∃ m, decode ((id' >>> 18) &&& 0xFF)
                  (memcpy sm.multi_frame.data sm.multi_frame.data_len fd 0 (fl - 1)) = some m
              ∧ (sm.process_frame id' fd fl ts).1
                  = some { id := id'
                           crc := StateMachine.calculate_crc
                             (memcpy sm.multi_frame.data sm.multi_frame.data_len fd 0 (fl - 1))
                             (sm.multi_frame.data_len + (fl - 1))
                           message := m }
              ∧ ∀ k, sm.multi_frame.data_len + (fl - 1) ≤ k →
                  byte_at (memcpy sm.multi_frame.data sm.multi_frame.data_len fd 0 (fl - 1)) k
                    = byte_at sm.multi_frame.data k)
      ∧ (∀ (d0 : CanBusMultiFrameDecoder) (past : List Rx) (i : Nat), d0.fresh →
          ((d0.run past).2.slot i).type = SlotType.MultiFrame →
          ∃ p1 o p2, d0.opened_by past i p1 o p2)
      ∧ NodeStatusMessage.SIZE_BYTES = 5
      ∧ (CanBusMultiFrameDecoder.zeroed.run
            [⟨0x0E00A014, ⟨[9, 175, 0, 1, 139, 205, 9, 0x80], 8⟩, 1000⟩,
             ⟨0x0E00A014, ⟨[196, 0, 0, 0, 0, 15, 66, 0x20], 8⟩, 1002⟩,
             ⟨0x0E00A014, ⟨[64, 0x40, 0, 0, 0, 0, 0, 0], 2⟩, 1003⟩,
             ⟨0x1480A014, ⟨[0xD6, 0x6D, 0, 0, 10, 0x80, 0, 0], 6⟩, 2000⟩,
             ⟨0x1480A014, ⟨[0x60, 0, 0, 0, 0, 0, 0, 0], 1⟩, 2001⟩]).1
          = [none, none,
             some ⟨0x0E00A014, 0xAF09, .BaroMeasurement ⟨101325, 2500, 1000000⟩⟩,
             none,
             some ⟨0x1480A014, 0x6DD6, .NodeStatus ⟨10, 3, 0, 1668⟩⟩]
      ∧ (CanBusMultiFrameDecoder.zeroed.run
            [⟨0x0E00A014, ⟨[197, 125, 0, 1, 95, 144, 4, 0x80], 8⟩, 1000⟩,
             ⟨0x0E00A014, ⟨[210, 0, 0, 0, 0, 0, 0, 0x20], 8⟩, 1002⟩,
             ⟨0x0E00A014, ⟨[77, 0x40, 0, 0, 0, 0, 0, 0], 2⟩, 1003⟩,
             ⟨0x1480A014, ⟨[0xD6, 0x6D, 0, 0, 10, 0x80, 0, 0], 6⟩, 2000⟩,
             ⟨0x1480A014, ⟨[0x60, 0, 0, 0, 0, 0, 0, 0], 1⟩, 2001⟩]).1
          = [none, none,
             some ⟨0x0E00A014, 0x7DC5, .BaroMeasurement ⟨90000, 1234, 77⟩⟩,
             none,
             some ⟨0x1480A014, 0x6DD6, .NodeStatus ⟨10, 2, 1, 2⟩⟩]
      ∧ (CanBusMultiFrameDecoder.zeroed.run
            [⟨0x1480A014, ⟨[0xD6, 0x6D, 0, 0, 10, 0x80, 0, 0], 6⟩, 2000⟩,
             ⟨0x1480A014, ⟨[0x60, 0, 0, 0, 0, 0, 0, 0], 1⟩, 2001⟩]).1
          = [none, some ⟨0x1480A014, 0x6DD6, .NodeStatus ⟨10, 0, 0, 0⟩⟩] := by
  obtain ⟨s0, rest, rfl, hty, hlen, hrest⟩ := fresh_cons d hd
  have hids : ∀ r ∈ [o, f], r.frame_id = id := by
    intro r hr
    simp only [List.mem_cons, List.mem_singleton, List.not_mem_nil, or_false] at hr
    rcases hr with rfl | rfl
    · exact hoid
    · exact hfid
  unfold Frame.tail at hot hft
  unfold Frame.payload at hcrc ⊢
  have hbuf := buffer_after_two s0.multi_frame.data o.frame.data f.frame.data
    (o.frame.len - 3) (f.frame.len - 1) hlen h256 (by omega) (by omega)
  have hdrop : (o.frame.data.take (o.frame.len - 1)).drop 2
      = (o.frame.data.drop 2).take (o.frame.len - 3) := by
    rw [List.drop_take]
    congr 1
  rw [hdrop] at hcrc ⊢
  have hrun : (s0.run [o, f]).1
      = [none,
         (decode ((id >>> 18) &&& 0xFF)
            ((o.frame.data.drop 2).take (o.frame.len - 3) ++ f.frame.data.take (f.frame.len - 1)
              ++ s0.multi_frame.data.drop ((o.frame.len - 3) + (f.frame.len - 1)))).map
           (fun m =>
             { id := id
               crc := StateMachine.calculate_crc
                 ((o.frame.data.drop 2).take (o.frame.len - 3)
                   ++ f.frame.data.take (f.frame.len - 1))
                 ((o.frame.len - 3) + (f.frame.len - 1))
               message := m })] := by
    have hc : StateMachine.calculate_crc
        ((o.frame.data.drop 2).take (o.frame.len - 3) ++ f.frame.data.take (f.frame.len - 1)
          ++ s0.multi_frame.data.drop ((o.frame.len - 3) + (f.frame.len - 1)))
        ((o.frame.len - 3) + (f.frame.len - 1))
        = StateMachine.calculate_crc
          ((o.frame.data.drop 2).take (o.frame.len - 3) ++ f.frame.data.take (f.frame.len - 1))
          ((o.frame.len - 3) + (f.frame.len - 1)) := by
      apply calculate_crc_congr
      intro i hi
      rw [byte_at_append, if_pos]
      rw [List.length_append, List.length_take, List.length_take, List.length_drop]
      omega
    simp only [StateMachine.run]
    rw [hoid, hfid,
      sm_process_frame_empty s0 id o.frame.data o.frame.len o.timestamp_us (by omega) _ hot rfl
        hty, if_pos ⟨rfl, hol⟩]
    simp only
    rw [sm_process_frame_same _ id f.frame.data f.frame.len f.timestamp_us (by omega) _ hft rfl
      rfl rfl]
    simp only [ne_eq, not_true_eq_false, if_false, Bool.false_eq_true, if_true]
    rw [if_neg (by omega), hbuf, hc, if_neg (by rw [hcrc]; exact fun h => h rfl)]
  rw [run_slot0 id hmt rest hrest [o, f] s0 hids (Or.inl hty), slot_zero]
  simp only
  refine ⟨hrun, ?_, ?_, fun d0 past i hd0 hi => opened_by_run d0 hd0 past i hi, rfl, ?_, ?_,
    ?_⟩
  · intro v hv
    obtain ⟨m, hm⟩ := decode_some_of_type v _ hv
      ((o.frame.data.drop 2).take (o.frame.len - 3) ++ f.frame.data.take (f.frame.len - 1)
        ++ s0.multi_frame.data.drop ((o.frame.len - 3) + (f.frame.len - 1)))
    refine ⟨m, hm, ?_⟩
    rw [hrun, hm]
    rfl
  · intro sm id' fd fl ts hsty hsid hsfl hst hs256 hscrc v hv
    obtain ⟨m, hm⟩ := decode_some_of_type v _ hv
      (memcpy sm.multi_frame.data sm.multi_frame.data_len fd 0 (fl - 1))
    refine ⟨m, hm, ?_, fun k hk => byte_at_memcpy_of_ge _ _ _ _ _ _ hk⟩
    have he : sm.expected_toggle_bit
        = ((size_t_sub sm.multi_frame.data_len 5 / 7) % 2 == 0) := rfl
    rw [he] at hst
    rw [sm_process_frame_same sm id' fd fl ts (by omega) _ hst rfl hsty hsid]
    simp only [ne_eq, not_true_eq_false, if_false, Bool.false_eq_true, if_true]
    rw [if_neg (by omega), if_neg (fun hc => hc hscrc), hm]
    rfl
  · exact run_results_of_fuel _ _ _ (by decide)
  · exact run_results_of_fuel _ _ _ (by decide)
  · exact run_results_of_fuel _ _ _ (by decide)

set_option maxRecDepth 100000 in
/-- C38 on a zeroed decoder, for the identifier `0x1480A014` (`NodeStatus`, 5 bytes) and the
frames `[0xD6, 0x6D, 0, 0, 10, 0x80]` and `[0x60]`: three payload bytes with the CRC `0x6DD6`
are decoded as a `NodeStatus`. -/
theorem C38_short_transfer_decoded_witness :
    (CanBusMultiFrameDecoder.zeroed.run
        [⟨0x1480A014, ⟨[0xD6, 0x6D, 0, 0, 10, 0x80, 0, 0], 6⟩, 2000⟩,
         ⟨0x1480A014, ⟨[0x60, 0, 0, 0, 0, 0, 0, 0], 1⟩, 2001⟩]).1
      = [none,
         (decode ((0x1480A014 >>> 18) &&& 0xFF) ([0, 0, 10] ++ List.replicate 253 0)).map
           (fun m => { id := 0x1480A014
                       crc := StateMachine.calculate_crc [0, 0, 10] 3
                       message := m })]
      ∧ (6 - 3) + (1 - 1) < NodeStatusMessage.SIZE_BYTES :=
  have h := C38_short_transfer_decoded CanBusMultiFrameDecoder.zeroed zeroed_fresh 0x1480A014
    (by decide) ⟨0x1480A014, ⟨[0xD6, 0x6D, 0, 0, 10, 0x80, 0, 0], 6⟩, 2000⟩
    ⟨0x1480A014, ⟨[0x60, 0, 0, 0, 0, 0, 0, 0], 1⟩, 2001⟩ rfl rfl (by decide) (by decide)
    (by decide) (by decide) (by decide) (by decide) (by decide) (by decide)
  ⟨h.1.trans (by decide), by decide⟩

end firmware_common.can_bus
